import Mathlib

/-!
# Dodger: a shallow embedding of `Dodger.c++`

The game keeps all of its state in process-wide globals and advances it once
per frame in `updateGame`.  The embedding collects those globals in the record
`Game` and turns every block of `updateGame` into a function on `Game`.

Conventions of the embedding

* `float` and `double` values are rationals (`ℚ`): arithmetic is exact, so the
  theorems speak about the comparisons and updates the code performs, not about
  rounding.  The teleport, whose landing point is a stored difference, has a
  second model with the rounding of the stores explicit (`portalLogicFloat`).
* `int` values are `Int`.
* The calls into raylib and libm are inputs: one frame sees one clock value
  (`Frame.GetTime`) and one keyboard snapshot, and the functions `sqrtf`,
  `cosf`, `sinf`, `atan2f` and the constant `PI` are supplied by `MathEnv`.
* `std::map` is an association list kept in key order; `operator[]` on the
  numeric maps is a total lookup that yields `0` for an absent key.
* Logging, audio and the write of the save file do not touch the globals and
  are left out.
-/

namespace Dodger

/-! ## Data model -/

/-- Phases of the session: `enum GameState`. -/
inductive GameState where
  | GAME_STATE_USERNAME_INPUT
  | GAME_STATE_MAIN_MENU
  | GAME_STATE_COUNTDOWN
  | GAME_STATE_PLAYING
  | GAME_STATE_GAME_OVER
  | GAME_STATE_ACHIEVEMENTS
  | GAME_STATE_SELECT_ACHIEVEMENT_PROFILE
  | GAME_STATE_TAMPERED
deriving DecidableEq, Repr

/-- The raylib pair of coordinates. -/
structure Vector2 where
  x : ℚ
  y : ℚ
deriving DecidableEq, Repr

/-- The raylib axis-aligned rectangle. -/
structure Rectangle where
  x : ℚ
  y : ℚ
  width : ℚ
  height : ℚ
deriving DecidableEq, Repr

/-- Source `struct DifficultySettings`. -/
structure DifficultySettings where
  player_speed : ℚ
  obstacle_speed : ℚ
  ai_reaction_delay : Int
deriving DecidableEq, Repr

/-- Source `struct Projectile`. -/
structure Projectile where
  rect : Rectangle
  speed : ℚ
  velocity : Vector2
  active : Bool
  is_player_shot : Bool
  bounces_remaining : Int
deriving DecidableEq, Repr

/-- Source `struct Achievement`. -/
structure Achievement where
  id : String
  name : String
  description : String
  is_secret : Bool
deriving DecidableEq, Repr

/-- The libm functions and the constant `PI` used by the simulation. -/
structure MathEnv where
  sqrtf : ℚ → ℚ
  cosf : ℚ → ℚ
  sinf : ℚ → ℚ
  atan2f : ℚ → ℚ → ℚ
  PI : ℚ

/-- What one frame reads from raylib: the clock and the keyboard. -/
structure Frame where
  GetTime : ℚ
  IsKeyPressed : Nat → Bool
  IsKeyDown : Nat → Bool

/-! ### raylib key codes -/

def KEY_SPACE : Nat := 32
def KEY_MINUS : Nat := 45
def KEY_ZERO : Nat := 48
def KEY_NINE : Nat := 57
def KEY_A : Nat := 65
def KEY_D : Nat := 68
def KEY_P : Nat := 80
def KEY_R : Nat := 82
def KEY_S : Nat := 83
def KEY_W : Nat := 87
def KEY_Z : Nat := 90
def KEY_ESCAPE : Nat := 256
def KEY_ENTER : Nat := 257
def KEY_BACKSPACE : Nat := 259
def KEY_RIGHT : Nat := 262
def KEY_LEFT : Nat := 263
def KEY_DOWN : Nat := 264
def KEY_UP : Nat := 265
def KEY_LEFT_SHIFT : Nat := 340
def KEY_LEFT_ALT : Nat := 342
def KEY_RIGHT_SHIFT : Nat := 344
def KEY_RIGHT_ALT : Nat := 346

/-! ### Constants of the source -/

def obstacle_size : ℚ := 50
def player_size : ℚ := 50
def prediction_frames : Int := 30
def FPS : Int := 60
def countdown_time_seconds : Int := 3
def MAX_USERNAME_LENGTH : Nat := 15
def PROJECTILE_SPEED : ℚ := 10
def PROJECTILE_SIZE : ℚ := 10
def PLAYER_SHOOT_COOLDOWN : ℚ := 1 / 2
def MAX_PROJECTILE_BOUNCES : Int := 5
def OBSTACLE_STUN_DURATION : ℚ := 3
def PLAYER_STUN_SHOT_COOLDOWN : ℚ := 5
def PLAYER_STUN_DURATION : ℚ := 2
def OBSTACLE_STUN_COOLDOWN : ℚ := 5
def OBSTACLE_PROJECTILE_SPEED : ℚ := 8
def OBSTACLE_SHOOT_COOLDOWN : ℚ := 2
def PLAYER_DASH_COOLDOWN : ℚ := 2
def PLAYER_DASH_DISTANCE : ℚ := 150
def PLAYER_DASH_DURATION : ℚ := 15 / 100
def DODGE_BONUS_INTERVAL : ℚ := 10
def DODGE_BONUS_AMOUNT : ℚ := 1
def TIME_BONUS_MESSAGE_DURATION : ℚ := 1
def ACHIEVEMENT_POPUP_DURATION : ℚ := 3
def PORTAL_RADIUS : ℚ := 30
def TELEPORT_COOLDOWN : ℚ := 1 / 2
def PORTAL_ACTIVE_DURATION : ℚ := 10

/-- The map `DIFFICULTY_SETTINGS` read through `operator[]`: one live entry,
`"normal"`, and a value-initialised record for any other key. -/
def DIFFICULTY_SETTINGS (mode : String) : DifficultySettings :=
  if mode = "normal" then ⟨5, 6, 60⟩ else ⟨0, 0, 0⟩

/-- The map `WIN_THRESHOLD_TIMES` read through `operator[]`. -/
def WIN_THRESHOLD_TIMES (mode : String) : ℚ :=
  if mode = "normal" then 60 else 0

/-! ### Ordered maps with string keys -/

/-- Lookup in a `std::map` kept as an association list (`find`). -/
def mapFind {α : Type} : List (String × α) → String → Option α
  | [], _ => none
  | (k, v) :: rest, key => if key = k then some v else mapFind rest key

/-- Store `v` under `key`: replace the value of an existing key, or insert the
new pair at its place in key order. -/
def mapSet {α : Type} : List (String × α) → String → α → List (String × α)
  | [], key, v => [(key, v)]
  | (k, w) :: rest, key, v =>
    if key = k then (k, v) :: rest
    else if key < k then (key, v) :: (k, w) :: rest
    else (k, w) :: mapSet rest key v

/-- The call `emplace`: insert only when the key is absent. -/
def mapEmplace {α : Type} (m : List (String × α)) (key : String) (v : α) :
    List (String × α) :=
  match mapFind m key with
  | some _ => m
  | none => mapSet m key v

/-! ### The globals -/

/-- All global variables of the program that `updateGame` reads or writes. -/
structure Game where
  SCREEN_WIDTH : Int
  SCREEN_HEIGHT : Int
  obstacle_x : ℚ
  obstacle_y : ℚ
  obstacle_speed : ℚ
  player_x : ℚ
  player_y : ℚ
  player_speed : ℚ
  player_vx : ℚ
  player_vy : ℚ
  player_aim_angle : ℚ
  ai_target_x : ℚ
  ai_target_y : ℚ
  ai_reaction_timer : Int
  ai_reaction_delay : Int
  current_game_state : GameState
  current_countdown_frame : Int
  start_time_s : ℚ
  elapsed_time_s : ℚ
  final_survival_time_s : ℚ
  high_scores : String → ℚ
  is_new_high_score : Bool
  current_difficulty_mode : String
  current_username : String
  username_input_buffer : String
  last_active_username : String
  projectiles : List Projectile
  player_last_shot_time : ℚ
  obstacle_is_stunned : Bool
  obstacle_stun_end_time : ℚ
  player_last_stun_shot_time : ℚ
  player_is_stunned : Bool
  player_stun_end_time : ℚ
  obstacle_last_stun_time : ℚ
  obstacle_last_shot_time : ℚ
  player_last_dash_time : ℚ
  player_is_dashing : Bool
  player_dash_end_time : ℚ
  player_dash_velocity_x : ℚ
  player_dash_velocity_y : ℚ
  nextGameMessage : String
  dodge_streak_start_time : ℚ
  showing_time_bonus_message : Bool
  time_bonus_message_end_time : ℚ
  ALL_ACHIEVEMENTS : List (String × Achievement)
  UNLOCKED_ACHIEVEMENTS_BY_USER : List (String × List String)
  near_miss_achievement_unlocked_this_game : Bool
  obstacle_stuns_this_game : Int
  has_shot_this_game : Bool
  dash_through_projectile_achievement_unlocked_this_game : Bool
  current_achievement_popup_id : String
  achievement_popup_display_end_time : ℚ
  is_portal_mode : Bool
  portal_1_active : Bool
  portal_1_pos : Vector2
  portal_2_active : Bool
  portal_2_pos : Vector2
  last_teleport_time : ℚ
  portal_active_until_time_1 : ℚ
  portal_active_until_time_2 : ℚ
  next_projectile_portal_is_1 : Bool
  available_profile_names : List String
  selected_profile_index : Int

/-- The globals as their initialisers leave them at program start (objects of
static storage without an initialiser start at zero). -/
def initialGlobals : Game where
  SCREEN_WIDTH := 1366
  SCREEN_HEIGHT := 694
  obstacle_x := 0
  obstacle_y := 0
  obstacle_speed := 0
  player_x := 0
  player_y := 0
  player_speed := 0
  player_vx := 0
  player_vy := 0
  player_aim_angle := 0
  ai_target_x := 0
  ai_target_y := 0
  ai_reaction_timer := 0
  ai_reaction_delay := 0
  current_game_state := GameState.GAME_STATE_USERNAME_INPUT
  current_countdown_frame := 0
  start_time_s := 0
  elapsed_time_s := 0
  final_survival_time_s := 0
  high_scores := fun _ => 0
  is_new_high_score := false
  current_difficulty_mode := "normal"
  current_username := "Guest"
  username_input_buffer := ""
  last_active_username := "Guest"
  projectiles := []
  player_last_shot_time := -PLAYER_SHOOT_COOLDOWN
  obstacle_is_stunned := false
  obstacle_stun_end_time := 0
  player_last_stun_shot_time := -PLAYER_STUN_SHOT_COOLDOWN
  player_is_stunned := false
  player_stun_end_time := 0
  obstacle_last_stun_time := -OBSTACLE_STUN_COOLDOWN
  obstacle_last_shot_time := -OBSTACLE_SHOOT_COOLDOWN
  player_last_dash_time := -2
  player_is_dashing := false
  player_dash_end_time := 0
  player_dash_velocity_x := 0
  player_dash_velocity_y := 0
  nextGameMessage := ""
  dodge_streak_start_time := 0
  showing_time_bonus_message := false
  time_bonus_message_end_time := 0
  ALL_ACHIEVEMENTS := []
  UNLOCKED_ACHIEVEMENTS_BY_USER := []
  near_miss_achievement_unlocked_this_game := false
  obstacle_stuns_this_game := 0
  has_shot_this_game := false
  dash_through_projectile_achievement_unlocked_this_game := false
  current_achievement_popup_id := ""
  achievement_popup_display_end_time := 0
  is_portal_mode := false
  portal_1_active := false
  portal_1_pos := ⟨0, 0⟩
  portal_2_active := false
  portal_2_pos := ⟨0, 0⟩
  last_teleport_time := 0
  portal_active_until_time_1 := 0
  portal_active_until_time_2 := 0
  next_projectile_portal_is_1 := true
  available_profile_names := []
  selected_profile_index := 0

/-! ## raylib collision queries -/

/-- The raylib query `CheckCollisionRecs`: strict overlap of two rectangles. -/
def CheckCollisionRecs (rec1 rec2 : Rectangle) : Bool :=
  decide (rec1.x < rec2.x + rec2.width ∧ rec1.x + rec1.width > rec2.x ∧
    rec1.y < rec2.y + rec2.height ∧ rec1.y + rec1.height > rec2.y)

/-- The raylib query `CheckCollisionCircles`: the squared distance of the
centres is at most the squared sum of the radii. -/
def CheckCollisionCircles (center1 : Vector2) (radius1 : ℚ) (center2 : Vector2)
    (radius2 : ℚ) : Bool :=
  decide ((center2.x - center1.x) * (center2.x - center1.x) +
      (center2.y - center1.y) * (center2.y - center1.y) ≤
    (radius1 + radius2) * (radius1 + radius2))

/-! ## Achievements -/

/-- Source `unlockAchievement` (lines 568-600).  The write of the save file is
outside the globals. -/
def unlockAchievement (io : Frame) (achievementId targetUsername : String)
    (g : Game) : Game :=
  match mapFind g.ALL_ACHIEVEMENTS achievementId with
  | none => g
  | some _ =>
    let ledger :=
      match mapFind g.UNLOCKED_ACHIEVEMENTS_BY_USER targetUsername with
      | none => mapSet g.UNLOCKED_ACHIEVEMENTS_BY_USER targetUsername []
      | some _ => g.UNLOCKED_ACHIEVEMENTS_BY_USER
    let g1 := { g with UNLOCKED_ACHIEVEMENTS_BY_USER := ledger }
    let ids := (mapFind ledger targetUsername).getD []
    let already_unlocked := ids.contains achievementId
    if already_unlocked then g1
    else
      let g2 := { g1 with
        UNLOCKED_ACHIEVEMENTS_BY_USER :=
          mapSet ledger targetUsername (ids ++ [achievementId]) }
      if targetUsername = g.current_username then
        { g2 with
          current_achievement_popup_id := achievementId
          achievement_popup_display_end_time := io.GetTime + ACHIEVEMENT_POPUP_DURATION }
      else g2

/-- Source `initializeAchievementDefinitions` (lines 603-638). -/
def initializeAchievementDefinitions (g : Game) : Game :=
  let m0 : List (String × Achievement) := []
  let m1 := mapEmplace m0 "portal_username"
    ⟨"portal_username", "vrooom wait that's too *whoosh*", "Set your username to 'PORTAL'.", true⟩
  let m2 := mapEmplace m1 "near_miss"
    ⟨"near_miss", "*whew* that was a close call",
      "Perform a truly close dodge against a projectile.", false⟩
  let m3 := mapEmplace m2 "bullet_ballet_master"
    ⟨"bullet_ballet_master", "Bullet Ballet Master",
      "Survive for 30 seconds without firing a single shot.", false⟩
  let m4 := mapEmplace m3 "stunned_silence"
    ⟨"stunned_silence", "Stunned Silence", "Stun the enemy obstacle 3 times in one game.", false⟩
  let m5 := mapEmplace m4 "dash_of_genius"
    ⟨"dash_of_genius", "Dash of Genius", "Successfully dash through an enemy projectile.", false⟩
  let m6 := mapEmplace m5 "long_haul_dodger"
    ⟨"long_haul_dodger", "Long-Haul Dodger", "Survive for 120 seconds (2 minutes).", false⟩
  { g with ALL_ACHIEVEMENTS := m6 }

/-! ## Match reset -/

/-- Source `applyDifficulty` (lines 710-717): the mode is forced to `"normal"`. -/
def applyDifficulty (_mode : String) (g : Game) : Game :=
  let settings := DIFFICULTY_SETTINGS "normal"
  { g with
    current_difficulty_mode := "normal"
    player_speed := settings.player_speed
    obstacle_speed := settings.obstacle_speed
    ai_reaction_delay := settings.ai_reaction_delay }

/-- Source `resetGame` (lines 641-708). -/
def resetGame (g : Game) : Game :=
  let g1 := { g with
    player_x := (g.SCREEN_WIDTH : ℚ) / 2 - player_size / 2
    player_y := (g.SCREEN_HEIGHT : ℚ) - player_size
    obstacle_x := (g.SCREEN_WIDTH : ℚ) / 2 - obstacle_size / 2
    obstacle_y := 0
    player_vx := 0
    player_vy := 0
    player_aim_angle := 0
    ai_reaction_timer := 0
    start_time_s := 0
    elapsed_time_s := 0
    final_survival_time_s := 0
    is_new_high_score := false
    current_countdown_frame := countdown_time_seconds * FPS }
  let g2 := applyDifficulty "normal" g1
  { g2 with
    projectiles := []
    player_last_shot_time := -PLAYER_SHOOT_COOLDOWN
    obstacle_is_stunned := false
    obstacle_stun_end_time := 0
    player_last_stun_shot_time := -PLAYER_STUN_SHOT_COOLDOWN
    obstacle_last_shot_time := -OBSTACLE_SHOOT_COOLDOWN
    player_is_dashing := false
    player_dash_end_time := 0
    player_last_dash_time := -PLAYER_DASH_COOLDOWN
    player_dash_velocity_x := 0
    player_dash_velocity_y := 0
    player_is_stunned := false
    player_stun_end_time := 0
    obstacle_last_stun_time := -OBSTACLE_STUN_COOLDOWN
    dodge_streak_start_time := 0
    showing_time_bonus_message := false
    time_bonus_message_end_time := 0
    near_miss_achievement_unlocked_this_game := false
    obstacle_stuns_this_game := 0
    has_shot_this_game := false
    dash_through_projectile_achievement_unlocked_this_game := false
    current_achievement_popup_id := ""
    achievement_popup_display_end_time := 0
    portal_1_active := false
    portal_2_active := false
    last_teleport_time := 0
    portal_active_until_time_1 := 0
    portal_active_until_time_2 := 0
    next_projectile_portal_is_1 := true }

/-! ## The Playing tick, block by block -/

/-- Lines 849-857: the elapsed time is recomputed from the clock, then the two
time-based unlocks are tried. -/
def updateElapsed (io : Frame) (g : Game) : Game :=
  let g1 := { g with elapsed_time_s := io.GetTime - g.start_time_s }
  let g2 :=
    if g1.has_shot_this_game = false ∧ g1.elapsed_time_s ≥ 30 then
      unlockAchievement io "bullet_ballet_master" g1.current_username g1
    else g1
  if g2.elapsed_time_s ≥ 120 then
    unlockAchievement io "long_haul_dodger" g2.current_username g2
  else g2

/-- Lines 868-901: the dash direction, from the movement keys, else the aim
keys, normalised, else straight up. -/
def dashDirection (m : MathEnv) (io : Frame) : ℚ × ℚ :=
  let y0 : ℚ := 0
  let x0 : ℚ := 0
  let y1 := if io.IsKeyDown KEY_UP then -1 else y0
  let y2 := if io.IsKeyDown KEY_DOWN then 1 else y1
  let x1 := if io.IsKeyDown KEY_LEFT then -1 else x0
  let x2 := if io.IsKeyDown KEY_RIGHT then 1 else x1
  let y3 := if x2 = 0 ∧ y2 = 0 then
      (if io.IsKeyDown KEY_S then 1 else if io.IsKeyDown KEY_W then -1 else y2)
    else y2
  let x3 := if x2 = 0 ∧ y2 = 0 then
      (if io.IsKeyDown KEY_D then 1 else if io.IsKeyDown KEY_A then -1 else x2)
    else x2
  let dash_length := m.sqrtf (x3 * x3 + y3 * y3)
  if dash_length > 0 then (x3 / dash_length, y3 / dash_length) else (x3, -1)

/-- Lines 863-909: dash activation, gated by the dash cooldown. -/
def dashActivation (m : MathEnv) (io : Frame) (g : Game) : Game :=
  if (io.IsKeyPressed KEY_LEFT_ALT = true ∨ io.IsKeyPressed KEY_RIGHT_ALT = true) ∧
      io.GetTime - g.player_last_dash_time ≥ PLAYER_DASH_COOLDOWN then
    let dir := dashDirection m io
    let dash_speed_per_frame := PLAYER_DASH_DISTANCE / PLAYER_DASH_DURATION
    { g with
      player_is_dashing := true
      player_dash_end_time := io.GetTime + PLAYER_DASH_DURATION
      player_last_dash_time := io.GetTime
      player_dash_velocity_x := dir.1 * dash_speed_per_frame
      player_dash_velocity_y := dir.2 * dash_speed_per_frame }
  else g

/-- Lines 932-951: the aim angle after a normal movement step. -/
def aimAngle (m : MathEnv) (io : Frame) (vx vy old : ℚ) : ℚ :=
  let aiming_up := io.IsKeyDown KEY_W
  let aiming_down := io.IsKeyDown KEY_S
  let aiming_left := io.IsKeyDown KEY_A
  let aiming_right := io.IsKeyDown KEY_D
  if aiming_up || aiming_down || aiming_left || aiming_right then
    if aiming_up && !aiming_left && !aiming_right then -m.PI / 2
    else if aiming_down && !aiming_left && !aiming_right then m.PI / 2
    else if aiming_left && !aiming_up && !aiming_down then m.PI
    else if aiming_right && !aiming_up && !aiming_down then 0
    else if aiming_up && aiming_left then -3 * m.PI / 4
    else if aiming_up && aiming_right then -m.PI / 4
    else if aiming_down && aiming_left then 3 * m.PI / 4
    else if aiming_down && aiming_right then m.PI / 4
    else old
  else if vx ≠ 0 ∨ vy ≠ 0 then m.atan2f vy vx
  else old

/-- Lines 912-961: the player moves by its dash velocity while dashing, and by
the movement keys otherwise unless stunned. -/
def movePlayer (m : MathEnv) (io : Frame) (deltaTime : ℚ) (g : Game) : Game :=
  if g.player_is_dashing then
    let g1 := { g with
      player_x := g.player_x + g.player_dash_velocity_x * deltaTime
      player_y := g.player_y + g.player_dash_velocity_y * deltaTime }
    if io.GetTime > g1.player_dash_end_time then
      { g1 with
        player_is_dashing := false
        player_dash_velocity_x := 0
        player_dash_velocity_y := 0 }
    else g1
  else
    let g1 := { g with player_vx := 0, player_vy := 0 }
    if g1.player_is_stunned = false then
      let vy1 := if io.IsKeyDown KEY_UP then -g1.player_speed else g1.player_vy
      let vy2 := if io.IsKeyDown KEY_DOWN then g1.player_speed else vy1
      let vx1 := if io.IsKeyDown KEY_LEFT then -g1.player_speed else g1.player_vx
      let vx2 := if io.IsKeyDown KEY_RIGHT then g1.player_speed else vx1
      { g1 with
        player_vx := vx2
        player_vy := vy2
        player_x := g1.player_x + vx2
        player_y := g1.player_y + vy2
        player_aim_angle := aimAngle m io vx2 vy2 g1.player_aim_angle }
    else if io.GetTime > g1.player_stun_end_time then
      { g1 with player_is_stunned := false }
    else g1

/-- The wrap-around applied to one coordinate of a combatant of side `size`
(lines 964-969 for the player, 1292-1296 for the obstacle). -/
def wrapAxis (size : ℚ) (extent : Int) (v : ℚ) : ℚ :=
  if v < -size then (extent : ℚ)
  else if v > (extent : ℚ) then -size
  else v

/-- Lines 964-969: player wrap-around. -/
def wrapPlayer (g : Game) : Game :=
  { g with
    player_x := wrapAxis player_size g.SCREEN_WIDTH g.player_x
    player_y := wrapAxis player_size g.SCREEN_HEIGHT g.player_y }

/-- Lines 974-981: portals expire once the clock passes their time limit. -/
def expirePortals (io : Frame) (g : Game) : Game :=
  let g1 :=
    if g.portal_1_active = true ∧ io.GetTime > g.portal_active_until_time_1 then
      { g with portal_1_active := false }
    else g
  if g1.portal_2_active = true ∧ io.GetTime > g1.portal_active_until_time_2 then
    { g1 with portal_2_active := false }
  else g1

/-- Lines 984-1001: teleport of the player on contact with a portal. -/
def teleportPlayer (io : Frame) (g : Game) : Game :=
  if g.portal_1_active = true ∧ g.portal_2_active = true ∧
      io.GetTime - g.last_teleport_time ≥ TELEPORT_COOLDOWN then
    let player_center : Vector2 :=
      ⟨g.player_x + player_size / 2, g.player_y + player_size / 2⟩
    if CheckCollisionCircles player_center (player_size / 2) g.portal_1_pos PORTAL_RADIUS then
      { g with
        player_x := g.portal_2_pos.x - player_size / 2
        player_y := g.portal_2_pos.y - player_size / 2
        last_teleport_time := io.GetTime }
    else if CheckCollisionCircles player_center (player_size / 2) g.portal_2_pos
        PORTAL_RADIUS then
      { g with
        player_x := g.portal_1_pos.x - player_size / 2
        player_y := g.portal_1_pos.y - player_size / 2
        last_teleport_time := io.GetTime }
    else g
  else g

/-- Lines 1006-1023: teleport of the obstacle on contact with a portal. -/
def teleportObstacle (io : Frame) (g : Game) : Game :=
  if g.portal_1_active = true ∧ g.portal_2_active = true ∧
      io.GetTime - g.last_teleport_time ≥ TELEPORT_COOLDOWN then
    let obstacle_center : Vector2 :=
      ⟨g.obstacle_x + obstacle_size / 2, g.obstacle_y + obstacle_size / 2⟩
    if CheckCollisionCircles obstacle_center (obstacle_size / 2) g.portal_1_pos
        PORTAL_RADIUS then
      { g with
        obstacle_x := g.portal_2_pos.x - obstacle_size / 2
        obstacle_y := g.portal_2_pos.y - obstacle_size / 2
        last_teleport_time := io.GetTime }
    else if CheckCollisionCircles obstacle_center (obstacle_size / 2) g.portal_2_pos
        PORTAL_RADIUS then
      { g with
        obstacle_x := g.portal_1_pos.x - obstacle_size / 2
        obstacle_y := g.portal_1_pos.y - obstacle_size / 2
        last_teleport_time := io.GetTime }
    else g
  else g

/-- Lines 971-1024: the portal block, run only in portal mode. -/
def portalLogic (io : Frame) (g : Game) : Game :=
  if g.is_portal_mode then teleportObstacle io (teleportPlayer io (expirePortals io g))
  else g

/-- Lines 1027-1043: the player's shot on a Shift press. -/
def playerShoot (m : MathEnv) (io : Frame) (g : Game) : Game :=
  if io.IsKeyPressed KEY_LEFT_SHIFT = true ∨ io.IsKeyPressed KEY_RIGHT_SHIFT = true then
    let g1 := { g with has_shot_this_game := true }
    if io.GetTime - g1.player_last_shot_time ≥ PLAYER_SHOOT_COOLDOWN then
      let newProjectile : Projectile :=
        { rect := ⟨g1.player_x + player_size / 2 - PROJECTILE_SIZE / 2,
                   g1.player_y + player_size / 2 - PROJECTILE_SIZE / 2,
                   PROJECTILE_SIZE, PROJECTILE_SIZE⟩
          speed := PROJECTILE_SPEED
          velocity := ⟨m.cosf g1.player_aim_angle, m.sinf g1.player_aim_angle⟩
          active := true
          is_player_shot := true
          bounces_remaining := MAX_PROJECTILE_BOUNCES }
      { g1 with
        projectiles := g1.projectiles ++ [newProjectile]
        player_last_shot_time := io.GetTime }
    else g1
  else g

/-- Lines 1045-1068: the obstacle's automatic shot. -/
def obstacleShoot (m : MathEnv) (io : Frame) (g : Game) : Game :=
  if g.obstacle_is_stunned = false ∧
      io.GetTime - g.obstacle_last_shot_time ≥ OBSTACLE_SHOOT_COOLDOWN then
    let obstacle_center_x := g.obstacle_x + obstacle_size / 2
    let obstacle_center_y := g.obstacle_y + obstacle_size / 2
    let angle_to_player := m.atan2f (g.player_y - g.obstacle_y) (g.player_x - g.obstacle_x)
    let vx := m.cosf angle_to_player
    let vy := m.sinf angle_to_player
    let nudge_distance := obstacle_size / 2 + PROJECTILE_SIZE / 2 + 5
    let obstacleProjectile : Projectile :=
      { rect := ⟨obstacle_center_x - PROJECTILE_SIZE / 2 + vx * nudge_distance,
                 obstacle_center_y - PROJECTILE_SIZE / (22 / 10) + vy * nudge_distance,
                 PROJECTILE_SIZE, PROJECTILE_SIZE⟩
        speed := OBSTACLE_PROJECTILE_SPEED
        velocity := ⟨vx, vy⟩
        active := true
        is_player_shot := false
        bounces_remaining := MAX_PROJECTILE_BOUNCES }
    { g with
      projectiles := g.projectiles ++ [obstacleProjectile]
      obstacle_last_shot_time := io.GetTime }
  else g

/-! ### Projectiles -/

/-- The obstacle's square as a rectangle. -/
def obstacleRect (g : Game) : Rectangle :=
  ⟨g.obstacle_x, g.obstacle_y, obstacle_size, obstacle_size⟩

/-- The player's square as a rectangle. -/
def playerRect (g : Game) : Rectangle :=
  ⟨g.player_x, g.player_y, player_size, player_size⟩

/-- Lines 1072-1073: a projectile advances by `velocity * speed`. -/
def moveProjectile (p : Projectile) : Projectile :=
  { p with rect := { p.rect with
      x := p.rect.x + p.velocity.x * p.speed
      y := p.rect.y + p.velocity.y * p.speed } }

/-- Lines 1077-1099: the portal hit test of a player shot.  The result is the
value of `portal_spawn_pos` when `hit_for_portal` is set, and `none` when it is
not. -/
def portalHit (g : Game) (p : Projectile) : Option Vector2 :=
  let projectile_center : Vector2 :=
    ⟨p.rect.x + p.rect.width / 2, p.rect.y + p.rect.height / 2⟩
  let edge_buffer : ℚ := 1
  if p.rect.x ≤ edge_buffer ∨ p.rect.x + p.rect.width ≥ (g.SCREEN_WIDTH : ℚ) - edge_buffer ∨
      p.rect.y ≤ edge_buffer ∨
      p.rect.y + p.rect.height ≥ (g.SCREEN_HEIGHT : ℚ) - edge_buffer then
    some ⟨max 0 (min (g.SCREEN_WIDTH : ℚ) projectile_center.x),
          max 0 (min (g.SCREEN_HEIGHT : ℚ) projectile_center.y)⟩
  else if CheckCollisionRecs p.rect (obstacleRect g) then
    some ⟨g.obstacle_x + obstacle_size / 2, g.obstacle_y + obstacle_size / 2⟩
  else none

/-- Lines 1104-1116: a portal-creating hit fills the slot whose turn it is and
hands the turn to the other slot. -/
def placePortal (io : Frame) (portal_spawn_pos : Vector2) (g : Game) : Game :=
  if g.next_projectile_portal_is_1 then
    { g with
      portal_1_active := true
      portal_1_pos := portal_spawn_pos
      portal_active_until_time_1 := io.GetTime + PORTAL_ACTIVE_DURATION
      next_projectile_portal_is_1 := false }
  else
    { g with
      portal_2_active := true
      portal_2_pos := portal_spawn_pos
      portal_active_until_time_2 := io.GetTime + PORTAL_ACTIVE_DURATION
      next_projectile_portal_is_1 := true }

/-- Lines 1126-1139: the bounce test on the x axis; the flag is `bounced_on_x`. -/
def bounceX (W : Int) (p : Projectile) : Projectile × Bool :=
  if p.bounces_remaining > 0 then
    if p.rect.x < 0 then
      ({ p with
          rect := { p.rect with x := 0 }
          velocity := { p.velocity with x := p.velocity.x * -1 }
          bounces_remaining := p.bounces_remaining - 1 }, true)
    else if p.rect.x + p.rect.width > (W : ℚ) then
      ({ p with
          rect := { p.rect with x := (W : ℚ) - p.rect.width }
          velocity := { p.velocity with x := p.velocity.x * -1 }
          bounces_remaining := p.bounces_remaining - 1 }, true)
    else (p, false)
  else (p, false)

/-- Lines 1142-1155: the bounce test on the y axis; the flag is `bounced_on_y`. -/
def bounceY (H : Int) (p : Projectile) : Projectile × Bool :=
  if p.bounces_remaining > 0 then
    if p.rect.y < 0 then
      ({ p with
          rect := { p.rect with y := 0 }
          velocity := { p.velocity with y := p.velocity.y * -1 }
          bounces_remaining := p.bounces_remaining - 1 }, true)
    else if p.rect.y + p.rect.height > (H : ℚ) then
      ({ p with
          rect := { p.rect with y := (H : ℚ) - p.rect.height }
          velocity := { p.velocity with y := p.velocity.y * -1 }
          bounces_remaining := p.bounces_remaining - 1 }, true)
    else (p, false)
  else (p, false)

/-- Lines 1161-1173: the wrap-around of a projectile, on both axes. -/
def wrapProjectile (W H : Int) (p : Projectile) : Projectile :=
  let x1 :=
    if p.rect.x < -p.rect.width then (W : ℚ)
    else if p.rect.x > (W : ℚ) then -p.rect.width
    else p.rect.x
  let y1 :=
    if p.rect.y < -p.rect.height then (H : ℚ)
    else if p.rect.y > (H : ℚ) then -p.rect.height
    else p.rect.y
  { p with rect := { p.rect with x := x1, y := y1 } }

/-- Lines 1122-1173: bounce, then wrap.  The result carries the projectile and
the two locals `bounced_on_x` and `bounced_on_y`. -/
def boundaryHandling (W H : Int) (p : Projectile) : Projectile × Bool × Bool :=
  let rx := bounceX W p
  let ry := bounceY H rx.1
  let p2 := ry.1
  let p3 :=
    if p2.bounces_remaining ≤ 0 ∧ rx.2 = false ∧ ry.2 = false then wrapProjectile W H p2
    else p2
  (p3, rx.2, ry.2)

/-- Lines 1176-1189: a projectile that overlaps the obstacle is deactivated
and, when it is a player shot past the stun-shot cooldown, stuns the obstacle. -/
def hitObstacle (io : Frame) (s : Game × Projectile) : Game × Projectile :=
  let g := s.1
  let p := s.2
  if CheckCollisionRecs p.rect (obstacleRect g) then
    let p1 := { p with active := false }
    let g1 := { g with dodge_streak_start_time := io.GetTime }
    if p1.is_player_shot = true ∧
        io.GetTime > g1.player_last_stun_shot_time + PLAYER_STUN_SHOT_COOLDOWN then
      let g2 := { g1 with
        obstacle_is_stunned := true
        obstacle_stun_end_time := io.GetTime + OBSTACLE_STUN_DURATION
        player_last_stun_shot_time := io.GetTime
        obstacle_stuns_this_game := g1.obstacle_stuns_this_game + 1 }
      if g2.obstacle_stuns_this_game ≥ 3 then
        (unlockAchievement io "stunned_silence" g2.current_username g2, p1)
      else (g2, p1)
    else (g1, p1)
  else (g, p)

/-- Lines 1191-1202: an obstacle projectile that overlaps a player who is not
dashing is deactivated and, past the obstacle's stun cooldown, stuns the
player. -/
def hitPlayer (io : Frame) (s : Game × Projectile) : Game × Projectile :=
  let g := s.1
  let p := s.2
  if g.player_is_dashing = false ∧ p.is_player_shot = false ∧
      CheckCollisionRecs p.rect (playerRect g) = true then
    let p1 := { p with active := false }
    let g1 := { g with dodge_streak_start_time := io.GetTime }
    if io.GetTime > g1.obstacle_last_stun_time + OBSTACLE_STUN_COOLDOWN then
      ({ g1 with
          player_is_stunned := true
          player_stun_end_time := io.GetTime + PLAYER_STUN_DURATION
          obstacle_last_stun_time := io.GetTime }, p1)
    else (g1, p1)
  else (g, p)

/-- Lines 1204-1212: an obstacle projectile that overlaps a dashing player is
deactivated; the first one of a match tries the `dash_of_genius` unlock. -/
def dashThrough (io : Frame) (s : Game × Projectile) : Game × Projectile :=
  let g := s.1
  let p := s.2
  if g.player_is_dashing = true ∧ p.is_player_shot = false ∧
      CheckCollisionRecs p.rect (playerRect g) = true then
    let p1 := { p with active := false }
    if g.dash_through_projectile_achievement_unlocked_this_game = false then
      ({ unlockAchievement io "dash_of_genius" g.current_username g with
          dash_through_projectile_achievement_unlocked_this_game := true }, p1)
    else (g, p1)
  else (g, p)

/-- Lines 1214-1235: the near-miss test of an obstacle projectile. -/
def nearMiss (m : MathEnv) (io : Frame) (s : Game × Projectile) : Game × Projectile :=
  let g := s.1
  let p := s.2
  if g.near_miss_achievement_unlocked_this_game = false ∧ p.is_player_shot = false ∧
      g.player_is_dashing = false then
    let player_center_x := g.player_x + player_size / 2
    let player_center_y := g.player_y + player_size / 2
    let projectile_center_x := p.rect.x + p.rect.width / 2
    let projectile_center_y := p.rect.y + p.rect.height / 2
    let dx := player_center_x - projectile_center_x
    let dy := player_center_y - projectile_center_y
    let distance := m.sqrtf (dx * dx + dy * dy)
    let combined_radius := player_size / 2 + PROJECTILE_SIZE / 2
    let near_miss_threshold_distance := combined_radius + 15
    if distance > combined_radius ∧ distance < near_miss_threshold_distance then
      ({ unlockAchievement io "near_miss" g.current_username g with
          near_miss_achievement_unlocked_this_game := true }, p)
    else (g, p)
  else (g, p)

/-- Lines 1122-1235: what happens to a moved projectile that created no portal:
boundary handling, then the four collision and achievement checks in order. -/
def projectileEffects (m : MathEnv) (io : Frame) (g : Game) (p : Projectile) :
    Game × Projectile :=
  let p1 := (boundaryHandling g.SCREEN_WIDTH g.SCREEN_HEIGHT p).1
  nearMiss m io (dashThrough io (hitPlayer io (hitObstacle io (g, p1))))

/-- Lines 1070-1236: the body of the loop over `projectiles` for one projectile. -/
def stepProjectile (m : MathEnv) (io : Frame) (g : Game) (p : Projectile) :
    Game × Projectile :=
  if p.active then
    let p1 := moveProjectile p
    if g.is_portal_mode = true ∧ p1.is_player_shot = true then
      match portalHit g p1 with
      | some portal_spawn_pos =>
        (placePortal io portal_spawn_pos g, { p1 with active := false })
      | none => projectileEffects m io g p1
    else projectileEffects m io g p1
  else (g, p)

/-- The loop `for (auto& p : projectiles)`: the globals are threaded through
the projectiles in order and each projectile is updated in place. -/
def projectileLoop (m : MathEnv) (io : Frame) : Game → List Projectile →
    Game × List Projectile
  | g, [] => (g, [])
  | g, p :: ps =>
    let r := stepProjectile m io g p
    let rest := projectileLoop m io r.1 ps
    (rest.1, r.2 :: rest.2)

/-- Lines 1070-1238: all projectiles are processed, then the inactive ones are
erased from the list. -/
def updateProjectiles (m : MathEnv) (io : Frame) (g : Game) : Game :=
  let r := projectileLoop m io g g.projectiles
  { r.1 with projectiles := r.2.filter (fun p => p.active) }

/-! ### Obstacle AI -/

/-- Lines 1249-1256 and 1263-1270: among the direct delta and the two wrapped
deltas, keep the one of least absolute value, the earlier one on a tie. -/
def shortestDelta (direct wrap_a wrap_b : ℚ) : ℚ :=
  let shortest := direct
  let shortest1 := if |wrap_a| < |shortest| then wrap_a else shortest
  if |wrap_b| < |shortest1| then wrap_b else shortest1

/-- Lines 1240-1272: every `ai_reaction_delay` frames the target point is
recomputed from the predicted position of the player. -/
def updateAiTarget (g : Game) : Game :=
  let g1 := { g with ai_reaction_timer := g.ai_reaction_timer + 1 }
  if g1.ai_reaction_timer ≥ g1.ai_reaction_delay then
    let raw_predicted_player_x := g1.player_x + g1.player_vx * (prediction_frames : ℚ)
    let raw_predicted_player_y := g1.player_y + g1.player_vy * (prediction_frames : ℚ)
    let dx_direct := raw_predicted_player_x - g1.obstacle_x
    let dx_wrap_left := (raw_predicted_player_x + (g1.SCREEN_WIDTH : ℚ)) - g1.obstacle_x
    let dx_wrap_right := raw_predicted_player_x - (g1.obstacle_x + (g1.SCREEN_WIDTH : ℚ))
    let dy_direct := raw_predicted_player_y - g1.obstacle_y
    let dy_wrap_up := (raw_predicted_player_y + (g1.SCREEN_HEIGHT : ℚ)) - g1.obstacle_y
    let dy_wrap_down := raw_predicted_player_y - (g1.obstacle_y + (g1.SCREEN_HEIGHT : ℚ))
    { g1 with
      ai_target_x := g1.obstacle_x + shortestDelta dx_direct dx_wrap_left dx_wrap_right
      ai_target_y := g1.obstacle_y + shortestDelta dy_direct dy_wrap_up dy_wrap_down
      ai_reaction_timer := 0 }
  else g1

/-- One axis of lines 1275-1284: a step of `speed` towards the target. -/
def chaseAxis (speed target v : ℚ) : ℚ :=
  if v < target then v + speed
  else if v > target then v - speed
  else v

/-- Lines 1274-1290: the obstacle steps towards its target unless stunned; a
stunned obstacle only waits for the end of its stun. -/
def moveObstacle (io : Frame) (g : Game) : Game :=
  if g.obstacle_is_stunned = false then
    { g with
      obstacle_x := chaseAxis g.obstacle_speed g.ai_target_x g.obstacle_x
      obstacle_y := chaseAxis g.obstacle_speed g.ai_target_y g.obstacle_y }
  else if io.GetTime > g.obstacle_stun_end_time then
    { g with obstacle_is_stunned := false }
  else g

/-- Lines 1292-1296: obstacle wrap-around. -/
def wrapObstacle (g : Game) : Game :=
  { g with
    obstacle_x := wrapAxis obstacle_size g.SCREEN_WIDTH g.obstacle_x
    obstacle_y := wrapAxis obstacle_size g.SCREEN_HEIGHT g.obstacle_y }

/-! ### Bonus, popups and the terminal collision -/

/-- Lines 1298-1308: the dodge-streak time bonus. -/
def dodgeStreakBonus (io : Frame) (g : Game) : Game :=
  if g.player_is_stunned = false then
    if io.GetTime - g.dodge_streak_start_time ≥ DODGE_BONUS_INTERVAL then
      { g with
        elapsed_time_s := g.elapsed_time_s + DODGE_BONUS_AMOUNT
        dodge_streak_start_time := io.GetTime
        showing_time_bonus_message := true
        time_bonus_message_end_time := io.GetTime + TIME_BONUS_MESSAGE_DURATION }
    else g
  else g

/-- Lines 1310-1313: the bonus message is hidden after its duration. -/
def hideBonusMessage (io : Frame) (g : Game) : Game :=
  if g.showing_time_bonus_message = true ∧ io.GetTime > g.time_bonus_message_end_time then
    { g with showing_time_bonus_message := false }
  else g

/-- Lines 1315-1318: the achievement popup is cleared after its duration. -/
def hideAchievementPopup (io : Frame) (g : Game) : Game :=
  if g.current_achievement_popup_id ≠ "" ∧
      io.GetTime > g.achievement_popup_display_end_time then
    { g with current_achievement_popup_id := "" }
  else g

/-- The condition of lines 1321-1324: the player is not dashing and its square
strictly overlaps the obstacle's square. -/
def terminalCollision (g : Game) : Prop :=
  g.player_is_dashing = false ∧ g.player_x < g.obstacle_x + obstacle_size ∧
    g.player_x + player_size > g.obstacle_x ∧
    g.player_y < g.obstacle_y + obstacle_size ∧
    g.player_y + player_size > g.obstacle_y

instance (g : Game) : Decidable (terminalCollision g) := by
  unfold terminalCollision
  infer_instance

/-- The local `didWin` of lines 1336-1337 and 1365-1366. -/
def didWin (g : Game) : Bool :=
  decide (g.final_survival_time_s ≥ WIN_THRESHOLD_TIMES g.current_difficulty_mode)

/-- Lines 1320-1360: the terminal collision ends the match and settles the high
score. -/
def checkTerminalCollision (g : Game) : Game :=
  if terminalCollision g then
    let g1 := { g with
      current_game_state := GameState.GAME_STATE_GAME_OVER
      final_survival_time_s := g.elapsed_time_s
      projectiles := []
      player_is_dashing := false
      player_dash_velocity_x := 0
      player_dash_velocity_y := 0 }
    if g1.final_survival_time_s > g1.high_scores g1.current_difficulty_mode then
      { g1 with
        high_scores := fun mode =>
          if mode = g1.current_difficulty_mode then g1.final_survival_time_s
          else g1.high_scores mode
        is_new_high_score := true }
    else { g1 with is_new_high_score := false }
  else g

/-- The state of a Playing tick when it reaches the dodge-streak bonus block
(everything of lines 849-1296 has run). -/
def beforeBonus (m : MathEnv) (io : Frame) (deltaTime : ℚ) (g : Game) : Game :=
  wrapObstacle (moveObstacle io (updateAiTarget (updateProjectiles m io
    (obstacleShoot m io (playerShoot m io (portalLogic io (wrapPlayer
      (movePlayer m io deltaTime (dashActivation m io (updateElapsed io g))))))))))

/-- The state of a Playing tick when it reaches the terminal-collision check
(everything of lines 849-1318 has run). -/
def beforeTerminalCheck (m : MathEnv) (io : Frame) (deltaTime : ℚ) (g : Game) : Game :=
  hideAchievementPopup io (hideBonusMessage io (dodgeStreakBonus io
    (beforeBonus m io deltaTime g)))

/-- Lines 848-1360: one tick of the Playing phase. -/
def playingTick (m : MathEnv) (io : Frame) (deltaTime : ℚ) (g : Game) : Game :=
  checkTerminalCollision (beforeTerminalCheck m io deltaTime g)

/-! ## The other phases -/

/-- Lines 831-847: one tick of the countdown. -/
def countdownTick (io : Frame) (g : Game) : Game :=
  let g1 := { g with current_countdown_frame := g.current_countdown_frame - 1 }
  if g1.current_countdown_frame ≤ 0 then
    { g1 with
      current_game_state := GameState.GAME_STATE_PLAYING
      start_time_s := io.GetTime
      dodge_streak_start_time := io.GetTime
      has_shot_this_game := false
      obstacle_stuns_this_game := 0
      dash_through_projectile_achievement_unlocked_this_game := false }
  else g1

/-- Lines 1362-1390: the game-over screen: `R` continues, `P` changes the
profile. -/
def gameOverTick (io : Frame) (g : Game) : Game :=
  let g1 :=
    if io.IsKeyPressed KEY_R then
      let g2 := { g with
        nextGameMessage :=
          if didWin g then "YOU HAVE BEATEN THE GAME ON NORMAL MODE!" else "TRY AGAIN!" }
      { resetGame (applyDifficulty "normal" g2) with
        current_game_state := GameState.GAME_STATE_COUNTDOWN }
    else g
  if io.IsKeyPressed KEY_P then
    { g1 with
      current_game_state := GameState.GAME_STATE_USERNAME_INPUT
      username_input_buffer := g1.current_username }
  else g1

/-- Lines 795-806: the main menu. -/
def mainMenuTick (io : Frame) (g : Game) : Game :=
  let g1 :=
    if io.IsKeyPressed KEY_ENTER then
      { resetGame g with current_game_state := GameState.GAME_STATE_COUNTDOWN }
    else g
  let g2 :=
    if io.IsKeyPressed KEY_A then
      { g1 with current_game_state := GameState.GAME_STATE_ACHIEVEMENTS }
    else g1
  if io.IsKeyPressed KEY_P = true ∨ io.IsKeyPressed KEY_ESCAPE = true then
    { g2 with
      current_game_state := GameState.GAME_STATE_USERNAME_INPUT
      username_input_buffer := g2.current_username }
  else g2

/-- Lines 1391-1394: the achievements screen. -/
def achievementsTick (io : Frame) (g : Game) : Game :=
  if io.IsKeyPressed KEY_ESCAPE then
    { g with current_game_state := GameState.GAME_STATE_MAIN_MENU }
  else g

/-- Lines 725-745: the typed characters of one frame are appended to the
username buffer while it is shorter than `MAX_USERNAME_LENGTH`; backspace
removes the last character. -/
def typeUsername (io : Frame) (buffer : String) : String :=
  let typeKey (c : Nat → Char) (buf : String) (key : Nat) : String :=
    if io.IsKeyPressed key = true ∧ buf.length < MAX_USERNAME_LENGTH then buf.push (c key)
    else buf
  let b1 := (List.range' KEY_A (KEY_Z + 1 - KEY_A)).foldl (typeKey Char.ofNat) buffer
  let b2 := (List.range' KEY_ZERO (KEY_NINE + 1 - KEY_ZERO)).foldl (typeKey Char.ofNat) b1
  let b3 := typeKey (fun _ => ' ') b2 KEY_SPACE
  let b4 := typeKey (fun _ => '-') b3 KEY_MINUS
  if io.IsKeyPressed KEY_BACKSPACE = true ∧ b4.length > 0 then b4.dropRight 1 else b4

/-- Lines 758-776: the profile list shown after the username `PORTAL`: the
users of the ledger, the current username if missing, in sorted order. -/
def profileNames (g : Game) : List String :=
  let names := g.UNLOCKED_ACHIEVEMENTS_BY_USER.map (fun user_entry => user_entry.1)
  let names1 := if g.current_username ∈ names then names else names ++ [g.current_username]
  names1.insertionSort (fun a b => a ≤ b)

/-- Conversion of an `int` to the 64-bit `size_t`. -/
def toSizeT (v : Int) : Nat := (v % 2 ^ 64).toNat

/-- Conversion of a `size_t` value to the 32-bit `int`. -/
def toInt32 (n : Nat) : Int :=
  let r := (n : Int) % 2 ^ 32
  if r ≥ 2 ^ 31 then r - 2 ^ 32 else r

/-- Lines 724-793: the username screen.  Closing the window on Escape and the
write of the save file are outside the globals.  The loop of lines 772-777
stores the first position of `last_active_username`, a `size_t`, in the `int`
`selected_profile_index`. -/
def usernameInputTick (io : Frame) (g : Game) : Game :=
  let g1 := { g with username_input_buffer := typeUsername io g.username_input_buffer }
  if io.IsKeyPressed KEY_ENTER then
    let g2 := { g1 with
      current_username :=
        if g1.username_input_buffer = "" then "Guest" else g1.username_input_buffer }
    if g2.current_username = "PORTAL" then
      let names := profileNames g2
      { g2 with
        is_portal_mode := true
        available_profile_names := names
        selected_profile_index :=
          if g2.last_active_username ∈ names then toInt32 (names.indexOf g2.last_active_username)
          else 0
        current_game_state := GameState.GAME_STATE_SELECT_ACHIEVEMENT_PROFILE }
    else
      { g2 with
        is_portal_mode := false
        last_active_username := g2.current_username
        username_input_buffer := ""
        current_game_state := GameState.GAME_STATE_MAIN_MENU }
  else g1

/-- Lines 809-811: the UP action, for a profile list of `size` entries.  The
result is `none` when the code divides by zero. -/
def selectUp (io : Frame) (size : Nat) (g : Game) : Option Game :=
  if io.IsKeyPressed KEY_UP then
    if size = 0 then none
    else some { g with
      selected_profile_index :=
        toInt32 (((toSizeT (g.selected_profile_index - 1) + size) % 2 ^ 64) % size) }
  else some g

/-- Lines 812-814: the DOWN action, for a profile list of `size` entries. -/
def selectDown (io : Frame) (size : Nat) (g : Game) : Option Game :=
  if io.IsKeyPressed KEY_DOWN then
    if size = 0 then none
    else some { g with
      selected_profile_index := toInt32 (toSizeT (g.selected_profile_index + 1) % size) }
  else some g

/-- Lines 815-825: the ENTER action.  The result is `none` when the code
indexes the profile list out of range. -/
def selectEnter (io : Frame) (g : Game) : Option Game :=
  if io.IsKeyPressed KEY_ENTER then
    match g.available_profile_names[toSizeT g.selected_profile_index]? with
    | none => none
    | some chosen_profile =>
      some { unlockAchievement io "portal_username" chosen_profile g with
        current_username := "PORTAL"
        last_active_username := "PORTAL"
        username_input_buffer := ""
        current_game_state := GameState.GAME_STATE_MAIN_MENU }
  else some g

/-- Lines 826-829: the ESCAPE action. -/
def selectEscape (io : Frame) (g : Game) : Game :=
  if io.IsKeyPressed KEY_ESCAPE then
    { g with
      current_game_state := GameState.GAME_STATE_USERNAME_INPUT
      username_input_buffer := g.current_username }
  else g

/-- Lines 808-829: the profile picker: the four key tests run one after the
other.  The result is `none` when the code divides by zero or indexes the
profile list out of range. -/
def selectProfileTick (io : Frame) (g : Game) : Option Game :=
  (selectUp io g.available_profile_names.length g).bind (fun g1 =>
    (selectDown io g1.available_profile_names.length g1).bind (fun g2 =>
      (selectEnter io g2).bind (fun g3 => some (selectEscape io g3))))

/-! ## The frame update -/

/-- Source `updateGame` (lines 719-1398): the phase selects the block that
runs.  The result is `none` only when the profile picker runs into undefined
behaviour. -/
def updateGame (m : MathEnv) (io : Frame) (deltaTime : ℚ) (g : Game) : Option Game :=
  match g.current_game_state with
  | GameState.GAME_STATE_TAMPERED => some g
  | GameState.GAME_STATE_USERNAME_INPUT => some (usernameInputTick io g)
  | GameState.GAME_STATE_MAIN_MENU => some (mainMenuTick io g)
  | GameState.GAME_STATE_SELECT_ACHIEVEMENT_PROFILE => selectProfileTick io g
  | GameState.GAME_STATE_COUNTDOWN => some (countdownTick io g)
  | GameState.GAME_STATE_PLAYING => some (playingTick m io deltaTime g)
  | GameState.GAME_STATE_GAME_OVER => some (gameOverTick io g)
  | GameState.GAME_STATE_ACHIEVEMENTS => some (achievementsTick io g)

/-! ## The life of a projectile

A projectile that stays in flight goes through `moveProjectile` and
`boundaryHandling` once per tick; the arena may change between ticks. -/

/-- Number of axes on which one pass of the boundary handling reflected the
projectile: the number of the flags `bounced_on_x`, `bounced_on_y` that are
set. -/
def bounceCount (W H : Int) (p : Projectile) : Nat :=
  (if (boundaryHandling W H p).2.1 then 1 else 0) +
    (if (boundaryHandling W H p).2.2 then 1 else 0)

/-- The projectile after one tick per entry of `arenas` (the screen width and
height of that tick). -/
def flight : List (Int × Int) → Projectile → Projectile
  | [], p => p
  | arena :: rest, p => flight rest (boundaryHandling arena.1 arena.2 (moveProjectile p)).1

/-- Total number of reflections over the ticks of `arenas`. -/
def flightBounces : List (Int × Int) → Projectile → Nat
  | [], _ => 0
  | arena :: rest, p =>
    bounceCount arena.1 arena.2 (moveProjectile p) +
      flightBounces rest (boundaryHandling arena.1 arena.2 (moveProjectile p)).1

/-! ## Globals that the simulation blocks of a Playing tick never write -/

/-- The globals that no block of the Playing branch before the
terminal-collision check assigns: `g1` agrees with `g` on all of them. -/
structure Untouched (g g1 : Game) : Prop where
  SCREEN_WIDTH : g1.SCREEN_WIDTH = g.SCREEN_WIDTH
  SCREEN_HEIGHT : g1.SCREEN_HEIGHT = g.SCREEN_HEIGHT
  obstacle_speed : g1.obstacle_speed = g.obstacle_speed
  player_speed : g1.player_speed = g.player_speed
  ai_reaction_delay : g1.ai_reaction_delay = g.ai_reaction_delay
  current_game_state : g1.current_game_state = g.current_game_state
  current_countdown_frame : g1.current_countdown_frame = g.current_countdown_frame
  start_time_s : g1.start_time_s = g.start_time_s
  final_survival_time_s : g1.final_survival_time_s = g.final_survival_time_s
  high_scores : g1.high_scores = g.high_scores
  is_new_high_score : g1.is_new_high_score = g.is_new_high_score
  current_difficulty_mode : g1.current_difficulty_mode = g.current_difficulty_mode
  current_username : g1.current_username = g.current_username
  username_input_buffer : g1.username_input_buffer = g.username_input_buffer
  last_active_username : g1.last_active_username = g.last_active_username
  nextGameMessage : g1.nextGameMessage = g.nextGameMessage
  ALL_ACHIEVEMENTS : g1.ALL_ACHIEVEMENTS = g.ALL_ACHIEVEMENTS
  is_portal_mode : g1.is_portal_mode = g.is_portal_mode
  available_profile_names : g1.available_profile_names = g.available_profile_names
  selected_profile_index : g1.selected_profile_index = g.selected_profile_index

/-! ## Ledger invariant -/

/-- Every id in every user's ledger is a key of the achievement catalog. -/
def LedgerInCatalog (g : Game) : Prop :=
  ∀ entry ∈ g.UNLOCKED_ACHIEVEMENTS_BY_USER, ∀ id ∈ entry.2,
    (mapFind g.ALL_ACHIEVEMENTS id).isSome = true

/-- The ids unlocked for `user`: the user's entry of the ledger, empty when the
user has none. -/
def unlockedFor (g : Game) (user : String) : List String :=
  (mapFind g.UNLOCKED_ACHIEVEMENTS_BY_USER user).getD []

/-! ## Teleports -/

/-- The state of a Playing tick when it reaches the portal block (everything of
lines 849-969 has run). -/
def beforePortals (m : MathEnv) (io : Frame) (deltaTime : ℚ) (g : Game) : Game :=
  wrapPlayer (movePlayer m io deltaTime (dashActivation m io (updateElapsed io g)))

/-- The gate of lines 984 and 1006: both portals are active and the teleport
cooldown has elapsed. -/
def teleportGate (io : Frame) (s : Game) : Prop :=
  s.portal_1_active = true ∧ s.portal_2_active = true ∧
    io.GetTime - s.last_teleport_time ≥ TELEPORT_COOLDOWN

/-- The player's circle (centre `position + size / 2`, radius `size / 2`)
collides with the circle of radius `PORTAL_RADIUS` around `pos`. -/
def playerTouches (s : Game) (pos : Vector2) : Bool :=
  CheckCollisionCircles ⟨s.player_x + player_size / 2, s.player_y + player_size / 2⟩
    (player_size / 2) pos PORTAL_RADIUS

/-- The obstacle's circle collides with the circle of radius `PORTAL_RADIUS`
around `pos`. -/
def obstacleTouches (s : Game) (pos : Vector2) : Bool :=
  CheckCollisionCircles ⟨s.obstacle_x + obstacle_size / 2, s.obstacle_y + obstacle_size / 2⟩
    (obstacle_size / 2) pos PORTAL_RADIUS

/-- The player is teleported by the portal block entered in state `t`: one of
the two branches of lines 989-999 runs. -/
def playerTeleported (io : Frame) (t : Game) : Prop :=
  t.is_portal_mode = true ∧ teleportGate io (expirePortals io t) ∧
    (playerTouches (expirePortals io t) (expirePortals io t).portal_1_pos = true ∨
      playerTouches (expirePortals io t) (expirePortals io t).portal_2_pos = true)

/-- The obstacle is teleported by the portal block entered in state `t`: one of
the two branches of lines 1010-1021 runs. -/
def obstacleTeleported (io : Frame) (t : Game) : Prop :=
  t.is_portal_mode = true ∧ teleportGate io (teleportPlayer io (expirePortals io t)) ∧
    (obstacleTouches (teleportPlayer io (expirePortals io t))
        (teleportPlayer io (expirePortals io t)).portal_1_pos = true ∨
      obstacleTouches (teleportPlayer io (expirePortals io t))
        (teleportPlayer io (expirePortals io t)).portal_2_pos = true)

/-- A Playing tick from state `g` teleports a combatant. -/
def teleportsIn (m : MathEnv) (io : Frame) (deltaTime : ℚ) (g : Game) : Prop :=
  playerTeleported io (beforePortals m io deltaTime g) ∨
    obstacleTeleported io (beforePortals m io deltaTime g)

/-- The state after the Playing ticks of `frames` (clock and keyboard of the
frame, and its frame time), in order. -/
def playingRun (m : MathEnv) : List (Frame × ℚ) → Game → Game
  | [], g => g
  | frame :: rest, g => playingRun m rest (playingTick m frame.1 frame.2 g)

/-- The globals that no block of a Playing tick after the portal block writes
and that the later claims follow through the tick: the teleport timestamp and
the player's position. -/
def teleportClockAndPlayer (g : Game) : ℚ × ℚ × ℚ :=
  (g.last_teleport_time, g.player_x, g.player_y)

/-! ## Runs of frames -/

/-- The state after `updateGame` has run once per frame of `frames`, in order;
`none` as soon as one update is undefined. -/
def runFrames (m : MathEnv) : List (Frame × ℚ) → Game → Option Game
  | [], g => some g
  | frame :: rest, g => (updateGame m frame.1 frame.2 g).bind (runFrames m rest)

/-- The state in which a match starts its countdown: `resetGame` followed by
the switch of the phase to Countdown (lines 796-798 and 1373-1375). -/
def countdownStart (g : Game) : Game :=
  { resetGame g with current_game_state := GameState.GAME_STATE_COUNTDOWN }

/-! ## The save file

The file is a text; `std::string` positions are natural numbers and
`std::string::npos` is the absence of a position. -/

/-- Text conversion of a `double` by the C++ library: `operator<<` on the
output stream, and `std::stod`, whose exception on a text that holds no number
is the value `none`. -/
structure TextEnv where
  showDouble : ℚ → String
  stod : String → Option ℚ

/-- The search of `find` from the characters left at position `i`. -/
def findAux : List Char → List Char → Nat → Option Nat
  | [], pat, i => if pat = [] then some i else none
  | c :: cs, pat, i =>
    if pat.isPrefixOf (c :: cs) then some i else findAux cs pat (i + 1)

/-- The call `s.find(pat, pos)`: the first position at or after `pos` at which
`pat` occurs in `s`. -/
def find (s : List Char) (pat : String) (pos : Nat) : Option Nat :=
  if pos > s.length then none else findAux (s.drop pos) pat.data pos

/-- The call `s.substr(pos, n)`, for `pos` within `s` (every call of the
source is). -/
def substr (s : List Char) (pos n : Nat) : List Char :=
  (s.drop pos).take n

/-- The call `s.find_first_not_of(set)`. -/
def find_first_not_of (s : List Char) (set : String) : Option Nat :=
  s.findIdx? (fun c => !set.data.contains c)

/-- The call `s.find_last_not_of(set)`. -/
def find_last_not_of (s : List Char) (set : String) : Option Nat :=
  (s.reverse.findIdx? (fun c => !set.data.contains c)).map (fun k => s.length - 1 - k)

/-- The pieces that repeated calls of `std::getline(list_ss, achievement_id, ',')`
read from a text until the stream is exhausted: a piece ends at a comma or at
the end of the text, and no piece is read once nothing is left.  `piece` holds
the characters of the current piece, last one first. -/
def getline : List Char → List Char → List (List Char)
  | [], piece => if piece = [] then [] else [piece.reverse]
  | c :: cs, piece =>
    if c = ',' then piece.reverse :: getline cs [] else getline cs (c :: piece)

/-- One user entry as written by the loop body of lines 447-461. -/
def saveUserEntry (user_entry : String × List String) : String :=
  "    \"" ++ user_entry.1 ++ "\": \x7b\n" ++
  "      \"unlocked_achievements\": [" ++
  ", ".intercalate (user_entry.2.map (fun achievement_id => "\"" ++ achievement_id ++ "\"")) ++
  "]\n" ++
  "    \x7d"

/-- Source `saveGameData` (lines 435-471): the text written to the save file
when it can be opened. -/
def saveGameData (env : TextEnv) (g : Game) : String :=
  "\x7b\n" ++
  "  \"last_username\": \"" ++ g.current_username ++ "\",\n" ++
  "  \"high_scores\": \x7b\n" ++
  "    \"normal\": " ++ env.showDouble (g.high_scores "normal") ++
  "\n  \x7d,\n" ++
  "  \"user_data\": \x7b\n" ++
  ",\n".intercalate (g.UNLOCKED_ACHIEVEMENTS_BY_USER.map saveUserEntry) ++
  "\n  \x7d\n" ++
  "\x7d\n"

/-- Source `initializeDefaultGameData` (lines 425-433).  The write of the save
file is outside the globals. -/
def initializeDefaultGameData (g : Game) : Game :=
  { g with
    last_active_username := "Guest"
    current_username := "Guest"
    high_scores := fun mode => if mode = "normal" then 0 else g.high_scores mode
    UNLOCKED_ACHIEVEMENTS_BY_USER := mapSet [] "Guest" [] }

/-- The part of `loadGameData` that reads `last_username` (lines 483-492). -/
def loadLastUsername (json_str : List Char) (g : Game) : Game :=
  match find json_str "\"last_username\": \"" 0 with
  | none => g
  | some found =>
    let last_username_pos := found + "\"last_username\": \"".length
    match find json_str "\"" last_username_pos with
    | none => g
    | some last_username_end =>
      let name := String.mk (substr json_str last_username_pos
        (last_username_end - last_username_pos))
      { g with last_active_username := name, current_username := name }

/-- The part of `loadGameData` that reads the high score (lines 494-515). -/
def loadHighScores (env : TextEnv) (json_str : List Char) (g : Game) : Game :=
  match find json_str "\"high_scores\": \x7b" 0 with
  | none => g
  | some found =>
    let scores_start := found + "\"high_scores\": \x7b".length
    match find json_str "\x7d" scores_start with
    | none => g
    | some scores_end =>
      let scores_content := substr json_str scores_start (scores_end - scores_start)
      match find scores_content "\"normal\":" 0 with
      | some found_key =>
        let key_start := found_key + "\"normal\":".length
        match env.stod (String.mk (scores_content.drop key_start)) with
        | some value =>
          { g with high_scores := fun mode => if mode = "normal" then value else g.high_scores mode }
        | none => g
      | none =>
        { g with high_scores := fun mode => if mode = "normal" then 0 else g.high_scores mode }

/-- The inner loop of lines 543-550 over the pieces of one achievement list:
a piece is trimmed of blanks and quotes and appended to the list of
`username_key`, which `operator[]` creates when absent; a piece with nothing
else in it is skipped (`last` is a position whenever `first` is). -/
def readAchievementList (username_key : String) :
    List (List Char) → List (String × List String) → List (String × List String)
  | [], ledger => ledger
  | achievement_id :: rest, ledger =>
    match find_first_not_of achievement_id " \"\n\r\t",
        find_last_not_of achievement_id " \"\n\r\t" with
    | some first, some last =>
      readAchievementList username_key rest
        (mapSet ledger username_key
          ((mapFind ledger username_key).getD [] ++
            [String.mk (substr achievement_id first (last - first + 1))]))
    | _, _ => readAchievementList username_key rest ledger

/-- The loop of lines 530-552 over `user_data_content`, from `current_pos`:
every pass ends past a closing bracket, so that `fuel` passes are enough when
`fuel` exceeds the number of characters left. -/
def parseUsers (user_data_content : List Char) :
    Nat → Nat → List (String × List String) → List (String × List String)
  | 0, _, ledger => ledger
  | fuel + 1, current_pos, ledger =>
    match find user_data_content "\"" current_pos with
    | none => ledger
    | some quote =>
      let user_name_start := quote + 1
      match find user_data_content "\"" user_name_start with
      | none => ledger
      | some user_name_end =>
        let username_key := String.mk (substr user_data_content user_name_start
          (user_name_end - user_name_start))
        match find user_data_content "[" user_name_end with
        | none => ledger
        | some achievements_array_start =>
          match find user_data_content "]" achievements_array_start with
          | none => ledger
          | some achievements_array_end =>
            let achievement_list_str := substr user_data_content
              (achievements_array_start + 1)
              (achievements_array_end - achievements_array_start - 1)
            parseUsers user_data_content fuel (achievements_array_end + 1)
              (readAchievementList username_key (getline achievement_list_str []) ledger)

/-- The part of `loadGameData` that reads the ledger (lines 517-553). -/
def loadUserData (json_str : List Char) (g : Game) : Game :=
  let cleared : List (String × List String) := []
  match find json_str "\"user_data\": \x7b" 0 with
  | none => { g with UNLOCKED_ACHIEVEMENTS_BY_USER := cleared }
  | some found =>
    let user_data_start := found + "\"user_data\": \x7b".length
    let user_data_end := (find json_str "\x7d" user_data_start).getD json_str.length
    let user_data_content := substr json_str user_data_start (user_data_end - user_data_start)
    { g with
      UNLOCKED_ACHIEVEMENTS_BY_USER :=
        parseUsers user_data_content (user_data_content.length + 1) 0 cleared }

/-- Source `loadGameData` (lines 473-565); `file` is the text of the save
file, `none` when it cannot be opened. -/
def loadGameData (env : TextEnv) (file : Option String) (g : Game) : Game :=
  match file with
  | none => initializeDefaultGameData g
  | some text =>
    let json_str := text.data
    let g1 := loadUserData json_str (loadHighScores env json_str (loadLastUsername json_str g))
    match mapFind g1.UNLOCKED_ACHIEVEMENTS_BY_USER g1.current_username with
    | none =>
      { g1 with
        UNLOCKED_ACHIEVEMENTS_BY_USER :=
          mapSet g1.UNLOCKED_ACHIEVEMENTS_BY_USER g1.current_username [] }
    | some _ => g1


/-! ## The dodge-streak bonus of a tick -/

/-- The condition of lines 1299-1300 as a Playing tick from `g` meets it: the
tick awards the time bonus. -/
def awardsBonus (m : MathEnv) (io : Frame) (deltaTime : ℚ) (g : Game) : Prop :=
  (beforeBonus m io deltaTime g).player_is_stunned = false ∧
    io.GetTime - (beforeBonus m io deltaTime g).dodge_streak_start_time ≥ DODGE_BONUS_INTERVAL

/-! ## What the projectile loop reads and never writes -/

/-- The globals that the loop over the projectiles reads for its collision
tests and that no pass of the loop writes: the two squares, the dash flag, the
arena and the portal mode. -/
def loopFrame (g : Game) : (ℚ × ℚ × ℚ × ℚ) × Bool × Int × Int × Bool :=
  ((g.player_x, g.player_y, g.obstacle_x, g.obstacle_y), g.player_is_dashing,
    g.SCREEN_WIDTH, g.SCREEN_HEIGHT, g.is_portal_mode)

/-- The globals when the loop over the projectiles, started in state `g`, has
processed the projectiles of `pre` and reaches the next one. -/
def stateAtTurn (m : MathEnv) (io : Frame) (g : Game) (pre : List Projectile) : Game :=
  (projectileLoop m io g pre).1

/-! ## Matches and sessions -/

/-- The number of projectiles that the player's shot block (lines 1027-1043)
appends in the Playing tick from `g`: `1` when it fires, else `0`. -/
def playerShotsSpawned (m : MathEnv) (io : Frame) (deltaTime : ℚ) (g : Game) : Nat :=
  (playerShoot m io (portalLogic io (beforePortals m io deltaTime g))).projectiles.length -
    (portalLogic io (beforePortals m io deltaTime g)).projectiles.length

/-- `MatchReach m g0 t0 t n s`: the state `s` is reached from the start of a
match (`resetGame` run on `g0`, phase Countdown) by `updateGame` ticks taken in
the phases Countdown and Playing, with clock values that never decrease from
the initial clock value `t0` on; `t` is the clock value of the latest tick and
`n` the number of projectiles the player has spawned since the match began. -/
inductive MatchReach (m : MathEnv) (g0 : Game) (t0 : ℚ) : ℚ → Nat → Game → Prop where
  | reset : MatchReach m g0 t0 t0 0 (countdownStart g0)
  | tick {t : ℚ} {n : Nat} {s s1 : Game} (io : Frame) (deltaTime : ℚ) :
      MatchReach m g0 t0 t n s →
      s.current_game_state = GameState.GAME_STATE_COUNTDOWN ∨
        s.current_game_state = GameState.GAME_STATE_PLAYING →
      t ≤ io.GetTime → updateGame m io deltaTime s = some s1 →
      MatchReach m g0 t0 io.GetTime
        (n + if s.current_game_state = GameState.GAME_STATE_PLAYING then
          playerShotsSpawned m io deltaTime s else 0) s1

/-- A combatant coordinate `v` lies in the wrap range of an arena of extent
`extent`: `-50 ≤ v ≤ extent`. -/
def inWrapRange (extent : Int) (v : ℚ) : Prop :=
  -50 ≤ v ∧ v ≤ (extent : ℚ)

/-- The condition of lines 1177 and 1180 together, for the projectile `s.2` in
the globals `s.1`: it overlaps the obstacle, is a player shot and the stun-shot
cooldown has passed, so that the obstacle is stunned and the stun count, and
with it the `stunned_silence` unlock, is reached. -/
def stunBranch (io : Frame) (s : Game × Projectile) : Prop :=
  CheckCollisionRecs s.2.rect (obstacleRect s.1) = true ∧ s.2.is_player_shot = true ∧
    io.GetTime > s.1.player_last_stun_shot_time + PLAYER_STUN_SHOT_COOLDOWN

/-- The condition of line 1087 for a moved projectile: it is within the edge
buffer of 1 px of an arena edge. -/
def atArenaEdge (g : Game) (p : Projectile) : Prop :=
  p.rect.x ≤ 1 ∨ p.rect.x + p.rect.width ≥ (g.SCREEN_WIDTH : ℚ) - 1 ∨ p.rect.y ≤ 1 ∨
    p.rect.y + p.rect.height ≥ (g.SCREEN_HEIGHT : ℚ) - 1

/-- The arena, the positions of the two combatants and the two portals. -/
def arenaFields (g : Game) :
    (Int × Int) × (ℚ × ℚ) × (ℚ × ℚ) × (Bool × Vector2) × (Bool × Vector2) :=
  ((g.SCREEN_WIDTH, g.SCREEN_HEIGHT), (g.player_x, g.player_y), (g.obstacle_x, g.obstacle_y),
    (g.portal_1_active, g.portal_1_pos), (g.portal_2_active, g.portal_2_pos))

/-- A portal position from which a teleported combatant (moved to
`pos - 25`) lands in the wrap range of the arena `W × H`. -/
def portalInReach (W H : Int) (pos : Vector2) : Prop :=
  inWrapRange W (pos.x - 25) ∧ inWrapRange H (pos.y - 25)

/-- The arena is `W × H`, both combatants lie in its wrap range and every
active portal is in reach. -/
def arenaInv (W H : Int) (g : Game) : Prop :=
  g.SCREEN_WIDTH = W ∧ g.SCREEN_HEIGHT = H ∧
    (inWrapRange W g.player_x ∧ inWrapRange H g.player_y) ∧
    (inWrapRange W g.obstacle_x ∧ inWrapRange H g.obstacle_y) ∧
    (g.portal_1_active = true → portalInReach W H g.portal_1_pos) ∧
    (g.portal_2_active = true → portalInReach W H g.portal_2_pos)

/-- The obstacle's position, its stun flag and the stun count of the match. -/
def obstacleState (g : Game) : (ℚ × ℚ) × Bool × Int :=
  ((g.obstacle_x, g.obstacle_y), g.obstacle_is_stunned, g.obstacle_stuns_this_game)

/-- Every projectile of the list is a rectangle of non-negative width and
height (the shoot blocks spawn squares of side `PROJECTILE_SIZE`). -/
def shotsSized (g : Game) : Prop :=
  ∀ p ∈ g.projectiles, 0 ≤ p.rect.width ∧ 0 ≤ p.rect.height

/-- In portal mode the obstacle is not stunned and the stun count is zero. -/
def portalQuiet (g : Game) : Prop :=
  g.is_portal_mode = true → g.obstacle_is_stunned = false ∧ g.obstacle_stuns_this_game = 0

/-- The clock value of the last frame of `frames`, and `t` when there is
none. -/
def lastClock : ℚ → List (Frame × ℚ) → ℚ
  | t, [] => t
  | _, frame :: rest => lastClock frame.1.GetTime rest

/-- The frames of `frames` can be played as ticks of a match that is in state
`s` with latest clock value `t`: every tick is taken in the phase Countdown or
Playing, at a clock value not below the one before, and `updateGame` is
defined. -/
def matchRunOk (m : MathEnv) : ℚ → Game → List (Frame × ℚ) → Bool
  | _, _, [] => true
  | t, s, frame :: rest =>
    (decide (s.current_game_state = GameState.GAME_STATE_COUNTDOWN) ||
        decide (s.current_game_state = GameState.GAME_STATE_PLAYING)) &&
      decide (t ≤ frame.1.GetTime) &&
      match updateGame m frame.1 frame.2 s with
      | some s1 => matchRunOk m frame.1.GetTime s1 rest
      | none => false

/-- The two globals of the player's shot block: the has-shot flag and the time
of the last shot. -/
def shotFields (g : Game) : Bool × ℚ :=
  (g.has_shot_this_game, g.player_last_shot_time)

/-! ## The session -/

/-- The raylib key code of the `F` key. -/
def KEY_F : Nat := 70

/-- Lines 345-357 of `main`, before `updateGame` in every pass of the game
loop: the `F` key toggles fullscreen, takes the new window size `W × H` and
re-centres both combatants; a resized window only changes the size. -/
def windowEvents (io : Frame) (IsWindowResized : Bool) (W H : Int) (g : Game) : Game :=
  if io.IsKeyPressed KEY_F then
    { g with
      SCREEN_WIDTH := W
      SCREEN_HEIGHT := H
      player_x := (W : ℚ) / 2 - player_size / 2
      player_y := (H : ℚ) - player_size
      obstacle_x := (W : ℚ) / 2 - obstacle_size / 2
      obstacle_y := 0 }
  else if IsWindowResized then { g with SCREEN_WIDTH := W, SCREEN_HEIGHT := H }
  else g

/-- The globals when `main` enters the game loop (lines 277-338): the window
size `W × H` is taken over, the catalog is built, the save file is loaded and
the username buffer is set to the current username. -/
def programStart (env : TextEnv) (file : Option String) (W H : Int) : Game :=
  let g := loadGameData env file
    (initializeAchievementDefinitions { initialGlobals with SCREEN_WIDTH := W, SCREEN_HEIGHT := H })
  { g with username_input_buffer := g.current_username }

/-- `SessionReach m start s`: the state `s` is reached from `start` by passes
of the game loop of `main`, each one the window events followed by
`updateGame`. -/
inductive SessionReach (m : MathEnv) (start : Game) : Game → Prop where
  | start : SessionReach m start start
  | pass {s s1 : Game} (io : Frame) (IsWindowResized : Bool) (W H : Int) (deltaTime : ℚ) :
      SessionReach m start s →
      updateGame m io deltaTime (windowEvents io IsWindowResized W H s) = some s1 →
      SessionReach m start s1

/-- The state of the profile picker is well formed: the list of profile names
is not empty, sorted and holds `PORTAL`, and the selected index is a position
of the list. -/
def profileListOk (g : Game) : Prop :=
  g.available_profile_names ≠ [] ∧
    List.Sorted (fun a b => a ≤ b) g.available_profile_names ∧
    "PORTAL" ∈ g.available_profile_names ∧
    0 ≤ g.selected_profile_index ∧
    g.selected_profile_index < g.available_profile_names.length


/-! ## Portal-creating hits over a match -/

/-- The state of a Playing tick when it reaches the loop over the projectiles
(everything of lines 849-1068 has run). -/
def loopEntry (m : MathEnv) (io : Frame) (deltaTime : ℚ) (g : Game) : Game :=
  obstacleShoot m io (playerShoot m io (portalLogic io (beforePortals m io deltaTime g)))

/-- The tests of lines 1071, 1076 and 1101 for the projectile `p` when the loop
reaches it in the globals `g`: the projectile is active, the game is in portal
mode, the projectile is a player shot and, moved by its step, it hits an edge or
the obstacle, so that this pass of the loop body creates a portal. -/
def createsPortal (g : Game) (p : Projectile) : Bool :=
  p.active && (g.is_portal_mode && ((moveProjectile p).is_player_shot &&
    (portalHit g (moveProjectile p)).isSome))

/-- The number of passes of the loop over `ps`, started in the globals `g`,
that create a portal. -/
def portalHitsIn (m : MathEnv) (io : Frame) : Game → List Projectile → Nat
  | _, [] => 0
  | g, p :: ps =>
    (if createsPortal g p then 1 else 0) + portalHitsIn m io (stepProjectile m io g p).1 ps

/-- The number of portal-creating hits of the Playing tick from `g`. -/
def portalHitsOfTick (m : MathEnv) (io : Frame) (deltaTime : ℚ) (g : Game) : Nat :=
  portalHitsIn m io (loopEntry m io deltaTime g) (loopEntry m io deltaTime g).projectiles

/-- `PortalMatch m g0 n s`: the state `s` is reached from the start of a match
(`resetGame` run on `g0`, phase Countdown) by `updateGame` ticks taken in the
phases Countdown and Playing, and `n` is the number of portal-creating hits
that these ticks have made. -/
inductive PortalMatch (m : MathEnv) (g0 : Game) : Nat → Game → Prop where
  | reset : PortalMatch m g0 0 (countdownStart g0)
  | tick {n : Nat} {s s1 : Game} (io : Frame) (deltaTime : ℚ) :
      PortalMatch m g0 n s →
      s.current_game_state = GameState.GAME_STATE_COUNTDOWN ∨
        s.current_game_state = GameState.GAME_STATE_PLAYING →
      updateGame m io deltaTime s = some s1 →
      PortalMatch m g0
        (n + if s.current_game_state = GameState.GAME_STATE_PLAYING then
          portalHitsOfTick m io deltaTime s else 0) s1

/-- The number of portal-creating hits made by the ticks of `frames` played
from `s`. -/
def portalHitsOfRun (m : MathEnv) : Game → List (Frame × ℚ) → Nat
  | _, [] => 0
  | s, frame :: rest =>
    match updateGame m frame.1 frame.2 s with
    | some s1 =>
      (if s.current_game_state = GameState.GAME_STATE_PLAYING then
        portalHitsOfTick m frame.1 frame.2 s else 0) + portalHitsOfRun m s1 rest
    | none => 0


/-! ## The teleport with the stores into `float` made explicit

Elsewhere the arithmetic of the source is read exactly.  The teleport stores
`portal.x - size / 2.0f` in a `float` global, and the centre recomputed from
the stored value is the portal's position only as far as that subtraction is
exact; here `fl` stands for the rounding of a real value to a `float`. -/

/-- Lines 984-1001, the stores of lines 989-990 and 996-997 rounded by `fl`. -/
def teleportPlayerFloat (fl : ℚ → ℚ) (io : Frame) (g : Game) : Game :=
  if g.portal_1_active = true ∧ g.portal_2_active = true ∧
      io.GetTime - g.last_teleport_time ≥ TELEPORT_COOLDOWN then
    let player_center : Vector2 :=
      ⟨g.player_x + player_size / 2, g.player_y + player_size / 2⟩
    if CheckCollisionCircles player_center (player_size / 2) g.portal_1_pos PORTAL_RADIUS then
      { g with
        player_x := fl (g.portal_2_pos.x - player_size / 2)
        player_y := fl (g.portal_2_pos.y - player_size / 2)
        last_teleport_time := io.GetTime }
    else if CheckCollisionCircles player_center (player_size / 2) g.portal_2_pos
        PORTAL_RADIUS then
      { g with
        player_x := fl (g.portal_1_pos.x - player_size / 2)
        player_y := fl (g.portal_1_pos.y - player_size / 2)
        last_teleport_time := io.GetTime }
    else g
  else g

/-- Lines 1006-1023, the stores of lines 1011-1012 and 1018-1019 rounded by
`fl`. -/
def teleportObstacleFloat (fl : ℚ → ℚ) (io : Frame) (g : Game) : Game :=
  if g.portal_1_active = true ∧ g.portal_2_active = true ∧
      io.GetTime - g.last_teleport_time ≥ TELEPORT_COOLDOWN then
    let obstacle_center : Vector2 :=
      ⟨g.obstacle_x + obstacle_size / 2, g.obstacle_y + obstacle_size / 2⟩
    if CheckCollisionCircles obstacle_center (obstacle_size / 2) g.portal_1_pos
        PORTAL_RADIUS then
      { g with
        obstacle_x := fl (g.portal_2_pos.x - obstacle_size / 2)
        obstacle_y := fl (g.portal_2_pos.y - obstacle_size / 2)
        last_teleport_time := io.GetTime }
    else if CheckCollisionCircles obstacle_center (obstacle_size / 2) g.portal_2_pos
        PORTAL_RADIUS then
      { g with
        obstacle_x := fl (g.portal_1_pos.x - obstacle_size / 2)
        obstacle_y := fl (g.portal_1_pos.y - obstacle_size / 2)
        last_teleport_time := io.GetTime }
    else g
  else g

/-- Lines 971-1024: the portal block with the teleport stores rounded by `fl`. -/
def portalLogicFloat (fl : ℚ → ℚ) (io : Frame) (g : Game) : Game :=
  if g.is_portal_mode then
    teleportObstacleFloat fl io (teleportPlayerFloat fl io (expirePortals io g))
  else g

/-- The corner stored for a square of side `size` teleported to the portal at
`pos`: `pos - size / 2` on each axis, rounded by `fl`. -/
def teleportStore (fl : ℚ → ℚ) (size : ℚ) (pos : Vector2) : Vector2 :=
  ⟨fl (pos.x - size / 2), fl (pos.y - size / 2)⟩

/-- The nearest integer to `q`, the even one on a tie. -/
def roundHalfEven (q : ℚ) : Int :=
  if q - (⌊q⌋ : ℚ) < 1 / 2 then ⌊q⌋
  else if q - (⌊q⌋ : ℚ) > 1 / 2 then ⌊q⌋ + 1
  else if ⌊q⌋ % 2 = 0 then ⌊q⌋ else ⌊q⌋ + 1

/-- Rounding of `a * scale`, `a ≥ 0`, to 24 significant bits: `a` is brought
into `[2 ^ 23, 2 ^ 24)` by doubling and halving, `scale` following, down to the
subnormal spacing `2 ^ (-149)`, and then rounded to an integer. -/
def float32Aux : Nat → ℚ → ℚ → ℚ
  | 0, a, scale => (roundHalfEven a : ℚ) * scale
  | fuel + 1, a, scale =>
    if a < 2 ^ 23 ∧ 1 / 2 ^ 149 < scale then float32Aux fuel (2 * a) (scale / 2)
    else if a ≥ 2 ^ 24 then float32Aux fuel (a / 2) (scale * 2)
    else (roundHalfEven a : ℚ) * scale

/-- The value of the IEEE 754 binary32 `float` nearest to `v` (ties to even),
for `v` within the finite range of the format. -/
def float32 (v : ℚ) : ℚ :=
  if v < 0 then -float32Aux 300 (-v) 1 else float32Aux 300 v 1


/-! ## The time-based unlocks of a Playing tick, line by line -/

/-- Line 849: the elapsed time is recomputed from the clock. -/
def recomputeElapsed (io : Frame) (g : Game) : Game :=
  { g with elapsed_time_s := io.GetTime - g.start_time_s }

/-- Lines 852-855: the `bullet_ballet_master` unlock is called for the current
user when the player has not shot in this match and 30 seconds have elapsed. -/
def bulletBalletCheck (io : Frame) (g : Game) : Game :=
  if g.has_shot_this_game = false ∧ g.elapsed_time_s ≥ 30 then
    unlockAchievement io "bullet_ballet_master" g.current_username g
  else g

/-- Lines 856-859: the `long_haul_dodger` unlock is called for the current user
when 120 seconds have elapsed. -/
def longHaulCheck (io : Frame) (g : Game) : Game :=
  if g.elapsed_time_s ≥ 120 then unlockAchievement io "long_haul_dodger" g.current_username g
  else g

/-- For each user, whether the ledger holds `bullet_ballet_master`. -/
def balletUnlocked (g : Game) (user : String) : Bool :=
  decide ("bullet_ballet_master" ∈ unlockedFor g user)


/-! ## Concrete inputs for the worked examples

The theorems below hold for every `MathEnv`, `Frame` and `Game`; the values of
this section only serve to run the code on concrete inputs. -/

/-- A concrete `MathEnv`: the direction functions take the values of the angle
zero (`cosf = 1`, `sinf = 0`, `atan2f = 0`) and `sqrtf` is the identity, which
is exact at `0` and `1`. -/
def sampleMath : MathEnv where
  sqrtf := fun v => v
  cosf := fun _ => 1
  sinf := fun _ => 0
  atan2f := fun _ _ => 0
  PI := 355 / 113

/-- A frame at clock value `t` with no key pressed or held. -/
def frameAt (t : ℚ) : Frame where
  GetTime := t
  IsKeyPressed := fun _ => false
  IsKeyDown := fun _ => false

/-- A match that has just entered the Playing phase at clock value `0`: the
state left by `resetGame` on the start-up globals, with the achievement catalog
loaded. -/
def sampleMatch : Game :=
  { resetGame (initializeAchievementDefinitions initialGlobals) with
    current_game_state := GameState.GAME_STATE_PLAYING }

/-- A Playing state in which a dashing player sits on a stunned obstacle. -/
def dashingOverlap : Game :=
  { sampleMatch with
    player_x := 100
    player_y := 100
    obstacle_x := 100
    obstacle_y := 100
    player_is_dashing := true
    player_dash_end_time := 10
    obstacle_is_stunned := true
    obstacle_stun_end_time := 10 }

/-- A Playing state whose next tick at clock value `65` ends in the terminal
collision: the player, not dashing, overlaps a stunned obstacle; the match
started at `0` and the stored high score is `60`. -/
def collisionAt65 : Game :=
  { sampleMatch with
    player_x := 100
    player_y := 100
    obstacle_x := 120
    obstacle_y := 90
    obstacle_is_stunned := true
    obstacle_stun_end_time := 100
    dodge_streak_start_time := 60
    high_scores := fun _ => 60 }

/-- A frame at clock value `t` in which the keys of `pressed` were pressed this
frame and the keys of `down` are held. -/
def frameKeys (t : ℚ) (pressed down : List Nat) : Frame where
  GetTime := t
  IsKeyPressed := fun key => pressed.contains key
  IsKeyDown := fun key => down.contains key

/-- A Playing state whose four gated actions were last performed at clock value
`8`, with both portals active and the player standing on portal 1. -/
def lastEventsAt8 : Game :=
  { sampleMatch with
    player_last_dash_time := 8
    player_last_shot_time := 8
    obstacle_last_shot_time := 8
    last_teleport_time := 8
    is_portal_mode := true
    portal_1_active := true
    portal_1_pos := ⟨683, 669⟩
    portal_active_until_time_1 := 20
    portal_2_active := true
    portal_2_pos := ⟨100, 100⟩
    portal_active_until_time_2 := 20 }

/-- A Playing state with two projectiles in flight, a player shot that reaches
the obstacle's square on its next step and an obstacle shot that reaches the
player's square on its next step; both stun cooldowns were last refreshed at
clock value `0`. -/
def stunShotsDue : Game :=
  { sampleMatch with
    projectiles :=
      [{ rect := ⟨678, 40, 10, 10⟩, speed := 10, velocity := ⟨0, -1⟩, active := true,
         is_player_shot := true, bounces_remaining := 5 },
       { rect := ⟨678, 640, 10, 10⟩, speed := 8, velocity := ⟨0, 1⟩, active := true,
         is_player_shot := false, bounces_remaining := 5 }]
    player_last_stun_shot_time := 0
    obstacle_last_stun_time := 0
    obstacle_last_shot_time := 4 }

/-- A freshly spawned projectile flying to the right at 60 px per tick. -/
def fastShot : Projectile :=
  { rect := ⟨50, 50, 10, 10⟩, speed := 60, velocity := ⟨1, 0⟩, active := true,
    is_player_shot := true, bounces_remaining := MAX_PROJECTILE_BOUNCES }

/-- A projectile with `bounces` bounces left that has just left the arena
through its top-left corner. -/
def cornerShot (bounces : Int) : Projectile :=
  { rect := ⟨-5, -5, 10, 10⟩, speed := 10, velocity := ⟨-1, -1⟩, active := true,
    is_player_shot := false, bounces_remaining := bounces }

/-- A projectile without bounces left that is more than its width beyond the
left edge. -/
def spentShot : Projectile :=
  { rect := ⟨-20, 50, 10, 10⟩, speed := 10, velocity := ⟨-1, 0⟩, active := true,
    is_player_shot := false, bounces_remaining := 0 }

/-- A Playing state in a 1000 px wide arena, one frame before the obstacle AI
recomputes its target: the obstacle is at `x = 5` and the resting player at
`x = 995`. -/
def chaseAcrossEdge : Game :=
  { sampleMatch with
    SCREEN_WIDTH := 1000
    obstacle_x := 5
    player_x := 995
    ai_reaction_timer := 59 }

/-- A portal-mode Playing state with three player shots in flight: the first
reaches the left edge on its next step, the second the obstacle, the third the
top edge. -/
def portalShots : Game :=
  { sampleMatch with
    is_portal_mode := true
    obstacle_is_stunned := true
    obstacle_stun_end_time := 100
    projectiles :=
      [{ rect := ⟨8, 300, 10, 10⟩, speed := 10, velocity := ⟨-1, 0⟩, active := true,
         is_player_shot := true, bounces_remaining := 5 },
       { rect := ⟨678, 30, 10, 10⟩, speed := 10, velocity := ⟨0, -1⟩, active := true,
         is_player_shot := true, bounces_remaining := 5 },
       { rect := ⟨500, 5, 10, 10⟩, speed := 10, velocity := ⟨0, -1⟩, active := true,
         is_player_shot := true, bounces_remaining := 5 }] }

/-- A state with the catalog loaded, current user `Guest`, in which `Ann` has
unlocked `near_miss` and `Guest` nothing. -/
def ledgerSample : Game :=
  { sampleMatch with
    UNLOCKED_ACHIEVEMENTS_BY_USER := [("Ann", ["near_miss"]), ("Guest", [])] }

/-- A portal-mode Playing state with two portals 20 px apart, both active, and
the player's centre between them, touching both. -/
def overlappingPortals : Game :=
  { sampleMatch with
    is_portal_mode := true
    player_x := 85
    player_y := 75
    portal_1_active := true
    portal_1_pos := ⟨100, 100⟩
    portal_active_until_time_1 := 20
    portal_2_active := true
    portal_2_pos := ⟨120, 100⟩
    portal_active_until_time_2 := 20
    last_teleport_time := 0
    obstacle_last_shot_time := 5 }

/-- The `MathEnv` of the worked examples with `sqrtf 1250` set to the square
root of 1250 rounded to six decimals. -/
def diagonalMath : MathEnv :=
  { sampleMath with sqrtf := fun v => if v = 1250 then 35355339 / 1000000 else v }

/-- A Playing state with one obstacle shot in flight whose next step puts its
centre 25 px right of and 25 px below the centre of the player, who is not
dashing: the rectangles overlap at the corner. -/
def cornerHit : Game :=
  { sampleMatch with
    player_x := 300
    player_y := 300
    obstacle_last_shot_time := 1
    projectiles :=
      [{ rect := ⟨345, 337, 10, 10⟩, speed := 8, velocity := ⟨0, 1⟩, active := true,
         is_player_shot := false, bounces_remaining := 5 }] }

/-- A Playing state with a stunned player (stun lasting until clock value 20),
not dashing, the dash cooldown elapsed. -/
def stunnedPlayer : Game :=
  { sampleMatch with
    player_is_stunned := true
    player_stun_end_time := 20
    obstacle_last_shot_time := 1 }

/-- A portal-mode Playing state with a stunned player standing on portal 1, both
portals active and the teleport cooldown elapsed at clock value 8.5. -/
def stunnedOnPortal : Game :=
  { lastEventsAt8 with
    player_is_stunned := true
    player_stun_end_time := 20 }

/-- A state on the game-over screen after a match with projectiles in flight,
both combatants stunned, a dash under way, both portals active and all
per-match achievement flags set. -/
def gameOverSample : Game :=
  { stunShotsDue with
    current_game_state := GameState.GAME_STATE_GAME_OVER
    elapsed_time_s := 42
    final_survival_time_s := 42
    high_scores := fun _ => 42
    player_is_stunned := true
    obstacle_is_stunned := true
    player_is_dashing := true
    player_last_dash_time := 41
    player_last_shot_time := 41
    obstacle_last_shot_time := 41
    portal_1_active := true
    portal_2_active := true
    next_projectile_portal_is_1 := false
    near_miss_achievement_unlocked_this_game := true
    obstacle_stuns_this_game := 2
    has_shot_this_game := true
    dash_through_projectile_achievement_unlocked_this_game := true
    UNLOCKED_ACHIEVEMENTS_BY_USER := [("Guest", ["near_miss"])] }

/-- Number conversion for the worked examples, right on whole numbers from 0
to 999999: such a double is written as its decimal digits, and a text of
blanks followed by digits is read as the number the digits spell. -/
def sampleText : TextEnv where
  showDouble := fun q => String.mk (Nat.toDigits 10 (q.num.natAbs / q.den))
  stod := fun s =>
    let digits := (s.data.dropWhile Char.isWhitespace).takeWhile Char.isDigit
    if digits = [] then none
    else some ((digits.foldl (fun n c => 10 * n + (c.toNat - 48)) 0 : Nat) : ℚ)

/-- A state of a running session with two profiles in the ledger: `Alice` has
unlocked `near_miss`, the current user `Bob` has unlocked `dash_of_genius`. -/
def twoProfiles : Game :=
  { sampleMatch with
    current_username := "Bob"
    last_active_username := "Bob"
    UNLOCKED_ACHIEVEMENTS_BY_USER :=
      [("Alice", ["near_miss"]), ("Bob", ["dash_of_genius"])] }

/-- The globals at program start, with the catalog loaded, before
`loadGameData` runs (line 337). -/
def freshSession : Game :=
  initializeAchievementDefinitions initialGlobals


/-- A Playing state at the projectile loop with a dashing player at
`(658, 644)` and two shots in flight: a player shot far from everything and an
obstacle shot whose next step takes it into the player's square. -/
def dashThroughShots : Game :=
  { sampleMatch with
    player_is_dashing := true
    player_dash_end_time := 5
    projectiles :=
      [{ rect := ⟨300, 300, 10, 10⟩, speed := 10, velocity := ⟨1, 0⟩, active := true,
         is_player_shot := true, bounces_remaining := 5 },
       { rect := ⟨680, 630, 10, 10⟩, speed := 8, velocity := ⟨0, 1⟩, active := true,
         is_player_shot := false, bounces_remaining := 5 }] }

/-- The frames of `k` ticks at 60 per second from clock value `t0`, with no key
pressed or held. -/
def steadyFrames (t0 : ℚ) : Nat → List (Frame × ℚ)
  | 0 => []
  | k + 1 => (frameAt t0, 1 / 60) :: steadyFrames (t0 + 1 / 60) k

/-- Start-up globals for a match in an arena of 400 by 300 in which the
obstacle first heads for the point `(100, 250)`, left of the player. -/
def smallArena : Game :=
  { freshSession with
    SCREEN_WIDTH := 400
    SCREEN_HEIGHT := 300
    ai_target_x := 100
    ai_target_y := 250 }

/-- A match in `smallArena` from its countdown on: 180 countdown ticks from
clock value `1`, a tick at `4` in which the player fires, and `k` more ticks
without input. -/
def shotFrames (k : Nat) : List (Frame × ℚ) :=
  steadyFrames 1 180 ++ (frameKeys 4 [KEY_LEFT_SHIFT] [], 1 / 60) ::
    steadyFrames (4 + 1 / 60) k

/-- The start-up globals of `smallArena` with portal mode switched on. -/
def smallPortalArena : Game :=
  { smallArena with is_portal_mode := true }

/-- The save file left by a session whose last user was `PORTAL`, with the
profiles `Alice` and `Bob` in the ledger. -/
def portalSave : String :=
  saveGameData sampleText { twoProfiles with current_username := "PORTAL" }


/-- The frames of `k` ticks at 60 per second from clock value `t0` with the
RIGHT movement key held and no key pressed. -/
def holdRightFrames (t0 : ℚ) : Nat → List (Frame × ℚ)
  | 0 => []
  | k + 1 => (frameKeys t0 [] [KEY_RIGHT], 1 / 60) :: holdRightFrames (t0 + 1 / 60) k

/-- A dash to the right at 60 ticks per second: Alt is pressed in the tick at
clock value `5` with only the RIGHT movement key held, and RIGHT stays held for
the ten ticks that follow. -/
def dashFrames : List (Frame × ℚ) :=
  (frameKeys 5 [KEY_LEFT_ALT] [KEY_RIGHT], 1 / 60) :: holdRightFrames (5 + 1 / 60) 10

/-- The dash flag and the displacement of the player from its start position
after the first `k` ticks of `dashFrames`, played from `sampleMatch`. -/
def dashProgress (k : Nat) : Bool × ℚ × ℚ :=
  let s := playingRun sampleMath (dashFrames.take k) sampleMatch
  (s.player_is_dashing, s.player_x - sampleMatch.player_x, s.player_y - sampleMatch.player_y)


/-- Start-up globals for a portal-mode match in an arena of 400 by 2000. -/
def tallPortalArena : Game :=
  { freshSession with SCREEN_WIDTH := 400, SCREEN_HEIGHT := 2000, is_portal_mode := true }

/-- A match with three player shots: 180 countdown ticks from clock value `1`,
then `k` Playing ticks at 60 per second from clock value `4` with the UP key
held; Shift is pressed in the Playing ticks number 0, 30 and 60. -/
def threeShotFrames (k : Nat) : List (Frame × ℚ) :=
  steadyFrames 1 180 ++ (List.range k).map (fun i =>
    (frameKeys (4 + (i : ℚ) / 60) (if i % 30 = 0 ∧ i < 90 then [KEY_LEFT_SHIFT] else [])
      [KEY_UP], 1 / 60))

/-- The third shot of the match `threeShotFrames` as it enters the loop of the
Playing tick number 79, one step from the right edge. -/
def thirdShot : Projectile :=
  { rect := ⟨385, 1665, 10, 10⟩, speed := 10, velocity := ⟨1, 0⟩, active := true,
    is_player_shot := true, bounces_remaining := 5 }


/-- The state `lastEventsAt8` with portal 2 at `(100, 3 + 2 ^ (-22))`, a
position whose coordinates are `float` values. -/
def portalNearTop : Game :=
  { lastEventsAt8 with portal_2_pos := ⟨100, 3 + 1 / 2 ^ 22⟩ }


/-- A save file, edited by hand, in which the list of `Ann` names `near_miss`
twice. -/
def duplicateSave : String :=
  "\x7b\n  \"last_username\": \"Ann\",\n  \"high_scores\": \x7b\n    \"normal\": 0\n  \x7d,\n" ++
  "  \"user_data\": \x7b\n    \"Ann\": \x7b\n" ++
  "      \"unlocked_achievements\": [\"near_miss\", \"near_miss\"]\n    \x7d\n  \x7d\n\x7d\n"

/-- The globals with which a session that finds `duplicateSave` enters the game
loop. -/
def duplicateSession : Game :=
  programStart sampleText (some duplicateSave) 1366 694


/-! ## Frame lemmas: what a Playing tick leaves alone before the collision check -/

theorem Untouched.refl (g : Game) : Untouched g g := by
  constructor <;> rfl

theorem Untouched.trans {a b c : Game} (h1 : Untouched a b) (h2 : Untouched b c) :
    Untouched a c := by
  obtain ⟨a1, a2, a3, a4, a5, a6, a7, a8, a9, a10, a11, a12, a13, a14, a15, a16, a17, a18,
    a19, a20⟩ := h1
  obtain ⟨b1, b2, b3, b4, b5, b6, b7, b8, b9, b10, b11, b12, b13, b14, b15, b16, b17, b18,
    b19, b20⟩ := h2
  constructor
  · exact b1.trans a1
  · exact b2.trans a2
  · exact b3.trans a3
  · exact b4.trans a4
  · exact b5.trans a5
  · exact b6.trans a6
  · exact b7.trans a7
  · exact b8.trans a8
  · exact b9.trans a9
  · exact b10.trans a10
  · exact b11.trans a11
  · exact b12.trans a12
  · exact b13.trans a13
  · exact b14.trans a14
  · exact b15.trans a15
  · exact b16.trans a16
  · exact b17.trans a17
  · exact b18.trans a18
  · exact b19.trans a19
  · exact b20.trans a20

theorem unlockAchievement_untouched (io : Frame) (a u : String) (g : Game) :
    Untouched g (unlockAchievement io a u g) := by
  unfold unlockAchievement
  split
  · exact Untouched.refl g
  · simp only []
    split_ifs <;> constructor <;> rfl

theorem updateElapsed_untouched (io : Frame) (g : Game) :
    Untouched g (updateElapsed io g) := by
  have h0 : Untouched g { g with elapsed_time_s := io.GetTime - g.start_time_s } := by
    constructor <;> rfl
  unfold updateElapsed
  simp only []
  split_ifs
  · exact (h0.trans (unlockAchievement_untouched _ _ _ _)).trans
      (unlockAchievement_untouched _ _ _ _)
  · exact h0.trans (unlockAchievement_untouched _ _ _ _)
  · exact h0.trans (unlockAchievement_untouched _ _ _ _)
  · exact h0

theorem dashActivation_untouched (m : MathEnv) (io : Frame) (g : Game) :
    Untouched g (dashActivation m io g) := by
  unfold dashActivation
  split_ifs <;> constructor <;> rfl

theorem movePlayer_untouched (m : MathEnv) (io : Frame) (dt : ℚ) (g : Game) :
    Untouched g (movePlayer m io dt g) := by
  unfold movePlayer
  simp only []
  split_ifs <;> constructor <;> rfl

theorem wrapPlayer_untouched (g : Game) : Untouched g (wrapPlayer g) := by
  unfold wrapPlayer
  constructor <;> rfl

theorem expirePortals_untouched (io : Frame) (g : Game) :
    Untouched g (expirePortals io g) := by
  unfold expirePortals
  simp only []
  split_ifs <;> constructor <;> rfl

theorem teleportPlayer_untouched (io : Frame) (g : Game) :
    Untouched g (teleportPlayer io g) := by
  unfold teleportPlayer
  simp only []
  split_ifs <;> constructor <;> rfl

theorem teleportObstacle_untouched (io : Frame) (g : Game) :
    Untouched g (teleportObstacle io g) := by
  unfold teleportObstacle
  simp only []
  split_ifs <;> constructor <;> rfl

theorem portalLogic_untouched (io : Frame) (g : Game) :
    Untouched g (portalLogic io g) := by
  unfold portalLogic
  split_ifs
  · exact ((expirePortals_untouched io g).trans (teleportPlayer_untouched io _)).trans
      (teleportObstacle_untouched io _)
  · exact Untouched.refl g

theorem playerShoot_untouched (m : MathEnv) (io : Frame) (g : Game) :
    Untouched g (playerShoot m io g) := by
  unfold playerShoot
  simp only []
  split_ifs <;> constructor <;> rfl

theorem obstacleShoot_untouched (m : MathEnv) (io : Frame) (g : Game) :
    Untouched g (obstacleShoot m io g) := by
  unfold obstacleShoot
  simp only []
  split_ifs <;> constructor <;> rfl

theorem hitObstacle_untouched (io : Frame) (s : Game × Projectile) :
    Untouched s.1 (hitObstacle io s).1 := by
  unfold hitObstacle
  simp only []
  split_ifs
  · refine Untouched.trans ?_ (unlockAchievement_untouched _ _ _ _)
    constructor <;> rfl
  · constructor <;> rfl
  · constructor <;> rfl
  · constructor <;> rfl

theorem hitPlayer_untouched (io : Frame) (s : Game × Projectile) :
    Untouched s.1 (hitPlayer io s).1 := by
  unfold hitPlayer
  simp only []
  split_ifs <;> constructor <;> rfl

theorem dashThrough_untouched (io : Frame) (s : Game × Projectile) :
    Untouched s.1 (dashThrough io s).1 := by
  unfold dashThrough
  simp only []
  split_ifs
  · refine Untouched.trans (unlockAchievement_untouched io "dash_of_genius"
      s.1.current_username s.1) ?_
    constructor <;> rfl
  · constructor <;> rfl
  · constructor <;> rfl

theorem nearMiss_untouched (m : MathEnv) (io : Frame) (s : Game × Projectile) :
    Untouched s.1 (nearMiss m io s).1 := by
  unfold nearMiss
  simp only []
  split_ifs
  · refine Untouched.trans (unlockAchievement_untouched io "near_miss"
      s.1.current_username s.1) ?_
    constructor <;> rfl
  · constructor <;> rfl
  · constructor <;> rfl

theorem projectileEffects_untouched (m : MathEnv) (io : Frame) (g : Game) (p : Projectile) :
    Untouched g (projectileEffects m io g p).1 := by
  unfold projectileEffects
  simp only []
  exact (((hitObstacle_untouched io (g, _)).trans (hitPlayer_untouched io _)).trans
    (dashThrough_untouched io _)).trans (nearMiss_untouched m io _)

theorem placePortal_untouched (io : Frame) (pos : Vector2) (g : Game) :
    Untouched g (placePortal io pos g) := by
  unfold placePortal
  split_ifs <;> constructor <;> rfl

theorem stepProjectile_untouched (m : MathEnv) (io : Frame) (g : Game) (p : Projectile) :
    Untouched g (stepProjectile m io g p).1 := by
  unfold stepProjectile
  split_ifs with ha
  · simp only []
    split_ifs
    · split
      · exact placePortal_untouched io _ g
      · exact projectileEffects_untouched m io g _
    · exact projectileEffects_untouched m io g _
  · exact Untouched.refl g

theorem projectileLoop_untouched (m : MathEnv) (io : Frame) (ps : List Projectile) :
    ∀ g : Game, Untouched g (projectileLoop m io g ps).1 := by
  induction ps with
  | nil => intro g; exact Untouched.refl g
  | cons p ps ih =>
    intro g
    simp only [projectileLoop]
    exact (stepProjectile_untouched m io g p).trans (ih _)

theorem updateProjectiles_untouched (m : MathEnv) (io : Frame) (g : Game) :
    Untouched g (updateProjectiles m io g) := by
  unfold updateProjectiles
  refine (projectileLoop_untouched m io g.projectiles g).trans ?_
  constructor <;> rfl

theorem updateAiTarget_untouched (g : Game) : Untouched g (updateAiTarget g) := by
  unfold updateAiTarget
  simp only []
  split_ifs <;> constructor <;> rfl

theorem moveObstacle_untouched (io : Frame) (g : Game) :
    Untouched g (moveObstacle io g) := by
  unfold moveObstacle
  split_ifs <;> constructor <;> rfl

theorem wrapObstacle_untouched (g : Game) : Untouched g (wrapObstacle g) := by
  unfold wrapObstacle
  constructor <;> rfl

theorem beforeBonus_untouched (m : MathEnv) (io : Frame) (dt : ℚ) (g : Game) :
    Untouched g (beforeBonus m io dt g) := by
  unfold beforeBonus
  exact ((((((((((updateElapsed_untouched io g).trans
    (dashActivation_untouched m io _)).trans
    (movePlayer_untouched m io dt _)).trans
    (wrapPlayer_untouched _)).trans
    (portalLogic_untouched io _)).trans
    (playerShoot_untouched m io _)).trans
    (obstacleShoot_untouched m io _)).trans
    (updateProjectiles_untouched m io _)).trans
    (updateAiTarget_untouched _)).trans
    (moveObstacle_untouched io _)).trans
    (wrapObstacle_untouched _)

theorem dodgeStreakBonus_untouched (io : Frame) (g : Game) :
    Untouched g (dodgeStreakBonus io g) := by
  unfold dodgeStreakBonus
  split_ifs <;> constructor <;> rfl

theorem hideBonusMessage_untouched (io : Frame) (g : Game) :
    Untouched g (hideBonusMessage io g) := by
  unfold hideBonusMessage
  split_ifs <;> constructor <;> rfl

theorem hideAchievementPopup_untouched (io : Frame) (g : Game) :
    Untouched g (hideAchievementPopup io g) := by
  unfold hideAchievementPopup
  split_ifs <;> constructor <;> rfl

theorem beforeTerminalCheck_untouched (m : MathEnv) (io : Frame) (dt : ℚ) (g : Game) :
    Untouched g (beforeTerminalCheck m io dt g) := by
  unfold beforeTerminalCheck
  exact (((beforeBonus_untouched m io dt g).trans
    (dodgeStreakBonus_untouched io _)).trans
    (hideBonusMessage_untouched io _)).trans
    (hideAchievementPopup_untouched io _)

theorem beforeTerminalCheck_state (m : MathEnv) (io : Frame) (dt : ℚ) (g : Game) :
    (beforeTerminalCheck m io dt g).current_game_state = g.current_game_state :=
  (beforeTerminalCheck_untouched m io dt g).current_game_state

theorem checkTerminalCollision_state_of (g : Game) (h : terminalCollision g) :
    (checkTerminalCollision g).current_game_state = GameState.GAME_STATE_GAME_OVER := by
  unfold checkTerminalCollision
  rw [if_pos h]
  simp only []
  split_ifs <;> rfl

theorem checkTerminalCollision_of_not (g : Game) (h : ¬ terminalCollision g) :
    checkTerminalCollision g = g := by
  unfold checkTerminalCollision
  rw [if_neg h]

/-! ## Claims -/

/-- C1: in every Playing tick of `updateGame` the phase at the end of the tick
is GameOver exactly when, at the terminal-collision check, the player is not
dashing and its square strictly overlaps the obstacle's square; in every other
case, in particular for a dashing player, the phase stays Playing. -/
theorem C1_game_over_iff_collision (m : MathEnv) (io : Frame) (deltaTime : ℚ) (g : Game)
    (hp : g.current_game_state = GameState.GAME_STATE_PLAYING) :
    ∃ g1, updateGame m io deltaTime g = some g1 ∧
      (g1.current_game_state = GameState.GAME_STATE_GAME_OVER ↔
        ((beforeTerminalCheck m io deltaTime g).player_is_dashing = false ∧
          (beforeTerminalCheck m io deltaTime g).player_x <
            (beforeTerminalCheck m io deltaTime g).obstacle_x + obstacle_size ∧
          (beforeTerminalCheck m io deltaTime g).player_x + player_size >
            (beforeTerminalCheck m io deltaTime g).obstacle_x ∧
          (beforeTerminalCheck m io deltaTime g).player_y <
            (beforeTerminalCheck m io deltaTime g).obstacle_y + obstacle_size ∧
          (beforeTerminalCheck m io deltaTime g).player_y + player_size >
            (beforeTerminalCheck m io deltaTime g).obstacle_y)) ∧
      (g1.current_game_state ≠ GameState.GAME_STATE_GAME_OVER →
        g1.current_game_state = GameState.GAME_STATE_PLAYING) ∧
      ((beforeTerminalCheck m io deltaTime g).player_is_dashing = true →
        g1.current_game_state = GameState.GAME_STATE_PLAYING) := by
  have hs := beforeTerminalCheck_state m io deltaTime g
  rw [hp] at hs
  refine ⟨playingTick m io deltaTime g, ?_, ?_, ?_, ?_⟩
  · unfold updateGame
    rw [hp]
  · constructor
    · intro h
      by_contra hc
      rw [playingTick, checkTerminalCollision_of_not _ hc, hs] at h
      cases h
    · intro hc
      exact checkTerminalCollision_state_of _ hc
  · intro h
    by_cases hc : terminalCollision (beforeTerminalCheck m io deltaTime g)
    · exact absurd (checkTerminalCollision_state_of _ hc) h
    · rw [playingTick, checkTerminalCollision_of_not _ hc, hs]
  · intro hd
    have hc : ¬ terminalCollision (beforeTerminalCheck m io deltaTime g) := by
      intro hc
      have h1 := hc.1
      rw [hd] at h1
      cases h1
    rw [playingTick, checkTerminalCollision_of_not _ hc, hs]

/-- C1, at a concrete input: a dashing player whose square coincides with the
obstacle's square at the terminal-collision check leaves the phase Playing. -/
theorem C1_dashing_overlap_witness :
    dashingOverlap.current_game_state = GameState.GAME_STATE_PLAYING ∧
      (beforeTerminalCheck sampleMath (frameAt 1) (1 / 60) dashingOverlap).player_is_dashing
        = true ∧
      (beforeTerminalCheck sampleMath (frameAt 1) (1 / 60) dashingOverlap).player_x =
        (beforeTerminalCheck sampleMath (frameAt 1) (1 / 60) dashingOverlap).obstacle_x ∧
      (beforeTerminalCheck sampleMath (frameAt 1) (1 / 60) dashingOverlap).player_y =
        (beforeTerminalCheck sampleMath (frameAt 1) (1 / 60) dashingOverlap).obstacle_y ∧
      ∃ g1, updateGame sampleMath (frameAt 1) (1 / 60) dashingOverlap = some g1 ∧
        g1.current_game_state = GameState.GAME_STATE_PLAYING := by
  have hd : (beforeTerminalCheck sampleMath (frameAt 1) (1 / 60)
      dashingOverlap).player_is_dashing = true := by decide!
  refine ⟨rfl, hd, by decide!, by decide!, ?_⟩
  obtain ⟨g1, h1, _, _, h4⟩ :=
    C1_game_over_iff_collision sampleMath (frameAt 1) (1 / 60) dashingOverlap rfl
  exact ⟨g1, h1, h4 hd⟩

theorem checkTerminalCollision_scores (s : Game) (hc : terminalCollision s) :
    (checkTerminalCollision s).final_survival_time_s = s.elapsed_time_s ∧
      ((checkTerminalCollision s).is_new_high_score = true ↔
        s.elapsed_time_s > s.high_scores s.current_difficulty_mode) ∧
      (checkTerminalCollision s).high_scores s.current_difficulty_mode =
        max (s.high_scores s.current_difficulty_mode) s.elapsed_time_s ∧
      (checkTerminalCollision s).current_difficulty_mode = s.current_difficulty_mode := by
  unfold checkTerminalCollision
  rw [if_pos hc]
  simp only []
  by_cases hf : s.elapsed_time_s > s.high_scores s.current_difficulty_mode
  · rw [if_pos hf]
    refine ⟨rfl, ⟨fun _ => hf, fun _ => rfl⟩, ?_, rfl⟩
    simp only [if_true]
    exact (max_eq_right (le_of_lt hf)).symm
  · rw [if_neg hf]
    refine ⟨rfl, ⟨fun h => ?_, fun h => absurd h hf⟩, ?_, rfl⟩
    · cases h
    · exact (max_eq_left (not_lt.mp hf)).symm

/-- C2: when a Playing tick ends in the terminal collision with elapsed time
`f` and prior high score `h` (mode `"normal"`), the final survival time is
`f`, `is_new_high_score` is true exactly when `f > h`, the stored high score
becomes `max h f` (so it never decreases), and the match is a win exactly when
`f ≥ 60`. -/
theorem C2_high_score_update (m : MathEnv) (io : Frame) (deltaTime : ℚ) (g : Game)
    (hp : g.current_game_state = GameState.GAME_STATE_PLAYING)
    (hm : g.current_difficulty_mode = "normal")
    (hc : terminalCollision (beforeTerminalCheck m io deltaTime g)) :
    ∃ g1, updateGame m io deltaTime g = some g1 ∧
      g1.current_game_state = GameState.GAME_STATE_GAME_OVER ∧
      g1.final_survival_time_s = (beforeTerminalCheck m io deltaTime g).elapsed_time_s ∧
      (g1.is_new_high_score = true ↔
        (beforeTerminalCheck m io deltaTime g).elapsed_time_s > g.high_scores "normal") ∧
      g1.high_scores "normal" =
        max (g.high_scores "normal") (beforeTerminalCheck m io deltaTime g).elapsed_time_s ∧
      g.high_scores "normal" ≤ g1.high_scores "normal" ∧
      (didWin g1 = true ↔ (beforeTerminalCheck m io deltaTime g).elapsed_time_s ≥ 60) := by
  have hu := beforeTerminalCheck_untouched m io deltaTime g
  have hmode : (beforeTerminalCheck m io deltaTime g).current_difficulty_mode = "normal" :=
    hu.current_difficulty_mode.trans hm
  obtain ⟨h1, h2, h3, h4⟩ := checkTerminalCollision_scores _ hc
  rw [hmode, hu.high_scores] at h2 h3
  rw [hmode] at h4
  refine ⟨playingTick m io deltaTime g, ?_, checkTerminalCollision_state_of _ hc, h1, h2, h3,
    ?_, ?_⟩
  · unfold updateGame
    rw [hp]
  · unfold playingTick
    rw [h3]
    exact le_max_left _ _
  · unfold didWin playingTick
    rw [h1, h4]
    simp [WIN_THRESHOLD_TIMES]

/-- C2, at a concrete input: a final time of `65` against a prior high score of
`60` sets `is_new_high_score`, stores `65` and counts as a win. -/
theorem C2_witness_65_over_60 :
    collisionAt65.current_game_state = GameState.GAME_STATE_PLAYING ∧
      collisionAt65.high_scores "normal" = 60 ∧
      (beforeTerminalCheck sampleMath (frameAt 65) (1 / 60) collisionAt65).elapsed_time_s
        = 65 ∧
      ∃ g1, updateGame sampleMath (frameAt 65) (1 / 60) collisionAt65 = some g1 ∧
        g1.final_survival_time_s = 65 ∧ g1.is_new_high_score = true ∧
        g1.high_scores "normal" = 65 ∧ didWin g1 = true := by
  have hf : (beforeTerminalCheck sampleMath (frameAt 65) (1 / 60)
      collisionAt65).elapsed_time_s = 65 := by decide!
  have hh : collisionAt65.high_scores "normal" = 60 := rfl
  refine ⟨rfl, hh, hf, ?_⟩
  obtain ⟨g1, h1, _, h3, h4, h5, _, h7⟩ :=
    C2_high_score_update sampleMath (frameAt 65) (1 / 60) collisionAt65 rfl rfl (by decide!)
  rw [hf] at h3 h4 h5 h7
  rw [hh] at h4 h5
  refine ⟨g1, h1, h3, h4.mpr (by norm_num), ?_, h7.mpr (by norm_num)⟩
  rw [h5]
  norm_num

theorem ne_of_cooldown_elapsed {now last cd : ℚ} (hcd : 0 < cd) (h : now - last ≥ cd) :
    now ≠ last := by
  intro he
  rw [he, sub_self] at h
  exact absurd h (not_le.mpr hcd)

/-- C3: each of the four gated actions (player dash, cooldown 2; player shot,
cooldown 1/2; obstacle shot, cooldown 2; portal teleport, cooldown 1/2), when
its trigger is present in the state `g` that reaches its block, fires exactly
when `now - last_event_time ≥ cooldown`, equality included.  Firing stamps the
action's timestamp with `now` (and a shot appends one projectile); when the
gate is closed the timestamp, the projectile list and the positions stay as
they were. -/
theorem C3_cooldown_gate (m : MathEnv) (io : Frame) (g : Game) :
    ((io.IsKeyPressed KEY_LEFT_ALT = true ∨ io.IsKeyPressed KEY_RIGHT_ALT = true) →
      (((dashActivation m io g).player_last_dash_time ≠ g.player_last_dash_time ↔
          io.GetTime - g.player_last_dash_time ≥ 2) ∧
        (io.GetTime - g.player_last_dash_time ≥ 2 →
          (dashActivation m io g).player_is_dashing = true ∧
          (dashActivation m io g).player_last_dash_time = io.GetTime ∧
          (dashActivation m io g).player_dash_end_time = io.GetTime + 15 / 100) ∧
        (¬ io.GetTime - g.player_last_dash_time ≥ 2 → dashActivation m io g = g))) ∧
    ((io.IsKeyPressed KEY_LEFT_SHIFT = true ∨ io.IsKeyPressed KEY_RIGHT_SHIFT = true) →
      (((playerShoot m io g).projectiles.length = g.projectiles.length + 1 ↔
          io.GetTime - g.player_last_shot_time ≥ 1 / 2) ∧
        (io.GetTime - g.player_last_shot_time ≥ 1 / 2 →
          (playerShoot m io g).player_last_shot_time = io.GetTime) ∧
        (¬ io.GetTime - g.player_last_shot_time ≥ 1 / 2 →
          (playerShoot m io g).projectiles = g.projectiles ∧
          (playerShoot m io g).player_last_shot_time = g.player_last_shot_time))) ∧
    (g.obstacle_is_stunned = false →
      (((obstacleShoot m io g).projectiles.length = g.projectiles.length + 1 ↔
          io.GetTime - g.obstacle_last_shot_time ≥ 2) ∧
        (io.GetTime - g.obstacle_last_shot_time ≥ 2 →
          (obstacleShoot m io g).obstacle_last_shot_time = io.GetTime) ∧
        (¬ io.GetTime - g.obstacle_last_shot_time ≥ 2 → obstacleShoot m io g = g))) ∧
    (g.portal_1_active = true ∧ g.portal_2_active = true ∧
        (CheckCollisionCircles ⟨g.player_x + player_size / 2, g.player_y + player_size / 2⟩
            (player_size / 2) g.portal_1_pos PORTAL_RADIUS = true ∨
          CheckCollisionCircles ⟨g.player_x + player_size / 2, g.player_y + player_size / 2⟩
            (player_size / 2) g.portal_2_pos PORTAL_RADIUS = true) →
      (((teleportPlayer io g).last_teleport_time ≠ g.last_teleport_time ↔
          io.GetTime - g.last_teleport_time ≥ 1 / 2) ∧
        (io.GetTime - g.last_teleport_time ≥ 1 / 2 →
          (teleportPlayer io g).last_teleport_time = io.GetTime) ∧
        (¬ io.GetTime - g.last_teleport_time ≥ 1 / 2 → teleportPlayer io g = g))) ∧
    (g.portal_1_active = true ∧ g.portal_2_active = true ∧
        (CheckCollisionCircles
            ⟨g.obstacle_x + obstacle_size / 2, g.obstacle_y + obstacle_size / 2⟩
            (obstacle_size / 2) g.portal_1_pos PORTAL_RADIUS = true ∨
          CheckCollisionCircles
            ⟨g.obstacle_x + obstacle_size / 2, g.obstacle_y + obstacle_size / 2⟩
            (obstacle_size / 2) g.portal_2_pos PORTAL_RADIUS = true) →
      (((teleportObstacle io g).last_teleport_time ≠ g.last_teleport_time ↔
          io.GetTime - g.last_teleport_time ≥ 1 / 2) ∧
        (io.GetTime - g.last_teleport_time ≥ 1 / 2 →
          (teleportObstacle io g).last_teleport_time = io.GetTime) ∧
        (¬ io.GetTime - g.last_teleport_time ≥ 1 / 2 → teleportObstacle io g = g))) := by
  refine ⟨?_, ?_, ?_, ?_, ?_⟩
  · intro hk
    by_cases hr : io.GetTime - g.player_last_dash_time ≥ 2
    · have hne := ne_of_cooldown_elapsed (by norm_num) hr
      have hfire : dashActivation m io g =
          { g with
            player_is_dashing := true
            player_dash_end_time := io.GetTime + PLAYER_DASH_DURATION
            player_last_dash_time := io.GetTime
            player_dash_velocity_x :=
              (dashDirection m io).1 * (PLAYER_DASH_DISTANCE / PLAYER_DASH_DURATION)
            player_dash_velocity_y :=
              (dashDirection m io).2 * (PLAYER_DASH_DISTANCE / PLAYER_DASH_DURATION) } := by
        unfold dashActivation
        rw [if_pos ⟨hk, by simpa [PLAYER_DASH_COOLDOWN] using hr⟩]
      rw [hfire]
      refine ⟨⟨fun _ => hr, fun _ => hne⟩, fun _ => ⟨rfl, rfl, ?_⟩, fun h => absurd hr h⟩
      norm_num [PLAYER_DASH_DURATION]
    · have hstay : dashActivation m io g = g := by
        unfold dashActivation
        rw [if_neg]
        rintro ⟨_, h2⟩
        exact hr (by simpa [PLAYER_DASH_COOLDOWN] using h2)
      rw [hstay]
      exact ⟨⟨fun h => absurd rfl h, fun h => absurd h hr⟩, fun h => absurd h hr, fun _ => rfl⟩
  · intro hk
    by_cases hr : io.GetTime - g.player_last_shot_time ≥ 1 / 2
    · have hr2 : io.GetTime - g.player_last_shot_time ≥ PLAYER_SHOOT_COOLDOWN := by
        simpa [PLAYER_SHOOT_COOLDOWN] using hr
      unfold playerShoot
      rw [if_pos hk]
      simp only []
      rw [if_pos hr2]
      refine ⟨⟨fun _ => hr, fun _ => ?_⟩, fun _ => rfl, fun h => absurd hr h⟩
      simp
    · have hr2 : ¬ io.GetTime - g.player_last_shot_time ≥ PLAYER_SHOOT_COOLDOWN := by
        simpa [PLAYER_SHOOT_COOLDOWN] using hr
      unfold playerShoot
      rw [if_pos hk]
      simp only []
      rw [if_neg hr2]
      refine ⟨⟨fun h => ?_, fun h => absurd h hr⟩, fun h => absurd h hr, fun _ => ⟨rfl, rfl⟩⟩
      simp at h
  · intro hs
    by_cases hr : io.GetTime - g.obstacle_last_shot_time ≥ 2
    · unfold obstacleShoot
      rw [if_pos ⟨hs, by simpa [OBSTACLE_SHOOT_COOLDOWN] using hr⟩]
      refine ⟨⟨fun _ => hr, fun _ => ?_⟩, fun _ => rfl, fun h => absurd hr h⟩
      simp
    · have hstay : obstacleShoot m io g = g := by
        unfold obstacleShoot
        rw [if_neg]
        rintro ⟨_, h2⟩
        exact hr (by simpa [OBSTACLE_SHOOT_COOLDOWN] using h2)
      rw [hstay]
      refine ⟨⟨fun h => ?_, fun h => absurd h hr⟩, fun h => absurd h hr, fun _ => rfl⟩
      simp at h
  · rintro ⟨h1, h2, hcol⟩
    by_cases hr : io.GetTime - g.last_teleport_time ≥ 1 / 2
    · have hne := ne_of_cooldown_elapsed (by norm_num) hr
      have hr2 : io.GetTime - g.last_teleport_time ≥ TELEPORT_COOLDOWN := by
        simpa [TELEPORT_COOLDOWN] using hr
      have hstamp : (teleportPlayer io g).last_teleport_time = io.GetTime := by
        unfold teleportPlayer
        rw [if_pos ⟨h1, h2, hr2⟩]
        simp only []
        split_ifs with c1 c2
        · rfl
        · rfl
        · rcases hcol with h | h
          · exact absurd h c1
          · exact absurd h c2
      rw [hstamp]
      exact ⟨⟨fun _ => hr, fun _ => hne⟩, fun _ => rfl, fun h => absurd hr h⟩
    · have hstay : teleportPlayer io g = g := by
        unfold teleportPlayer
        rw [if_neg]
        rintro ⟨_, _, h3⟩
        exact hr (by simpa [TELEPORT_COOLDOWN] using h3)
      rw [hstay]
      exact ⟨⟨fun h => absurd rfl h, fun h => absurd h hr⟩, fun h => absurd h hr, fun _ => rfl⟩
  · rintro ⟨h1, h2, hcol⟩
    by_cases hr : io.GetTime - g.last_teleport_time ≥ 1 / 2
    · have hne := ne_of_cooldown_elapsed (by norm_num) hr
      have hr2 : io.GetTime - g.last_teleport_time ≥ TELEPORT_COOLDOWN := by
        simpa [TELEPORT_COOLDOWN] using hr
      have hstamp : (teleportObstacle io g).last_teleport_time = io.GetTime := by
        unfold teleportObstacle
        rw [if_pos ⟨h1, h2, hr2⟩]
        simp only []
        split_ifs with c1 c2
        · rfl
        · rfl
        · rcases hcol with h | h
          · exact absurd h c1
          · exact absurd h c2
      rw [hstamp]
      exact ⟨⟨fun _ => hr, fun _ => hne⟩, fun _ => rfl, fun h => absurd hr h⟩
    · have hstay : teleportObstacle io g = g := by
        unfold teleportObstacle
        rw [if_neg]
        rintro ⟨_, _, h3⟩
        exact hr (by simpa [TELEPORT_COOLDOWN] using h3)
      rw [hstay]
      exact ⟨⟨fun h => absurd rfl h, fun h => absurd h hr⟩, fun h => absurd h hr, fun _ => rfl⟩

/-- C3, at concrete inputs: with the last dash and the last obstacle shot at
`8`, the dash and the shot fire at `now = 10` (exact equality with the cooldown
`2`) and do not fire at `now = 9.999`; the same holds through a whole Playing
tick. -/
theorem C3_witness_gate_at_equality :
    ((dashActivation sampleMath (frameKeys 10 [KEY_LEFT_ALT] []) lastEventsAt8).player_is_dashing
        = true ∧
      (dashActivation sampleMath (frameKeys 10 [KEY_LEFT_ALT] [])
        lastEventsAt8).player_last_dash_time = 10) ∧
    dashActivation sampleMath (frameKeys (9999 / 1000) [KEY_LEFT_ALT] []) lastEventsAt8 =
      lastEventsAt8 ∧
    (obstacleShoot sampleMath (frameKeys 10 [] []) lastEventsAt8).projectiles.length =
      lastEventsAt8.projectiles.length + 1 ∧
    obstacleShoot sampleMath (frameKeys (9999 / 1000) [] []) lastEventsAt8 = lastEventsAt8 ∧
    (playingTick sampleMath (frameKeys 10 [KEY_LEFT_ALT] []) (1 / 60)
      lastEventsAt8).player_last_dash_time = 10 ∧
    (playingTick sampleMath (frameKeys (9999 / 1000) [KEY_LEFT_ALT] []) (1 / 60)
      lastEventsAt8).player_last_dash_time = 8 := by
  have hA := (C3_cooldown_gate sampleMath (frameKeys 10 [KEY_LEFT_ALT] []) lastEventsAt8).1
    (Or.inl rfl)
  have hB := (C3_cooldown_gate sampleMath (frameKeys (9999 / 1000) [KEY_LEFT_ALT] [])
    lastEventsAt8).1 (Or.inl rfl)
  have hC := (C3_cooldown_gate sampleMath (frameKeys 10 [] []) lastEventsAt8).2.2.1 rfl
  have hD := (C3_cooldown_gate sampleMath (frameKeys (9999 / 1000) [] [])
    lastEventsAt8).2.2.1 rfl
  have hfire := hA.2.1 (by decide!)
  refine ⟨⟨hfire.1, hfire.2.1⟩, hB.2.2 (by decide!), hC.1.mpr (by decide!),
    hD.2.2 (by decide!), by decide!, by decide!⟩

/-! ### Stun gates -/

theorem stun_gates_closed_at_equality (io : Frame) (g : Game) (p : Projectile) :
    (io.GetTime - g.player_last_stun_shot_time = 5 →
      (hitObstacle io (g, p)).1.obstacle_is_stunned = g.obstacle_is_stunned ∧
        (hitObstacle io (g, p)).1.player_last_stun_shot_time = g.player_last_stun_shot_time) ∧
    (io.GetTime - g.obstacle_last_stun_time = 5 →
      (hitPlayer io (g, p)).1.player_is_stunned = g.player_is_stunned ∧
        (hitPlayer io (g, p)).1.obstacle_last_stun_time = g.obstacle_last_stun_time) := by
  constructor
  · intro he
    have hn : ¬ (p.is_player_shot = true ∧
        io.GetTime > g.player_last_stun_shot_time + PLAYER_STUN_SHOT_COOLDOWN) := by
      rintro ⟨-, h⟩
      simp only [PLAYER_STUN_SHOT_COOLDOWN] at h
      linarith
    unfold hitObstacle
    simp only []
    split_ifs
    · exact ⟨rfl, rfl⟩
    · exact ⟨rfl, rfl⟩
  · intro he
    have hn : ¬ io.GetTime > g.obstacle_last_stun_time + OBSTACLE_STUN_COOLDOWN := by
      intro h
      simp only [OBSTACLE_STUN_COOLDOWN] at h
      linarith
    unfold hitPlayer
    simp only []
    split_ifs
    · exact ⟨rfl, rfl⟩
    · exact ⟨rfl, rfl⟩

/-- C4, evaluated on the code: with both stun cooldowns last refreshed at `0`,
a Playing tick at `now = 5` (so `now - last = 5` exactly) in which a player
shot hits the obstacle and an obstacle shot hits the player, who is not
dashing, removes both projectiles and resets the dodge streak but stuns
neither combatant; the same tick at `now = 5.001` stuns both.  The stun gate
is the strict `now > last + 5`. -/
theorem C4_stun_gate_closed_at_equality :
    stunShotsDue.current_game_state = GameState.GAME_STATE_PLAYING ∧
    (5 : ℚ) - stunShotsDue.player_last_stun_shot_time = 5 ∧
    (5 : ℚ) - stunShotsDue.obstacle_last_stun_time = 5 ∧
    (updateGame sampleMath (frameAt 5) (1 / 60) stunShotsDue).map
      (fun g => (g.obstacle_is_stunned, g.player_is_stunned, g.projectiles,
        g.dodge_streak_start_time, g.player_last_stun_shot_time, g.obstacle_last_stun_time))
      = some (false, false, [], 5, 0, 0) ∧
    (updateGame sampleMath (frameAt (5001 / 1000)) (1 / 60) stunShotsDue).map
      (fun g => (g.obstacle_is_stunned, g.player_is_stunned, g.projectiles,
        g.player_last_stun_shot_time, g.obstacle_last_stun_time))
      = some (true, true, [], 5001 / 1000, 5001 / 1000) := by
  refine ⟨rfl, by decide!, by decide!, by decide!, by decide!⟩

/-! ### Bounce counter -/

theorem bounceX_spec (W : Int) (p : Projectile) :
    (bounceX W p).1.bounces_remaining =
        p.bounces_remaining - (if (bounceX W p).2 then 1 else 0) ∧
      (bounceX W p).1.velocity.x =
        (if (bounceX W p).2 then -p.velocity.x else p.velocity.x) ∧
      (bounceX W p).1.velocity.y = p.velocity.y ∧
      ((bounceX W p).2 = true → 0 < p.bounces_remaining) ∧
      (bounceX W p).1.rect.y = p.rect.y ∧
      (bounceX W p).1.rect.width = p.rect.width ∧
      (bounceX W p).1.rect.height = p.rect.height ∧
      ((bounceX W p).2 = false → (bounceX W p).1 = p) := by
  by_cases h1 : p.bounces_remaining > 0
  · by_cases h2 : p.rect.x < 0
    · simp [bounceX, h1, h2]
    · by_cases h3 : p.rect.x + p.rect.width > (W : ℚ)
      · simp [bounceX, h1, h2, h3]
      · simp [bounceX, h1, h2, h3]
  · simp [bounceX, h1]

theorem bounceY_spec (H : Int) (p : Projectile) :
    (bounceY H p).1.bounces_remaining =
        p.bounces_remaining - (if (bounceY H p).2 then 1 else 0) ∧
      (bounceY H p).1.velocity.y =
        (if (bounceY H p).2 then -p.velocity.y else p.velocity.y) ∧
      (bounceY H p).1.velocity.x = p.velocity.x ∧
      ((bounceY H p).2 = true → 0 < p.bounces_remaining) ∧
      (bounceY H p).1.rect.x = p.rect.x ∧
      (bounceY H p).1.rect.width = p.rect.width ∧
      (bounceY H p).1.rect.height = p.rect.height ∧
      ((bounceY H p).2 = false → (bounceY H p).1 = p) := by
  by_cases h1 : p.bounces_remaining > 0
  · by_cases h2 : p.rect.y < 0
    · simp [bounceY, h1, h2]
    · by_cases h3 : p.rect.y + p.rect.height > (H : ℚ)
      · simp [bounceY, h1, h2, h3]
      · simp [bounceY, h1, h2, h3]
  · simp [bounceY, h1]

theorem wrapProjectile_keeps (W H : Int) (p : Projectile) :
    (wrapProjectile W H p).bounces_remaining = p.bounces_remaining ∧
      (wrapProjectile W H p).velocity = p.velocity ∧
      (wrapProjectile W H p).active = p.active ∧
      (wrapProjectile W H p).is_player_shot = p.is_player_shot := by
  unfold wrapProjectile
  exact ⟨rfl, rfl, rfl, rfl⟩

theorem boundaryHandling_flags (W H : Int) (p : Projectile) :
    (boundaryHandling W H p).2.1 = (bounceX W p).2 ∧
      (boundaryHandling W H p).2.2 = (bounceY H (bounceX W p).1).2 := by
  unfold boundaryHandling
  exact ⟨rfl, rfl⟩

theorem boundaryHandling_counter (W H : Int) (p : Projectile) :
    (boundaryHandling W H p).1.bounces_remaining =
      p.bounces_remaining - (bounceCount W H p : Int) := by
  obtain ⟨hx, -⟩ := bounceX_spec W p
  obtain ⟨hy, -⟩ := bounceY_spec H (bounceX W p).1
  have hb : (boundaryHandling W H p).1.bounces_remaining =
      (bounceY H (bounceX W p).1).1.bounces_remaining := by
    unfold boundaryHandling
    simp only []
    split_ifs
    · exact (wrapProjectile_keeps W H _).1
    · rfl
  unfold bounceCount
  rw [(boundaryHandling_flags W H p).1, (boundaryHandling_flags W H p).2, hb, hy, hx]
  split_ifs <;> (simp; try ring)

theorem boundaryHandling_velocity (W H : Int) (p : Projectile) :
    (boundaryHandling W H p).1.velocity.x =
        (if (boundaryHandling W H p).2.1 then -p.velocity.x else p.velocity.x) ∧
      (boundaryHandling W H p).1.velocity.y =
        (if (boundaryHandling W H p).2.2 then -p.velocity.y else p.velocity.y) := by
  obtain ⟨-, hx1, hx2, -⟩ := bounceX_spec W p
  obtain ⟨-, hy1, hy2, -⟩ := bounceY_spec H (bounceX W p).1
  have hv : (boundaryHandling W H p).1.velocity =
      (bounceY H (bounceX W p).1).1.velocity := by
    unfold boundaryHandling
    simp only []
    split_ifs
    · exact (wrapProjectile_keeps W H _).2.1
    · rfl
  rw [(boundaryHandling_flags W H p).1, (boundaryHandling_flags W H p).2, hv, hy1, hy2, hx1,
    hx2]
  exact ⟨rfl, rfl⟩

theorem boundaryHandling_positive_of_flag (W H : Int) (p : Projectile) :
    ((boundaryHandling W H p).2.1 = true → 0 < p.bounces_remaining) ∧
      ((boundaryHandling W H p).2.2 = true → 1 ≤ p.bounces_remaining ∧
        ((boundaryHandling W H p).2.1 = true → 2 ≤ p.bounces_remaining)) := by
  obtain ⟨hx, -, -, hpx, -⟩ := bounceX_spec W p
  obtain ⟨-, -, -, hpy, -⟩ := bounceY_spec H (bounceX W p).1
  rw [(boundaryHandling_flags W H p).1, (boundaryHandling_flags W H p).2]
  refine ⟨hpx, fun hy => ?_⟩
  have h1 := hpy hy
  rw [hx] at h1
  constructor
  · split_ifs at h1 <;> omega
  · intro hbx
    rw [if_pos hbx] at h1
    omega

theorem bounceCount_le (W H : Int) (p : Projectile) (h0 : 0 ≤ p.bounces_remaining) :
    (bounceCount W H p : Int) ≤ p.bounces_remaining := by
  obtain ⟨h1, h2⟩ := boundaryHandling_positive_of_flag W H p
  unfold bounceCount
  by_cases hx : (boundaryHandling W H p).2.1 = true <;>
    by_cases hy : (boundaryHandling W H p).2.2 = true
  · have := (h2 hy).2 hx
    simp [hx, hy]
    omega
  · have := h1 hx
    simp [hx, hy]
    omega
  · have := (h2 hy).1
    simp [hx, hy]
    omega
  · simp [hx, hy]
    exact h0

theorem flight_counter (arenas : List (Int × Int)) :
    ∀ p : Projectile, 0 ≤ p.bounces_remaining →
      (flight arenas p).bounces_remaining =
          p.bounces_remaining - (flightBounces arenas p : Int) ∧
        0 ≤ (flight arenas p).bounces_remaining := by
  induction arenas with
  | nil =>
    intro p h0
    simp [flight, flightBounces, h0]
  | cons arena rest ih =>
    intro p h0
    have hm : (moveProjectile p).bounces_remaining = p.bounces_remaining := rfl
    have hc := boundaryHandling_counter arena.1 arena.2 (moveProjectile p)
    have hle := bounceCount_le arena.1 arena.2 (moveProjectile p) (by rw [hm]; exact h0)
    rw [hm] at hc hle
    have h1 : 0 ≤ (boundaryHandling arena.1 arena.2 (moveProjectile p)).1.bounces_remaining := by
      rw [hc]
      omega
    obtain ⟨ih1, ih2⟩ := ih _ h1
    simp only [flight, flightBounces]
    refine ⟨?_, ih2⟩
    rw [ih1, hc]
    push_cast
    ring

theorem flight_exhausted (arenas : List (Int × Int)) :
    ∀ p : Projectile, p.bounces_remaining = 0 →
      (flight arenas p).velocity = p.velocity ∧ flightBounces arenas p = 0 ∧
        (flight arenas p).bounces_remaining = 0 := by
  induction arenas with
  | nil =>
    intro p h0
    simp [flight, flightBounces, h0]
  | cons arena rest ih =>
    intro p h0
    have hm : (moveProjectile p).bounces_remaining = 0 := h0
    have hle := bounceCount_le arena.1 arena.2 (moveProjectile p) (le_of_eq hm.symm)
    rw [hm] at hle
    have hz : bounceCount arena.1 arena.2 (moveProjectile p) = 0 := by omega
    have hc := boundaryHandling_counter arena.1 arena.2 (moveProjectile p)
    rw [hm, hz] at hc
    obtain ⟨hvx, hvy⟩ := boundaryHandling_velocity arena.1 arena.2 (moveProjectile p)
    have hfx : (boundaryHandling arena.1 arena.2 (moveProjectile p)).2.1 = false := by
      unfold bounceCount at hz
      by_contra hne
      simp at hne
      simp [hne] at hz
    have hfy : (boundaryHandling arena.1 arena.2 (moveProjectile p)).2.2 = false := by
      unfold bounceCount at hz
      by_contra hne
      simp at hne
      simp [hne] at hz
    rw [hfx] at hvx
    rw [hfy] at hvy
    have hv : (boundaryHandling arena.1 arena.2 (moveProjectile p)).1.velocity = p.velocity := by
      have e : (moveProjectile p).velocity = p.velocity := rfl
      rw [← e]
      cases hb : (boundaryHandling arena.1 arena.2 (moveProjectile p)).1.velocity
      cases hq : (moveProjectile p).velocity
      rw [hb] at hvx hvy
      rw [hq] at hvx hvy
      simp at hvx hvy
      rw [hvx, hvy]
    obtain ⟨i1, i2, i3⟩ := ih _ (by simpa using hc)
    simp only [flight, flightBounces]
    exact ⟨i1.trans hv, by rw [hz, i2], i3⟩

theorem collisions_keep_projectile (m : MathEnv) (io : Frame) (s : Game × Projectile) :
    ((hitObstacle io s).2.bounces_remaining = s.2.bounces_remaining ∧
        (hitObstacle io s).2.velocity = s.2.velocity ∧
        (hitObstacle io s).2.rect = s.2.rect ∧
        (hitObstacle io s).2.is_player_shot = s.2.is_player_shot) ∧
      ((hitPlayer io s).2.bounces_remaining = s.2.bounces_remaining ∧
        (hitPlayer io s).2.velocity = s.2.velocity ∧
        (hitPlayer io s).2.rect = s.2.rect ∧
        (hitPlayer io s).2.is_player_shot = s.2.is_player_shot) ∧
      ((dashThrough io s).2.bounces_remaining = s.2.bounces_remaining ∧
        (dashThrough io s).2.velocity = s.2.velocity ∧
        (dashThrough io s).2.rect = s.2.rect ∧
        (dashThrough io s).2.is_player_shot = s.2.is_player_shot) ∧
      ((nearMiss m io s).2.bounces_remaining = s.2.bounces_remaining ∧
        (nearMiss m io s).2.velocity = s.2.velocity ∧
        (nearMiss m io s).2.rect = s.2.rect ∧
        (nearMiss m io s).2.is_player_shot = s.2.is_player_shot) := by
  refine ⟨?_, ?_, ?_, ?_⟩
  · unfold hitObstacle
    simp only []
    split_ifs <;> exact ⟨rfl, rfl, rfl, rfl⟩
  · unfold hitPlayer
    simp only []
    split_ifs <;> exact ⟨rfl, rfl, rfl, rfl⟩
  · unfold dashThrough
    simp only []
    split_ifs <;> exact ⟨rfl, rfl, rfl, rfl⟩
  · unfold nearMiss
    simp only []
    split_ifs <;> exact ⟨rfl, rfl, rfl, rfl⟩

theorem projectileEffects_projectile (m : MathEnv) (io : Frame) (g : Game) (p : Projectile) :
    (projectileEffects m io g p).2.bounces_remaining =
        (boundaryHandling g.SCREEN_WIDTH g.SCREEN_HEIGHT p).1.bounces_remaining ∧
      (projectileEffects m io g p).2.velocity =
        (boundaryHandling g.SCREEN_WIDTH g.SCREEN_HEIGHT p).1.velocity ∧
      (projectileEffects m io g p).2.rect =
        (boundaryHandling g.SCREEN_WIDTH g.SCREEN_HEIGHT p).1.rect ∧
      (projectileEffects m io g p).2.is_player_shot =
        (boundaryHandling g.SCREEN_WIDTH g.SCREEN_HEIGHT p).1.is_player_shot := by
  unfold projectileEffects
  simp only []
  obtain ⟨-, -, -, h4⟩ := collisions_keep_projectile m io
    (dashThrough io (hitPlayer io (hitObstacle io
      (g, (boundaryHandling g.SCREEN_WIDTH g.SCREEN_HEIGHT p).1))))
  obtain ⟨-, -, h3, -⟩ := collisions_keep_projectile m io
    (hitPlayer io (hitObstacle io (g, (boundaryHandling g.SCREEN_WIDTH g.SCREEN_HEIGHT p).1)))
  obtain ⟨-, h2, -, -⟩ := collisions_keep_projectile m io
    (hitObstacle io (g, (boundaryHandling g.SCREEN_WIDTH g.SCREEN_HEIGHT p).1))
  obtain ⟨h1, -, -, -⟩ := collisions_keep_projectile m io
    (g, (boundaryHandling g.SCREEN_WIDTH g.SCREEN_HEIGHT p).1)
  exact ⟨h4.1.trans (h3.1.trans (h2.1.trans h1.1)),
    h4.2.1.trans (h3.2.1.trans (h2.2.1.trans h1.2.1)),
    h4.2.2.1.trans (h3.2.2.1.trans (h2.2.2.1.trans h1.2.2.1)),
    h4.2.2.2.trans (h3.2.2.2.trans (h2.2.2.2.trans h1.2.2.2))⟩

theorem stepProjectile_counter (m : MathEnv) (io : Frame) (g : Game) (p : Projectile) :
    (stepProjectile m io g p).2.bounces_remaining = p.bounces_remaining ∧
        (stepProjectile m io g p).2.velocity = p.velocity ∨
      (stepProjectile m io g p).2.bounces_remaining =
          (boundaryHandling g.SCREEN_WIDTH g.SCREEN_HEIGHT
            (moveProjectile p)).1.bounces_remaining ∧
        (stepProjectile m io g p).2.velocity =
          (boundaryHandling g.SCREEN_WIDTH g.SCREEN_HEIGHT (moveProjectile p)).1.velocity := by
  have he := projectileEffects_projectile m io g (moveProjectile p)
  unfold stepProjectile
  split_ifs with ha
  · simp only []
    split_ifs
    · split
      · exact Or.inl ⟨rfl, rfl⟩
      · exact Or.inr ⟨he.1, he.2.1⟩
    · exact Or.inr ⟨he.1, he.2.1⟩
  · exact Or.inl ⟨rfl, rfl⟩

theorem boundaryHandling_exhausted (W H : Int) (p : Projectile)
    (h0 : p.bounces_remaining = 0) :
    (boundaryHandling W H p).2.1 = false ∧ (boundaryHandling W H p).2.2 = false ∧
      (boundaryHandling W H p).1.velocity = p.velocity ∧
      (boundaryHandling W H p).1.bounces_remaining = 0 := by
  obtain ⟨h1, h2⟩ := boundaryHandling_positive_of_flag W H p
  have hfx : (boundaryHandling W H p).2.1 = false := by
    by_contra hne
    simp at hne
    have := h1 hne
    omega
  have hfy : (boundaryHandling W H p).2.2 = false := by
    by_contra hne
    simp at hne
    have := (h2 hne).1
    omega
  obtain ⟨hvx, hvy⟩ := boundaryHandling_velocity W H p
  rw [hfx] at hvx
  rw [hfy] at hvy
  have hc := boundaryHandling_counter W H p
  unfold bounceCount at hc
  rw [hfx, hfy, h0] at hc
  refine ⟨hfx, hfy, ?_, by simpa using hc⟩
  cases hb : (boundaryHandling W H p).1.velocity
  cases hq : p.velocity
  rw [hb] at hvx hvy
  rw [hq] at hvx hvy
  simp at hvx hvy
  rw [hvx, hvy]

/-- C5: for every projectile, one pass of the boundary handling (and one whole
pass of the loop body) leaves `bounces_remaining` at most where it was and
does not make a non-negative counter negative; a reflection on an axis is
exactly a set bounce flag, and the counter drops by the number of set flags; a
shot is spawned with the counter at 5, so over any number of ticks a
projectile reflects at most 5 times; and once the counter is 0 no flag is set
and the velocity is unchanged in every later tick. -/
theorem C5_bounce_counter (m : MathEnv) (io : Frame) (g : Game) (W H : Int) (p : Projectile)
    (arenas : List (Int × Int)) :
    (boundaryHandling W H p).1.bounces_remaining ≤ p.bounces_remaining ∧
    (0 ≤ p.bounces_remaining → 0 ≤ (boundaryHandling W H p).1.bounces_remaining) ∧
    (stepProjectile m io g p).2.bounces_remaining ≤ p.bounces_remaining ∧
    (0 ≤ p.bounces_remaining → 0 ≤ (stepProjectile m io g p).2.bounces_remaining) ∧
    (boundaryHandling W H p).1.bounces_remaining =
      p.bounces_remaining - (bounceCount W H p : Int) ∧
    (boundaryHandling W H p).1.velocity.x =
      (if (boundaryHandling W H p).2.1 then -p.velocity.x else p.velocity.x) ∧
    (boundaryHandling W H p).1.velocity.y =
      (if (boundaryHandling W H p).2.2 then -p.velocity.y else p.velocity.y) ∧
    (∀ q ∈ (playerShoot m io g).projectiles, q ∈ g.projectiles ∨ q.bounces_remaining = 5) ∧
    (∀ q ∈ (obstacleShoot m io g).projectiles, q ∈ g.projectiles ∨ q.bounces_remaining = 5) ∧
    (p.bounces_remaining = 5 →
      flightBounces arenas p ≤ 5 ∧ 0 ≤ (flight arenas p).bounces_remaining ∧
        (flight arenas p).bounces_remaining = 5 - (flightBounces arenas p : Int)) ∧
    (p.bounces_remaining = 0 →
      (boundaryHandling W H p).2.1 = false ∧ (boundaryHandling W H p).2.2 = false ∧
        (boundaryHandling W H p).1.velocity = p.velocity ∧
        (boundaryHandling W H p).1.bounces_remaining = 0 ∧
        (stepProjectile m io g p).2.velocity = p.velocity ∧
        (stepProjectile m io g p).2.bounces_remaining = 0 ∧
        (flight arenas p).velocity = p.velocity ∧ flightBounces arenas p = 0 ∧
        (flight arenas p).bounces_remaining = 0) := by
  have hc := boundaryHandling_counter W H p
  have hmono : ∀ (W1 H1 : Int) (q : Projectile),
      (boundaryHandling W1 H1 q).1.bounces_remaining ≤ q.bounces_remaining ∧
        (0 ≤ q.bounces_remaining → 0 ≤ (boundaryHandling W1 H1 q).1.bounces_remaining) := by
    intro W1 H1 q
    have h1 := boundaryHandling_counter W1 H1 q
    refine ⟨by rw [h1]; omega, fun h0 => ?_⟩
    have h2 := bounceCount_le W1 H1 q h0
    rw [h1]
    omega
  have hm : (moveProjectile p).bounces_remaining = p.bounces_remaining := rfl
  have hmv : (moveProjectile p).velocity = p.velocity := rfl
  have hstep := stepProjectile_counter m io g p
  have hgm := hmono g.SCREEN_WIDTH g.SCREEN_HEIGHT (moveProjectile p)
  rw [hm] at hgm
  refine ⟨(hmono W H p).1, (hmono W H p).2, ?_, ?_, hc, (boundaryHandling_velocity W H p).1,
    (boundaryHandling_velocity W H p).2, ?_, ?_, ?_, ?_⟩
  · rcases hstep with h | h
    · rw [h.1]
    · rw [h.1]
      exact hgm.1
  · intro h0
    rcases hstep with h | h
    · rw [h.1]
      exact h0
    · rw [h.1]
      exact hgm.2 h0
  · intro q hq
    unfold playerShoot at hq
    simp only [] at hq
    split_ifs at hq
    · simp only [List.mem_append, List.mem_singleton] at hq
      rcases hq with h | h
      · exact Or.inl h
      · right
        rw [h]
        rfl
    · exact Or.inl hq
    · exact Or.inl hq
  · intro q hq
    unfold obstacleShoot at hq
    simp only [] at hq
    split_ifs at hq
    · simp only [List.mem_append, List.mem_singleton] at hq
      rcases hq with h | h
      · exact Or.inl h
      · right
        rw [h]
        rfl
    · exact Or.inl hq
  · intro h5
    obtain ⟨f1, f2⟩ := flight_counter arenas p (by omega)
    rw [h5] at f1
    refine ⟨by omega, f2, f1⟩
  · intro h0
    obtain ⟨e1, e2, e3, e4⟩ := boundaryHandling_exhausted W H p h0
    obtain ⟨g1, g2, g3, g4⟩ := boundaryHandling_exhausted g.SCREEN_WIDTH g.SCREEN_HEIGHT
      (moveProjectile p) (hm.trans h0)
    obtain ⟨l1, l2, l3⟩ := flight_exhausted arenas p h0
    refine ⟨e1, e2, e3, e4, ?_, ?_, l1, l2, l3⟩
    · rcases hstep with h | h
      · exact h.2
      · rw [h.2, g3, hmv]
    · rcases hstep with h | h
      · rw [h.1, h0]
      · rw [h.1, g4]

/-- C5, at a concrete input: a shot spawned with 5 bounces that crosses the
side edges of a 100 by 100 arena again and again reflects on its first five
crossings and not on the sixth: after 12 ticks it has reflected 5 times, its
counter is 0, and its last crossing was a wrap. -/
theorem C5_witness_five_bounces :
    fastShot.bounces_remaining = 5 ∧
      flightBounces (List.replicate 12 (100, 100)) fastShot = 5 ∧
      (flight (List.replicate 12 (100, 100)) fastShot).bounces_remaining = 0 ∧
      flightBounces (List.replicate 10 (100, 100)) fastShot = 5 ∧
      (flight (List.replicate 10 (100, 100)) fastShot).rect.x = 30 ∧
      (flight (List.replicate 11 (100, 100)) fastShot).rect.x = 100 ∧
      (flight (List.replicate 11 (100, 100)) fastShot).velocity =
        (flight (List.replicate 10 (100, 100)) fastShot).velocity := by
  have h := (C5_bounce_counter sampleMath (frameAt 0) sampleMatch 100 100 fastShot
    (List.replicate 12 (100, 100))).2.2.2.2.2.2.2.2.2.1 rfl
  have hb : flightBounces (List.replicate 12 (100, 100)) fastShot = 5 := by decide!
  refine ⟨rfl, hb, ?_, by decide!, by decide!, by decide!, by decide!⟩
  rw [h.2.2, hb]
  norm_num

/-! ### Bounce or wrap -/

theorem boundaryHandling_rect (W H : Int) (p : Projectile) :
    ((boundaryHandling W H p).2.1 = true ∨ (boundaryHandling W H p).2.2 = true →
      (boundaryHandling W H p).1 = (bounceY H (bounceX W p).1).1) ∧
    ((boundaryHandling W H p).1 ≠ (bounceY H (bounceX W p).1).1 →
      p.bounces_remaining ≤ 0 ∧ (boundaryHandling W H p).2.1 = false ∧
        (boundaryHandling W H p).2.2 = false ∧
        (boundaryHandling W H p).1 = wrapProjectile W H p) := by
  obtain ⟨-, -, -, -, -, -, -, hx⟩ := bounceX_spec W p
  obtain ⟨-, -, -, -, -, -, -, hy⟩ := bounceY_spec H (bounceX W p).1
  rw [(boundaryHandling_flags W H p).1, (boundaryHandling_flags W H p).2]
  have hval : (boundaryHandling W H p).1 =
      if (bounceY H (bounceX W p).1).1.bounces_remaining ≤ 0 ∧ (bounceX W p).2 = false ∧
          (bounceY H (bounceX W p).1).2 = false then
        wrapProjectile W H (bounceY H (bounceX W p).1).1
      else (bounceY H (bounceX W p).1).1 := by
    unfold boundaryHandling
    rfl
  constructor
  · intro hf
    rw [hval, if_neg]
    rintro ⟨-, h1, h2⟩
    rcases hf with h | h
    · rw [h1] at h
      cases h
    · rw [h2] at h
      cases h
  · intro hne
    by_cases hw : (bounceY H (bounceX W p).1).1.bounces_remaining ≤ 0 ∧
        (bounceX W p).2 = false ∧ (bounceY H (bounceX W p).1).2 = false
    · obtain ⟨h0, h1, h2⟩ := hw
      have e3 : (bounceY H (bounceX W p).1).1 = p := (hy h2).trans (hx h1)
      rw [hval, if_pos ⟨h0, h1, h2⟩, e3]
      rw [e3] at h0
      exact ⟨h0, h1, h2, rfl⟩
    · rw [hval, if_neg hw] at hne
      exact absurd rfl hne

/-- C6: in one pass of the bounce-then-wrap policy the counter drops by exactly
the number of axes that bounced; a projectile that is outside on both axes with
at least 2 bounces left bounces on both, with both velocity components negated
and the counter down by 2; a relocation of a coordinate on an axis that did not
bounce is a wrap (to the screen extent or to minus the projectile's size) and
happens only when the counter was not positive at the start of the pass, so 0
for the non-negative counters of the game, and no axis bounced; a pass in which
an axis bounced only clamps: it leaves the coordinate of the other axis as it
was unless that axis bounced too. -/
theorem C6_bounce_or_wrap (W H : Int) (p : Projectile) :
    (boundaryHandling W H p).1.bounces_remaining =
      p.bounces_remaining - (bounceCount W H p : Int) ∧
    (2 ≤ p.bounces_remaining → (p.rect.x < 0 ∨ p.rect.x + p.rect.width > (W : ℚ)) →
      (p.rect.y < 0 ∨ p.rect.y + p.rect.height > (H : ℚ)) →
      (boundaryHandling W H p).2.1 = true ∧ (boundaryHandling W H p).2.2 = true ∧
        bounceCount W H p = 2 ∧
        (boundaryHandling W H p).1.bounces_remaining = p.bounces_remaining - 2 ∧
        (boundaryHandling W H p).1.velocity = ⟨-p.velocity.x, -p.velocity.y⟩) ∧
    ((boundaryHandling W H p).2.1 = false →
      (boundaryHandling W H p).1.rect.x ≠ p.rect.x →
      p.bounces_remaining ≤ 0 ∧ (0 ≤ p.bounces_remaining → p.bounces_remaining = 0) ∧
        (boundaryHandling W H p).2.2 = false ∧
        ((boundaryHandling W H p).1.rect.x = (W : ℚ) ∨
          (boundaryHandling W H p).1.rect.x = -p.rect.width)) ∧
    ((boundaryHandling W H p).2.2 = false →
      (boundaryHandling W H p).1.rect.y ≠ p.rect.y →
      p.bounces_remaining ≤ 0 ∧ (0 ≤ p.bounces_remaining → p.bounces_remaining = 0) ∧
        (boundaryHandling W H p).2.1 = false ∧
        ((boundaryHandling W H p).1.rect.y = (H : ℚ) ∨
          (boundaryHandling W H p).1.rect.y = -p.rect.height)) ∧
    ((boundaryHandling W H p).2.1 = true →
      ((boundaryHandling W H p).1.rect.x = 0 ∨
        (boundaryHandling W H p).1.rect.x = (W : ℚ) - p.rect.width) ∧
      ((boundaryHandling W H p).2.2 = false →
        (boundaryHandling W H p).1.rect.y = p.rect.y)) ∧
    ((boundaryHandling W H p).2.2 = true →
      ((boundaryHandling W H p).1.rect.y = 0 ∨
        (boundaryHandling W H p).1.rect.y = (H : ℚ) - p.rect.height) ∧
      ((boundaryHandling W H p).2.1 = false →
        (boundaryHandling W H p).1.rect.x = p.rect.x)) := by
  obtain ⟨hclamp, hwrap⟩ := boundaryHandling_rect W H p
  obtain ⟨hxb, hxvx, hxvy, hxpos, hxy, hxw, hxh, hxid⟩ := bounceX_spec W p
  obtain ⟨hyb, hyvy, hyvx, hypos, hyx, hyw, hyh, hyid⟩ := bounceY_spec H (bounceX W p).1
  obtain ⟨hfx, hfy⟩ := boundaryHandling_flags W H p
  refine ⟨boundaryHandling_counter W H p, ?_, ?_, ?_, ?_, ?_⟩
  · intro h2 hox hoy
    have hbx : (bounceX W p).2 = true := by
      unfold bounceX
      rw [if_pos (by omega)]
      split_ifs with c1 c2
      · rfl
      · rfl
      · rcases hox with h | h
        · exact absurd h c1
        · exact absurd h c2
    have hb1 : (bounceX W p).1.bounces_remaining = p.bounces_remaining - 1 := by
      rw [hxb, if_pos hbx]
    have hby : (bounceY H (bounceX W p).1).2 = true := by
      unfold bounceY
      rw [if_pos (by rw [hb1]; omega), hxy, hxh]
      split_ifs with c1 c2
      · rfl
      · rfl
      · rcases hoy with h | h
        · exact absurd h c1
        · exact absurd h c2
    have hcount : bounceCount W H p = 2 := by
      unfold bounceCount
      rw [hfx, hfy, if_pos hbx, if_pos hby]
    have hv := boundaryHandling_velocity W H p
    rw [hfx, hfy, if_pos hbx, if_pos hby] at hv
    refine ⟨hfx.trans hbx, hfy.trans hby, hcount, ?_, ?_⟩
    · rw [boundaryHandling_counter W H p, hcount]
      norm_num
    · cases hb : (boundaryHandling W H p).1.velocity
      rw [hb] at hv
      simp at hv
      rw [hv.1, hv.2]
  · intro hx0 hne
    rw [hfx] at hx0
    have e1 := hxid hx0
    have hmoved : (boundaryHandling W H p).1 ≠ (bounceY H (bounceX W p).1).1 := by
      intro he
      apply hne
      rw [he, hyx, e1]
    obtain ⟨w1, w2, w3, w4⟩ := hwrap hmoved
    refine ⟨w1, fun h0 => le_antisymm w1 h0, w3, ?_⟩
    rw [w4] at hne ⊢
    unfold wrapProjectile at hne ⊢
    simp only [] at hne ⊢
    split_ifs at hne ⊢ with c1 c2
    · exact Or.inl rfl
    · exact Or.inr rfl
    · exact absurd rfl hne
  · intro hy0 hne
    rw [hfy] at hy0
    have e2 := hyid hy0
    have hmoved : (boundaryHandling W H p).1 ≠ (bounceY H (bounceX W p).1).1 := by
      intro he
      apply hne
      rw [he, e2, hxy]
    obtain ⟨w1, w2, w3, w4⟩ := hwrap hmoved
    refine ⟨w1, fun h0 => le_antisymm w1 h0, w2, ?_⟩
    rw [w4] at hne ⊢
    unfold wrapProjectile at hne ⊢
    simp only [] at hne ⊢
    split_ifs at hne ⊢ with c1 c2
    · exact Or.inl rfl
    · exact Or.inr rfl
    · exact absurd rfl hne
  · intro hx1
    have hb := hclamp (Or.inl hx1)
    rw [hfx] at hx1
    rw [hfy]
    constructor
    · rw [hb, hyx]
      unfold bounceX at hx1 ⊢
      split_ifs at hx1 ⊢ with c0 c1 c2
      · exact Or.inl rfl
      · exact Or.inr rfl
    · intro hy0
      rw [hb, hyid hy0, hxy]
  · intro hy1
    have hb := hclamp (Or.inr hy1)
    rw [hfy] at hy1
    rw [hfx]
    constructor
    · rw [hb]
      have hh : (bounceX W p).1.rect.height = p.rect.height := hxh
      unfold bounceY at hy1 ⊢
      split_ifs at hy1 ⊢ with c0 c1 c2
      · exact Or.inl rfl
      · right
        simp only []
        rw [hh]
    · intro hx0
      rw [hb, hyx, hxid hx0]

/-- C6, at concrete inputs in a 100 by 100 arena: a projectile outside through
the corner with 5 bounces left bounces on both axes (counter 3, both velocity
components negated, clamped to the corner); with 1 bounce left it bounces on x
only and is not wrapped in that pass; a projectile with no bounce left beyond
the left edge is wrapped to the right edge. -/
theorem C6_witness_corner :
    ((boundaryHandling 100 100 (cornerShot 5)).2.1 = true ∧
      (boundaryHandling 100 100 (cornerShot 5)).2.2 = true ∧
      (boundaryHandling 100 100 (cornerShot 5)).1.bounces_remaining = 3 ∧
      (boundaryHandling 100 100 (cornerShot 5)).1.velocity = ⟨1, 1⟩ ∧
      (boundaryHandling 100 100 (cornerShot 5)).1.rect = ⟨0, 0, 10, 10⟩) ∧
    (boundaryHandling 100 100 (cornerShot 1)) =
      ({ (cornerShot 1) with
          rect := ⟨0, -5, 10, 10⟩
          velocity := ⟨1, -1⟩
          bounces_remaining := 0 }, true, false) ∧
    (boundaryHandling 100 100 spentShot) =
      ({ spentShot with rect := ⟨100, 50, 10, 10⟩ }, false, false) := by
  have h := (C6_bounce_or_wrap 100 100 (cornerShot 5)).2.1 (by decide!)
    (Or.inl (by decide!)) (Or.inl (by decide!))
  refine ⟨⟨h.1, h.2.1, ?_, ?_, by decide!⟩, by decide!, by decide!⟩
  · rw [h.2.2.2.1]
    decide!
  · rw [h.2.2.2.2]
    decide!

/-! ### Obstacle AI -/

theorem shortestDelta_spec (a b c : ℚ) :
    (shortestDelta a b c = a ∨ shortestDelta a b c = b ∨ shortestDelta a b c = c) ∧
      |shortestDelta a b c| = min |a| (min |b| |c|) := by
  unfold shortestDelta
  simp only []
  by_cases h1 : |b| < |a|
  · rw [if_pos h1]
    by_cases h2 : |c| < |b|
    · rw [if_pos h2]
      refine ⟨Or.inr (Or.inr rfl), ?_⟩
      rw [min_eq_right (le_of_lt h2), min_eq_right (le_of_lt (lt_trans h2 h1))]
    · rw [if_neg h2]
      refine ⟨Or.inr (Or.inl rfl), ?_⟩
      rw [min_eq_left (not_lt.mp h2), min_eq_right (le_of_lt h1)]
  · rw [if_neg h1]
    by_cases h2 : |c| < |a|
    · rw [if_pos h2]
      refine ⟨Or.inr (Or.inr rfl), ?_⟩
      rw [min_eq_right (le_trans (le_of_lt h2) (not_lt.mp h1)), min_eq_right (le_of_lt h2)]
    · rw [if_neg h2]
      refine ⟨Or.inl rfl, ?_⟩
      rw [min_eq_left (le_min (not_lt.mp h1) (not_lt.mp h2))]

/-- C7: when the obstacle AI recomputes its target (the reaction timer reaches
the reaction delay), then on each axis the target is the obstacle coordinate
plus a delta that is one of the three candidates direct `p - o`, wrap-left/up
`(p + extent) - o`, wrap-right/down `p - (o + extent)`, where `p` is the
player coordinate predicted 30 frames ahead, and the absolute value of the
delta is the least of the three absolute values. -/
theorem C7_ai_target_shortest (g : Game)
    (hdue : g.ai_reaction_timer + 1 ≥ g.ai_reaction_delay) :
    ∃ dx dy : ℚ,
      (dx = (g.player_x + g.player_vx * 30) - g.obstacle_x ∨
        dx = ((g.player_x + g.player_vx * 30) + (g.SCREEN_WIDTH : ℚ)) - g.obstacle_x ∨
        dx = (g.player_x + g.player_vx * 30) - (g.obstacle_x + (g.SCREEN_WIDTH : ℚ))) ∧
      |dx| = min |(g.player_x + g.player_vx * 30) - g.obstacle_x|
        (min |((g.player_x + g.player_vx * 30) + (g.SCREEN_WIDTH : ℚ)) - g.obstacle_x|
          |(g.player_x + g.player_vx * 30) - (g.obstacle_x + (g.SCREEN_WIDTH : ℚ))|) ∧
      (updateAiTarget g).ai_target_x = g.obstacle_x + dx ∧
      (dy = (g.player_y + g.player_vy * 30) - g.obstacle_y ∨
        dy = ((g.player_y + g.player_vy * 30) + (g.SCREEN_HEIGHT : ℚ)) - g.obstacle_y ∨
        dy = (g.player_y + g.player_vy * 30) - (g.obstacle_y + (g.SCREEN_HEIGHT : ℚ))) ∧
      |dy| = min |(g.player_y + g.player_vy * 30) - g.obstacle_y|
        (min |((g.player_y + g.player_vy * 30) + (g.SCREEN_HEIGHT : ℚ)) - g.obstacle_y|
          |(g.player_y + g.player_vy * 30) - (g.obstacle_y + (g.SCREEN_HEIGHT : ℚ))|) ∧
      (updateAiTarget g).ai_target_y = g.obstacle_y + dy ∧
      (updateAiTarget g).ai_reaction_timer = 0 := by
  have hx := shortestDelta_spec ((g.player_x + g.player_vx * 30) - g.obstacle_x)
    (((g.player_x + g.player_vx * 30) + (g.SCREEN_WIDTH : ℚ)) - g.obstacle_x)
    ((g.player_x + g.player_vx * 30) - (g.obstacle_x + (g.SCREEN_WIDTH : ℚ)))
  have hy := shortestDelta_spec ((g.player_y + g.player_vy * 30) - g.obstacle_y)
    (((g.player_y + g.player_vy * 30) + (g.SCREEN_HEIGHT : ℚ)) - g.obstacle_y)
    ((g.player_y + g.player_vy * 30) - (g.obstacle_y + (g.SCREEN_HEIGHT : ℚ)))
  refine ⟨_, _, hx.1, hx.2, ?_, hy.1, hy.2, ?_, ?_⟩
  · unfold updateAiTarget
    simp only []
    rw [if_pos hdue]
    simp [prediction_frames]
  · unfold updateAiTarget
    simp only []
    rw [if_pos hdue]
    simp [prediction_frames]
  · unfold updateAiTarget
    simp only []
    rw [if_pos hdue]

/-- C7, at a concrete input: obstacle at `x = 5`, predicted player at
`x = 995`, arena width 1000: the candidates are 990, 1990 and -10, the chosen
delta is -10 and the target is `x = -5`. -/
theorem C7_witness_wrap_right :
    chaseAcrossEdge.ai_reaction_timer + 1 ≥ chaseAcrossEdge.ai_reaction_delay ∧
      (chaseAcrossEdge.player_x + chaseAcrossEdge.player_vx * 30) -
        chaseAcrossEdge.obstacle_x = 990 ∧
      ((chaseAcrossEdge.player_x + chaseAcrossEdge.player_vx * 30) +
        (chaseAcrossEdge.SCREEN_WIDTH : ℚ)) - chaseAcrossEdge.obstacle_x = 1990 ∧
      (chaseAcrossEdge.player_x + chaseAcrossEdge.player_vx * 30) -
        (chaseAcrossEdge.obstacle_x + (chaseAcrossEdge.SCREEN_WIDTH : ℚ)) = -10 ∧
      shortestDelta 990 1990 (-10) = -10 ∧
      (updateAiTarget chaseAcrossEdge).ai_target_x = -5 ∧
      ∃ dx dy : ℚ, |dx| = 10 ∧
        (updateAiTarget chaseAcrossEdge).ai_target_x = chaseAcrossEdge.obstacle_x + dx ∧
        (updateAiTarget chaseAcrossEdge).ai_target_y = chaseAcrossEdge.obstacle_y + dy := by
  refine ⟨by decide!, by decide!, by decide!, by decide!, by decide!, by decide!, ?_⟩
  obtain ⟨dx, dy, -, h2, h3, -, -, h6, -⟩ := C7_ai_target_shortest chaseAcrossEdge (by decide!)
  refine ⟨dx, dy, ?_, h3, h6⟩
  rw [h2]
  decide!

/-! ### Dodge-streak bonus -/

theorem afterBonus_keeps (io : Frame) (s : Game) :
    (checkTerminalCollision (hideAchievementPopup io (hideBonusMessage io s))).elapsed_time_s =
        s.elapsed_time_s ∧
      (checkTerminalCollision (hideAchievementPopup io
        (hideBonusMessage io s))).dodge_streak_start_time = s.dodge_streak_start_time ∧
      (checkTerminalCollision (hideAchievementPopup io
        (hideBonusMessage io s))).time_bonus_message_end_time =
        s.time_bonus_message_end_time ∧
      (checkTerminalCollision (hideAchievementPopup io
        (hideBonusMessage io s))).showing_time_bonus_message =
        (hideBonusMessage io s).showing_time_bonus_message := by
  have h3 : ∀ t : Game,
      (checkTerminalCollision t).elapsed_time_s = t.elapsed_time_s ∧
        (checkTerminalCollision t).dodge_streak_start_time = t.dodge_streak_start_time ∧
        (checkTerminalCollision t).time_bonus_message_end_time =
          t.time_bonus_message_end_time ∧
        (checkTerminalCollision t).showing_time_bonus_message =
          t.showing_time_bonus_message := by
    intro t
    unfold checkTerminalCollision
    simp only []
    split_ifs <;> exact ⟨rfl, rfl, rfl, rfl⟩
  have h2 : ∀ t : Game,
      (hideAchievementPopup io t).elapsed_time_s = t.elapsed_time_s ∧
        (hideAchievementPopup io t).dodge_streak_start_time = t.dodge_streak_start_time ∧
        (hideAchievementPopup io t).time_bonus_message_end_time =
          t.time_bonus_message_end_time ∧
        (hideAchievementPopup io t).showing_time_bonus_message =
          t.showing_time_bonus_message := by
    intro t
    unfold hideAchievementPopup
    split_ifs <;> exact ⟨rfl, rfl, rfl, rfl⟩
  have h1 : (hideBonusMessage io s).elapsed_time_s = s.elapsed_time_s ∧
      (hideBonusMessage io s).dodge_streak_start_time = s.dodge_streak_start_time ∧
      (hideBonusMessage io s).time_bonus_message_end_time = s.time_bonus_message_end_time := by
    unfold hideBonusMessage
    split_ifs <;> exact ⟨rfl, rfl, rfl⟩
  obtain ⟨a1, a2, a3, a4⟩ := h3 (hideAchievementPopup io (hideBonusMessage io s))
  obtain ⟨b1, b2, b3, b4⟩ := h2 (hideBonusMessage io s)
  exact ⟨a1.trans (b1.trans h1.1), a2.trans (b2.trans h1.2.1), a3.trans (b3.trans h1.2.2),
    a4.trans b4⟩

/-- C8: in a Playing tick at time `now` in which the player is not stunned when
the bonus block is reached: if `now - dodge_streak_start_time ≥ 10` there, then
at the end of the tick `elapsed_time_s` is its value at the bonus block plus
exactly 1, `dodge_streak_start_time` is `now`, and the bonus message is showing
with end time `now + 1`; otherwise the bonus block changes nothing, the elapsed
time, the streak start and the message end time end the tick as they reached
the block, and the message flag is not newly set. -/
theorem C8_dodge_streak_bonus (m : MathEnv) (io : Frame) (deltaTime : ℚ) (g : Game)
    (hp : g.current_game_state = GameState.GAME_STATE_PLAYING)
    (hns : (beforeBonus m io deltaTime g).player_is_stunned = false) :
    ∃ g1, updateGame m io deltaTime g = some g1 ∧
      (io.GetTime - (beforeBonus m io deltaTime g).dodge_streak_start_time ≥ 10 →
        g1.elapsed_time_s = (beforeBonus m io deltaTime g).elapsed_time_s + 1 ∧
        g1.dodge_streak_start_time = io.GetTime ∧
        g1.showing_time_bonus_message = true ∧
        g1.time_bonus_message_end_time = io.GetTime + 1) ∧
      (¬ io.GetTime - (beforeBonus m io deltaTime g).dodge_streak_start_time ≥ 10 →
        dodgeStreakBonus io (beforeBonus m io deltaTime g) = beforeBonus m io deltaTime g ∧
        g1.elapsed_time_s = (beforeBonus m io deltaTime g).elapsed_time_s ∧
        g1.dodge_streak_start_time =
          (beforeBonus m io deltaTime g).dodge_streak_start_time ∧
        g1.time_bonus_message_end_time =
          (beforeBonus m io deltaTime g).time_bonus_message_end_time ∧
        (g1.showing_time_bonus_message = true →
          (beforeBonus m io deltaTime g).showing_time_bonus_message = true)) := by
  refine ⟨playingTick m io deltaTime g, ?_, ?_, ?_⟩
  · unfold updateGame
    rw [hp]
  · intro hr
    have hb : dodgeStreakBonus io (beforeBonus m io deltaTime g) =
        { beforeBonus m io deltaTime g with
          elapsed_time_s := (beforeBonus m io deltaTime g).elapsed_time_s + DODGE_BONUS_AMOUNT
          dodge_streak_start_time := io.GetTime
          showing_time_bonus_message := true
          time_bonus_message_end_time := io.GetTime + TIME_BONUS_MESSAGE_DURATION } := by
      unfold dodgeStreakBonus
      rw [if_pos hns, if_pos (by simpa [DODGE_BONUS_INTERVAL] using hr)]
    obtain ⟨k1, k2, k3, k4⟩ := afterBonus_keeps io (dodgeStreakBonus io
      (beforeBonus m io deltaTime g))
    unfold playingTick beforeTerminalCheck
    rw [k1, k2, k3, k4, hb]
    refine ⟨by simp [DODGE_BONUS_AMOUNT], rfl, ?_, by simp [TIME_BONUS_MESSAGE_DURATION]⟩
    unfold hideBonusMessage
    rw [if_neg]
    rintro ⟨-, h2⟩
    simp only [TIME_BONUS_MESSAGE_DURATION] at h2
    linarith
  · intro hr
    have hb : dodgeStreakBonus io (beforeBonus m io deltaTime g) =
        beforeBonus m io deltaTime g := by
      unfold dodgeStreakBonus
      rw [if_pos hns, if_neg (by simpa [DODGE_BONUS_INTERVAL] using hr)]
    obtain ⟨k1, k2, k3, k4⟩ := afterBonus_keeps io (dodgeStreakBonus io
      (beforeBonus m io deltaTime g))
    unfold playingTick beforeTerminalCheck
    rw [k1, k2, k3, k4, hb]
    refine ⟨rfl, rfl, rfl, rfl, ?_⟩
    unfold hideBonusMessage
    split_ifs with hh
    · intro h
      cases h
    · exact fun h => h

/-- C8, at concrete inputs: with the streak started at `0` and no hit, the tick
at `now = 10` awards the bonus (elapsed time `10 + 1`, new streak start `10`);
a tick at `now = 4` in which projectiles hit sets the streak start to `4`, and
the tick at `now = 10` that follows awards no bonus (elapsed time `10`, streak
start still `4`). -/
theorem C8_witness_streak :
    sampleMatch.dodge_streak_start_time = 0 ∧
    (updateGame sampleMath (frameAt 10) (1 / 60) sampleMatch).map
      (fun g => (g.elapsed_time_s, g.dodge_streak_start_time, g.showing_time_bonus_message,
        g.time_bonus_message_end_time)) = some (11, 10, true, 11) ∧
    (playingTick sampleMath (frameAt 4) (1 / 60) stunShotsDue).dodge_streak_start_time = 4 ∧
    (updateGame sampleMath (frameAt 10) (1 / 60)
      (playingTick sampleMath (frameAt 4) (1 / 60) stunShotsDue)).map
      (fun g => (g.elapsed_time_s, g.dodge_streak_start_time, g.showing_time_bonus_message))
      = some (10, 4, false) := by
  obtain ⟨g1, h1, h2, -⟩ := C8_dodge_streak_bonus sampleMath (frameAt 10) (1 / 60) sampleMatch
    rfl (by decide!)
  have hb := h2 (by decide!)
  have he : (beforeBonus sampleMath (frameAt 10) (1 / 60) sampleMatch).elapsed_time_s = 10 := by
    decide!
  refine ⟨rfl, ?_, by decide!, by decide!⟩
  rw [h1, Option.map_some', hb.1, hb.2.1, hb.2.2.1, hb.2.2.2, he]
  norm_num [frameAt]

/-! ### Portal turn flag -/

theorem unlockAchievement_turn (io : Frame) (a u : String) (g : Game) :
    (unlockAchievement io a u g).next_projectile_portal_is_1 =
      g.next_projectile_portal_is_1 := by
  unfold unlockAchievement
  split
  · rfl
  · simp only []
    split_ifs <;> rfl

theorem projectileEffects_turn (m : MathEnv) (io : Frame) (g : Game) (p : Projectile) :
    (projectileEffects m io g p).1.next_projectile_portal_is_1 =
      g.next_projectile_portal_is_1 := by
  have h1 : ∀ s : Game × Projectile, (hitObstacle io s).1.next_projectile_portal_is_1 =
      s.1.next_projectile_portal_is_1 := by
    intro s
    unfold hitObstacle
    simp only []
    split_ifs
    · rw [unlockAchievement_turn]
    · rfl
    · rfl
    · rfl
  have h2 : ∀ s : Game × Projectile, (hitPlayer io s).1.next_projectile_portal_is_1 =
      s.1.next_projectile_portal_is_1 := by
    intro s
    unfold hitPlayer
    simp only []
    split_ifs <;> rfl
  have h3 : ∀ s : Game × Projectile, (dashThrough io s).1.next_projectile_portal_is_1 =
      s.1.next_projectile_portal_is_1 := by
    intro s
    unfold dashThrough
    simp only []
    split_ifs
    · exact unlockAchievement_turn io _ _ _
    · rfl
    · rfl
  have h4 : ∀ s : Game × Projectile, (nearMiss m io s).1.next_projectile_portal_is_1 =
      s.1.next_projectile_portal_is_1 := by
    intro s
    unfold nearMiss
    simp only []
    split_ifs
    · exact unlockAchievement_turn io _ _ _
    · rfl
    · rfl
  unfold projectileEffects
  simp only []
  rw [h4, h3, h2, h1]

theorem stepProjectile_hit_or_keep (m : MathEnv) (io : Frame) (g : Game) (p : Projectile) :
    (∃ pos, (stepProjectile m io g p).1 = placePortal io pos g) ∨
      (stepProjectile m io g p).1.next_projectile_portal_is_1 =
        g.next_projectile_portal_is_1 := by
  unfold stepProjectile
  split_ifs with ha
  · simp only []
    split_ifs
    · split
      · exact Or.inl ⟨_, rfl⟩
      · exact Or.inr (projectileEffects_turn m io g _)
    · exact Or.inr (projectileEffects_turn m io g _)
  · exact Or.inr rfl

/-- C9, evaluated on the code: from a match started at clock value `0`, the
Playing tick at `now = 10` awards the dodge-streak bonus and ends with
`elapsed_time_s = 11`; the next Playing tick of the same match, at
`now = 10 + 1/60`, ends with `elapsed_time_s = 10 + 1/60`, which is less: the
elapsed time is recomputed from the clock (line 849) and the bonus is gone. -/
theorem C9_elapsed_time_drops_after_bonus :
    sampleMatch.current_game_state = GameState.GAME_STATE_PLAYING ∧
    (updateGame sampleMath (frameAt 10) (1 / 60) sampleMatch).map
      (fun g => (g.current_game_state, g.start_time_s, g.elapsed_time_s))
      = some (GameState.GAME_STATE_PLAYING, 0, 11) ∧
    ((updateGame sampleMath (frameAt 10) (1 / 60) sampleMatch).bind
      (updateGame sampleMath (frameAt (10 + 1 / 60)) (1 / 60))).map
      (fun g => (g.current_game_state, g.start_time_s, g.elapsed_time_s))
      = some (GameState.GAME_STATE_PLAYING, 0, 10 + 1 / 60) ∧
    (10 : ℚ) ≤ 10 + 1 / 60 ∧ (10 + 1 / 60 : ℚ) < 11 := by
  refine ⟨rfl, by decide!, by decide!, by decide!, by decide!⟩

/-! ### Ledger operations -/

theorem mapFind_mapSet_self {α : Type} (m : List (String × α)) (k : String) (v : α) :
    mapFind (mapSet m k v) k = some v := by
  induction m with
  | nil => simp [mapSet, mapFind]
  | cons e rest ih =>
    obtain ⟨k1, w⟩ := e
    simp only [mapSet]
    split_ifs with h1 h2
    · subst h1
      simp [mapFind]
    · simp [mapFind]
    · simp only [mapFind, if_neg h1]
      exact ih

theorem mapFind_mapSet_other {α : Type} (m : List (String × α)) (k k1 : String) (v : α)
    (hne : k1 ≠ k) : mapFind (mapSet m k v) k1 = mapFind m k1 := by
  induction m with
  | nil => simp [mapSet, mapFind, hne]
  | cons e rest ih =>
    obtain ⟨k2, w⟩ := e
    simp only [mapSet]
    split_ifs with h1 h2
    · subst h1
      simp [mapFind, hne]
    · simp [mapFind, hne]
    · simp only [mapFind]
      rw [ih]

theorem mem_mapSet {α : Type} (m : List (String × α)) (k : String) (v : α)
    (x : String × α) (hx : x ∈ mapSet m k v) : x = (k, v) ∨ x ∈ m := by
  induction m with
  | nil =>
    simp only [mapSet, List.mem_singleton] at hx
    exact Or.inl hx
  | cons e rest ih =>
    obtain ⟨k2, w⟩ := e
    simp only [mapSet] at hx
    split_ifs at hx with h1 h2
    · rcases List.mem_cons.mp hx with h | h
      · left
        rw [h, h1]
      · exact Or.inr (List.mem_cons_of_mem _ h)
    · rcases List.mem_cons.mp hx with h | h
      · exact Or.inl h
      · exact Or.inr h
    · rcases List.mem_cons.mp hx with h | h
      · right
        rw [h]
        exact List.mem_cons_self _ _
      · rcases ih h with h3 | h3
        · exact Or.inl h3
        · exact Or.inr (List.mem_cons_of_mem _ h3)

theorem mem_of_mapFind {α : Type} (m : List (String × α)) (k : String) (v : α)
    (h : mapFind m k = some v) : (k, v) ∈ m := by
  induction m with
  | nil => simp [mapFind] at h
  | cons e rest ih =>
    obtain ⟨k2, w⟩ := e
    simp only [mapFind] at h
    split_ifs at h with h1
    · simp only [Option.some.injEq] at h
      rw [h1, h]
      exact List.mem_cons_self _ _
    · exact List.mem_cons_of_mem _ (ih h)

theorem unlockAchievement_unknown (io : Frame) (id user : String) (g : Game)
    (h : mapFind g.ALL_ACHIEVEMENTS id = none) : unlockAchievement io id user g = g := by
  unfold unlockAchievement
  rw [h]

theorem unlockAchievement_unlocked (io : Frame) (id user : String) (g : Game)
    (hin : id ∈ unlockedFor g user) : unlockAchievement io id user g = g := by
  unfold unlockedFor at hin
  unfold unlockAchievement
  split
  · rfl
  · cases hf : mapFind g.UNLOCKED_ACHIEVEMENTS_BY_USER user with
    | none =>
      rw [hf] at hin
      simp at hin
    | some ids =>
      rw [hf] at hin
      simp only [Option.getD_some] at hin
      simp only [hf, Option.getD_some]
      rw [if_pos (by simpa using hin)]

theorem unlockAchievement_new (io : Frame) (id user : String) (g : Game)
    (hcat : (mapFind g.ALL_ACHIEVEMENTS id).isSome = true)
    (hnew : id ∉ unlockedFor g user) :
    unlockedFor (unlockAchievement io id user g) user = unlockedFor g user ++ [id] ∧
      (∀ other, other ≠ user →
        mapFind (unlockAchievement io id user g).UNLOCKED_ACHIEVEMENTS_BY_USER other =
          mapFind g.UNLOCKED_ACHIEVEMENTS_BY_USER other) ∧
      (∀ entry ∈ (unlockAchievement io id user g).UNLOCKED_ACHIEVEMENTS_BY_USER,
        entry = (user, unlockedFor g user ++ [id]) ∨ entry = (user, []) ∨
          entry ∈ g.UNLOCKED_ACHIEVEMENTS_BY_USER) ∧
      (unlockAchievement io id user g).ALL_ACHIEVEMENTS = g.ALL_ACHIEVEMENTS ∧
      (unlockAchievement io id user g).current_username = g.current_username ∧
      (user = g.current_username →
        (unlockAchievement io id user g).current_achievement_popup_id = id ∧
        (unlockAchievement io id user g).achievement_popup_display_end_time =
          io.GetTime + 3) ∧
      (user ≠ g.current_username →
        (unlockAchievement io id user g).current_achievement_popup_id =
          g.current_achievement_popup_id ∧
        (unlockAchievement io id user g).achievement_popup_display_end_time =
          g.achievement_popup_display_end_time) := by
  unfold unlockedFor at hnew ⊢
  unfold unlockAchievement
  cases hc : mapFind g.ALL_ACHIEVEMENTS id with
  | none =>
    rw [hc] at hcat
    simp at hcat
  | some a =>
    simp only []
    cases hf : mapFind g.UNLOCKED_ACHIEVEMENTS_BY_USER user with
    | none =>
      simp only [mapFind_mapSet_self, Option.getD_some, Option.getD_none, List.contains_nil,
        Bool.false_eq_true, if_false, List.nil_append]
      refine ⟨?_, ?_, ?_, ?_, ?_, ?_, ?_⟩
      · split_ifs <;> simp [mapFind_mapSet_self]
      · intro other ho
        split_ifs <;> simp [mapFind_mapSet_other _ _ _ _ ho, hf]
      · intro entry he
        have he2 : entry ∈ mapSet (mapSet g.UNLOCKED_ACHIEVEMENTS_BY_USER user []) user [id] := by
          split_ifs at he <;> exact he
        rcases mem_mapSet _ _ _ _ he2 with h | h
        · exact Or.inl h
        · rcases mem_mapSet _ _ _ _ h with h3 | h3
          · exact Or.inr (Or.inl h3)
          · exact Or.inr (Or.inr h3)
      · split_ifs <;> rfl
      · split_ifs <;> rfl
      · intro hu
        rw [if_pos hu]
        exact ⟨rfl, by simp [ACHIEVEMENT_POPUP_DURATION]⟩
      · intro hu
        rw [if_neg hu]
        exact ⟨rfl, rfl⟩
    | some ids =>
      rw [hf] at hnew
      simp only [Option.getD_some] at hnew
      simp only [hf, Option.getD_some]
      rw [if_neg (by simpa using hnew)]
      refine ⟨?_, ?_, ?_, ?_, ?_, ?_, ?_⟩
      · split_ifs <;> simp [mapFind_mapSet_self]
      · intro other ho
        split_ifs <;> simp [mapFind_mapSet_other _ _ _ _ ho]
      · intro entry he
        have he2 : entry ∈ mapSet g.UNLOCKED_ACHIEVEMENTS_BY_USER user (ids ++ [id]) := by
          split_ifs at he <;> exact he
        rcases mem_mapSet _ _ _ _ he2 with h | h
        · exact Or.inl h
        · exact Or.inr (Or.inr h)
      · split_ifs <;> rfl
      · split_ifs <;> rfl
      · intro hu
        rw [if_pos hu]
        exact ⟨rfl, by simp [ACHIEVEMENT_POPUP_DURATION]⟩
      · intro hu
        rw [if_neg hu]
        exact ⟨rfl, rfl⟩

/-- C13 (amended): for every catalog id and every user, a second call of
`unlockAchievement` with the same id and user, at any later clock value,
returns exactly the state left by the first call: the ledger, the popup id and
the popup end time are those of the first call, and the user's ledger contains
the id.  After the first call the ledger holds the id as often as before, and
once if it was absent; so it holds it exactly once, after the first and after
the second call, when the ledger held it at most once before. -/
theorem C13_unlock_idempotent_amended (io1 io2 : Frame) (id user : String) (g : Game)
    (hcat : (mapFind g.ALL_ACHIEVEMENTS id).isSome = true) :
    unlockAchievement io2 id user (unlockAchievement io1 id user g) =
        unlockAchievement io1 id user g ∧
      (unlockAchievement io2 id user
        (unlockAchievement io1 id user g)).UNLOCKED_ACHIEVEMENTS_BY_USER =
        (unlockAchievement io1 id user g).UNLOCKED_ACHIEVEMENTS_BY_USER ∧
      (unlockAchievement io2 id user
        (unlockAchievement io1 id user g)).current_achievement_popup_id =
        (unlockAchievement io1 id user g).current_achievement_popup_id ∧
      (unlockAchievement io2 id user
        (unlockAchievement io1 id user g)).achievement_popup_display_end_time =
        (unlockAchievement io1 id user g).achievement_popup_display_end_time ∧
      id ∈ unlockedFor (unlockAchievement io1 id user g) user ∧
      ((unlockedFor g user).count id ≤ 1 →
        (unlockedFor (unlockAchievement io1 id user g) user).count id = 1 ∧
        (unlockedFor (unlockAchievement io2 id user (unlockAchievement io1 id user g))
          user).count id = 1) ∧
      (unlockedFor (unlockAchievement io1 id user g) user).count id =
        max 1 ((unlockedFor g user).count id) := by
  have hmem : id ∈ unlockedFor (unlockAchievement io1 id user g) user ∧
      (unlockedFor (unlockAchievement io1 id user g) user).count id =
        max 1 ((unlockedFor g user).count id) := by
    by_cases hin : id ∈ unlockedFor g user
    · rw [unlockAchievement_unlocked io1 id user g hin]
      refine ⟨hin, ?_⟩
      have hpos : 0 < (unlockedFor g user).count id := List.count_pos_iff.mpr hin
      omega
    · obtain ⟨h1, -⟩ := unlockAchievement_new io1 id user g hcat hin
      rw [h1]
      refine ⟨by simp, ?_⟩
      rw [List.count_append, List.count_eq_zero_of_not_mem hin]
      simp
  have hone : (unlockedFor g user).count id ≤ 1 →
      (unlockedFor (unlockAchievement io1 id user g) user).count id = 1 := by
    intro hle
    rw [hmem.2]
    omega
  have hsame := unlockAchievement_unlocked io2 id user _ hmem.1
  rw [hsame]
  exact ⟨rfl, rfl, rfl, rfl, hmem.1, fun hle => ⟨hone hle, hone hle⟩, hmem.2⟩

/-- C13 (amended), at concrete inputs: unlocking `near_miss` twice for `Guest`
(new) and twice for `Ann` (already unlocked) leaves each ledger with the id
exactly once, and the second call, made later, changes nothing. -/
theorem C13_witness_twice :
    unlockedFor (unlockAchievement (frameAt 9) "near_miss" "Guest"
      (unlockAchievement (frameAt 5) "near_miss" "Guest" ledgerSample)) "Guest"
      = ["near_miss"] ∧
    (unlockAchievement (frameAt 9) "near_miss" "Guest"
      (unlockAchievement (frameAt 5) "near_miss" "Guest"
        ledgerSample)).achievement_popup_display_end_time = 8 ∧
    unlockAchievement (frameAt 9) "near_miss" "Guest"
      (unlockAchievement (frameAt 5) "near_miss" "Guest" ledgerSample) =
      unlockAchievement (frameAt 5) "near_miss" "Guest" ledgerSample ∧
    unlockAchievement (frameAt 9) "near_miss" "Ann"
      (unlockAchievement (frameAt 5) "near_miss" "Ann" ledgerSample) = ledgerSample ∧
    (unlockedFor (unlockAchievement (frameAt 9) "near_miss" "Guest"
      (unlockAchievement (frameAt 5) "near_miss" "Guest" ledgerSample)) "Guest").count
      "near_miss" = 1 := by
  have h1 := C13_unlock_idempotent_amended (frameAt 5) (frameAt 9) "near_miss" "Guest"
    ledgerSample (by decide!)
  have h2 := C13_unlock_idempotent_amended (frameAt 5) (frameAt 9) "near_miss" "Ann"
    ledgerSample (by decide!)
  refine ⟨by decide!, by decide!, h1.1, ?_, (h1.2.2.2.2.2.1 (by decide!)).2⟩
  rw [h2.1]
  exact unlockAchievement_unlocked _ _ _ _ (by decide!)

/-- C13 as stated fails for a ledger that holds an id twice.  The loader
appends every id of a list without a duplicate test (line 549), so a session
that finds the save file `duplicateSave` starts with `near_miss` twice in the
ledger of `Ann`; the id is in the catalog; after two calls of
`unlockAchievement` for `near_miss` and `Ann` the ledger of `Ann` still holds the
id twice, not exactly once. -/
theorem C13_counterexample_duplicate_in_save :
    duplicateSession.current_username = "Ann" ∧
    unlockedFor duplicateSession "Ann" = ["near_miss", "near_miss"] ∧
    (mapFind duplicateSession.ALL_ACHIEVEMENTS "near_miss").isSome = true ∧
    unlockedFor (unlockAchievement (frameAt 9) "near_miss" "Ann"
      (unlockAchievement (frameAt 5) "near_miss" "Ann" duplicateSession)) "Ann" =
      ["near_miss", "near_miss"] ∧
    (unlockedFor (unlockAchievement (frameAt 9) "near_miss" "Ann"
      (unlockAchievement (frameAt 5) "near_miss" "Ann" duplicateSession)) "Ann").count
      "near_miss" = 2 := by
  refine ⟨by decide!, by decide!, by decide!, by decide!, by decide!⟩

/-- C14: for an id that is not a key of the catalog, `unlockAchievement` returns
the state unchanged, whatever the user: no ledger entry is created, no id is
appended, and the popup id and end time stay as they were.  For every id and
user, `unlockAchievement` keeps the invariant that every id in every ledger is a
key of the catalog. -/
theorem C14_unknown_id_noop (io : Frame) (id user : String) (g : Game)
    (hunknown : mapFind g.ALL_ACHIEVEMENTS id = none) :
    unlockAchievement io id user g = g ∧
      (unlockAchievement io id user g).UNLOCKED_ACHIEVEMENTS_BY_USER =
        g.UNLOCKED_ACHIEVEMENTS_BY_USER ∧
      (unlockAchievement io id user g).current_achievement_popup_id =
        g.current_achievement_popup_id ∧
      (unlockAchievement io id user g).achievement_popup_display_end_time =
        g.achievement_popup_display_end_time ∧
      (∀ (io1 : Frame) (id1 user1 : String),
        LedgerInCatalog g → LedgerInCatalog (unlockAchievement io1 id1 user1 g)) := by
  have h := unlockAchievement_unknown io id user g hunknown
  refine ⟨h, by rw [h], by rw [h], by rw [h], ?_⟩
  intro io1 id1 user1 hinv
  cases hc : mapFind g.ALL_ACHIEVEMENTS id1 with
  | none =>
    rw [unlockAchievement_unknown io1 id1 user1 g hc]
    exact hinv
  | some a =>
    by_cases hin : id1 ∈ unlockedFor g user1
    · rw [unlockAchievement_unlocked io1 id1 user1 g hin]
      exact hinv
    · have hcat : (mapFind g.ALL_ACHIEVEMENTS id1).isSome = true := by
        rw [hc]
        rfl
      obtain ⟨-, -, h3, h4, -⟩ := unlockAchievement_new io1 id1 user1 g hcat hin
      intro entry he x hx
      rw [h4]
      rcases h3 entry he with h | h | h
      · rw [h] at hx
        simp only [List.mem_append, List.mem_singleton] at hx
        rcases hx with hx | hx
        · unfold unlockedFor at hx
          cases hf : mapFind g.UNLOCKED_ACHIEVEMENTS_BY_USER user1 with
          | none =>
            rw [hf] at hx
            simp at hx
          | some ids =>
            rw [hf] at hx
            exact hinv _ (mem_of_mapFind _ _ _ hf) x hx
        · rw [hx]
          exact hcat
      · rw [h] at hx
        simp at hx
      · exact hinv entry h x hx

/-- C14, at a concrete input: unlocking the unknown id `no_such_achievement`
for the unknown user `Zed` changes nothing. -/
theorem C14_witness_unknown_id :
    mapFind ledgerSample.ALL_ACHIEVEMENTS "no_such_achievement" = none ∧
      mapFind ledgerSample.UNLOCKED_ACHIEVEMENTS_BY_USER "Zed" = none ∧
      unlockAchievement (frameAt 5) "no_such_achievement" "Zed" ledgerSample = ledgerSample ∧
      LedgerInCatalog ledgerSample ∧
      LedgerInCatalog (unlockAchievement (frameAt 5) "dash_of_genius" "Zed" ledgerSample) := by
  have hc : mapFind ledgerSample.ALL_ACHIEVEMENTS "no_such_achievement" = none := by decide!
  have h := C14_unknown_id_noop (frameAt 5) "no_such_achievement" "Zed" ledgerSample hc
  have hinv : LedgerInCatalog ledgerSample := by
    intro entry he x hx
    have he2 : entry = ("Ann", ["near_miss"]) ∨ entry = ("Guest", []) := by
      simpa [ledgerSample] using he
    rcases he2 with e | e
    · rw [e] at hx
      simp only [List.mem_singleton] at hx
      rw [hx]
      decide!
    · rw [e] at hx
      simp at hx
  exact ⟨hc, by decide!, h.1, hinv, h.2.2.2.2 _ _ _ hinv⟩

/-- C15: for a catalog id not yet unlocked for `targetUsername`,
`unlockAchievement` appends the id to the end of that user's ledger (an absent
user counts as an empty ledger and gets an entry) and leaves the lookup of every
other user as it was; when `targetUsername` is the current username the popup
id becomes the id and the popup end time `now + 3`, and otherwise both popup
fields keep their values. -/
theorem C15_unlock_appends (io : Frame) (id targetUsername : String) (g : Game)
    (hcat : (mapFind g.ALL_ACHIEVEMENTS id).isSome = true)
    (hnew : id ∉ unlockedFor g targetUsername) :
    mapFind (unlockAchievement io id targetUsername g).UNLOCKED_ACHIEVEMENTS_BY_USER
        targetUsername = some (unlockedFor g targetUsername ++ [id]) ∧
      (∀ other, other ≠ targetUsername →
        mapFind (unlockAchievement io id targetUsername g).UNLOCKED_ACHIEVEMENTS_BY_USER other =
          mapFind g.UNLOCKED_ACHIEVEMENTS_BY_USER other) ∧
      (targetUsername = g.current_username →
        (unlockAchievement io id targetUsername g).current_achievement_popup_id = id ∧
        (unlockAchievement io id targetUsername g).achievement_popup_display_end_time =
          io.GetTime + 3) ∧
      (targetUsername ≠ g.current_username →
        (unlockAchievement io id targetUsername g).current_achievement_popup_id =
          g.current_achievement_popup_id ∧
        (unlockAchievement io id targetUsername g).achievement_popup_display_end_time =
          g.achievement_popup_display_end_time) := by
  obtain ⟨h1, h2, h3, -, -, h6, h7⟩ := unlockAchievement_new io id targetUsername g hcat hnew
  refine ⟨?_, h2, h6, h7⟩
  unfold unlockedFor at h1
  cases hf : mapFind (unlockAchievement io id targetUsername g).UNLOCKED_ACHIEVEMENTS_BY_USER
      targetUsername with
  | none =>
    rw [hf] at h1
    simp only [Option.getD_none] at h1
    exact absurd h1.symm (by simp)
  | some ids =>
    rw [hf] at h1
    simp only [Option.getD_some] at h1
    rw [h1]
    rfl

/-- C15, at concrete inputs: unlocking `dash_of_genius` for `Ann`, who is not
the current user, appends it after `near_miss`, leaves `Guest` alone and arms
no popup; unlocking it for the current user `Guest` arms the popup until
`5 + 3`; unlocking it for the absent user `Zed` creates the entry. -/
theorem C15_witness_append :
    (unlockAchievement (frameAt 5) "dash_of_genius" "Ann"
        ledgerSample).UNLOCKED_ACHIEVEMENTS_BY_USER =
      [("Ann", ["near_miss", "dash_of_genius"]), ("Guest", [])] ∧
    (unlockAchievement (frameAt 5) "dash_of_genius" "Ann"
        ledgerSample).current_achievement_popup_id = "" ∧
    (unlockAchievement (frameAt 5) "dash_of_genius" "Guest"
        ledgerSample).current_achievement_popup_id = "dash_of_genius" ∧
    (unlockAchievement (frameAt 5) "dash_of_genius" "Guest"
        ledgerSample).achievement_popup_display_end_time = 8 ∧
    (unlockAchievement (frameAt 5) "dash_of_genius" "Zed"
        ledgerSample).UNLOCKED_ACHIEVEMENTS_BY_USER =
      [("Ann", ["near_miss"]), ("Guest", []), ("Zed", ["dash_of_genius"])] := by
  have h := C15_unlock_appends (frameAt 5) "dash_of_genius" "Guest" ledgerSample
    (by decide!) (by decide!)
  have hp := h.2.2.1 (by decide!)
  refine ⟨by decide!, by decide!, hp.1, ?_, by decide!⟩
  rw [hp.2]
  norm_num [frameAt]

/-! ### Teleports -/

theorem expirePortals_spec (io : Frame) (t : Game) :
    (expirePortals io t).player_x = t.player_x ∧ (expirePortals io t).player_y = t.player_y ∧
      (expirePortals io t).obstacle_x = t.obstacle_x ∧
      (expirePortals io t).obstacle_y = t.obstacle_y ∧
      (expirePortals io t).last_teleport_time = t.last_teleport_time ∧
      (expirePortals io t).portal_1_pos = t.portal_1_pos ∧
      (expirePortals io t).portal_2_pos = t.portal_2_pos ∧
      ((expirePortals io t).portal_1_active = true → t.portal_1_active = true) ∧
      ((expirePortals io t).portal_2_active = true → t.portal_2_active = true) := by
  unfold expirePortals
  simp only []
  split_ifs <;> simp_all

theorem teleportPlayer_closed (io : Frame) (s : Game) (h : ¬ teleportGate io s) :
    teleportPlayer io s = s := by
  unfold teleportGate at h
  unfold teleportPlayer
  rw [if_neg h]

theorem teleportPlayer_spec (io : Frame) (s : Game) :
    (teleportGate io s → playerTouches s s.portal_1_pos = true →
      (⟨(teleportPlayer io s).player_x + player_size / 2,
          (teleportPlayer io s).player_y + player_size / 2⟩ : Vector2) = s.portal_2_pos ∧
        (teleportPlayer io s).last_teleport_time = io.GetTime) ∧
    (teleportGate io s → playerTouches s s.portal_1_pos = false →
      playerTouches s s.portal_2_pos = true →
      (⟨(teleportPlayer io s).player_x + player_size / 2,
          (teleportPlayer io s).player_y + player_size / 2⟩ : Vector2) = s.portal_1_pos ∧
        (teleportPlayer io s).last_teleport_time = io.GetTime) ∧
    (playerTouches s s.portal_1_pos = false → playerTouches s s.portal_2_pos = false →
      teleportPlayer io s = s) ∧
    (teleportPlayer io s).obstacle_x = s.obstacle_x ∧
    (teleportPlayer io s).obstacle_y = s.obstacle_y ∧
    (teleportPlayer io s).portal_1_pos = s.portal_1_pos ∧
    (teleportPlayer io s).portal_2_pos = s.portal_2_pos ∧
    (teleportPlayer io s).portal_1_active = s.portal_1_active ∧
    (teleportPlayer io s).portal_2_active = s.portal_2_active ∧
    ((teleportPlayer io s).last_teleport_time = s.last_teleport_time ∨
      (teleportPlayer io s).last_teleport_time = io.GetTime) := by
  refine ⟨?_, ?_, ?_, ?_, ?_, ?_, ?_, ?_, ?_, ?_⟩
  · intro hg h1
    unfold playerTouches at h1
    unfold teleportGate at hg
    unfold teleportPlayer
    rw [if_pos hg]
    simp only []
    rw [if_pos h1]
    simp
  · intro hg h1 h2
    unfold playerTouches at h1 h2
    unfold teleportGate at hg
    unfold teleportPlayer
    rw [if_pos hg]
    simp only []
    rw [if_neg (by simp [h1]), if_pos h2]
    simp
  · intro h1 h2
    unfold playerTouches at h1 h2
    unfold teleportPlayer
    simp only []
    split_ifs <;> simp_all
  all_goals
    unfold teleportPlayer
    simp only []
    split_ifs <;> simp

theorem teleportObstacle_closed (io : Frame) (s : Game) (h : ¬ teleportGate io s) :
    teleportObstacle io s = s := by
  unfold teleportGate at h
  unfold teleportObstacle
  rw [if_neg h]

theorem teleportObstacle_spec (io : Frame) (s : Game) :
    (teleportGate io s → obstacleTouches s s.portal_1_pos = true →
      (⟨(teleportObstacle io s).obstacle_x + obstacle_size / 2,
          (teleportObstacle io s).obstacle_y + obstacle_size / 2⟩ : Vector2) =
        s.portal_2_pos ∧
        (teleportObstacle io s).last_teleport_time = io.GetTime) ∧
    (teleportGate io s → obstacleTouches s s.portal_1_pos = false →
      obstacleTouches s s.portal_2_pos = true →
      (⟨(teleportObstacle io s).obstacle_x + obstacle_size / 2,
          (teleportObstacle io s).obstacle_y + obstacle_size / 2⟩ : Vector2) =
        s.portal_1_pos ∧
        (teleportObstacle io s).last_teleport_time = io.GetTime) ∧
    (obstacleTouches s s.portal_1_pos = false → obstacleTouches s s.portal_2_pos = false →
      teleportObstacle io s = s) ∧
    (teleportObstacle io s).player_x = s.player_x ∧
    (teleportObstacle io s).player_y = s.player_y ∧
    ((teleportObstacle io s).last_teleport_time = s.last_teleport_time ∨
      (teleportObstacle io s).last_teleport_time = io.GetTime) := by
  refine ⟨?_, ?_, ?_, ?_, ?_, ?_⟩
  · intro hg h1
    unfold obstacleTouches at h1
    unfold teleportGate at hg
    unfold teleportObstacle
    rw [if_pos hg]
    simp only []
    rw [if_pos h1]
    simp
  · intro hg h1 h2
    unfold obstacleTouches at h1 h2
    unfold teleportGate at hg
    unfold teleportObstacle
    rw [if_pos hg]
    simp only []
    rw [if_neg (by simp [h1]), if_pos h2]
    simp
  · intro h1 h2
    unfold obstacleTouches at h1 h2
    unfold teleportObstacle
    simp only []
    split_ifs <;> simp_all
  all_goals
    unfold teleportObstacle
    simp only []
    split_ifs <;> simp

theorem teleportGate_after_player (io : Frame) (s : Game)
    (hg : teleportGate io (teleportPlayer io s)) :
    teleportGate io s ∧ teleportPlayer io s = s := by
  obtain ⟨-, -, hnone, -, -, -, -, ha1, ha2, hl⟩ := teleportPlayer_spec io s
  obtain ⟨g1, g2, g3⟩ := hg
  rw [ha1] at g1
  rw [ha2] at g2
  by_cases hgate : teleportGate io s
  · refine ⟨hgate, ?_⟩
    by_cases h1 : playerTouches s s.portal_1_pos = true
    · have := ((teleportPlayer_spec io s).1 hgate h1).2
      rw [this, sub_self] at g3
      simp only [TELEPORT_COOLDOWN] at g3
      norm_num at g3
    · have h1f : playerTouches s s.portal_1_pos = false := by simpa using h1
      by_cases h2 : playerTouches s s.portal_2_pos = true
      · have := ((teleportPlayer_spec io s).2.1 hgate h1f h2).2
        rw [this, sub_self] at g3
        simp only [TELEPORT_COOLDOWN] at g3
        norm_num at g3
      · exact hnone h1f (by simpa using h2)
  · have hs := teleportPlayer_closed io s hgate
    rw [hs] at g3
    exact absurd ⟨g1, g2, g3⟩ hgate

theorem touches_after_expire (io : Frame) (t : Game) (pos : Vector2) :
    playerTouches (expirePortals io t) pos = playerTouches t pos ∧
      obstacleTouches (expirePortals io t) pos = obstacleTouches t pos ∧
      obstacleTouches (teleportPlayer io (expirePortals io t)) pos = obstacleTouches t pos := by
  obtain ⟨e1, e2, e3, e4, -⟩ := expirePortals_spec io t
  obtain ⟨-, -, -, p1, p2, -⟩ := teleportPlayer_spec io (expirePortals io t)
  unfold playerTouches obstacleTouches
  rw [e1, e2, p1, p2, e3, e4]
  exact ⟨rfl, rfl, rfl⟩

theorem portalLogic_closed (io : Frame) (t : Game)
    (h : t.portal_1_active = false ∨ t.portal_2_active = false ∨
      ¬ io.GetTime - t.last_teleport_time ≥ 1 / 2) :
    (portalLogic io t).player_x = t.player_x ∧ (portalLogic io t).player_y = t.player_y ∧
      (portalLogic io t).obstacle_x = t.obstacle_x ∧
      (portalLogic io t).obstacle_y = t.obstacle_y := by
  unfold portalLogic
  split_ifs with hm
  · obtain ⟨e1, e2, e3, e4, e5, -, -, a1, a2⟩ := expirePortals_spec io t
    have hng : ¬ teleportGate io (expirePortals io t) := by
      rintro ⟨g1, g2, g3⟩
      rw [e5] at g3
      rcases h with h | h | h
      · rw [a1 g1] at h
        cases h
      · rw [a2 g2] at h
        cases h
      · exact h (by simpa [TELEPORT_COOLDOWN] using g3)
    have hp := teleportPlayer_closed io _ hng
    rw [hp, teleportObstacle_closed io _ hng]
    exact ⟨e1, e2, e3, e4⟩
  · exact ⟨rfl, rfl, rfl, rfl⟩

/-- C11 as stated fails where the two portal circles overlap: with both portals
active and the cooldown elapsed, a player whose circle collides with portal 2
(at `(120, 100)`) and also with portal 1 (at `(100, 100)`) is teleported, and
its centre afterwards is portal 2's own position, not the position of the other
portal 1; the same happens in the whole Playing tick. -/
theorem C11_counterexample_touching_both :
    overlappingPortals.is_portal_mode = true ∧
      overlappingPortals.portal_1_active = true ∧ overlappingPortals.portal_2_active = true ∧
      (5 : ℚ) - overlappingPortals.last_teleport_time ≥ 1 / 2 ∧
      playerTouches overlappingPortals overlappingPortals.portal_2_pos = true ∧
      (portalLogic (frameAt 5) overlappingPortals).last_teleport_time = 5 ∧
      (⟨(portalLogic (frameAt 5) overlappingPortals).player_x + player_size / 2,
          (portalLogic (frameAt 5) overlappingPortals).player_y + player_size / 2⟩ : Vector2)
        = overlappingPortals.portal_2_pos ∧
      (⟨(portalLogic (frameAt 5) overlappingPortals).player_x + player_size / 2,
          (portalLogic (frameAt 5) overlappingPortals).player_y + player_size / 2⟩ : Vector2)
        ≠ overlappingPortals.portal_1_pos ∧
      (updateGame sampleMath (frameAt 5) (1 / 60) overlappingPortals).map
        (fun g => (g.player_x + player_size / 2, g.player_y + player_size / 2,
          g.last_teleport_time)) = some (120, 100, 5) := by
  refine ⟨rfl, rfl, rfl, by decide!, by decide!, by decide!, by decide!, by decide!,
    by decide!⟩

/-! ### The teleport timestamp through a tick -/

theorem unlockAchievement_clock (io : Frame) (a u : String) (g : Game) :
    teleportClockAndPlayer (unlockAchievement io a u g) = teleportClockAndPlayer g := by
  unfold unlockAchievement
  split
  · rfl
  · simp only []
    split_ifs <;> rfl

theorem projectileEffects_clock (m : MathEnv) (io : Frame) (g : Game) (p : Projectile) :
    teleportClockAndPlayer (projectileEffects m io g p).1 = teleportClockAndPlayer g := by
  have h1 : ∀ s : Game × Projectile,
      teleportClockAndPlayer (hitObstacle io s).1 = teleportClockAndPlayer s.1 := by
    intro s
    unfold hitObstacle
    simp only []
    split_ifs
    · rw [unlockAchievement_clock]
      rfl
    · rfl
    · rfl
    · rfl
  have h2 : ∀ s : Game × Projectile,
      teleportClockAndPlayer (hitPlayer io s).1 = teleportClockAndPlayer s.1 := by
    intro s
    unfold hitPlayer
    simp only []
    split_ifs <;> rfl
  have h3 : ∀ s : Game × Projectile,
      teleportClockAndPlayer (dashThrough io s).1 = teleportClockAndPlayer s.1 := by
    intro s
    unfold dashThrough
    simp only []
    split_ifs
    · exact unlockAchievement_clock io _ _ _
    · rfl
    · rfl
  have h4 : ∀ s : Game × Projectile,
      teleportClockAndPlayer (nearMiss m io s).1 = teleportClockAndPlayer s.1 := by
    intro s
    unfold nearMiss
    simp only []
    split_ifs
    · exact unlockAchievement_clock io _ _ _
    · rfl
    · rfl
  unfold projectileEffects
  simp only []
  rw [h4, h3, h2, h1]

theorem stepProjectile_clock (m : MathEnv) (io : Frame) (g : Game) (p : Projectile) :
    teleportClockAndPlayer (stepProjectile m io g p).1 = teleportClockAndPlayer g := by
  unfold stepProjectile
  split_ifs with ha
  · simp only []
    split_ifs
    · split
      · unfold placePortal
        split_ifs <;> rfl
      · exact projectileEffects_clock m io g _
    · exact projectileEffects_clock m io g _
  · rfl

theorem projectileLoop_clock (m : MathEnv) (io : Frame) (ps : List Projectile) :
    ∀ g : Game,
      teleportClockAndPlayer (projectileLoop m io g ps).1 = teleportClockAndPlayer g := by
  induction ps with
  | nil => intro g; rfl
  | cons p ps ih =>
    intro g
    simp only [projectileLoop]
    rw [ih, stepProjectile_clock]

theorem afterPortals_clock (m : MathEnv) (io : Frame) (s : Game) :
    teleportClockAndPlayer (checkTerminalCollision (hideAchievementPopup io (hideBonusMessage io
      (dodgeStreakBonus io (wrapObstacle (moveObstacle io (updateAiTarget (updateProjectiles m io
        (obstacleShoot m io (playerShoot m io s)))))))))) = teleportClockAndPlayer s := by
  have e1 : ∀ t : Game, teleportClockAndPlayer (playerShoot m io t) =
      teleportClockAndPlayer t := by
    intro t
    unfold playerShoot
    simp only []
    split_ifs <;> rfl
  have e2 : ∀ t : Game, teleportClockAndPlayer (obstacleShoot m io t) =
      teleportClockAndPlayer t := by
    intro t
    unfold obstacleShoot
    simp only []
    split_ifs <;> rfl
  have e3 : ∀ t : Game, teleportClockAndPlayer (updateProjectiles m io t) =
      teleportClockAndPlayer t := by
    intro t
    unfold updateProjectiles
    exact projectileLoop_clock m io t.projectiles t
  have e4 : ∀ t : Game, teleportClockAndPlayer (updateAiTarget t) =
      teleportClockAndPlayer t := by
    intro t
    unfold updateAiTarget
    simp only []
    split_ifs <;> rfl
  have e5 : ∀ t : Game, teleportClockAndPlayer (moveObstacle io t) =
      teleportClockAndPlayer t := by
    intro t
    unfold moveObstacle
    split_ifs <;> rfl
  have e6 : ∀ t : Game, teleportClockAndPlayer (wrapObstacle t) =
      teleportClockAndPlayer t := by
    intro t
    rfl
  have e7 : ∀ t : Game, teleportClockAndPlayer (dodgeStreakBonus io t) =
      teleportClockAndPlayer t := by
    intro t
    unfold dodgeStreakBonus
    split_ifs <;> rfl
  have e8 : ∀ t : Game, teleportClockAndPlayer (hideBonusMessage io t) =
      teleportClockAndPlayer t := by
    intro t
    unfold hideBonusMessage
    split_ifs <;> rfl
  have e9 : ∀ t : Game, teleportClockAndPlayer (hideAchievementPopup io t) =
      teleportClockAndPlayer t := by
    intro t
    unfold hideAchievementPopup
    split_ifs <;> rfl
  have e10 : ∀ t : Game, teleportClockAndPlayer (checkTerminalCollision t) =
      teleportClockAndPlayer t := by
    intro t
    unfold checkTerminalCollision
    simp only []
    split_ifs <;> rfl
  rw [e10, e9, e8, e7, e6, e5, e4, e3, e2, e1]

theorem playingTick_eq_afterPortals (m : MathEnv) (io : Frame) (dt : ℚ) (g : Game) :
    teleportClockAndPlayer (playingTick m io dt g) =
      teleportClockAndPlayer (portalLogic io (beforePortals m io dt g)) := by
  have h := afterPortals_clock m io (portalLogic io (beforePortals m io dt g))
  rw [← h]
  rfl

theorem beforePortals_last_teleport (m : MathEnv) (io : Frame) (dt : ℚ) (g : Game) :
    (beforePortals m io dt g).last_teleport_time = g.last_teleport_time := by
  have e1 : (updateElapsed io g).last_teleport_time = g.last_teleport_time := by
    unfold updateElapsed
    simp only []
    split_ifs
    · exact (congrArg Prod.fst (unlockAchievement_clock io _ _ _)).trans
        (congrArg Prod.fst (unlockAchievement_clock io _ _ _))
    · exact congrArg Prod.fst (unlockAchievement_clock io _ _ _)
    · exact congrArg Prod.fst (unlockAchievement_clock io _ _ _)
    · rfl
  have e2 : ∀ t : Game, (dashActivation m io t).last_teleport_time = t.last_teleport_time := by
    intro t
    unfold dashActivation
    split_ifs <;> rfl
  have e3 : ∀ t : Game, (movePlayer m io dt t).last_teleport_time = t.last_teleport_time := by
    intro t
    unfold movePlayer
    simp only []
    split_ifs <;> rfl
  unfold beforePortals wrapPlayer
  simp only []
  rw [e3, e2, e1]

theorem portalLogic_last_teleport (io : Frame) (t : Game) :
    (playerTeleported io t → io.GetTime - t.last_teleport_time ≥ 1 / 2 ∧
      (portalLogic io t).last_teleport_time = io.GetTime ∧ ¬ obstacleTeleported io t) ∧
    (obstacleTeleported io t → io.GetTime - t.last_teleport_time ≥ 1 / 2 ∧
      (portalLogic io t).last_teleport_time = io.GetTime) ∧
    (¬ playerTeleported io t → ¬ obstacleTeleported io t →
      (portalLogic io t).last_teleport_time = t.last_teleport_time) := by
  obtain ⟨-, -, -, -, e5, e6, e7, -, -⟩ := expirePortals_spec io t
  obtain ⟨hp1, hp2, hp3, -, -, -, -, -, -, pl⟩ := teleportPlayer_spec io (expirePortals io t)
  obtain ⟨ho1, ho2, ho3, -, -, ol⟩ :=
    teleportObstacle_spec io (teleportPlayer io (expirePortals io t))
  have hplayer : playerTeleported io t →
      (teleportPlayer io (expirePortals io t)).last_teleport_time = io.GetTime := by
    rintro ⟨-, hg, htouch⟩
    by_cases h1 : playerTouches (expirePortals io t) (expirePortals io t).portal_1_pos = true
    · exact (hp1 hg h1).2
    · rcases htouch with h | h
      · exact absurd h h1
      · exact (hp2 hg (by simpa using h1) h).2
  have hobst : obstacleTeleported io t →
      (portalLogic io t).last_teleport_time = io.GetTime ∧
        teleportGate io (expirePortals io t) := by
    rintro ⟨hm, hg, htouch⟩
    have hval : portalLogic io t =
        teleportObstacle io (teleportPlayer io (expirePortals io t)) := by
      unfold portalLogic
      rw [if_pos hm]
    refine ⟨?_, (teleportGate_after_player io _ hg).1⟩
    rw [hval]
    by_cases h1 : obstacleTouches (teleportPlayer io (expirePortals io t))
        (teleportPlayer io (expirePortals io t)).portal_1_pos = true
    · exact (ho1 hg h1).2
    · rcases htouch with h | h
      · exact absurd h h1
      · exact (ho2 hg (by simpa using h1) h).2
  refine ⟨?_, ?_, ?_⟩
  · intro hpt
    have hl := hplayer hpt
    obtain ⟨hm, hg, -⟩ := hpt
    have hval : portalLogic io t =
        teleportObstacle io (teleportPlayer io (expirePortals io t)) := by
      unfold portalLogic
      rw [if_pos hm]
    have hno : ¬ teleportGate io (teleportPlayer io (expirePortals io t)) := by
      rintro ⟨-, -, g3⟩
      rw [hl, sub_self] at g3
      simp only [TELEPORT_COOLDOWN] at g3
      norm_num at g3
    refine ⟨?_, ?_, fun ho => hno ho.2.1⟩
    · have g3 := hg.2.2
      rw [e5] at g3
      simpa [TELEPORT_COOLDOWN] using g3
    · rw [hval, teleportObstacle_closed io _ hno, hl]
  · intro hot
    obtain ⟨hl, hg⟩ := hobst hot
    refine ⟨?_, hl⟩
    have g3 := hg.2.2
    rw [e5] at g3
    simpa [TELEPORT_COOLDOWN] using g3
  · intro hnp hno
    unfold portalLogic
    split_ifs with hm
    · have hs1 : teleportPlayer io (expirePortals io t) = expirePortals io t := by
        by_cases hg : teleportGate io (expirePortals io t)
        · apply hp3
          · by_contra h
            exact hnp ⟨hm, hg, Or.inl (by simpa using h)⟩
          · by_contra h
            exact hnp ⟨hm, hg, Or.inr (by simpa using h)⟩
        · exact teleportPlayer_closed io _ hg
      have hs2 : teleportObstacle io (teleportPlayer io (expirePortals io t)) =
          teleportPlayer io (expirePortals io t) := by
        by_cases hg : teleportGate io (teleportPlayer io (expirePortals io t))
        · apply ho3
          · by_contra h
            exact hno ⟨hm, hg, Or.inl (by simpa using h)⟩
          · by_contra h
            exact hno ⟨hm, hg, Or.inr (by simpa using h)⟩
        · exact teleportObstacle_closed io _ hg
      rw [hs2, hs1, e5]
    · rfl

theorem playingTick_last_teleport (m : MathEnv) (io : Frame) (dt : ℚ) (g : Game) :
    (teleportsIn m io dt g → io.GetTime - g.last_teleport_time ≥ 1 / 2 ∧
      (playingTick m io dt g).last_teleport_time = io.GetTime) ∧
    (¬ teleportsIn m io dt g →
      (playingTick m io dt g).last_teleport_time = g.last_teleport_time) := by
  have h1 := congrArg Prod.fst (playingTick_eq_afterPortals m io dt g)
  have h2 := beforePortals_last_teleport m io dt g
  obtain ⟨a, b, c⟩ := portalLogic_last_teleport io (beforePortals m io dt g)
  have h1b : (playingTick m io dt g).last_teleport_time =
      (portalLogic io (beforePortals m io dt g)).last_teleport_time := h1
  rw [h2] at a b c
  constructor
  · intro ht
    rcases ht with hp | ho
    · exact ⟨(a hp).1, h1b.trans (a hp).2.1⟩
    · exact ⟨(b ho).1, h1b.trans (b ho).2⟩
  · intro hn
    unfold teleportsIn at hn
    push_neg at hn
    exact h1b.trans (c hn.1 hn.2)

theorem playingRun_append (m : MathEnv) (a b : List (Frame × ℚ)) :
    ∀ g : Game, playingRun m (a ++ b) g = playingRun m b (playingRun m a g) := by
  induction a with
  | nil => intro g; rfl
  | cons f rest ih =>
    intro g
    simp only [List.cons_append, playingRun]
    exact ih _

theorem playingRun_last_teleport_ge (m : MathEnv) (c : ℚ) (fs : List (Frame × ℚ)) :
    ∀ g : Game, c ≤ g.last_teleport_time → (∀ f ∈ fs, c ≤ f.1.GetTime) →
      c ≤ (playingRun m fs g).last_teleport_time := by
  induction fs with
  | nil => intro g hg _; exact hg
  | cons f rest ih =>
    intro g hg hfs
    simp only [playingRun]
    apply ih
    · obtain ⟨h1, h2⟩ := playingTick_last_teleport m f.1 f.2 g
      by_cases ht : teleportsIn m f.1 f.2 g
      · rw [(h1 ht).2]
        exact hfs f (List.mem_cons_self _ _)
      · rw [h2 ht]
        exact hg
    · intro f1 hf1
      exact hfs f1 (List.mem_cons_of_mem _ hf1)

/-- C12: in any run of Playing ticks whose clock values are non-decreasing, if
a tick at time `t_i` teleports a combatant (the player or the obstacle) and a
later tick at time `t_j` teleports a combatant, then `t_j - t_i ≥ 0.5`; and no
Playing tick teleports both the player and the obstacle. -/
theorem C12_teleport_cooldown_global (m : MathEnv) (g : Game) (pre mid : List (Frame × ℚ))
    (fi fj : Frame × ℚ)
    (hclock : List.Pairwise (fun a b : Frame × ℚ => a.1.GetTime ≤ b.1.GetTime)
      (fi :: (mid ++ [fj])))
    (hi : teleportsIn m fi.1 fi.2 (playingRun m pre g))
    (hj : teleportsIn m fj.1 fj.2 (playingRun m (pre ++ fi :: mid) g)) :
    fj.1.GetTime - fi.1.GetTime ≥ 1 / 2 ∧
      (∀ (io : Frame) (deltaTime : ℚ) (s : Game),
        ¬ (playerTeleported io (beforePortals m io deltaTime s) ∧
          obstacleTeleported io (beforePortals m io deltaTime s))) := by
  constructor
  · have hlater : ∀ f ∈ mid ++ [fj], fi.1.GetTime ≤ f.1.GetTime :=
      (List.pairwise_cons.mp hclock).1
    have hstamp := ((playingTick_last_teleport m fi.1 fi.2 (playingRun m pre g)).1 hi).2
    have hrun : playingRun m (pre ++ fi :: mid) g =
        playingRun m mid (playingTick m fi.1 fi.2 (playingRun m pre g)) := by
      rw [playingRun_append]
      rfl
    have hge := playingRun_last_teleport_ge m fi.1.GetTime mid
      (playingTick m fi.1 fi.2 (playingRun m pre g)) (le_of_eq hstamp.symm)
      (fun f hf => hlater f (List.mem_append_left _ hf))
    rw [← hrun] at hge
    have hgate := ((playingTick_last_teleport m fj.1 fj.2 _).1 hj).1
    linarith
  · rintro io dt s ⟨hp, ho⟩
    exact ((portalLogic_last_teleport io (beforePortals m io dt s)).1 hp).2.2 ho

/-- C12, at a concrete run: the player stands on portal 1 with the last
teleport at `8`; ticks at `8.5`, `8.7` and `9.0` teleport it at `8.5` (to
portal 2), not at `8.7` although it stands on portal 2, and again at `9.0`,
half a second after the first teleport. -/
theorem C12_witness_two_teleports :
    teleportsIn sampleMath (frameAt (17 / 2)) (1 / 60) lastEventsAt8 ∧
      ¬ teleportsIn sampleMath (frameAt (87 / 10)) (1 / 60)
        (playingRun sampleMath [(frameAt (17 / 2), 1 / 60)] lastEventsAt8) ∧
      teleportsIn sampleMath (frameAt 9) (1 / 60)
        (playingRun sampleMath [(frameAt (17 / 2), 1 / 60), (frameAt (87 / 10), 1 / 60)]
          lastEventsAt8) ∧
      (frameAt 9).GetTime - (frameAt (17 / 2)).GetTime ≥ 1 / 2 := by
  have hi : teleportsIn sampleMath (frameAt (17 / 2)) (1 / 60)
      (playingRun sampleMath [] lastEventsAt8) := by
    left
    unfold playerTeleported teleportGate
    decide!
  have hj : teleportsIn sampleMath (frameAt 9) (1 / 60)
      (playingRun sampleMath ([] ++ (frameAt (17 / 2), 1 / 60) :: [(frameAt (87 / 10), 1 / 60)])
        lastEventsAt8) := by
    left
    unfold playerTeleported teleportGate
    decide!
  have hmid : ¬ teleportsIn sampleMath (frameAt (87 / 10)) (1 / 60)
      (playingRun sampleMath [(frameAt (17 / 2), 1 / 60)] lastEventsAt8) := by
    unfold teleportsIn playerTeleported obstacleTeleported teleportGate
    decide!
  have h := C12_teleport_cooldown_global sampleMath lastEventsAt8 []
    [(frameAt (87 / 10), 1 / 60)] (frameAt (17 / 2), 1 / 60) (frameAt 9, 1 / 60)
    (by decide!) hi hj
  exact ⟨hi, hmid, hj, h.1⟩

/-! ### Near miss -/

theorem nearMiss_trigger_conditions (m : MathEnv) (io : Frame) (g : Game) (p : Projectile)
    (h : (nearMiss m io (g, p)).1 ≠ g) :
    g.near_miss_achievement_unlocked_this_game = false ∧ p.is_player_shot = false ∧
      g.player_is_dashing = false ∧
      m.sqrtf ((g.player_x + player_size / 2 - (p.rect.x + p.rect.width / 2)) *
          (g.player_x + player_size / 2 - (p.rect.x + p.rect.width / 2)) +
        (g.player_y + player_size / 2 - (p.rect.y + p.rect.height / 2)) *
          (g.player_y + player_size / 2 - (p.rect.y + p.rect.height / 2))) > 30 ∧
      m.sqrtf ((g.player_x + player_size / 2 - (p.rect.x + p.rect.width / 2)) *
          (g.player_x + player_size / 2 - (p.rect.x + p.rect.width / 2)) +
        (g.player_y + player_size / 2 - (p.rect.y + p.rect.height / 2)) *
          (g.player_y + player_size / 2 - (p.rect.y + p.rect.height / 2))) < 45 ∧
      (nearMiss m io (g, p)).1.near_miss_achievement_unlocked_this_game = true := by
  unfold nearMiss at h ⊢
  simp only [] at h ⊢
  split_ifs at h ⊢ with c1 c2
  · obtain ⟨a1, a2, a3⟩ := c1
    obtain ⟨b1, b2⟩ := c2
    refine ⟨a1, a2, a3, ?_, ?_, rfl⟩
    · have : player_size / 2 + PROJECTILE_SIZE / 2 = 30 := by
        norm_num [player_size, PROJECTILE_SIZE]
      rw [this] at b1
      exact b1
    · have : player_size / 2 + PROJECTILE_SIZE / 2 + 15 = 45 := by
        norm_num [player_size, PROJECTILE_SIZE]
      rw [this] at b2
      exact b2
  · exact absurd rfl h
  · exact absurd rfl h

/-- C16, evaluated on the code: an obstacle shot whose rectangle overlaps the
rectangle of the player, who is not dashing, at a corner (centre offset 25 px
on both axes, centre distance `sqrt 1250`, about 35.36) hits the player in the
tick (the player is stunned and the projectile removed) and in the same tick
triggers the `near_miss` unlock. -/
theorem C16_near_miss_on_corner_hit :
    cornerHit.current_game_state = GameState.GAME_STATE_PLAYING ∧
    cornerHit.player_is_dashing = false ∧
    cornerHit.near_miss_achievement_unlocked_this_game = false ∧
    unlockedFor cornerHit "Guest" = [] ∧
    (cornerHit.projectiles.map
      (fun p => CheckCollisionRecs (moveProjectile p).rect (playerRect cornerHit))) = [true] ∧
    (30 : ℚ) < diagonalMath.sqrtf (25 * 25 + 25 * 25) ∧
    diagonalMath.sqrtf (25 * 25 + 25 * 25) < 45 ∧
    (updateGame diagonalMath (frameAt 1) (1 / 60) cornerHit).map
      (fun g => (g.player_is_stunned, g.player_stun_end_time, g.projectiles))
      = some (true, 3, []) ∧
    (updateGame diagonalMath (frameAt 1) (1 / 60) cornerHit).map
      (fun g => (g.near_miss_achievement_unlocked_this_game, unlockedFor g "Guest",
        g.current_achievement_popup_id))
      = some (true, ["near_miss"], "near_miss") := by
  refine ⟨rfl, rfl, rfl, by decide!, by decide!, by decide!, by decide!, by decide!,
    by decide!⟩

/-! ### Stunned player -/

theorem unlockAchievement_player (io : Frame) (a u : String) (g : Game) :
    (unlockAchievement io a u g).player_x = g.player_x ∧
      (unlockAchievement io a u g).player_y = g.player_y ∧
      (unlockAchievement io a u g).player_is_dashing = g.player_is_dashing ∧
      (unlockAchievement io a u g).player_is_stunned = g.player_is_stunned ∧
      (unlockAchievement io a u g).player_last_dash_time = g.player_last_dash_time := by
  unfold unlockAchievement
  split
  · exact ⟨rfl, rfl, rfl, rfl, rfl⟩
  · simp only []
    split_ifs <;> exact ⟨rfl, rfl, rfl, rfl, rfl⟩

theorem updateElapsed_player (io : Frame) (g : Game) :
    (updateElapsed io g).player_x = g.player_x ∧
      (updateElapsed io g).player_y = g.player_y ∧
      (updateElapsed io g).player_is_dashing = g.player_is_dashing ∧
      (updateElapsed io g).player_is_stunned = g.player_is_stunned ∧
      (updateElapsed io g).player_last_dash_time = g.player_last_dash_time := by
  unfold updateElapsed
  simp only []
  split_ifs
  · obtain ⟨a1, a2, a3, a4, a5⟩ := unlockAchievement_player io "long_haul_dodger"
      (unlockAchievement io "bullet_ballet_master" g.current_username
        { g with elapsed_time_s := io.GetTime - g.start_time_s }).current_username
      (unlockAchievement io "bullet_ballet_master" g.current_username
        { g with elapsed_time_s := io.GetTime - g.start_time_s })
    obtain ⟨b1, b2, b3, b4, b5⟩ := unlockAchievement_player io "bullet_ballet_master"
      g.current_username { g with elapsed_time_s := io.GetTime - g.start_time_s }
    exact ⟨a1.trans b1, a2.trans b2, a3.trans b3, a4.trans b4, a5.trans b5⟩
  · exact unlockAchievement_player io _ _ _
  · exact unlockAchievement_player io _ _ _
  · exact ⟨rfl, rfl, rfl, rfl, rfl⟩

theorem wrapAxis_in_range (size : ℚ) (extent : Int) (v : ℚ) (h1 : -size ≤ v)
    (h2 : v ≤ (extent : ℚ)) : wrapAxis size extent v = v := by
  unfold wrapAxis
  rw [if_neg (not_lt.mpr h1), if_neg (not_lt.mpr h2)]

theorem portalLogic_player_stays (io : Frame) (t : Game) (h : ¬ playerTeleported io t) :
    (portalLogic io t).player_x = t.player_x ∧ (portalLogic io t).player_y = t.player_y := by
  obtain ⟨e1, e2, -⟩ := expirePortals_spec io t
  obtain ⟨-, -, hp3, -⟩ := teleportPlayer_spec io (expirePortals io t)
  obtain ⟨-, -, -, o1, o2, -⟩ := teleportObstacle_spec io (teleportPlayer io (expirePortals io t))
  unfold portalLogic
  split_ifs with hm
  · have hs1 : teleportPlayer io (expirePortals io t) = expirePortals io t := by
      by_cases hg : teleportGate io (expirePortals io t)
      · apply hp3
        · by_contra hc
          exact h ⟨hm, hg, Or.inl (by simpa using hc)⟩
        · by_contra hc
          exact h ⟨hm, hg, Or.inr (by simpa using hc)⟩
      · exact teleportPlayer_closed io _ hg
    rw [o1, o2, hs1]
    exact ⟨e1, e2⟩
  · exact ⟨rfl, rfl⟩

theorem movePlayer_stunned (m : MathEnv) (io : Frame) (dt : ℚ) (s : Game)
    (hnd : s.player_is_dashing = false) (hst : s.player_is_stunned = true) :
    (movePlayer m io dt s).player_x = s.player_x ∧
      (movePlayer m io dt s).player_y = s.player_y := by
  unfold movePlayer
  simp only [hnd, hst, Bool.false_eq_true, if_false, Bool.true_eq_false]
  split_ifs <;> exact ⟨rfl, rfl⟩

/-- C17 (amended): for every Playing tick at whose start `player_is_stunned` is
true and `now ≤ player_stun_end_time`, in which the player is not dashing at
the start and no dash is activated, whose start position lies in the wrap range
(`-50 ≤ x ≤ W`, `-50 ≤ y ≤ H`) and in which the portal block does not teleport
the player: whatever movement and aim keys are held, the player's position at
the end of the tick equals its position at the start. -/
theorem C17_stunned_player_frozen_amended (m : MathEnv) (io : Frame) (deltaTime : ℚ)
    (g : Game) (hp : g.current_game_state = GameState.GAME_STATE_PLAYING)
    (hstun : g.player_is_stunned = true) (_hnow : io.GetTime ≤ g.player_stun_end_time)
    (hnd : g.player_is_dashing = false)
    (hnodash : ¬ ((io.IsKeyPressed KEY_LEFT_ALT = true ∨ io.IsKeyPressed KEY_RIGHT_ALT = true) ∧
      io.GetTime - g.player_last_dash_time ≥ 2))
    (hx : -50 ≤ g.player_x ∧ g.player_x ≤ (g.SCREEN_WIDTH : ℚ))
    (hy : -50 ≤ g.player_y ∧ g.player_y ≤ (g.SCREEN_HEIGHT : ℚ))
    (hnt : ¬ playerTeleported io (beforePortals m io deltaTime g)) :
    ∃ g1, updateGame m io deltaTime g = some g1 ∧
      g1.player_x = g.player_x ∧ g1.player_y = g.player_y := by
  refine ⟨playingTick m io deltaTime g, ?_, ?_⟩
  · unfold updateGame
    rw [hp]
  obtain ⟨u1, u2, u3, u4, u5⟩ := updateElapsed_player io g
  have hu := updateElapsed_untouched io g
  have hd : dashActivation m io (updateElapsed io g) = updateElapsed io g := by
    unfold dashActivation
    rw [if_neg]
    rw [u5]
    simpa [PLAYER_DASH_COOLDOWN] using hnodash
  have hmove : (movePlayer m io deltaTime (updateElapsed io g)).player_x = g.player_x ∧
      (movePlayer m io deltaTime (updateElapsed io g)).player_y = g.player_y ∧
      (movePlayer m io deltaTime (updateElapsed io g)).SCREEN_WIDTH = g.SCREEN_WIDTH ∧
      (movePlayer m io deltaTime (updateElapsed io g)).SCREEN_HEIGHT = g.SCREEN_HEIGHT := by
    have hw := (movePlayer_untouched m io deltaTime (updateElapsed io g)).SCREEN_WIDTH
    have hh := (movePlayer_untouched m io deltaTime (updateElapsed io g)).SCREEN_HEIGHT
    obtain ⟨q1, q2⟩ := movePlayer_stunned m io deltaTime (updateElapsed io g)
      (u3.trans hnd) (u4.trans hstun)
    exact ⟨q1.trans u1, q2.trans u2, hw.trans hu.SCREEN_WIDTH, hh.trans hu.SCREEN_HEIGHT⟩
  obtain ⟨m1, m2, m3, m4⟩ := hmove
  have hbefore : (beforePortals m io deltaTime g).player_x = g.player_x ∧
      (beforePortals m io deltaTime g).player_y = g.player_y := by
    unfold beforePortals wrapPlayer
    simp only []
    rw [hd, m1, m2, m3, m4]
    constructor
    · exact wrapAxis_in_range _ _ _ (by simpa [player_size] using hx.1) hx.2
    · exact wrapAxis_in_range _ _ _ (by simpa [player_size] using hy.1) hy.2
  obtain ⟨p1, p2⟩ := portalLogic_player_stays io _ hnt
  have hend := playingTick_eq_afterPortals m io deltaTime g
  unfold teleportClockAndPlayer at hend
  simp only [Prod.mk.injEq] at hend
  exact ⟨hend.2.1.trans (p1.trans hbefore.1), hend.2.2.trans (p2.trans hbefore.2)⟩

/-- C17 (amended), at a concrete input: a stunned player with all four
movement keys and all four aim keys held stays where it is. -/
theorem C17_witness_frozen :
    stunnedPlayer.player_is_stunned = true ∧
      (updateGame sampleMath
        (frameKeys 1 [] [KEY_UP, KEY_DOWN, KEY_LEFT, KEY_RIGHT, KEY_W, KEY_A, KEY_S, KEY_D])
        (1 / 60) stunnedPlayer).map (fun g => (g.player_x, g.player_y))
      = some (stunnedPlayer.player_x, stunnedPlayer.player_y) := by
  obtain ⟨g1, h1, h2, h3⟩ := C17_stunned_player_frozen_amended sampleMath
    (frameKeys 1 [] [KEY_UP, KEY_DOWN, KEY_LEFT, KEY_RIGHT, KEY_W, KEY_A, KEY_S, KEY_D])
    (1 / 60) stunnedPlayer rfl rfl (by decide!) rfl (by decide!) (by decide!) (by decide!)
    (by unfold playerTeleported teleportGate; decide!)
  refine ⟨rfl, ?_⟩
  rw [h1, Option.map_some', h2, h3]

/-- C17 as stated fails: a stunned player (stun lasting until 20) that presses
Alt with the RIGHT key held at `now = 1` starts a dash and is moved by
`1000 / 60` px in that tick; and a stunned player standing on portal 1 in
portal mode is teleported at `now = 8.5` to portal 2. -/
theorem C17_counterexample_stunned_player_moves :
    stunnedPlayer.current_game_state = GameState.GAME_STATE_PLAYING ∧
    stunnedPlayer.player_is_stunned = true ∧ (1 : ℚ) ≤ stunnedPlayer.player_stun_end_time ∧
    (stunnedPlayer.player_x, stunnedPlayer.player_y) = (658, 644) ∧
    (updateGame sampleMath (frameKeys 1 [KEY_LEFT_ALT] [KEY_RIGHT]) (1 / 60)
      stunnedPlayer).map (fun g => (g.player_x, g.player_y, g.player_is_stunned))
      = some (658 + 1000 / 60, 644, true) ∧
    stunnedOnPortal.current_game_state = GameState.GAME_STATE_PLAYING ∧
    stunnedOnPortal.player_is_stunned = true ∧
    (17 / 2 : ℚ) ≤ stunnedOnPortal.player_stun_end_time ∧
    (stunnedOnPortal.player_x, stunnedOnPortal.player_y) = (658, 644) ∧
    (updateGame sampleMath (frameAt (17 / 2)) (1 / 60) stunnedOnPortal).map
      (fun g => (g.player_x, g.player_y, g.player_is_stunned)) = some (75, 75, true) := by
  refine ⟨rfl, rfl, by decide!, by decide!, by decide!, rfl, rfl, by decide!, by decide!,
    by decide!⟩

/-! ### Continue after game over -/

theorem resetGame_spec (g : Game) :
    ((resetGame g).projectiles = [] ∧ (resetGame g).player_is_stunned = false ∧
      (resetGame g).obstacle_is_stunned = false ∧ (resetGame g).player_is_dashing = false) ∧
    ((resetGame g).portal_1_active = false ∧ (resetGame g).portal_2_active = false ∧
      (resetGame g).next_projectile_portal_is_1 = true) ∧
    ((resetGame g).near_miss_achievement_unlocked_this_game = false ∧
      (resetGame g).obstacle_stuns_this_game = 0 ∧ (resetGame g).has_shot_this_game = false ∧
      (resetGame g).dash_through_projectile_achievement_unlocked_this_game = false) ∧
    ((resetGame g).elapsed_time_s = 0 ∧ (resetGame g).final_survival_time_s = 0 ∧
      (resetGame g).start_time_s = 0 ∧ (resetGame g).dodge_streak_start_time = 0) ∧
    ((resetGame g).player_x = (g.SCREEN_WIDTH : ℚ) / 2 - 25 ∧
      (resetGame g).player_y = (g.SCREEN_HEIGHT : ℚ) - 50 ∧
      (resetGame g).obstacle_x = (g.SCREEN_WIDTH : ℚ) / 2 - 25 ∧
      (resetGame g).obstacle_y = 0) ∧
    ((resetGame g).player_last_shot_time = -(1 / 2) ∧
      (resetGame g).player_last_dash_time = -2 ∧
      (resetGame g).obstacle_last_shot_time = -2) ∧
    ((resetGame g).high_scores = g.high_scores ∧
      (resetGame g).UNLOCKED_ACHIEVEMENTS_BY_USER = g.UNLOCKED_ACHIEVEMENTS_BY_USER ∧
      (resetGame g).current_username = g.current_username ∧
      (resetGame g).SCREEN_WIDTH = g.SCREEN_WIDTH ∧
      (resetGame g).SCREEN_HEIGHT = g.SCREEN_HEIGHT ∧
      (resetGame g).current_game_state = g.current_game_state ∧
      (resetGame g).current_countdown_frame = 180) := by
  refine ⟨⟨rfl, rfl, rfl, rfl⟩, ⟨rfl, rfl, rfl⟩, ⟨rfl, rfl, rfl, rfl⟩, ⟨rfl, rfl, rfl, rfl⟩,
    ⟨?_, ?_, ?_, rfl⟩, ⟨?_, ?_, ?_⟩, ⟨rfl, rfl, rfl, rfl, rfl, rfl, ?_⟩⟩
  · show (g.SCREEN_WIDTH : ℚ) / 2 - player_size / 2 = (g.SCREEN_WIDTH : ℚ) / 2 - 25
    norm_num [player_size]
  · show (g.SCREEN_HEIGHT : ℚ) - player_size = (g.SCREEN_HEIGHT : ℚ) - 50
    norm_num [player_size]
  · show (g.SCREEN_WIDTH : ℚ) / 2 - obstacle_size / 2 = (g.SCREEN_WIDTH : ℚ) / 2 - 25
    norm_num [obstacle_size]
  · show -PLAYER_SHOOT_COOLDOWN = -(1 / 2)
    norm_num [PLAYER_SHOOT_COOLDOWN]
  · show -PLAYER_DASH_COOLDOWN = -2
    norm_num [PLAYER_DASH_COOLDOWN]
  · show -OBSTACLE_SHOOT_COOLDOWN = -2
    norm_num [OBSTACLE_SHOOT_COOLDOWN]
  · show countdown_time_seconds * FPS = 180
    norm_num [countdown_time_seconds, FPS]

theorem gameOverTick_continue (io : Frame) (g : Game) (hR : io.IsKeyPressed KEY_R = true) :
    ∃ r : Game,
      r = resetGame (applyDifficulty "normal" { g with
        nextGameMessage :=
          if didWin g then "YOU HAVE BEATEN THE GAME ON NORMAL MODE!" else "TRY AGAIN!" }) ∧
      (io.IsKeyPressed KEY_P = false →
        gameOverTick io g = { r with current_game_state := GameState.GAME_STATE_COUNTDOWN }) ∧
      (io.IsKeyPressed KEY_P = true →
        gameOverTick io g = { r with
          current_game_state := GameState.GAME_STATE_USERNAME_INPUT
          username_input_buffer := r.current_username }) := by
  refine ⟨_, rfl, ?_, ?_⟩
  · intro hP
    unfold gameOverTick
    simp only [hR, hP, if_true, Bool.false_eq_true, if_false]
  · intro hP
    unfold gameOverTick
    simp only [hR, hP, if_true]

/-- C19 (amended): a frame in GameOver in which R is pressed fully resets the
match state, whatever the state before: no projectiles, no stun, no dash, both
portals inactive with slot 1 next, the four per-match achievement flags
cleared, elapsed and final time 0, the player at `(W/2 - 25, H - 50)` and the
obstacle at `(W/2 - 25, 0)`, the countdown at 180 frames, the shot, dash and
obstacle-shot gates open for every `now ≥ 0`, and the high score, the ledger
and the username unchanged; the phase becomes Countdown when P is not pressed
in the same frame. -/
theorem C19_continue_resets_amended (m : MathEnv) (io : Frame) (deltaTime : ℚ) (g : Game)
    (hgo : g.current_game_state = GameState.GAME_STATE_GAME_OVER)
    (hR : io.IsKeyPressed KEY_R = true) :
    ∃ g1, updateGame m io deltaTime g = some g1 ∧
      (io.IsKeyPressed KEY_P = false →
        g1.current_game_state = GameState.GAME_STATE_COUNTDOWN) ∧
      (g1.projectiles = [] ∧ g1.player_is_stunned = false ∧ g1.obstacle_is_stunned = false ∧
        g1.player_is_dashing = false) ∧
      (g1.portal_1_active = false ∧ g1.portal_2_active = false ∧
        g1.next_projectile_portal_is_1 = true) ∧
      (g1.near_miss_achievement_unlocked_this_game = false ∧
        g1.obstacle_stuns_this_game = 0 ∧ g1.has_shot_this_game = false ∧
        g1.dash_through_projectile_achievement_unlocked_this_game = false) ∧
      (g1.elapsed_time_s = 0 ∧ g1.final_survival_time_s = 0) ∧
      (g1.player_x = (g.SCREEN_WIDTH : ℚ) / 2 - 25 ∧
        g1.player_y = (g.SCREEN_HEIGHT : ℚ) - 50 ∧
        g1.obstacle_x = (g.SCREEN_WIDTH : ℚ) / 2 - 25 ∧ g1.obstacle_y = 0) ∧
      g1.current_countdown_frame = 180 ∧
      (∀ now : ℚ, 0 ≤ now →
        now - g1.player_last_shot_time ≥ PLAYER_SHOOT_COOLDOWN ∧
        now - g1.player_last_dash_time ≥ PLAYER_DASH_COOLDOWN ∧
        now - g1.obstacle_last_shot_time ≥ OBSTACLE_SHOOT_COOLDOWN) ∧
      (g1.high_scores = g.high_scores ∧
        g1.UNLOCKED_ACHIEVEMENTS_BY_USER = g.UNLOCKED_ACHIEVEMENTS_BY_USER ∧
        g1.current_username = g.current_username) := by
  obtain ⟨r, hr, hnp, hpp⟩ := gameOverTick_continue io g hR
  obtain ⟨s1, s2, s3, s4, s5, s6, s7⟩ := resetGame_spec (applyDifficulty "normal" { g with
    nextGameMessage :=
      if didWin g then "YOU HAVE BEATEN THE GAME ON NORMAL MODE!" else "TRY AGAIN!" })
  rw [← hr] at s1 s2 s3 s4 s5 s6 s7
  have hgates : ∀ now : ℚ, 0 ≤ now →
      now - r.player_last_shot_time ≥ PLAYER_SHOOT_COOLDOWN ∧
      now - r.player_last_dash_time ≥ PLAYER_DASH_COOLDOWN ∧
      now - r.obstacle_last_shot_time ≥ OBSTACLE_SHOOT_COOLDOWN := by
    intro now hn
    rw [s6.1, s6.2.1, s6.2.2]
    simp only [PLAYER_SHOOT_COOLDOWN, PLAYER_DASH_COOLDOWN, OBSTACLE_SHOOT_COOLDOWN]
    refine ⟨by linarith, by linarith, by linarith⟩
  have hupd : updateGame m io deltaTime g = some (gameOverTick io g) := by
    unfold updateGame
    rw [hgo]
  refine ⟨gameOverTick io g, hupd, ?_, ?_⟩
  · intro hP
    rw [hnp hP]
  · by_cases hP : io.IsKeyPressed KEY_P = true
    · rw [hpp hP]
      exact ⟨s1, s2, s3, ⟨s4.1, s4.2.1⟩, s5, s7.2.2.2.2.2.2, hgates,
        ⟨s7.1, s7.2.1, s7.2.2.1⟩⟩
    · rw [hnp (by simpa using hP)]
      exact ⟨s1, s2, s3, ⟨s4.1, s4.2.1⟩, s5, s7.2.2.2.2.2.2, hgates,
        ⟨s7.1, s7.2.1, s7.2.2.1⟩⟩

/-- C19 (amended), at a concrete input: R alone on the game-over screen of a
match with projectiles, stuns, a dash, portals and achievement flags set leads
to Countdown with everything reset and the high score and ledger kept. -/
theorem C19_witness_continue :
    gameOverSample.current_game_state = GameState.GAME_STATE_GAME_OVER ∧
      (updateGame sampleMath (frameKeys 50 [KEY_R] []) (1 / 60) gameOverSample).map
        (fun g => (g.current_game_state, g.projectiles, g.player_is_stunned,
          g.portal_1_active, g.near_miss_achievement_unlocked_this_game))
        = some (GameState.GAME_STATE_COUNTDOWN, [], false, false, false) ∧
      (updateGame sampleMath (frameKeys 50 [KEY_R] []) (1 / 60) gameOverSample).map
        (fun g => (g.high_scores "normal", g.UNLOCKED_ACHIEVEMENTS_BY_USER,
          g.player_last_dash_time)) = some (42, [("Guest", ["near_miss"])], -2) := by
  obtain ⟨g1, h1, h2, h3, h4, h5, -, -, -, -, h10⟩ := C19_continue_resets_amended sampleMath
    (frameKeys 50 [KEY_R] []) (1 / 60) gameOverSample rfl (by decide!)
  refine ⟨rfl, ?_, by decide!⟩
  rw [h1, Option.map_some', h2 (by decide!), h3.1, h3.2.1, h4.1, h5.1]

/-- C19 as stated fails when P is pressed in the same frame as R: the P handler
runs after the R handler and the phase ends as UsernameInput, not Countdown. -/
theorem C19_counterexample_R_and_P :
    gameOverSample.current_game_state = GameState.GAME_STATE_GAME_OVER ∧
      (frameKeys 50 [KEY_R, KEY_P] []).IsKeyPressed KEY_R = true ∧
      (updateGame sampleMath (frameKeys 50 [KEY_R, KEY_P] []) (1 / 60) gameOverSample).map
        (fun g => g.current_game_state) = some GameState.GAME_STATE_USERNAME_INPUT := by
  refine ⟨rfl, by decide!, by decide!⟩

/-! ### Countdown -/

theorem runFrames_append (m : MathEnv) (a b : List (Frame × ℚ)) :
    ∀ g : Game, runFrames m (a ++ b) g = (runFrames m a g).bind (runFrames m b) := by
  induction a with
  | nil => intro g; rfl
  | cons f rest ih =>
    intro g
    simp only [List.cons_append, runFrames]
    cases updateGame m f.1 f.2 g with
    | none => rfl
    | some s => exact ih s

theorem countdown_run (m : MathEnv) (fs : List (Frame × ℚ)) :
    ∀ (s : Game), s.current_game_state = GameState.GAME_STATE_COUNTDOWN →
      (fs.length : Int) < s.current_countdown_frame →
      ∃ s1, runFrames m fs s = some s1 ∧
        s1.current_game_state = GameState.GAME_STATE_COUNTDOWN ∧
        s1.current_countdown_frame = s.current_countdown_frame - (fs.length : Int) ∧
        s1.near_miss_achievement_unlocked_this_game =
          s.near_miss_achievement_unlocked_this_game := by
  induction fs with
  | nil =>
    intro s hs _
    exact ⟨s, rfl, hs, by simp, rfl⟩
  | cons f rest ih =>
    intro s hs hlen
    simp only [List.length_cons, Nat.cast_add, Nat.cast_one] at hlen
    have hstep : updateGame m f.1 f.2 s =
        some { s with current_countdown_frame := s.current_countdown_frame - 1 } := by
      have hnot : ¬ (s.current_countdown_frame - 1 ≤ 0) := by omega
      unfold updateGame
      rw [hs]
      simp only [countdownTick]
      rw [if_neg hnot, hs]
    obtain ⟨s1, h1, h2, h3, h4⟩ := ih
      { s with current_countdown_frame := s.current_countdown_frame - 1 } hs
      (by show (rest.length : Int) < s.current_countdown_frame - 1; omega)
    refine ⟨s1, ?_, h2, ?_, h4⟩
    · simp only [runFrames]
      rw [hstep]
      exact h1
    · rw [h3]
      show s.current_countdown_frame - 1 - (rest.length : Int) = _
      simp only [List.length_cons, Nat.cast_add, Nat.cast_one]
      omega

/-- C20: from the state in which a match starts its countdown (`resetGame`,
phase Countdown, frame counter 180), the phase is still Countdown after each of
the first 179 frames, whatever their clock values and keys, and the 180th
frame switches it to Playing and stamps `start_time_s` and
`dodge_streak_start_time` with the clock value of that frame; on entry to
Playing the near-miss flag is false, the obstacle-stun count 0, the has-shot
flag false and the dash-through flag false. -/
theorem C20_countdown_180_frames (m : MathEnv) (g0 : Game) (frames : List (Frame × ℚ))
    (last : Frame × ℚ) (hlen : frames.length = 179) :
    (countdownStart g0).current_countdown_frame = 180 ∧
    (∀ k : Nat, k ≤ 179 →
      ∃ s, runFrames m (frames.take k) (countdownStart g0) = some s ∧
        s.current_game_state = GameState.GAME_STATE_COUNTDOWN ∧
        s.current_countdown_frame = 180 - (k : Int)) ∧
    (∃ s, runFrames m (frames ++ [last]) (countdownStart g0) = some s ∧
      s.current_game_state = GameState.GAME_STATE_PLAYING ∧
      s.start_time_s = last.1.GetTime ∧ s.dodge_streak_start_time = last.1.GetTime ∧
      s.near_miss_achievement_unlocked_this_game = false ∧
      s.obstacle_stuns_this_game = 0 ∧ s.has_shot_this_game = false ∧
      s.dash_through_projectile_achievement_unlocked_this_game = false) := by
  have hc : (countdownStart g0).current_countdown_frame = 180 :=
    (resetGame_spec g0).2.2.2.2.2.2.2.2.2.2.2.2
  have hs : (countdownStart g0).current_game_state = GameState.GAME_STATE_COUNTDOWN := rfl
  have hnm : (countdownStart g0).near_miss_achievement_unlocked_this_game = false := rfl
  refine ⟨hc, ?_, ?_⟩
  · intro k hk
    have hl : (frames.take k).length = k := by
      rw [List.length_take, hlen]
      omega
    obtain ⟨s, h1, h2, h3, -⟩ := countdown_run m (frames.take k) (countdownStart g0) hs
      (by rw [hl, hc]; omega)
    refine ⟨s, h1, h2, ?_⟩
    rw [h3, hl, hc]
  · obtain ⟨s, h1, h2, h3, h4⟩ := countdown_run m frames (countdownStart g0) hs
      (by rw [hlen, hc]; norm_num)
    rw [hlen, hc] at h3
    have hone : s.current_countdown_frame = 1 := by
      rw [h3]
      norm_num
    refine ⟨countdownTick last.1 s, ?_, ?_⟩
    · rw [runFrames_append, h1]
      simp only [Option.some_bind, runFrames]
      unfold updateGame
      rw [h2]
      rfl
    · unfold countdownTick
      simp only [hone]
      rw [if_pos (by norm_num)]
      exact ⟨rfl, rfl, rfl, h4.trans hnm, rfl, rfl, rfl⟩

/-- C20, at a concrete input: 179 frames at clock value 2 keep the countdown
running and a 180th frame at clock value 3 starts the match with
`start_time_s = 3`. -/
theorem C20_witness_countdown :
    (runFrames sampleMath (List.replicate 179 (frameAt 2, 1 / 60))
        (countdownStart initialGlobals)).map
      (fun g => (g.current_game_state, g.current_countdown_frame))
      = some (GameState.GAME_STATE_COUNTDOWN, 1) ∧
    ∃ s, runFrames sampleMath (List.replicate 179 (frameAt 2, 1 / 60) ++ [(frameAt 3, 1 / 60)])
        (countdownStart initialGlobals) = some s ∧
      s.current_game_state = GameState.GAME_STATE_PLAYING ∧ s.start_time_s = 3 ∧
      s.dodge_streak_start_time = 3 := by
  obtain ⟨-, -, s, h1, h2, h3, h4, -⟩ := C20_countdown_180_frames sampleMath initialGlobals
    (List.replicate 179 (frameAt 2, 1 / 60)) (frameAt 3, 1 / 60) (List.length_replicate _ _)
  exact ⟨by decide!, s, h1, h2, h3, h4⟩

/-! ### The save file -/

theorem findAux_bounds (pat : List Char) (hpat : pat ≠ []) :
    ∀ (l : List Char) (i j : Nat), findAux l pat i = some j → i ≤ j ∧ j < i + l.length := by
  intro l
  induction l with
  | nil =>
    intro i j h
    simp [findAux, hpat] at h
  | cons c cs ih =>
    intro i j h
    unfold findAux at h
    split_ifs at h with hp
    · cases h
      simp
    · obtain ⟨h1, h2⟩ := ih (i + 1) j h
      simp only [List.length_cons]
      omega

theorem find_bounds (s : List Char) (pat : String) (hpat : pat.data ≠ []) (pos j : Nat)
    (h : find s pat pos = some j) : pos ≤ j ∧ j < s.length := by
  unfold find at h
  split_ifs at h with hp
  obtain ⟨h1, h2⟩ := findAux_bounds pat.data hpat _ _ _ h
  rw [List.length_drop] at h2
  omega

/-- The loop over the user entries does not depend on its fuel once the fuel
exceeds the number of characters left: it ends by itself. -/
theorem parseUsers_fuel (content : List Char) :
    ∀ (fuel1 fuel2 current_pos : Nat) (ledger : List (String × List String)),
      content.length < current_pos + fuel1 → content.length < current_pos + fuel2 →
      parseUsers content fuel1 current_pos ledger = parseUsers content fuel2 current_pos ledger := by
  have hq : ("\"" : String).data ≠ [] := by decide
  have hl : ("[" : String).data ≠ [] := by decide
  have hr : ("]" : String).data ≠ [] := by decide
  have stop : ∀ (fuel current_pos : Nat) (ledger : List (String × List String)),
      content.length < current_pos → parseUsers content fuel current_pos ledger = ledger := by
    intro fuel current_pos ledger hlt
    cases fuel with
    | zero => rfl
    | succ k =>
      have hnone : find content "\"" current_pos = none := by
        unfold find
        rw [if_pos hlt]
      simp only [parseUsers, hnone]
  intro fuel1
  induction fuel1 with
  | zero =>
    intro fuel2 current_pos ledger h1 _
    rw [stop 0 current_pos ledger (by omega), stop fuel2 current_pos ledger (by omega)]
  | succ k ih =>
    intro fuel2 current_pos ledger h1 h2
    cases fuel2 with
    | zero => rw [stop (k + 1) current_pos ledger (by omega), stop 0 current_pos ledger (by omega)]
    | succ k2 =>
      simp only [parseUsers]
      cases e1 : find content "\"" current_pos with
      | none => rfl
      | some quote =>
        simp only []
        cases e2 : find content "\"" (quote + 1) with
        | none => rfl
        | some user_name_end =>
          simp only []
          cases e3 : find content "[" user_name_end with
          | none => rfl
          | some achievements_array_start =>
            simp only []
            cases e4 : find content "]" achievements_array_start with
            | none => rfl
            | some achievements_array_end =>
              simp only []
              have b1 := find_bounds content _ hq _ _ e1
              have b2 := find_bounds content _ hq _ _ e2
              have b3 := find_bounds content _ hl _ _ e3
              have b4 := find_bounds content _ hr _ _ e4
              exact ih k2 _ _ (by omega) (by omega)

/-- C18, at the state `twoProfiles`: the text that `saveGameData` writes holds
both profiles, and `loadGameData` applied to that text at the start of a
session restores the last active username `Bob` and the list of `Alice`, but
not the list of `Bob`, whose entry comes back empty: the ledger does not
survive the round trip. -/
theorem C18_second_profile_lost_on_load :
    twoProfiles.current_username = "Bob" ∧
    twoProfiles.UNLOCKED_ACHIEVEMENTS_BY_USER =
      [("Alice", ["near_miss"]), ("Bob", ["dash_of_genius"])] ∧
    saveGameData sampleText twoProfiles =
      "\x7b\n  \"last_username\": \"Bob\",\n  \"high_scores\": \x7b\n    \"normal\": 0\n  \x7d,\n" ++
      "  \"user_data\": \x7b\n    \"Alice\": \x7b\n      \"unlocked_achievements\": [\"near_miss\"]\n" ++
      "    \x7d,\n    \"Bob\": \x7b\n      \"unlocked_achievements\": [\"dash_of_genius\"]\n    \x7d\n" ++
      "  \x7d\n\x7d\n" ∧
    (loadGameData sampleText (some (saveGameData sampleText twoProfiles))
      freshSession).current_username = "Bob" ∧
    (loadGameData sampleText (some (saveGameData sampleText twoProfiles))
      freshSession).UNLOCKED_ACHIEVEMENTS_BY_USER = [("Alice", ["near_miss"]), ("Bob", [])] := by
  refine ⟨rfl, rfl, ?_, ?_, ?_⟩ <;> decide!


/-! ### Following a quantity through the projectile loop -/

theorem stepProjectile_keeps {α : Type} (m : MathEnv) (io : Frame) (f : Game → α)
    (hplace : ∀ pos g, f (placePortal io pos g) = f g)
    (hO : ∀ s : Game × Projectile, f (hitObstacle io s).1 = f s.1)
    (hP : ∀ s : Game × Projectile, f (hitPlayer io s).1 = f s.1)
    (hD : ∀ s : Game × Projectile, f (dashThrough io s).1 = f s.1)
    (hN : ∀ s : Game × Projectile, f (nearMiss m io s).1 = f s.1)
    (g : Game) (p : Projectile) : f (stepProjectile m io g p).1 = f g := by
  have he : ∀ q, f (projectileEffects m io g q).1 = f g := by
    intro q
    unfold projectileEffects
    simp only []
    rw [hN, hD, hP, hO]
  unfold stepProjectile
  split_ifs with ha
  · simp only []
    split_ifs
    · split
      · exact hplace _ _
      · exact he _
    · exact he _
  · rfl

theorem projectileLoop_keeps {α : Type} (m : MathEnv) (io : Frame) (f : Game → α)
    (hstep : ∀ g p, f (stepProjectile m io g p).1 = f g) (ps : List Projectile) :
    ∀ g : Game, f (projectileLoop m io g ps).1 = f g := by
  induction ps with
  | nil => intro g; rfl
  | cons p ps ih =>
    intro g
    simp only [projectileLoop]
    rw [ih, hstep]

theorem portalLogic_keeps {α : Type} (io : Frame) (f : Game → α)
    (h1 : ∀ t, f (expirePortals io t) = f t) (h2 : ∀ t, f (teleportPlayer io t) = f t)
    (h3 : ∀ t, f (teleportObstacle io t) = f t) (t : Game) : f (portalLogic io t) = f t := by
  unfold portalLogic
  split_ifs
  · rw [h3, h2, h1]
  · rfl

/-! ### Elapsed time through a tick -/

theorem unlockAchievement_elapsed (io : Frame) (a u : String) (g : Game) :
    (unlockAchievement io a u g).elapsed_time_s = g.elapsed_time_s := by
  unfold unlockAchievement
  split
  · rfl
  · simp only []
    split_ifs <;> rfl

theorem updateElapsed_elapsed (io : Frame) (g : Game) :
    (updateElapsed io g).elapsed_time_s = io.GetTime - g.start_time_s := by
  unfold updateElapsed
  simp only []
  split_ifs <;> simp only [unlockAchievement_elapsed]

theorem updateProjectiles_elapsed (m : MathEnv) (io : Frame) (g : Game) :
    (updateProjectiles m io g).elapsed_time_s = g.elapsed_time_s := by
  unfold updateProjectiles
  refine projectileLoop_keeps m io (fun s => s.elapsed_time_s) ?_ g.projectiles g
  refine stepProjectile_keeps m io (fun s => s.elapsed_time_s) ?_ ?_ ?_ ?_ ?_
  · intro pos s
    unfold placePortal
    split_ifs <;> rfl
  · intro s
    unfold hitObstacle
    simp only []
    split_ifs
    · exact unlockAchievement_elapsed io _ _ _
    · rfl
    · rfl
    · rfl
  · intro s
    unfold hitPlayer
    simp only []
    split_ifs <;> rfl
  · intro s
    unfold dashThrough
    simp only []
    split_ifs
    · exact unlockAchievement_elapsed io _ _ _
    · rfl
    · rfl
  · intro s
    unfold nearMiss
    simp only []
    split_ifs
    · exact unlockAchievement_elapsed io _ _ _
    · rfl
    · rfl

theorem beforeBonus_elapsed (m : MathEnv) (io : Frame) (dt : ℚ) (g : Game) :
    (beforeBonus m io dt g).elapsed_time_s = io.GetTime - g.start_time_s := by
  have e1 : ∀ t : Game, (dashActivation m io t).elapsed_time_s = t.elapsed_time_s := by
    intro t
    unfold dashActivation
    split_ifs <;> rfl
  have e2 : ∀ t : Game, (movePlayer m io dt t).elapsed_time_s = t.elapsed_time_s := by
    intro t
    unfold movePlayer
    simp only []
    split_ifs <;> rfl
  have e3 : ∀ t : Game, (portalLogic io t).elapsed_time_s = t.elapsed_time_s := by
    refine portalLogic_keeps io (fun s => s.elapsed_time_s) ?_ ?_ ?_
    · intro t
      unfold expirePortals
      simp only []
      split_ifs <;> rfl
    · intro t
      unfold teleportPlayer
      simp only []
      split_ifs <;> rfl
    · intro t
      unfold teleportObstacle
      simp only []
      split_ifs <;> rfl
  have e4 : ∀ t : Game, (playerShoot m io t).elapsed_time_s = t.elapsed_time_s := by
    intro t
    unfold playerShoot
    simp only []
    split_ifs <;> rfl
  have e5 : ∀ t : Game, (obstacleShoot m io t).elapsed_time_s = t.elapsed_time_s := by
    intro t
    unfold obstacleShoot
    simp only []
    split_ifs <;> rfl
  have e6 : ∀ t : Game, (updateAiTarget t).elapsed_time_s = t.elapsed_time_s := by
    intro t
    unfold updateAiTarget
    simp only []
    split_ifs <;> rfl
  have e7 : ∀ t : Game, (moveObstacle io t).elapsed_time_s = t.elapsed_time_s := by
    intro t
    unfold moveObstacle
    split_ifs <;> rfl
  unfold beforeBonus
  show (moveObstacle io _).elapsed_time_s = _
  rw [e7, e6, updateProjectiles_elapsed, e5, e4, e3]
  show (movePlayer m io dt _).elapsed_time_s = _
  rw [e2, e1, updateElapsed_elapsed]

/-- C27: after a Playing tick at time `now`, from any state of the match and so
after any number of earlier bonuses, `start_time_s` is unchanged and
`elapsed_time_s` is `now - start_time_s + 1` when the tick awards the
dodge-streak bonus and `now - start_time_s` when it does not; when the tick
ends the match, `final_survival_time_s` is that value, so it is at most
`now - start_time_s + 1` and differs from `now - start_time_s` only when this
very tick awards a bonus. -/
theorem C27_bonus_never_accumulates (m : MathEnv) (io : Frame) (deltaTime : ℚ) (g : Game)
    (hp : g.current_game_state = GameState.GAME_STATE_PLAYING) :
    ∃ g1, updateGame m io deltaTime g = some g1 ∧
      g1.start_time_s = g.start_time_s ∧
      (awardsBonus m io deltaTime g →
        g1.elapsed_time_s = io.GetTime - g.start_time_s + 1) ∧
      (¬ awardsBonus m io deltaTime g →
        g1.elapsed_time_s = io.GetTime - g.start_time_s) ∧
      (g1.current_game_state = GameState.GAME_STATE_GAME_OVER →
        g1.final_survival_time_s = g1.elapsed_time_s ∧
        g1.final_survival_time_s ≤ io.GetTime - g.start_time_s + 1 ∧
        (g1.final_survival_time_s ≠ io.GetTime - g.start_time_s →
          awardsBonus m io deltaTime g)) := by
  have hb := beforeBonus_elapsed m io deltaTime g
  have hk := (afterBonus_keeps io (dodgeStreakBonus io (beforeBonus m io deltaTime g))).1
  have hst : (playingTick m io deltaTime g).start_time_s = g.start_time_s := by
    have u := (beforeTerminalCheck_untouched m io deltaTime g).start_time_s
    unfold playingTick checkTerminalCollision
    simp only []
    split_ifs <;> exact u
  have hel : (playingTick m io deltaTime g).elapsed_time_s =
      (dodgeStreakBonus io (beforeBonus m io deltaTime g)).elapsed_time_s := hk
  have hyes : awardsBonus m io deltaTime g →
      (playingTick m io deltaTime g).elapsed_time_s = io.GetTime - g.start_time_s + 1 := by
    intro ha
    rw [hel]
    unfold dodgeStreakBonus
    rw [if_pos ha.1, if_pos ha.2]
    show (beforeBonus m io deltaTime g).elapsed_time_s + DODGE_BONUS_AMOUNT = _
    rw [hb]
    rfl
  have hno : ¬ awardsBonus m io deltaTime g →
      (playingTick m io deltaTime g).elapsed_time_s = io.GetTime - g.start_time_s := by
    intro ha
    rw [hel]
    unfold dodgeStreakBonus
    by_cases h1 : (beforeBonus m io deltaTime g).player_is_stunned = false
    · rw [if_pos h1, if_neg (fun h2 => ha ⟨h1, h2⟩)]
      exact hb
    · rw [if_neg h1]
      exact hb
  refine ⟨playingTick m io deltaTime g, ?_, hst, hyes, hno, ?_⟩
  · unfold updateGame
    rw [hp]
  · intro hover
    have hfin : (playingTick m io deltaTime g).final_survival_time_s =
        (playingTick m io deltaTime g).elapsed_time_s := by
      by_cases hc : terminalCollision (beforeTerminalCheck m io deltaTime g)
      · have h1 := (checkTerminalCollision_scores _ hc).1
        have h2 : (playingTick m io deltaTime g).elapsed_time_s =
            (beforeTerminalCheck m io deltaTime g).elapsed_time_s := by
          unfold playingTick checkTerminalCollision
          simp only []
          split_ifs <;> rfl
        rw [h2]
        exact h1
      · exfalso
        have h3 : playingTick m io deltaTime g = beforeTerminalCheck m io deltaTime g :=
          checkTerminalCollision_of_not _ hc
        rw [h3, beforeTerminalCheck_state, hp] at hover
        cases hover
    refine ⟨hfin, ?_, ?_⟩
    · rw [hfin]
      by_cases ha : awardsBonus m io deltaTime g
      · rw [hyes ha]
      · rw [hno ha]
        linarith
    · intro hne
      by_contra ha
      exact hne (hfin.trans (hno ha))

/-- C27, at a concrete input: a match started at `0` whose dodge streak began
at `50` ends in a tick at `65`; the tick awards a bonus, and the final time is
`66`, one bonus above `65 - 0`, although six bonus intervals have passed. -/
theorem C27_witness_final_time :
    awardsBonus sampleMath (frameAt 65) (1 / 60)
      { collisionAt65 with dodge_streak_start_time := 50 } ∧
    (updateGame sampleMath (frameAt 65) (1 / 60)
      { collisionAt65 with dodge_streak_start_time := 50 }).map
      (fun g => (g.current_game_state, g.elapsed_time_s, g.final_survival_time_s))
      = some (GameState.GAME_STATE_GAME_OVER, 66, 66) := by
  have ha : awardsBonus sampleMath (frameAt 65) (1 / 60)
      { collisionAt65 with dodge_streak_start_time := 50 } := by
    unfold awardsBonus
    decide!
  obtain ⟨g1, h1, -, h3, -, h5⟩ :=
    C27_bonus_never_accumulates sampleMath (frameAt 65) (1 / 60)
      { collisionAt65 with dodge_streak_start_time := 50 } rfl
  have hs : g1.current_game_state = GameState.GAME_STATE_GAME_OVER := by
    have e : (updateGame sampleMath (frameAt 65) (1 / 60)
        { collisionAt65 with dodge_streak_start_time := 50 }).map
        (fun g => g.current_game_state) = some GameState.GAME_STATE_GAME_OVER := by decide!
    rw [h1] at e
    exact Option.some.inj e
  have he := h3 ha
  have hf := (h5 hs).1
  refine ⟨ha, ?_⟩
  rw [h1, Option.map_some', hs, hf, he]
  norm_num [frameAt, collisionAt65, sampleMatch, resetGame, applyDifficulty]

/-! ### Landing inside the destination portal -/

theorem playerTouches_congr (s t : Game) (pos : Vector2) (hx : t.player_x = s.player_x)
    (hy : t.player_y = s.player_y) : playerTouches t pos = playerTouches s pos := by
  unfold playerTouches
  rw [hx, hy]

theorem unlockAchievement_loopFrame (io : Frame) (a u : String) (g : Game) :
    loopFrame (unlockAchievement io a u g) = loopFrame g := by
  unfold unlockAchievement
  split
  · rfl
  · simp only []
    split_ifs <;> rfl

theorem stepProjectile_loopFrame (m : MathEnv) (io : Frame) (g : Game) (p : Projectile) :
    loopFrame (stepProjectile m io g p).1 = loopFrame g := by
  refine stepProjectile_keeps m io loopFrame ?_ ?_ ?_ ?_ ?_ g p
  · intro pos s
    unfold placePortal
    split_ifs <;> rfl
  · intro s
    unfold hitObstacle
    simp only []
    split_ifs
    · exact unlockAchievement_loopFrame io _ _ _
    · rfl
    · rfl
    · rfl
  · intro s
    unfold hitPlayer
    simp only []
    split_ifs <;> rfl
  · intro s
    unfold dashThrough
    simp only []
    split_ifs
    · exact unlockAchievement_loopFrame io _ _ _
    · rfl
    · rfl
  · intro s
    unfold nearMiss
    simp only []
    split_ifs
    · exact unlockAchievement_loopFrame io _ _ _
    · rfl
    · rfl

theorem projectileLoop_loopFrame (m : MathEnv) (io : Frame) (ps : List Projectile) (g : Game) :
    loopFrame (projectileLoop m io g ps).1 = loopFrame g :=
  projectileLoop_keeps m io loopFrame (stepProjectile_loopFrame m io) ps g

theorem loopFrame_fields {a b : Game} (h : loopFrame a = loopFrame b) :
    a.player_is_dashing = b.player_is_dashing ∧ playerRect a = playerRect b ∧
      obstacleRect a = obstacleRect b ∧ a.SCREEN_WIDTH = b.SCREEN_WIDTH ∧
      a.SCREEN_HEIGHT = b.SCREEN_HEIGHT ∧ a.is_portal_mode = b.is_portal_mode := by
  unfold loopFrame at h
  simp only [Prod.mk.injEq] at h
  obtain ⟨⟨h1, h2, h3, h4⟩, h5, h6, h7, h8⟩ := h
  unfold playerRect obstacleRect
  rw [h1, h2, h3, h4]
  exact ⟨h5, rfl, rfl, h6, h7, h8⟩

theorem projectileLoop_split (m : MathEnv) (io : Frame) (pre : List Projectile) :
    ∀ (g : Game) (p : Projectile) (post : List Projectile),
      projectileLoop m io g (pre ++ p :: post) =
        ((projectileLoop m io
            (stepProjectile m io (projectileLoop m io g pre).1 p).1 post).1,
          (projectileLoop m io g pre).2 ++
            (stepProjectile m io (projectileLoop m io g pre).1 p).2 ::
              (projectileLoop m io
                (stepProjectile m io (projectileLoop m io g pre).1 p).1 post).2) := by
  induction pre with
  | nil => intro g p post; rfl
  | cons q qs ih =>
    intro g p post
    have e := ih (stepProjectile m io g q).1 p post
    show projectileLoop m io g (q :: (qs ++ p :: post)) = _
    simp only [projectileLoop, e, List.cons_append]

theorem boundaryHandling_kind (W H : Int) (p : Projectile) :
    (boundaryHandling W H p).1.is_player_shot = p.is_player_shot ∧
      (boundaryHandling W H p).1.active = p.active := by
  have hx : (bounceX W p).1.is_player_shot = p.is_player_shot ∧
      (bounceX W p).1.active = p.active := by
    unfold bounceX
    split_ifs <;> exact ⟨rfl, rfl⟩
  have hy : ∀ q : Projectile, (bounceY H q).1.is_player_shot = q.is_player_shot ∧
      (bounceY H q).1.active = q.active := by
    intro q
    unfold bounceY
    split_ifs <;> exact ⟨rfl, rfl⟩
  unfold boundaryHandling
  simp only []
  split_ifs
  · obtain ⟨-, -, h3, h4⟩ := wrapProjectile_keeps W H (bounceY H (bounceX W p).1).1
    rw [h3, h4, (hy _).1, (hy _).2, hx.1, hx.2]
    exact ⟨rfl, rfl⟩
  · rw [(hy _).1, (hy _).2, hx.1, hx.2]
    exact ⟨rfl, rfl⟩

theorem unlockAchievement_stun_fields (io : Frame) (a u : String) (g : Game) :
    (unlockAchievement io a u g).player_is_stunned = g.player_is_stunned ∧
      (unlockAchievement io a u g).player_stun_end_time = g.player_stun_end_time ∧
      (unlockAchievement io a u g).obstacle_last_stun_time = g.obstacle_last_stun_time ∧
      (unlockAchievement io a u g).player_last_stun_shot_time = g.player_last_stun_shot_time ∧
      (unlockAchievement io a u g).dodge_streak_start_time = g.dodge_streak_start_time ∧
      (unlockAchievement io a u g).obstacle_is_stunned = g.obstacle_is_stunned ∧
      (unlockAchievement io a u g).obstacle_stuns_this_game = g.obstacle_stuns_this_game := by
  unfold unlockAchievement
  split
  · exact ⟨rfl, rfl, rfl, rfl, rfl, rfl, rfl⟩
  · simp only []
    split_ifs <;> exact ⟨rfl, rfl, rfl, rfl, rfl, rfl, rfl⟩

theorem nearMiss_dashing (m : MathEnv) (io : Frame) (s : Game × Projectile)
    (hd : s.1.player_is_dashing = true) : nearMiss m io s = s := by
  unfold nearMiss
  simp only [hd, Bool.true_eq_false, and_false, if_false]

/-- One pass of the loop for an obstacle shot that, after its move and the
boundary handling, overlaps a dashing player and not the obstacle: only the
dash-through block runs. -/
theorem stepProjectile_dash_through (m : MathEnv) (io : Frame) (b : Game) (p : Projectile)
    (hd : b.player_is_dashing = true) (ha : p.active = true) (hs : p.is_player_shot = false)
    (hov : CheckCollisionRecs
      (boundaryHandling b.SCREEN_WIDTH b.SCREEN_HEIGHT (moveProjectile p)).1.rect
      (playerRect b) = true)
    (hno : CheckCollisionRecs
      (boundaryHandling b.SCREEN_WIDTH b.SCREEN_HEIGHT (moveProjectile p)).1.rect
      (obstacleRect b) = false) :
    stepProjectile m io b p =
      (if b.dash_through_projectile_achievement_unlocked_this_game = false then
          { unlockAchievement io "dash_of_genius" b.current_username b with
            dash_through_projectile_achievement_unlocked_this_game := true }
        else b,
        { (boundaryHandling b.SCREEN_WIDTH b.SCREEN_HEIGHT (moveProjectile p)).1 with
          active := false }) := by
  have hq := (boundaryHandling_kind b.SCREEN_WIDTH b.SCREEN_HEIGHT (moveProjectile p)).1
  have hms : (moveProjectile p).is_player_shot = false := hs
  rw [hms] at hq
  have hstep : stepProjectile m io b p = projectileEffects m io b (moveProjectile p) := by
    unfold stepProjectile
    rw [if_pos ha]
    simp only [hms, Bool.false_eq_true, and_false, if_false]
  rw [hstep]
  unfold projectileEffects
  simp only []
  have h1 : hitObstacle io
      (b, (boundaryHandling b.SCREEN_WIDTH b.SCREEN_HEIGHT (moveProjectile p)).1) =
      (b, (boundaryHandling b.SCREEN_WIDTH b.SCREEN_HEIGHT (moveProjectile p)).1) := by
    unfold hitObstacle
    simp only [hno, Bool.false_eq_true, if_false]
  have h2 : hitPlayer io
      (b, (boundaryHandling b.SCREEN_WIDTH b.SCREEN_HEIGHT (moveProjectile p)).1) =
      (b, (boundaryHandling b.SCREEN_WIDTH b.SCREEN_HEIGHT (moveProjectile p)).1) := by
    unfold hitPlayer
    simp only [hd, Bool.true_eq_false, false_and, if_false]
  rw [h1, h2]
  by_cases hf : b.dash_through_projectile_achievement_unlocked_this_game = false
  · have h3 : dashThrough io
        (b, (boundaryHandling b.SCREEN_WIDTH b.SCREEN_HEIGHT (moveProjectile p)).1) =
        ({ unlockAchievement io "dash_of_genius" b.current_username b with
            dash_through_projectile_achievement_unlocked_this_game := true },
          { (boundaryHandling b.SCREEN_WIDTH b.SCREEN_HEIGHT (moveProjectile p)).1 with
            active := false }) := by
      unfold dashThrough
      simp only [hd, hq, hov, hf, and_self, if_true]
    rw [h3, if_pos hf]
    apply nearMiss_dashing
    show (unlockAchievement io "dash_of_genius" b.current_username b).player_is_dashing = true
    rw [(unlockAchievement_player io _ _ _).2.2.1, hd]
  · have hft : b.dash_through_projectile_achievement_unlocked_this_game = true := by
      simpa using hf
    have h3 : dashThrough io
        (b, (boundaryHandling b.SCREEN_WIDTH b.SCREEN_HEIGHT (moveProjectile p)).1) =
        (b, { (boundaryHandling b.SCREEN_WIDTH b.SCREEN_HEIGHT (moveProjectile p)).1 with
            active := false }) := by
      unfold dashThrough
      simp only [hd, hq, hov, hft, and_self, if_true, Bool.true_eq_false, if_false]
    rw [h3, if_neg hf]
    exact nearMiss_dashing m io _ hd

/-- C22: let the projectile loop of a Playing tick start in state `g` with the
player dashing, and let `p` be an active obstacle shot of the list whose
rectangle, after its move and the boundary handling, overlaps the player's
square and not the obstacle's.  Then its pass deactivates it, the list left by
the tick's erase step holds the survivors of the shots before it followed by
the survivors of the shots after it, and its pass changes none of
`player_is_stunned`, `player_stun_end_time`, `obstacle_last_stun_time`,
`player_last_stun_shot_time` and `dodge_streak_start_time`; when the
dash-through flag is already set the pass changes no global at all, when it is
not set the pass is the `dash_of_genius` unlock followed by setting the flag,
and the flag is set afterwards. -/
theorem C22_dash_through (m : MathEnv) (io : Frame) (g : Game) (pre post : List Projectile)
    (p : Projectile) (hps : g.projectiles = pre ++ p :: post)
    (hd : g.player_is_dashing = true) (ha : p.active = true) (hs : p.is_player_shot = false)
    (hov : CheckCollisionRecs
      (boundaryHandling g.SCREEN_WIDTH g.SCREEN_HEIGHT (moveProjectile p)).1.rect
      (playerRect g) = true)
    (hno : CheckCollisionRecs
      (boundaryHandling g.SCREEN_WIDTH g.SCREEN_HEIGHT (moveProjectile p)).1.rect
      (obstacleRect g) = false) :
    (stepProjectile m io (stateAtTurn m io g pre) p).2.active = false ∧
    (updateProjectiles m io g).projectiles =
      (projectileLoop m io g pre).2.filter (fun q => q.active) ++
        (projectileLoop m io (stepProjectile m io (stateAtTurn m io g pre) p).1 post).2.filter
          (fun q => q.active) ∧
    ((stepProjectile m io (stateAtTurn m io g pre) p).1.player_is_stunned =
        (stateAtTurn m io g pre).player_is_stunned ∧
      (stepProjectile m io (stateAtTurn m io g pre) p).1.player_stun_end_time =
        (stateAtTurn m io g pre).player_stun_end_time ∧
      (stepProjectile m io (stateAtTurn m io g pre) p).1.obstacle_last_stun_time =
        (stateAtTurn m io g pre).obstacle_last_stun_time ∧
      (stepProjectile m io (stateAtTurn m io g pre) p).1.player_last_stun_shot_time =
        (stateAtTurn m io g pre).player_last_stun_shot_time ∧
      (stepProjectile m io (stateAtTurn m io g pre) p).1.dodge_streak_start_time =
        (stateAtTurn m io g pre).dodge_streak_start_time) ∧
    ((stateAtTurn m io g pre).dash_through_projectile_achievement_unlocked_this_game = true →
      (stepProjectile m io (stateAtTurn m io g pre) p).1 = stateAtTurn m io g pre) ∧
    ((stateAtTurn m io g pre).dash_through_projectile_achievement_unlocked_this_game = false →
      (stepProjectile m io (stateAtTurn m io g pre) p).1 =
        { unlockAchievement io "dash_of_genius" (stateAtTurn m io g pre).current_username
            (stateAtTurn m io g pre) with
          dash_through_projectile_achievement_unlocked_this_game := true }) ∧
    (stepProjectile m io (stateAtTurn m io g pre) p).1.dash_through_projectile_achievement_unlocked_this_game
      = true := by
  have hfr : loopFrame (stateAtTurn m io g pre) = loopFrame g :=
    projectileLoop_loopFrame m io pre g
  obtain ⟨f1, f2, f3, f4, f5, -⟩ := loopFrame_fields hfr
  have hstep := stepProjectile_dash_through m io (stateAtTurn m io g pre) p (f1.trans hd) ha hs
    (by rw [f2, f4, f5]; exact hov) (by rw [f3, f4, f5]; exact hno)
  have su := unlockAchievement_stun_fields io "dash_of_genius"
    (stateAtTurn m io g pre).current_username (stateAtTurn m io g pre)
  refine ⟨?_, ?_, ?_, ?_, ?_, ?_⟩
  · rw [hstep]
  · unfold updateProjectiles
    simp only []
    rw [hps, projectileLoop_split]
    simp only [List.filter_append]
    have hdead : (stepProjectile m io (projectileLoop m io g pre).1 p).2.active = false := by
      have := congrArg (fun r => r.2.active) hstep
      exact this
    rw [List.filter_cons_of_neg (by simp [hdead])]
    rfl
  · rw [hstep]
    simp only []
    split_ifs
    · exact ⟨su.1, su.2.1, su.2.2.1, su.2.2.2.1, su.2.2.2.2.1⟩
    · exact ⟨rfl, rfl, rfl, rfl, rfl⟩
  · intro hset
    rw [hstep]
    simp only [hset, Bool.true_eq_false, if_false]
  · intro hunset
    rw [hstep]
    simp only [hunset, if_true]
  · rw [hstep]
    simp only []
    split_ifs with hf
    · rfl
    · simpa using hf

/-- C22, at a concrete input: in `dashThroughShots` the obstacle shot steps
into the square of the dashing player; it is gone from the list after the
loop, the player shot stays, the player is not stunned, the dodge streak is
untouched and `dash_of_genius` is unlocked for the current user. -/
theorem C22_witness_dash_through :
    (stepProjectile sampleMath (frameAt 1)
      (stateAtTurn sampleMath (frameAt 1) dashThroughShots
        [{ rect := ⟨300, 300, 10, 10⟩, speed := 10, velocity := ⟨1, 0⟩, active := true,
           is_player_shot := true, bounces_remaining := 5 }])
      { rect := ⟨680, 630, 10, 10⟩, speed := 8, velocity := ⟨0, 1⟩, active := true,
        is_player_shot := false, bounces_remaining := 5 }).2.active = false ∧
    (updateProjectiles sampleMath (frameAt 1) dashThroughShots).projectiles =
      [{ rect := ⟨310, 300, 10, 10⟩, speed := 10, velocity := ⟨1, 0⟩, active := true,
         is_player_shot := true, bounces_remaining := 5 }] ∧
    (updateProjectiles sampleMath (frameAt 1) dashThroughShots).player_is_stunned = false ∧
    (updateProjectiles sampleMath (frameAt 1) dashThroughShots).dodge_streak_start_time = 0 ∧
    unlockedFor (updateProjectiles sampleMath (frameAt 1) dashThroughShots) "Guest" =
      ["dash_of_genius"] := by
  have h := C22_dash_through sampleMath (frameAt 1) dashThroughShots
    [{ rect := ⟨300, 300, 10, 10⟩, speed := 10, velocity := ⟨1, 0⟩, active := true,
       is_player_shot := true, bounces_remaining := 5 }] []
    { rect := ⟨680, 630, 10, 10⟩, speed := 8, velocity := ⟨0, 1⟩, active := true,
      is_player_shot := false, bounces_remaining := 5 }
    rfl rfl rfl rfl (by decide!) (by decide!)
  exact ⟨h.1, by decide!, by decide!, by decide!, by decide!⟩

/-! ### Player shots in portal mode -/

theorem stepProjectile_preserves (m : MathEnv) (io : Frame) (P : Game → Prop) (g : Game)
    (p : Projectile)
    (hplace : ∀ pos, portalHit g (moveProjectile p) = some pos → P g →
      P (placePortal io pos g))
    (heff : P g → P (projectileEffects m io g (moveProjectile p)).1) (hg : P g) :
    P (stepProjectile m io g p).1 := by
  unfold stepProjectile
  split_ifs with ha
  · simp only []
    split_ifs
    · split
      · next pos hpos => exact hplace pos hpos hg
      · exact heff hg
    · exact heff hg
  · exact hg

theorem projectileLoop_preserves (m : MathEnv) (io : Frame) (P : Game → Prop)
    (ps : List Projectile)
    (hstep : ∀ g, ∀ p ∈ ps, P g → P (stepProjectile m io g p).1) :
    ∀ g : Game, P g → P (projectileLoop m io g ps).1 := by
  induction ps with
  | nil => intro g hg; exact hg
  | cons p ps ih =>
    intro g hg
    simp only [projectileLoop]
    exact ih (fun g1 q hq => hstep g1 q (List.mem_cons_of_mem _ hq)) _
      (hstep g p (List.mem_cons_self _ _) hg)

theorem portalHit_none (g : Game) (p : Projectile) (h : portalHit g p = none) :
    ¬ atArenaEdge g p ∧ CheckCollisionRecs p.rect (obstacleRect g) = false := by
  unfold portalHit at h
  simp only [] at h
  unfold atArenaEdge
  split_ifs at h with h1 h2
  exact ⟨h1, by simpa using h2⟩

theorem boundaryHandling_inside (W H : Int) (p : Projectile)
    (hx1 : 1 < p.rect.x) (hx2 : p.rect.x + p.rect.width < (W : ℚ) - 1)
    (hy1 : 1 < p.rect.y) (hy2 : p.rect.y + p.rect.height < (H : ℚ) - 1) :
    (boundaryHandling W H p).1.velocity = p.velocity ∧
      (boundaryHandling W H p).1.bounces_remaining = p.bounces_remaining ∧
      (0 ≤ p.rect.width → 0 ≤ p.rect.height → (boundaryHandling W H p).1 = p) := by
  have bx : bounceX W p = (p, false) := by
    unfold bounceX
    split_ifs <;> first | rfl | (exfalso; linarith)
  have by1 : bounceY H p = (p, false) := by
    unfold bounceY
    split_ifs <;> first | rfl | (exfalso; linarith)
  unfold boundaryHandling
  simp only [bx, by1]
  split_ifs with hw
  · refine ⟨(wrapProjectile_keeps W H p).2.1, (wrapProjectile_keeps W H p).1, ?_⟩
    intro hw0 hh0
    unfold wrapProjectile
    simp only []
    rw [if_neg (by linarith), if_neg (by linarith), if_neg (by linarith), if_neg (by linarith)]
  · exact ⟨rfl, rfl, fun _ _ => rfl⟩

/-- One pass of the loop for an active player shot in portal mode: either it
creates a portal and is deactivated, or it is away from the edges and from the
obstacle, the boundary handling keeps its velocity and bounce counter, and the
obstacle block does not run for it. -/
theorem stepProjectile_portal_shot (m : MathEnv) (io : Frame) (g : Game) (p : Projectile)
    (hm : g.is_portal_mode = true) (ha : p.active = true) (hs : p.is_player_shot = true) :
    (∃ pos, portalHit g (moveProjectile p) = some pos ∧
      stepProjectile m io g p = (placePortal io pos g, { moveProjectile p with active := false })) ∨
    (¬ atArenaEdge g (moveProjectile p) ∧
      CheckCollisionRecs (moveProjectile p).rect (obstacleRect g) = false ∧
      stepProjectile m io g p = projectileEffects m io g (moveProjectile p) ∧
      (boundaryHandling g.SCREEN_WIDTH g.SCREEN_HEIGHT (moveProjectile p)).1.velocity =
        p.velocity ∧
      (boundaryHandling g.SCREEN_WIDTH g.SCREEN_HEIGHT (moveProjectile p)).1.bounces_remaining =
        p.bounces_remaining ∧
      (0 ≤ p.rect.width → 0 ≤ p.rect.height →
        (boundaryHandling g.SCREEN_WIDTH g.SCREEN_HEIGHT (moveProjectile p)).1 =
          moveProjectile p ∧
        hitObstacle io (g, (boundaryHandling g.SCREEN_WIDTH g.SCREEN_HEIGHT
          (moveProjectile p)).1) =
          (g, (boundaryHandling g.SCREEN_WIDTH g.SCREEN_HEIGHT (moveProjectile p)).1) ∧
        ¬ stunBranch io (g, (boundaryHandling g.SCREEN_WIDTH g.SCREEN_HEIGHT
          (moveProjectile p)).1))) := by
  have hms : (moveProjectile p).is_player_shot = true := hs
  cases hp : portalHit g (moveProjectile p) with
  | some pos =>
    left
    refine ⟨pos, rfl, ?_⟩
    unfold stepProjectile
    rw [if_pos ha]
    simp only [hm, hms, and_self, if_true, hp]
  | none =>
    right
    obtain ⟨hedge, hob⟩ := portalHit_none g _ hp
    have hstep : stepProjectile m io g p = projectileEffects m io g (moveProjectile p) := by
      unfold stepProjectile
      rw [if_pos ha]
      simp only [hm, hms, and_self, if_true, hp]
    have hin := hedge
    unfold atArenaEdge at hin
    simp only [not_or, not_le] at hin
    obtain ⟨i1, i2, i3, i4⟩ := hin
    obtain ⟨bv, bb, bid⟩ := boundaryHandling_inside g.SCREEN_WIDTH g.SCREEN_HEIGHT
      (moveProjectile p) i1 i2 i3 i4
    refine ⟨hedge, hob, hstep, bv, bb, ?_⟩
    intro hw hh
    have hid := bid hw hh
    rw [hid]
    refine ⟨rfl, ?_, ?_⟩
    · unfold hitObstacle
      simp only [hob, Bool.false_eq_true, if_false]
    · unfold stunBranch
      simp only [hob, Bool.false_eq_true, false_and, not_false_eq_true]

/-! ### The wrap range over a match -/

theorem arenaInv_congr (W H : Int) {a b : Game} (h : arenaFields b = arenaFields a)
    (ha : arenaInv W H a) : arenaInv W H b := by
  unfold arenaFields at h
  simp only [Prod.mk.injEq] at h
  obtain ⟨⟨h1, h2⟩, ⟨h3, h4⟩, ⟨h5, h6⟩, ⟨h7, h8⟩, h9, h10⟩ := h
  unfold arenaInv at ha ⊢
  rw [h1, h2, h3, h4, h5, h6, h7, h8, h9, h10]
  exact ha

theorem unlockAchievement_arena (io : Frame) (a u : String) (g : Game) :
    arenaFields (unlockAchievement io a u g) = arenaFields g := by
  unfold unlockAchievement
  split
  · rfl
  · simp only []
    split_ifs <;> rfl

theorem updateElapsed_arena (io : Frame) (g : Game) :
    arenaFields (updateElapsed io g) = arenaFields g := by
  unfold updateElapsed
  simp only []
  split_ifs
  · exact (unlockAchievement_arena io _ _ _).trans (unlockAchievement_arena io _ _ _)
  · exact unlockAchievement_arena io _ _ _
  · exact unlockAchievement_arena io _ _ _
  · rfl

theorem dashActivation_arena (m : MathEnv) (io : Frame) (g : Game) :
    arenaFields (dashActivation m io g) = arenaFields g := by
  unfold dashActivation
  split_ifs <;> rfl

theorem shots_arena (m : MathEnv) (io : Frame) (g : Game) :
    arenaFields (playerShoot m io g) = arenaFields g ∧
      arenaFields (obstacleShoot m io g) = arenaFields g ∧
      arenaFields (updateAiTarget g) = arenaFields g := by
  refine ⟨?_, ?_, ?_⟩
  · unfold playerShoot
    simp only []
    split_ifs <;> rfl
  · unfold obstacleShoot
    simp only []
    split_ifs <;> rfl
  · unfold updateAiTarget
    simp only []
    split_ifs <;> rfl

theorem tickEnd_arena (io : Frame) (g : Game) :
    arenaFields (checkTerminalCollision (hideAchievementPopup io (hideBonusMessage io
      (dodgeStreakBonus io g)))) = arenaFields g := by
  have e1 : ∀ t : Game, arenaFields (dodgeStreakBonus io t) = arenaFields t := by
    intro t
    unfold dodgeStreakBonus
    split_ifs <;> rfl
  have e2 : ∀ t : Game, arenaFields (hideBonusMessage io t) = arenaFields t := by
    intro t
    unfold hideBonusMessage
    split_ifs <;> rfl
  have e3 : ∀ t : Game, arenaFields (hideAchievementPopup io t) = arenaFields t := by
    intro t
    unfold hideAchievementPopup
    split_ifs <;> rfl
  have e4 : ∀ t : Game, arenaFields (checkTerminalCollision t) = arenaFields t := by
    intro t
    unfold checkTerminalCollision
    simp only []
    split_ifs <;> rfl
  rw [e4, e3, e2, e1]

theorem wrapAxis_lands (extent : Int) (v : ℚ) (h : 0 ≤ extent) :
    inWrapRange extent (wrapAxis 50 extent v) := by
  have h0 : (0 : ℚ) ≤ (extent : ℚ) := by exact_mod_cast h
  unfold wrapAxis inWrapRange
  split_ifs with h1 h2
  · constructor <;> linarith
  · constructor <;> linarith
  · constructor <;> linarith

theorem beforePortals_arenaInv (m : MathEnv) (io : Frame) (dt : ℚ) (W H : Int) (g : Game)
    (hW : 0 ≤ W) (hH : 0 ≤ H) (hg : arenaInv W H g) :
    arenaInv W H (beforePortals m io dt g) := by
  have h1 : arenaInv W H (dashActivation m io (updateElapsed io g)) :=
    arenaInv_congr W H ((dashActivation_arena m io _).trans (updateElapsed_arena io g)) hg
  have h2 : ∀ t : Game, arenaInv W H t → arenaInv W H (wrapPlayer (movePlayer m io dt t)) := by
    intro t ht
    obtain ⟨a1, a2, -, a4, a5, a6⟩ := ht
    have e : ∀ u : Game, (movePlayer m io dt u).SCREEN_WIDTH = u.SCREEN_WIDTH ∧
        (movePlayer m io dt u).SCREEN_HEIGHT = u.SCREEN_HEIGHT ∧
        (movePlayer m io dt u).obstacle_x = u.obstacle_x ∧
        (movePlayer m io dt u).obstacle_y = u.obstacle_y ∧
        (movePlayer m io dt u).portal_1_active = u.portal_1_active ∧
        (movePlayer m io dt u).portal_1_pos = u.portal_1_pos ∧
        (movePlayer m io dt u).portal_2_active = u.portal_2_active ∧
        (movePlayer m io dt u).portal_2_pos = u.portal_2_pos := by
      intro u
      unfold movePlayer
      simp only []
      split_ifs <;> exact ⟨rfl, rfl, rfl, rfl, rfl, rfl, rfl, rfl⟩
    obtain ⟨e1, e2, e3, e4, e5, e6, e7, e8⟩ := e t
    unfold arenaInv wrapPlayer
    simp only [e1, e2, e3, e4, e5, e6, e7, e8]
    refine ⟨a1, a2, ⟨?_, ?_⟩, a4, a5, a6⟩
    · rw [a1]
      exact wrapAxis_lands W _ hW
    · rw [a2]
      exact wrapAxis_lands H _ hH
  exact h2 _ h1

theorem portalLogic_arenaInv (io : Frame) (W H : Int) (g : Game) (hg : arenaInv W H g) :
    arenaInv W H (portalLogic io g) := by
  have h1 : ∀ t : Game, arenaInv W H t → arenaInv W H (expirePortals io t) := by
    intro t ht
    obtain ⟨a1, a2, a3, a4, a5, a6⟩ := ht
    unfold expirePortals
    simp only []
    split_ifs
    all_goals refine ⟨a1, a2, a3, a4, ?_, ?_⟩
    all_goals first | exact a5 | exact a6 | (intro h; exact Bool.noConfusion h)
  have h2 : ∀ t : Game, arenaInv W H t → arenaInv W H (teleportPlayer io t) := by
    intro t ht
    obtain ⟨a1, a2, a3, a4, a5, a6⟩ := ht
    unfold teleportPlayer
    simp only []
    split_ifs with hgate hc1 hc2
    · have r := a6 hgate.2.1
      refine ⟨a1, a2, ⟨?_, ?_⟩, a4, a5, a6⟩
      · show inWrapRange W (_ - player_size / 2)
        rw [show (player_size / 2 : ℚ) = 25 by norm_num [player_size]]
        exact r.1
      · show inWrapRange H (_ - player_size / 2)
        rw [show (player_size / 2 : ℚ) = 25 by norm_num [player_size]]
        exact r.2
    · have r := a5 hgate.1
      refine ⟨a1, a2, ⟨?_, ?_⟩, a4, a5, a6⟩
      · show inWrapRange W (_ - player_size / 2)
        rw [show (player_size / 2 : ℚ) = 25 by norm_num [player_size]]
        exact r.1
      · show inWrapRange H (_ - player_size / 2)
        rw [show (player_size / 2 : ℚ) = 25 by norm_num [player_size]]
        exact r.2
    · exact ⟨a1, a2, a3, a4, a5, a6⟩
    · exact ⟨a1, a2, a3, a4, a5, a6⟩
  have h3 : ∀ t : Game, arenaInv W H t → arenaInv W H (teleportObstacle io t) := by
    intro t ht
    obtain ⟨a1, a2, a3, a4, a5, a6⟩ := ht
    unfold teleportObstacle
    simp only []
    split_ifs with hgate hc1 hc2
    · have r := a6 hgate.2.1
      refine ⟨a1, a2, a3, ⟨?_, ?_⟩, a5, a6⟩
      · show inWrapRange W (_ - obstacle_size / 2)
        rw [show (obstacle_size / 2 : ℚ) = 25 by norm_num [obstacle_size]]
        exact r.1
      · show inWrapRange H (_ - obstacle_size / 2)
        rw [show (obstacle_size / 2 : ℚ) = 25 by norm_num [obstacle_size]]
        exact r.2
    · have r := a5 hgate.1
      refine ⟨a1, a2, a3, ⟨?_, ?_⟩, a5, a6⟩
      · show inWrapRange W (_ - obstacle_size / 2)
        rw [show (obstacle_size / 2 : ℚ) = 25 by norm_num [obstacle_size]]
        exact r.1
      · show inWrapRange H (_ - obstacle_size / 2)
        rw [show (obstacle_size / 2 : ℚ) = 25 by norm_num [obstacle_size]]
        exact r.2
    · exact ⟨a1, a2, a3, a4, a5, a6⟩
    · exact ⟨a1, a2, a3, a4, a5, a6⟩
  unfold portalLogic
  split_ifs
  · exact h3 _ (h2 _ (h1 _ hg))
  · exact hg

theorem portalHit_inReach (W H : Int) (g : Game) (p : Projectile) (pos : Vector2)
    (hW : 0 ≤ W) (hH : 0 ≤ H) (hg : arenaInv W H g) (h : portalHit g p = some pos) :
    portalInReach W H pos := by
  have hW0 : (0 : ℚ) ≤ (W : ℚ) := by exact_mod_cast hW
  have hH0 : (0 : ℚ) ≤ (H : ℚ) := by exact_mod_cast hH
  obtain ⟨a1, a2, -, ⟨⟨o1, o2⟩, ⟨o3, o4⟩⟩, -, -⟩ := hg
  unfold portalHit at h
  simp only [] at h
  unfold portalInReach inWrapRange
  split_ifs at h with h1 h2
  · have e := Option.some.inj h
    rw [← e, a1, a2]
    simp only []
    have m1 : (0 : ℚ) ≤ max 0 (min (W : ℚ) (p.rect.x + p.rect.width / 2)) := le_max_left _ _
    have m2 : max 0 (min (W : ℚ) (p.rect.x + p.rect.width / 2)) ≤ (W : ℚ) :=
      max_le hW0 (min_le_left _ _)
    have m3 : (0 : ℚ) ≤ max 0 (min (H : ℚ) (p.rect.y + p.rect.height / 2)) := le_max_left _ _
    have m4 : max 0 (min (H : ℚ) (p.rect.y + p.rect.height / 2)) ≤ (H : ℚ) :=
      max_le hH0 (min_le_left _ _)
    refine ⟨⟨?_, ?_⟩, ⟨?_, ?_⟩⟩ <;> linarith
  · have e := Option.some.inj h
    rw [← e]
    simp only []
    have hs : (obstacle_size / 2 : ℚ) = 25 := by norm_num [obstacle_size]
    rw [hs]
    refine ⟨⟨?_, ?_⟩, ⟨?_, ?_⟩⟩ <;> linarith

theorem projectileEffects_arena (m : MathEnv) (io : Frame) (g : Game) (p : Projectile) :
    arenaFields (projectileEffects m io g p).1 = arenaFields g := by
  have h1 : ∀ s : Game × Projectile, arenaFields (hitObstacle io s).1 = arenaFields s.1 := by
    intro s
    unfold hitObstacle
    simp only []
    split_ifs
    · exact unlockAchievement_arena io _ _ _
    · rfl
    · rfl
    · rfl
  have h2 : ∀ s : Game × Projectile, arenaFields (hitPlayer io s).1 = arenaFields s.1 := by
    intro s
    unfold hitPlayer
    simp only []
    split_ifs <;> rfl
  have h3 : ∀ s : Game × Projectile, arenaFields (dashThrough io s).1 = arenaFields s.1 := by
    intro s
    unfold dashThrough
    simp only []
    split_ifs
    · exact unlockAchievement_arena io _ _ _
    · rfl
    · rfl
  have h4 : ∀ s : Game × Projectile, arenaFields (nearMiss m io s).1 = arenaFields s.1 := by
    intro s
    unfold nearMiss
    simp only []
    split_ifs
    · exact unlockAchievement_arena io _ _ _
    · rfl
    · rfl
  unfold projectileEffects
  simp only []
  rw [h4, h3, h2, h1]

theorem placePortal_arenaInv (io : Frame) (W H : Int) (g : Game) (pos : Vector2)
    (hpos : portalInReach W H pos) (hg : arenaInv W H g) :
    arenaInv W H (placePortal io pos g) := by
  obtain ⟨a1, a2, a3, a4, a5, a6⟩ := hg
  unfold placePortal
  split_ifs
  · exact ⟨a1, a2, a3, a4, fun _ => hpos, a6⟩
  · exact ⟨a1, a2, a3, a4, a5, fun _ => hpos⟩

theorem updateProjectiles_arenaInv (m : MathEnv) (io : Frame) (W H : Int) (g : Game)
    (hW : 0 ≤ W) (hH : 0 ≤ H) (hg : arenaInv W H g) :
    arenaInv W H (updateProjectiles m io g) := by
  have hloop : arenaInv W H (projectileLoop m io g g.projectiles).1 := by
    refine projectileLoop_preserves m io (arenaInv W H) g.projectiles ?_ g hg
    intro s p _ hs
    refine stepProjectile_preserves m io (arenaInv W H) s p ?_ ?_ hs
    · intro pos hpos hs1
      exact placePortal_arenaInv io W H s pos (portalHit_inReach W H s _ pos hW hH hs1 hpos) hs1
    · intro hs1
      exact arenaInv_congr W H (projectileEffects_arena m io s _) hs1
  unfold updateProjectiles
  exact hloop

theorem obstacleStep_arenaInv (io : Frame) (W H : Int) (g : Game) (hW : 0 ≤ W) (hH : 0 ≤ H)
    (hg : arenaInv W H g) : arenaInv W H (wrapObstacle (moveObstacle io g)) := by
  obtain ⟨a1, a2, a3, -, a5, a6⟩ := hg
  have e : (moveObstacle io g).SCREEN_WIDTH = g.SCREEN_WIDTH ∧
      (moveObstacle io g).SCREEN_HEIGHT = g.SCREEN_HEIGHT ∧
      (moveObstacle io g).player_x = g.player_x ∧
      (moveObstacle io g).player_y = g.player_y ∧
      (moveObstacle io g).portal_1_active = g.portal_1_active ∧
      (moveObstacle io g).portal_1_pos = g.portal_1_pos ∧
      (moveObstacle io g).portal_2_active = g.portal_2_active ∧
      (moveObstacle io g).portal_2_pos = g.portal_2_pos := by
    unfold moveObstacle
    split_ifs <;> exact ⟨rfl, rfl, rfl, rfl, rfl, rfl, rfl, rfl⟩
  obtain ⟨e1, e2, e3, e4, e5, e6, e7, e8⟩ := e
  unfold arenaInv wrapObstacle
  simp only [e1, e2, e3, e4, e5, e6, e7, e8]
  refine ⟨a1, a2, a3, ⟨?_, ?_⟩, a5, a6⟩
  · rw [a1]
    exact wrapAxis_lands W _ hW
  · rw [a2]
    exact wrapAxis_lands H _ hH

theorem playingTick_arenaInv (m : MathEnv) (io : Frame) (dt : ℚ) (W H : Int) (g : Game)
    (hW : 0 ≤ W) (hH : 0 ≤ H) (hg : arenaInv W H g) :
    arenaInv W H (playingTick m io dt g) := by
  have h1 := portalLogic_arenaInv io W H _ (beforePortals_arenaInv m io dt W H g hW hH hg)
  have h2 : arenaInv W H (obstacleShoot m io (playerShoot m io
      (portalLogic io (beforePortals m io dt g)))) :=
    arenaInv_congr W H ((shots_arena m io _).2.1.trans (shots_arena m io _).1) h1
  have h3 := updateProjectiles_arenaInv m io W H _ hW hH h2
  have h4 : arenaInv W H (updateAiTarget (updateProjectiles m io (obstacleShoot m io
      (playerShoot m io (portalLogic io (beforePortals m io dt g)))))) :=
    arenaInv_congr W H (shots_arena m io _).2.2 h3
  have h5 := obstacleStep_arenaInv io W H _ hW hH h4
  exact arenaInv_congr W H (tickEnd_arena io _) h5

theorem countdownTick_arena (io : Frame) (g : Game) :
    arenaFields (countdownTick io g) = arenaFields g := by
  unfold countdownTick
  simp only []
  split_ifs <;> rfl

theorem countdownStart_arenaInv (g0 : Game) (hW : 0 ≤ g0.SCREEN_WIDTH)
    (hH : 0 ≤ g0.SCREEN_HEIGHT) :
    arenaInv g0.SCREEN_WIDTH g0.SCREEN_HEIGHT (countdownStart g0) := by
  have hW0 : (0 : ℚ) ≤ (g0.SCREEN_WIDTH : ℚ) := by exact_mod_cast hW
  have hH0 : (0 : ℚ) ≤ (g0.SCREEN_HEIGHT : ℚ) := by exact_mod_cast hH
  refine ⟨rfl, rfl, ⟨⟨?_, ?_⟩, ⟨?_, ?_⟩⟩, ⟨⟨?_, ?_⟩, ⟨?_, ?_⟩⟩, ?_, ?_⟩
  · show (-50 : ℚ) ≤ (g0.SCREEN_WIDTH : ℚ) / 2 - player_size / 2
    norm_num [player_size]
    linarith
  · show (g0.SCREEN_WIDTH : ℚ) / 2 - player_size / 2 ≤ (g0.SCREEN_WIDTH : ℚ)
    norm_num [player_size]
    linarith
  · show (-50 : ℚ) ≤ (g0.SCREEN_HEIGHT : ℚ) - player_size
    norm_num [player_size]
    linarith
  · show (g0.SCREEN_HEIGHT : ℚ) - player_size ≤ (g0.SCREEN_HEIGHT : ℚ)
    norm_num [player_size]
  · show (-50 : ℚ) ≤ (g0.SCREEN_WIDTH : ℚ) / 2 - obstacle_size / 2
    norm_num [obstacle_size]
    linarith
  · show (g0.SCREEN_WIDTH : ℚ) / 2 - obstacle_size / 2 ≤ (g0.SCREEN_WIDTH : ℚ)
    norm_num [obstacle_size]
    linarith
  · show (-50 : ℚ) ≤ 0
    norm_num
  · show (0 : ℚ) ≤ (g0.SCREEN_HEIGHT : ℚ)
    exact hH0
  · intro h
    exact Bool.noConfusion h
  · intro h
    exact Bool.noConfusion h

theorem matchReach_arenaInv (m : MathEnv) (g0 : Game) (hW : 0 ≤ g0.SCREEN_WIDTH)
    (hH : 0 ≤ g0.SCREEN_HEIGHT) (t0 t : ℚ) (n : Nat) (s : Game) (h : MatchReach m g0 t0 t n s) :
    arenaInv g0.SCREEN_WIDTH g0.SCREEN_HEIGHT s := by
  induction h with
  | reset => exact countdownStart_arenaInv g0 hW hH
  | tick io dt _ hphase _ hstep ih =>
    rcases hphase with hc | hp
    · unfold updateGame at hstep
      rw [hc] at hstep
      have e := Option.some.inj hstep
      rw [← e]
      exact arenaInv_congr _ _ (countdownTick_arena io _) ih
    · unfold updateGame at hstep
      rw [hp] at hstep
      have e := Option.some.inj hstep
      rw [← e]
      exact playingTick_arenaInv m io dt _ _ _ hW hH ih

/-- C28: in an arena of width `W ≥ 0` and height `H ≥ 0`, every state reached
from the start of a match by Countdown and Playing ticks, in portal mode or
not, has the arena it started with and both combatants in the wrap range:
`-50 ≤ player_x ≤ W`, `-50 ≤ player_y ≤ H`, `-50 ≤ obstacle_x ≤ W` and
`-50 ≤ obstacle_y ≤ H`; every active portal is placed so that a combatant
teleported to it lands in that range. -/
theorem C28_wrap_range_invariant (m : MathEnv) (g0 : Game) (hW : 0 ≤ g0.SCREEN_WIDTH)
    (hH : 0 ≤ g0.SCREEN_HEIGHT) (t0 t : ℚ) (n : Nat) (s : Game) (h : MatchReach m g0 t0 t n s) :
    s.SCREEN_WIDTH = g0.SCREEN_WIDTH ∧ s.SCREEN_HEIGHT = g0.SCREEN_HEIGHT ∧
    (-50 ≤ s.player_x ∧ s.player_x ≤ (g0.SCREEN_WIDTH : ℚ)) ∧
    (-50 ≤ s.player_y ∧ s.player_y ≤ (g0.SCREEN_HEIGHT : ℚ)) ∧
    (-50 ≤ s.obstacle_x ∧ s.obstacle_x ≤ (g0.SCREEN_WIDTH : ℚ)) ∧
    (-50 ≤ s.obstacle_y ∧ s.obstacle_y ≤ (g0.SCREEN_HEIGHT : ℚ)) ∧
    (s.portal_1_active = true →
      portalInReach g0.SCREEN_WIDTH g0.SCREEN_HEIGHT s.portal_1_pos) ∧
    (s.portal_2_active = true →
      portalInReach g0.SCREEN_WIDTH g0.SCREEN_HEIGHT s.portal_2_pos) := by
  obtain ⟨a1, a2, ⟨a3, a4⟩, ⟨a5, a6⟩, a7, a8⟩ := matchReach_arenaInv m g0 hW hH t0 t n s h
  exact ⟨a1, a2, a3, a4, a5, a6, a7, a8⟩

/-! ### The obstacle's state through a tick -/

theorem unlockAchievement_obstacle (io : Frame) (a u : String) (g : Game) :
    obstacleState (unlockAchievement io a u g) = obstacleState g ∧
      (unlockAchievement io a u g).projectiles = g.projectiles ∧
      (unlockAchievement io a u g).is_portal_mode = g.is_portal_mode := by
  unfold unlockAchievement
  split
  · exact ⟨rfl, rfl, rfl⟩
  · simp only []
    split_ifs <;> exact ⟨rfl, rfl, rfl⟩

theorem beforePortals_obstacle (m : MathEnv) (io : Frame) (dt : ℚ) (g : Game) :
    obstacleState (beforePortals m io dt g) = obstacleState g ∧
      (beforePortals m io dt g).projectiles = g.projectiles := by
  have e1 : obstacleState (updateElapsed io g) = obstacleState g ∧
      (updateElapsed io g).projectiles = g.projectiles := by
    unfold updateElapsed
    simp only []
    split_ifs
    · exact ⟨(unlockAchievement_obstacle io _ _ _).1.trans (unlockAchievement_obstacle io _ _ _).1,
        (unlockAchievement_obstacle io _ _ _).2.1.trans (unlockAchievement_obstacle io _ _ _).2.1⟩
    · exact ⟨(unlockAchievement_obstacle io _ _ _).1, (unlockAchievement_obstacle io _ _ _).2.1⟩
    · exact ⟨(unlockAchievement_obstacle io _ _ _).1, (unlockAchievement_obstacle io _ _ _).2.1⟩
    · exact ⟨rfl, rfl⟩
  have e2 : ∀ t : Game, obstacleState (dashActivation m io t) = obstacleState t ∧
      (dashActivation m io t).projectiles = t.projectiles := by
    intro t
    unfold dashActivation
    split_ifs <;> exact ⟨rfl, rfl⟩
  have e3 : ∀ t : Game, obstacleState (movePlayer m io dt t) = obstacleState t ∧
      (movePlayer m io dt t).projectiles = t.projectiles := by
    intro t
    unfold movePlayer
    simp only []
    split_ifs <;> exact ⟨rfl, rfl⟩
  unfold beforePortals
  constructor
  · show obstacleState (movePlayer m io dt _) = _
    rw [(e3 _).1, (e2 _).1, e1.1]
  · show (movePlayer m io dt _).projectiles = _
    rw [(e3 _).2, (e2 _).2, e1.2]

theorem portalLogic_obstacle (io : Frame) (g : Game) :
    (obstacleState (portalLogic io g)).2 = (obstacleState g).2 ∧
      (portalLogic io g).projectiles = g.projectiles ∧
      (g.is_portal_mode = false → portalLogic io g = g) := by
  have h1 : ∀ t : Game, obstacleState (expirePortals io t) = obstacleState t ∧
      (expirePortals io t).projectiles = t.projectiles := by
    intro t
    unfold expirePortals
    simp only []
    split_ifs <;> exact ⟨rfl, rfl⟩
  have h2 : ∀ t : Game, obstacleState (teleportPlayer io t) = obstacleState t ∧
      (teleportPlayer io t).projectiles = t.projectiles := by
    intro t
    unfold teleportPlayer
    simp only []
    split_ifs <;> exact ⟨rfl, rfl⟩
  have h3 : ∀ t : Game, (obstacleState (teleportObstacle io t)).2 = (obstacleState t).2 ∧
      (teleportObstacle io t).projectiles = t.projectiles := by
    intro t
    unfold teleportObstacle
    simp only []
    split_ifs <;> exact ⟨rfl, rfl⟩
  unfold portalLogic
  split_ifs with hm
  · refine ⟨?_, ?_, ?_⟩
    · rw [(h3 _).1, (h2 _).1, (h1 _).1]
    · rw [(h3 _).2, (h2 _).2, (h1 _).2]
    · intro hf
      rw [hf] at hm
      cases hm
  · exact ⟨rfl, rfl, fun _ => rfl⟩

theorem playerShoot_obstacle (m : MathEnv) (io : Frame) (g : Game) :
    obstacleState (playerShoot m io g) = obstacleState g ∧
      (playerShoot m io g).is_portal_mode = g.is_portal_mode ∧
      (shotsSized g → shotsSized (playerShoot m io g)) := by
  unfold playerShoot
  simp only []
  split_ifs
  · refine ⟨rfl, rfl, ?_⟩
    intro hs p hp
    simp only [List.mem_append, List.mem_singleton] at hp
    rcases hp with hp | hp
    · exact hs p hp
    · rw [hp]
      norm_num [PROJECTILE_SIZE]
  · exact ⟨rfl, rfl, fun hs => hs⟩
  · exact ⟨rfl, rfl, fun hs => hs⟩

theorem obstacleShoot_obstacle (m : MathEnv) (io : Frame) (g : Game) :
    obstacleState (obstacleShoot m io g) = obstacleState g ∧
      (obstacleShoot m io g).is_portal_mode = g.is_portal_mode ∧
      (shotsSized g → shotsSized (obstacleShoot m io g)) ∧
      (g.obstacle_is_stunned = true → obstacleShoot m io g = g) := by
  unfold obstacleShoot
  simp only []
  split_ifs with hc
  · refine ⟨rfl, rfl, ?_, ?_⟩
    · intro hs p hp
      simp only [List.mem_append, List.mem_singleton] at hp
      rcases hp with hp | hp
      · exact hs p hp
      · rw [hp]
        norm_num [PROJECTILE_SIZE]
    · intro hst
      rw [hst] at hc
      exact absurd hc.1 (by simp)
  · exact ⟨rfl, rfl, fun hs => hs, fun _ => rfl⟩

theorem tickEnd_obstacle (io : Frame) (g : Game) :
    obstacleState (checkTerminalCollision (hideAchievementPopup io (hideBonusMessage io
      (dodgeStreakBonus io g)))) = obstacleState g ∧
      (checkTerminalCollision (hideAchievementPopup io (hideBonusMessage io
        (dodgeStreakBonus io g)))).is_portal_mode = g.is_portal_mode ∧
      (shotsSized g → shotsSized (checkTerminalCollision (hideAchievementPopup io
        (hideBonusMessage io (dodgeStreakBonus io g))))) := by
  have e1 : ∀ t : Game, obstacleState (dodgeStreakBonus io t) = obstacleState t ∧
      (dodgeStreakBonus io t).is_portal_mode = t.is_portal_mode ∧
      (dodgeStreakBonus io t).projectiles = t.projectiles := by
    intro t
    unfold dodgeStreakBonus
    split_ifs <;> exact ⟨rfl, rfl, rfl⟩
  have e2 : ∀ t : Game, obstacleState (hideBonusMessage io t) = obstacleState t ∧
      (hideBonusMessage io t).is_portal_mode = t.is_portal_mode ∧
      (hideBonusMessage io t).projectiles = t.projectiles := by
    intro t
    unfold hideBonusMessage
    split_ifs <;> exact ⟨rfl, rfl, rfl⟩
  have e3 : ∀ t : Game, obstacleState (hideAchievementPopup io t) = obstacleState t ∧
      (hideAchievementPopup io t).is_portal_mode = t.is_portal_mode ∧
      (hideAchievementPopup io t).projectiles = t.projectiles := by
    intro t
    unfold hideAchievementPopup
    split_ifs <;> exact ⟨rfl, rfl, rfl⟩
  have e4 : ∀ t : Game, obstacleState (checkTerminalCollision t) = obstacleState t ∧
      (checkTerminalCollision t).is_portal_mode = t.is_portal_mode ∧
      ((checkTerminalCollision t).projectiles = t.projectiles ∨
        (checkTerminalCollision t).projectiles = []) := by
    intro t
    unfold checkTerminalCollision
    simp only []
    split_ifs
    · exact ⟨rfl, rfl, Or.inr rfl⟩
    · exact ⟨rfl, rfl, Or.inr rfl⟩
    · exact ⟨rfl, rfl, Or.inl rfl⟩
  refine ⟨?_, ?_, ?_⟩
  · rw [(e4 _).1, (e3 _).1, (e2 _).1, (e1 _).1]
  · rw [(e4 _).2.1, (e3 _).2.1, (e2 _).2.1, (e1 _).2.1]
  · intro hs p hp
    rcases (e4 (hideAchievementPopup io (hideBonusMessage io (dodgeStreakBonus io g)))).2.2
      with h | h
    · rw [h, (e3 _).2.2, (e2 _).2.2, (e1 _).2.2] at hp
      exact hs p hp
    · rw [h] at hp
      cases hp

theorem boundaryHandling_size (W H : Int) (p : Projectile) :
    (boundaryHandling W H p).1.rect.width = p.rect.width ∧
      (boundaryHandling W H p).1.rect.height = p.rect.height := by
  obtain ⟨-, -, -, -, -, xw, xh, -⟩ := bounceX_spec W p
  obtain ⟨-, -, -, -, -, yw, yh, -⟩ := bounceY_spec H (bounceX W p).1
  unfold boundaryHandling
  simp only []
  split_ifs
  · unfold wrapProjectile
    simp only []
    rw [yw, yh, xw, xh]
    exact ⟨rfl, rfl⟩
  · rw [yw, yh, xw, xh]
    exact ⟨rfl, rfl⟩

theorem stepProjectile_size (m : MathEnv) (io : Frame) (g : Game) (p : Projectile) :
    (stepProjectile m io g p).2.rect.width = p.rect.width ∧
      (stepProjectile m io g p).2.rect.height = p.rect.height := by
  have he : ∀ q : Projectile, (projectileEffects m io g q).2.rect.width = q.rect.width ∧
      (projectileEffects m io g q).2.rect.height = q.rect.height := by
    intro q
    rw [(projectileEffects_projectile m io g q).2.2.1]
    exact boundaryHandling_size _ _ q
  unfold stepProjectile
  split_ifs with ha
  · simp only []
    split_ifs
    · split
      · exact ⟨rfl, rfl⟩
      · exact he _
    · exact he _
  · exact ⟨rfl, rfl⟩

theorem projectileLoop_sized (m : MathEnv) (io : Frame) (ps : List Projectile) :
    ∀ g : Game, (∀ p ∈ ps, 0 ≤ p.rect.width ∧ 0 ≤ p.rect.height) →
      ∀ q ∈ (projectileLoop m io g ps).2, 0 ≤ q.rect.width ∧ 0 ≤ q.rect.height := by
  induction ps with
  | nil =>
    intro g _ q hq
    cases hq
  | cons p ps ih =>
    intro g hps q hq
    simp only [projectileLoop, List.mem_cons] at hq
    rcases hq with hq | hq
    · rw [hq, (stepProjectile_size m io g p).1, (stepProjectile_size m io g p).2]
      exact hps p (List.mem_cons_self _ _)
    · exact ih _ (fun r hr => hps r (List.mem_cons_of_mem _ hr)) q hq

theorem hitObstacle_stun (io : Frame) (s : Game × Projectile) :
    (¬ stunBranch io s → (obstacleState (hitObstacle io s).1).2 = (obstacleState s.1).2) ∧
      (s.1.obstacle_is_stunned = true → (hitObstacle io s).1.obstacle_is_stunned = true) := by
  unfold hitObstacle stunBranch
  simp only []
  split_ifs with h1 h2 h3
  · exact ⟨fun hn => absurd ⟨h1, h2⟩ hn, fun _ => by
      rw [(unlockAchievement_stun_fields io _ _ _).2.2.2.2.2.1]⟩
  · exact ⟨fun hn => absurd ⟨h1, h2⟩ hn, fun _ => rfl⟩
  · exact ⟨fun _ => rfl, fun h => h⟩
  · exact ⟨fun _ => rfl, fun h => h⟩

theorem afterObstacleHit_obstacle (m : MathEnv) (io : Frame) (s : Game × Projectile) :
    obstacleState (nearMiss m io (dashThrough io (hitPlayer io s))).1 = obstacleState s.1 := by
  have h2 : ∀ r : Game × Projectile, obstacleState (hitPlayer io r).1 = obstacleState r.1 := by
    intro r
    unfold hitPlayer
    simp only []
    split_ifs <;> rfl
  have h3 : ∀ r : Game × Projectile, obstacleState (dashThrough io r).1 = obstacleState r.1 := by
    intro r
    unfold dashThrough
    simp only []
    split_ifs
    · exact (unlockAchievement_obstacle io _ _ _).1
    · rfl
    · rfl
  have h4 : ∀ r : Game × Projectile, obstacleState (nearMiss m io r).1 = obstacleState r.1 := by
    intro r
    unfold nearMiss
    simp only []
    split_ifs
    · exact (unlockAchievement_obstacle io _ _ _).1
    · rfl
    · rfl
  rw [h4, h3, h2]

theorem placePortal_obstacle (io : Frame) (pos : Vector2) (g : Game) :
    obstacleState (placePortal io pos g) = obstacleState g := by
  unfold placePortal
  split_ifs <;> rfl

/-- One pass of the loop in portal mode leaves the stun flag and the stun
count as they are. -/
theorem stepProjectile_portal_quiet (m : MathEnv) (io : Frame) (g : Game) (p : Projectile)
    (hm : g.is_portal_mode = true) (hw : 0 ≤ p.rect.width) (hh : 0 ≤ p.rect.height) :
    (obstacleState (stepProjectile m io g p).1).2 = (obstacleState g).2 := by
  by_cases ha : p.active = true
  · by_cases hs : p.is_player_shot = true
    · rcases stepProjectile_portal_shot m io g p hm ha hs with ⟨pos, -, hstep⟩ | ⟨-, -, hstep, -, -, hrest⟩
      · rw [hstep, placePortal_obstacle]
      · obtain ⟨-, hid, -⟩ := hrest hw hh
        rw [hstep]
        unfold projectileEffects
        simp only []
        rw [afterObstacleHit_obstacle, hid]
    · have hms : (moveProjectile p).is_player_shot = false := by simpa using hs
      have hstep : stepProjectile m io g p = projectileEffects m io g (moveProjectile p) := by
        unfold stepProjectile
        rw [if_pos ha]
        simp only [hms, Bool.false_eq_true, and_false, if_false]
      rw [hstep]
      unfold projectileEffects
      simp only []
      rw [afterObstacleHit_obstacle]
      refine (hitObstacle_stun io _).1 ?_
      unfold stunBranch
      simp only []
      rw [(boundaryHandling_kind _ _ _).1, hms]
      simp
  · unfold stepProjectile
    rw [if_neg ha]

theorem stepProjectile_stunned (m : MathEnv) (io : Frame) (g : Game) (p : Projectile)
    (hst : g.obstacle_is_stunned = true) :
    (stepProjectile m io g p).1.obstacle_is_stunned = true := by
  refine stepProjectile_preserves m io (fun s => s.obstacle_is_stunned = true) g p ?_ ?_ hst
  · intro pos _ h
    have := congrArg (fun r => r.2.1) (placePortal_obstacle io pos g)
    exact this.trans h
  · intro h
    unfold projectileEffects
    simp only []
    have e := congrArg (fun r => r.2.1) (afterObstacleHit_obstacle m io
      (hitObstacle io (g, (boundaryHandling g.SCREEN_WIDTH g.SCREEN_HEIGHT (moveProjectile p)).1)))
    exact e.trans ((hitObstacle_stun io _).2 h)

theorem updateProjectiles_obstacle (m : MathEnv) (io : Frame) (g : Game) :
    (obstacleState (updateProjectiles m io g)).1 = (obstacleState g).1 ∧
      (updateProjectiles m io g).is_portal_mode = g.is_portal_mode ∧
      (shotsSized g → shotsSized (updateProjectiles m io g)) ∧
      (g.obstacle_is_stunned = true → (updateProjectiles m io g).obstacle_is_stunned = true) ∧
      (g.is_portal_mode = true → shotsSized g →
        (obstacleState (updateProjectiles m io g)).2 = (obstacleState g).2) := by
  have hfr := projectileLoop_loopFrame m io g.projectiles g
  have hf : loopFrame (updateProjectiles m io g) = loopFrame g := hfr
  unfold loopFrame at hf
  simp only [Prod.mk.injEq] at hf
  obtain ⟨⟨-, -, f3, f4⟩, -, -, -, f8⟩ := hf
  refine ⟨?_, f8, ?_, ?_, ?_⟩
  · unfold obstacleState
    simp only [f3, f4]
  · intro hs p hp
    have hp1 : p ∈ (projectileLoop m io g g.projectiles).2 := by
      unfold updateProjectiles at hp
      exact (List.mem_filter.mp hp).1
    exact projectileLoop_sized m io g.projectiles g hs p hp1
  · intro hst
    exact projectileLoop_preserves m io (fun s => s.obstacle_is_stunned = true) g.projectiles
      (fun s p _ h => stepProjectile_stunned m io s p h) g hst
  · intro hm hs
    have h := projectileLoop_preserves m io
      (fun s => s.is_portal_mode = true ∧ (obstacleState s).2 = (obstacleState g).2)
      g.projectiles ?_ g ⟨hm, rfl⟩
    · exact h.2
    · intro s p hp ⟨h1, h2⟩
      refine ⟨?_, ?_⟩
      · have e := (loopFrame_fields (stepProjectile_loopFrame m io s p)).2.2.2.2.2
        rw [e, h1]
      · rw [stepProjectile_portal_quiet m io s p h1 (hs p hp).1 (hs p hp).2, h2]

theorem obstacleStep_obstacle (io : Frame) (g : Game) :
    (wrapObstacle (moveObstacle io (updateAiTarget g))).is_portal_mode = g.is_portal_mode ∧
      (wrapObstacle (moveObstacle io (updateAiTarget g))).projectiles = g.projectiles ∧
      (wrapObstacle (moveObstacle io (updateAiTarget g))).obstacle_stuns_this_game =
        g.obstacle_stuns_this_game ∧
      (g.obstacle_is_stunned = false →
        (wrapObstacle (moveObstacle io (updateAiTarget g))).obstacle_is_stunned = false) ∧
      (g.obstacle_is_stunned = true →
        inWrapRange g.SCREEN_WIDTH g.obstacle_x → inWrapRange g.SCREEN_HEIGHT g.obstacle_y →
        (wrapObstacle (moveObstacle io (updateAiTarget g))).obstacle_x = g.obstacle_x ∧
        (wrapObstacle (moveObstacle io (updateAiTarget g))).obstacle_y = g.obstacle_y) := by
  have e1 : (updateAiTarget g).is_portal_mode = g.is_portal_mode ∧
      (updateAiTarget g).projectiles = g.projectiles ∧
      obstacleState (updateAiTarget g) = obstacleState g ∧
      (updateAiTarget g).SCREEN_WIDTH = g.SCREEN_WIDTH ∧
      (updateAiTarget g).SCREEN_HEIGHT = g.SCREEN_HEIGHT := by
    unfold updateAiTarget
    simp only []
    split_ifs <;> exact ⟨rfl, rfl, rfl, rfl, rfl⟩
  obtain ⟨a1, a2, a3, a4, a5⟩ := e1
  unfold obstacleState at a3
  simp only [Prod.mk.injEq] at a3
  obtain ⟨⟨b1, b2⟩, b3, b4⟩ := a3
  have e2 : ∀ t : Game, (moveObstacle io t).is_portal_mode = t.is_portal_mode ∧
      (moveObstacle io t).projectiles = t.projectiles ∧
      (moveObstacle io t).obstacle_stuns_this_game = t.obstacle_stuns_this_game ∧
      (moveObstacle io t).SCREEN_WIDTH = t.SCREEN_WIDTH ∧
      (moveObstacle io t).SCREEN_HEIGHT = t.SCREEN_HEIGHT ∧
      (t.obstacle_is_stunned = false → (moveObstacle io t).obstacle_is_stunned = false) ∧
      (t.obstacle_is_stunned = true → (moveObstacle io t).obstacle_x = t.obstacle_x ∧
        (moveObstacle io t).obstacle_y = t.obstacle_y) := by
    intro t
    unfold moveObstacle
    split_ifs with h1 h2
    · exact ⟨rfl, rfl, rfl, rfl, rfl, fun h => h, fun h => by rw [h] at h1; cases h1⟩
    · exact ⟨rfl, rfl, rfl, rfl, rfl, fun _ => rfl, fun _ => ⟨rfl, rfl⟩⟩
    · exact ⟨rfl, rfl, rfl, rfl, rfl, fun h => h, fun _ => ⟨rfl, rfl⟩⟩
  obtain ⟨c1, c2, c3, c4, c5, c6, c7⟩ := e2 (updateAiTarget g)
  refine ⟨c1.trans a1, c2.trans a2, c3.trans b4, ?_, ?_⟩
  · intro h
    exact c6 (b3.trans h)
  · intro h hx hy
    obtain ⟨d1, d2⟩ := c7 (b3.trans h)
    unfold wrapObstacle
    simp only [c4, c5, a4, a5, d1, d2, b1, b2]
    exact ⟨wrapAxis_in_range _ _ _ hx.1 hx.2, wrapAxis_in_range _ _ _ hy.1 hy.2⟩

theorem obstacleState_snd {a b : Game} (h : (obstacleState a).2 = (obstacleState b).2) :
    a.obstacle_is_stunned = b.obstacle_is_stunned ∧
      a.obstacle_stuns_this_game = b.obstacle_stuns_this_game := by
  unfold obstacleState at h
  simp only [Prod.mk.injEq] at h
  exact h

theorem obstacleState_fst {a b : Game} (h : (obstacleState a).1 = (obstacleState b).1) :
    a.obstacle_x = b.obstacle_x ∧ a.obstacle_y = b.obstacle_y := by
  unfold obstacleState at h
  simp only [Prod.mk.injEq] at h
  exact h

theorem beforeShots_mode (m : MathEnv) (io : Frame) (dt : ℚ) (g : Game) :
    (portalLogic io (beforePortals m io dt g)).is_portal_mode = g.is_portal_mode ∧
      (beforePortals m io dt g).is_portal_mode = g.is_portal_mode := by
  have u1 := (updateElapsed_untouched io g).is_portal_mode
  have u2 := (dashActivation_untouched m io (updateElapsed io g)).is_portal_mode
  have u3 := (movePlayer_untouched m io dt (dashActivation m io (updateElapsed io g))).is_portal_mode
  have u4 := (wrapPlayer_untouched (movePlayer m io dt
    (dashActivation m io (updateElapsed io g)))).is_portal_mode
  have hb : (beforePortals m io dt g).is_portal_mode = g.is_portal_mode := by
    unfold beforePortals
    rw [u4, u3, u2, u1]
  exact ⟨((portalLogic_untouched io _).is_portal_mode).trans hb, hb⟩

theorem playingTick_stages (m : MathEnv) (io : Frame) (dt : ℚ) (g : Game) :
    playingTick m io dt g =
      checkTerminalCollision (hideAchievementPopup io (hideBonusMessage io
        (dodgeStreakBonus io (wrapObstacle (moveObstacle io (updateAiTarget
          (updateProjectiles m io (obstacleShoot m io (playerShoot m io
            (portalLogic io (beforePortals m io dt g))))))))))) := rfl

/-- A Playing tick keeps the obstacle quiet in portal mode, and keeps every
projectile a rectangle of non-negative sides. -/
theorem playingTick_quiet (m : MathEnv) (io : Frame) (dt : ℚ) (g : Game)
    (hq : portalQuiet g) (hs : shotsSized g) :
    portalQuiet (playingTick m io dt g) ∧ shotsSized (playingTick m io dt g) ∧
      (playingTick m io dt g).is_portal_mode = g.is_portal_mode := by
  obtain ⟨m2, -⟩ := beforeShots_mode m io dt g
  obtain ⟨o1, p1⟩ := beforePortals_obstacle m io dt g
  obtain ⟨o2, p2, -⟩ := portalLogic_obstacle io (beforePortals m io dt g)
  have s2 : shotsSized (portalLogic io (beforePortals m io dt g)) := by
    intro p hp
    rw [p2, p1] at hp
    exact hs p hp
  obtain ⟨o3, m3, s3⟩ := playerShoot_obstacle m io (portalLogic io (beforePortals m io dt g))
  obtain ⟨o4, m4, s4, -⟩ := obstacleShoot_obstacle m io
    (playerShoot m io (portalLogic io (beforePortals m io dt g)))
  obtain ⟨-, m5, s5, -, q5⟩ := updateProjectiles_obstacle m io (obstacleShoot m io
    (playerShoot m io (portalLogic io (beforePortals m io dt g))))
  obtain ⟨m8, p8, n8, f8, -⟩ := obstacleStep_obstacle io (updateProjectiles m io
    (obstacleShoot m io (playerShoot m io (portalLogic io (beforePortals m io dt g)))))
  obtain ⟨o9, m9, s9⟩ := tickEnd_obstacle io (wrapObstacle (moveObstacle io (updateAiTarget
    (updateProjectiles m io (obstacleShoot m io (playerShoot m io
      (portalLogic io (beforePortals m io dt g))))))))
  have hmode : (playingTick m io dt g).is_portal_mode = g.is_portal_mode := by
    rw [playingTick_stages, m9, m8, m5, m4, m3, m2]
  have hsized : shotsSized (playingTick m io dt g) := by
    rw [playingTick_stages]
    apply s9
    intro p hp
    rw [p8] at hp
    exact s5 (s4 (s3 s2)) p hp
  refine ⟨?_, hsized, hmode⟩
  intro hm
  rw [hmode] at hm
  obtain ⟨g1, g2⟩ := hq hm
  have hm4 : (obstacleShoot m io (playerShoot m io
      (portalLogic io (beforePortals m io dt g)))).is_portal_mode = true := by
    rw [m4, m3, m2, hm]
  have e5 := obstacleState_snd (q5 hm4 (s4 (s3 s2)))
  have e4 := obstacleState_snd (congrArg Prod.snd (o4.trans o3))
  have e2 := obstacleState_snd o2
  have e1 := obstacleState_snd (congrArg Prod.snd o1)
  have st5 : (updateProjectiles m io (obstacleShoot m io (playerShoot m io
      (portalLogic io (beforePortals m io dt g))))).obstacle_is_stunned = false := by
    rw [e5.1, e4.1, e2.1, e1.1, g1]
  have n5 : (updateProjectiles m io (obstacleShoot m io (playerShoot m io
      (portalLogic io (beforePortals m io dt g))))).obstacle_stuns_this_game = 0 := by
    rw [e5.2, e4.2, e2.2, e1.2, g2]
  have e9 := obstacleState_snd (congrArg Prod.snd o9)
  rw [playingTick_stages]
  constructor
  · rw [e9.1]
    exact f8 st5
  · rw [e9.2, n8, n5]

theorem matchReach_quiet (m : MathEnv) (g0 : Game) (t0 t : ℚ) (n : Nat) (s : Game)
    (h : MatchReach m g0 t0 t n s) :
    portalQuiet s ∧ shotsSized s ∧ s.is_portal_mode = g0.is_portal_mode := by
  induction h with
  | reset =>
    refine ⟨fun _ => ⟨rfl, rfl⟩, ?_, rfl⟩
    intro p hp
    cases hp
  | tick io dt _ hphase _ hstep ih =>
    obtain ⟨i1, i2, i3⟩ := ih
    rcases hphase with hc | hp
    · unfold updateGame at hstep
      rw [hc] at hstep
      have e := Option.some.inj hstep
      rw [← e]
      unfold countdownTick
      simp only []
      split_ifs
      · refine ⟨?_, i2, i3⟩
        intro hm
        exact ⟨(i1 hm).1, rfl⟩
      · exact ⟨i1, i2, i3⟩
    · unfold updateGame at hstep
      rw [hp] at hstep
      have e := Option.some.inj hstep
      rw [← e]
      obtain ⟨j1, j2, j3⟩ := playingTick_quiet m io dt _ i1 i2
      exact ⟨j1, j2, j3.trans i3⟩

/-- A Playing tick from a state with a stunned obstacle in normal mode, in an
arena in whose wrap range the combatants lie: the obstacle's shot block does
nothing and the obstacle stays where it is. -/
theorem playingTick_stunned_obstacle (m : MathEnv) (io : Frame) (dt : ℚ) (W H : Int) (g : Game)
    (hW : 0 ≤ W) (hH : 0 ≤ H) (hg : arenaInv W H g) (hmode : g.is_portal_mode = false)
    (hst : g.obstacle_is_stunned = true) :
    obstacleShoot m io (playerShoot m io (portalLogic io (beforePortals m io dt g))) =
        playerShoot m io (portalLogic io (beforePortals m io dt g)) ∧
      (playingTick m io dt g).obstacle_x = g.obstacle_x ∧
      (playingTick m io dt g).obstacle_y = g.obstacle_y := by
  obtain ⟨-, mb⟩ := beforeShots_mode m io dt g
  obtain ⟨o1, -⟩ := beforePortals_obstacle m io dt g
  have hid : portalLogic io (beforePortals m io dt g) = beforePortals m io dt g :=
    (portalLogic_obstacle io _).2.2 (mb.trans hmode)
  obtain ⟨o3, -, -⟩ := playerShoot_obstacle m io (portalLogic io (beforePortals m io dt g))
  have o13 : obstacleState (playerShoot m io (portalLogic io (beforePortals m io dt g))) =
      obstacleState g := by
    rw [o3, hid, o1]
  have st3 : (playerShoot m io (portalLogic io (beforePortals m io dt g))).obstacle_is_stunned
      = true := (obstacleState_snd (congrArg Prod.snd o13)).1.trans hst
  have hno := (obstacleShoot_obstacle m io _).2.2.2 st3
  obtain ⟨o5, -, -, st5, -⟩ := updateProjectiles_obstacle m io (obstacleShoot m io
    (playerShoot m io (portalLogic io (beforePortals m io dt g))))
  rw [hno] at o5 st5
  have h1 := portalLogic_arenaInv io W H _ (beforePortals_arenaInv m io dt W H g hW hH hg)
  have h2 : arenaInv W H (obstacleShoot m io (playerShoot m io
      (portalLogic io (beforePortals m io dt g)))) :=
    arenaInv_congr W H ((shots_arena m io _).2.1.trans (shots_arena m io _).1) h1
  have h3 := updateProjectiles_arenaInv m io W H _ hW hH h2
  rw [hno] at h3
  obtain ⟨w5, h5, -, ⟨ox5, oy5⟩, -, -⟩ := h3
  obtain ⟨-, -, -, -, mv⟩ := obstacleStep_obstacle io (updateProjectiles m io
    (playerShoot m io (portalLogic io (beforePortals m io dt g))))
  obtain ⟨x8, y8⟩ := mv (st5 st3) (by rw [w5]; exact ox5) (by rw [h5]; exact oy5)
  obtain ⟨o9, -, -⟩ := tickEnd_obstacle io (wrapObstacle (moveObstacle io (updateAiTarget
    (updateProjectiles m io (playerShoot m io (portalLogic io (beforePortals m io dt g)))))))
  have e9 := obstacleState_fst (congrArg Prod.fst o9)
  have e5 := obstacleState_fst o5
  have e3 := obstacleState_fst (congrArg Prod.fst o13)
  refine ⟨hno, ?_, ?_⟩
  · rw [playingTick_stages, hno, e9.1, x8, e5.1, e3.1]
  · rw [playingTick_stages, hno, e9.2, y8, e5.2, e3.2]

/-- C23: in every state reached from the start of a match by Countdown and
Playing ticks, in an arena of non-negative width and height, a Playing tick
that starts with `obstacle_is_stunned` set spawns no obstacle projectile (the
obstacle's shot block leaves the globals as they are) and ends with the
obstacle where it was at the start of the tick.  In portal mode the case does
not arise: there no reached state has the obstacle stunned. -/
theorem C23_stunned_obstacle_still (m : MathEnv) (g0 : Game) (hW : 0 ≤ g0.SCREEN_WIDTH)
    (hH : 0 ≤ g0.SCREEN_HEIGHT) (t0 t : ℚ) (n : Nat) (s : Game) (h : MatchReach m g0 t0 t n s)
    (hp : s.current_game_state = GameState.GAME_STATE_PLAYING)
    (hst : s.obstacle_is_stunned = true) (io : Frame) (deltaTime : ℚ) :
    ∃ s1, updateGame m io deltaTime s = some s1 ∧
      obstacleShoot m io (playerShoot m io (portalLogic io (beforePortals m io deltaTime s))) =
        playerShoot m io (portalLogic io (beforePortals m io deltaTime s)) ∧
      s1.obstacle_x = s.obstacle_x ∧ s1.obstacle_y = s.obstacle_y ∧
      s.is_portal_mode = false := by
  obtain ⟨q1, -, -⟩ := matchReach_quiet m g0 t0 t n s h
  have hinv := matchReach_arenaInv m g0 hW hH t0 t n s h
  have hmode : s.is_portal_mode = false := by
    cases hm : s.is_portal_mode with
    | false => rfl
    | true =>
      have := (q1 hm).1
      rw [hst] at this
      cases this
  obtain ⟨a1, a2, a3⟩ := playingTick_stunned_obstacle m io deltaTime _ _ s hW hH hinv hmode hst
  refine ⟨playingTick m io deltaTime s, ?_, a1, a2, a3, hmode⟩
  unfold updateGame
  rw [hp]

/-! ### Reached states from runs of frames -/

theorem matchReach_run (m : MathEnv) (g0 : Game) (t0 : ℚ) (frames : List (Frame × ℚ)) :
    ∀ (t : ℚ) (n : Nat) (s : Game), MatchReach m g0 t0 t n s →
      matchRunOk m t s frames = true →
      ∃ n1 s1, runFrames m frames s = some s1 ∧
        MatchReach m g0 t0 (lastClock t frames) n1 s1 := by
  induction frames with
  | nil =>
    intro t n s h _
    exact ⟨n, s, rfl, h⟩
  | cons f rest ih =>
    intro t n s h hok
    simp only [matchRunOk, Bool.and_eq_true, Bool.or_eq_true, decide_eq_true_eq] at hok
    obtain ⟨⟨hphase, hclock⟩, hrest⟩ := hok
    cases hu : updateGame m f.1 f.2 s with
    | none =>
      rw [hu] at hrest
      cases hrest
    | some s1 =>
      rw [hu] at hrest
      obtain ⟨n1, s2, h1, h2⟩ := ih _ _ s1 (MatchReach.tick f.1 f.2 h hphase hclock hu) hrest
      refine ⟨n1, s2, ?_, h2⟩
      simp only [runFrames, hu, Option.some_bind]
      exact h1

set_option maxRecDepth 1000000 in
/-- C28, at a concrete match: in the arena of 400 by 300, after the countdown,
the player's shot and 44 more ticks, the player is at `(175, 250)` and the
obstacle at `(103, 252)`, inside the wrap range. -/
theorem C28_witness_small_arena :
    ∃ s, runFrames sampleMath (shotFrames 44) (countdownStart smallArena) = some s ∧
      (s.player_x, s.player_y, s.obstacle_x, s.obstacle_y) = (175, 250, 103, 252) ∧
      (-50 ≤ s.obstacle_x ∧ s.obstacle_x ≤ 400) ∧ (-50 ≤ s.obstacle_y ∧ s.obstacle_y ≤ 300) := by
  obtain ⟨n1, s, hrun, hreach⟩ := matchReach_run sampleMath smallArena 1 (shotFrames 44) 1 0
    (countdownStart smallArena) MatchReach.reset (by decide!)
  have h := C28_wrap_range_invariant sampleMath smallArena (by decide) (by decide) 1 _ n1 s hreach
  have hv : (runFrames sampleMath (shotFrames 44) (countdownStart smallArena)).map
      (fun g => (g.player_x, g.player_y, g.obstacle_x, g.obstacle_y)) =
      some (175, 250, 103, 252) := by decide!
  rw [hrun] at hv
  refine ⟨s, hrun, Option.some.inj hv, ?_, ?_⟩
  · have := h.2.2.2.2.1
    exact ⟨this.1, by simpa [smallArena] using this.2⟩
  · have := h.2.2.2.2.2.1
    exact ⟨this.1, by simpa [smallArena] using this.2⟩

set_option maxRecDepth 1000000 in
/-- C23, at a concrete match: in the arena of 400 by 300 the player's shot,
fired at `4`, comes back from the right edge and stuns the obstacle at
`(103, 252)`; 125 ticks after the shot the obstacle is still stunned, and the
next tick spawns no obstacle shot although the obstacle's shot cooldown has
elapsed, and leaves the obstacle at `(103, 252)`. -/
theorem C23_witness_stunned :
    ∃ s, runFrames sampleMath (shotFrames 125) (countdownStart smallArena) = some s ∧
      s.current_game_state = GameState.GAME_STATE_PLAYING ∧ s.obstacle_is_stunned = true ∧
      (s.obstacle_x, s.obstacle_y) = (103, 252) ∧
      (frameAt (4 + 126 / 60)).GetTime - s.obstacle_last_shot_time ≥ OBSTACLE_SHOOT_COOLDOWN ∧
      ∃ s1, updateGame sampleMath (frameAt (4 + 126 / 60)) (1 / 60) s = some s1 ∧
        s1.projectiles.length ≤ s.projectiles.length ∧
        s1.obstacle_x = s.obstacle_x ∧ s1.obstacle_y = s.obstacle_y := by
  obtain ⟨n1, s, hrun, hreach⟩ := matchReach_run sampleMath smallArena 1 (shotFrames 125) 1 0
    (countdownStart smallArena) MatchReach.reset (by decide!)
  have hv : (runFrames sampleMath (shotFrames 125) (countdownStart smallArena)).map
      (fun g => (g.current_game_state, g.obstacle_is_stunned, g.obstacle_x, g.obstacle_y,
        decide ((frameAt (4 + 126 / 60)).GetTime - g.obstacle_last_shot_time ≥
          OBSTACLE_SHOOT_COOLDOWN))) =
      some (GameState.GAME_STATE_PLAYING, true, 103, 252, true) := by decide!
  have hl : ((runFrames sampleMath (shotFrames 125) (countdownStart smallArena)).bind
      (fun g => (updateGame sampleMath (frameAt (4 + 126 / 60)) (1 / 60) g).map
        (fun g1 => decide (g1.projectiles.length ≤ g.projectiles.length)))) = some true := by
    decide!
  rw [hrun] at hv hl
  simp only [Option.map_some', Option.some.injEq, Prod.mk.injEq, Option.some_bind,
    decide_eq_true_eq] at hv hl
  obtain ⟨v1, v2, v3, v4, v5⟩ := hv
  obtain ⟨s1, h1, -, h3, h4, -⟩ := C23_stunned_obstacle_still sampleMath smallArena (by decide)
    (by decide) 1 _ n1 s hreach v1 v2 (frameAt (4 + 126 / 60)) (1 / 60)
  rw [h1] at hl
  simp only [Option.map_some', Option.some.injEq, decide_eq_true_eq] at hl
  refine ⟨s, hrun, v1, v2, ?_, v5, s1, h1, hl, h3, h4⟩
  rw [v3, v4]

/-- C26: in portal mode, the pass of the projectile loop for an active player
shot (a rectangle of non-negative sides, as every spawned shot is) either
creates a portal and deactivates the shot, or finds the moved shot neither
within 1 px of an arena edge nor overlapping the obstacle; in that case the
boundary handling leaves the shot as it is (velocity and bounce counter
included) and the obstacle block does not run for it.  No pass of the loop in
portal mode, for an active shot of either side, takes the branch that stuns
the obstacle and counts the stun, which is the only place where
`stunned_silence` is unlocked, and no pass changes the stun flag or the count.  Hence in every state reached from the start of a portal-mode
match by Countdown and Playing ticks `obstacle_is_stunned` is false and
`obstacle_stuns_this_game` is 0, as `resetGame` left them. -/
theorem C26_portal_shots_never_stun (m : MathEnv) (io : Frame) :
    (∀ (g : Game) (p : Projectile), g.is_portal_mode = true → p.active = true →
      p.is_player_shot = true → 0 ≤ p.rect.width → 0 ≤ p.rect.height →
      (∃ pos, portalHit g (moveProjectile p) = some pos ∧
        stepProjectile m io g p =
          (placePortal io pos g, { moveProjectile p with active := false })) ∨
      (¬ atArenaEdge g (moveProjectile p) ∧
        CheckCollisionRecs (moveProjectile p).rect (obstacleRect g) = false ∧
        (boundaryHandling g.SCREEN_WIDTH g.SCREEN_HEIGHT (moveProjectile p)).1 =
          moveProjectile p ∧
        (boundaryHandling g.SCREEN_WIDTH g.SCREEN_HEIGHT (moveProjectile p)).1.velocity =
          p.velocity ∧
        (boundaryHandling g.SCREEN_WIDTH g.SCREEN_HEIGHT
          (moveProjectile p)).1.bounces_remaining = p.bounces_remaining ∧
        hitObstacle io (g, moveProjectile p) = (g, moveProjectile p) ∧
        stepProjectile m io g p =
          nearMiss m io (dashThrough io (hitPlayer io (g, moveProjectile p))))) ∧
    (∀ (g : Game) (p : Projectile), g.is_portal_mode = true → 0 ≤ p.rect.width →
      0 ≤ p.rect.height →
      (p.active = true →
        (∃ pos, stepProjectile m io g p =
          (placePortal io pos g, { moveProjectile p with active := false })) ∨
        ¬ stunBranch io (g, (boundaryHandling g.SCREEN_WIDTH g.SCREEN_HEIGHT
          (moveProjectile p)).1)) ∧
      (stepProjectile m io g p).1.obstacle_is_stunned = g.obstacle_is_stunned ∧
      (stepProjectile m io g p).1.obstacle_stuns_this_game = g.obstacle_stuns_this_game) ∧
    (∀ (g0 : Game) (t0 t : ℚ) (n : Nat) (s : Game), g0.is_portal_mode = true →
      MatchReach m g0 t0 t n s →
      s.is_portal_mode = true ∧ s.obstacle_is_stunned = false ∧
        s.obstacle_stuns_this_game = 0 ∧
        ∀ p ∈ s.projectiles, 0 ≤ p.rect.width ∧ 0 ≤ p.rect.height) := by
  refine ⟨?_, ?_, ?_⟩
  · intro g p hm ha hs hw hh
    rcases stepProjectile_portal_shot m io g p hm ha hs with ⟨pos, h1, h2⟩ | ⟨h1, h2, h3, h4, h5, h6⟩
    · exact Or.inl ⟨pos, h1, h2⟩
    · right
      obtain ⟨hid, hob, -⟩ := h6 hw hh
      rw [hid] at hob
      refine ⟨h1, h2, hid, h4, h5, hob, ?_⟩
      rw [h3]
      unfold projectileEffects
      simp only []
      rw [hid, hob]
  · intro g p hm hw hh
    have hq := obstacleState_snd (stepProjectile_portal_quiet m io g p hm hw hh)
    refine ⟨?_, hq.1, hq.2⟩
    intro ha
    by_cases hs : p.is_player_shot = true
    · rcases stepProjectile_portal_shot m io g p hm ha hs with ⟨pos, -, h2⟩ | ⟨-, -, -, -, -, h6⟩
      · exact Or.inl ⟨pos, h2⟩
      · exact Or.inr (h6 hw hh).2.2
    · right
      intro hb
      obtain ⟨-, b2, -⟩ := hb
      simp only [] at b2
      rw [(boundaryHandling_kind _ _ _).1] at b2
      exact hs b2
  · intro g0 t0 t n s hm h
    obtain ⟨q1, q2, q3⟩ := matchReach_quiet m g0 t0 t n s h
    have hms : s.is_portal_mode = true := q3.trans hm
    exact ⟨hms, (q1 hms).1, (q1 hms).2, q2⟩

set_option maxRecDepth 1000000 in
/-- C26, at concrete inputs: in the portal-mode state `portalShots` the first
player shot steps to the left edge and creates a portal; and in a portal-mode
match in the arena of 400 by 300 the player's shot, fired at `4`, reaches the
right edge 19 ticks later and becomes portal 1 at `(400, 275)` instead of
bouncing back to the obstacle, which is not stunned. -/
theorem C26_witness_portal_match :
    (∃ pos, portalHit portalShots (moveProjectile
        { rect := ⟨8, 300, 10, 10⟩, speed := 10, velocity := ⟨-1, 0⟩, active := true,
          is_player_shot := true, bounces_remaining := 5 }) = some pos) ∧
    ∃ s, runFrames sampleMath (shotFrames 19) (countdownStart smallPortalArena) = some s ∧
      s.is_portal_mode = true ∧ s.obstacle_is_stunned = false ∧
      s.obstacle_stuns_this_game = 0 ∧
      (s.portal_1_active, s.portal_1_pos) = (true, ⟨400, 275⟩) := by
  obtain ⟨h1, -, h3⟩ := C26_portal_shots_never_stun sampleMath (frameAt 1)
  obtain ⟨n1, s, hrun, hreach⟩ := matchReach_run sampleMath smallPortalArena 1 (shotFrames 19)
    1 0 (countdownStart smallPortalArena) MatchReach.reset (by decide!)
  obtain ⟨q1, q2, q3, -⟩ := h3 smallPortalArena 1 _ n1 s rfl hreach
  have hv : (runFrames sampleMath (shotFrames 19) (countdownStart smallPortalArena)).map
      (fun g => (g.portal_1_active, g.portal_1_pos)) = some (true, ⟨400, 275⟩) := by decide!
  rw [hrun] at hv
  refine ⟨?_, s, hrun, q1, q2, q3, Option.some.inj hv⟩
  rcases h1 portalShots
    { rect := ⟨8, 300, 10, 10⟩, speed := 10, velocity := ⟨-1, 0⟩, active := true,
      is_player_shot := true, bounces_remaining := 5 } rfl rfl rfl (by decide!) (by decide!)
    with ⟨pos, hp, -⟩ | ⟨hedge, -⟩
  · exact ⟨pos, hp⟩
  · exfalso
    apply hedge
    unfold atArenaEdge
    left
    decide!

/-! ### The has-shot flag over a match -/

theorem unlockAchievement_shotFields (io : Frame) (a u : String) (g : Game) :
    shotFields (unlockAchievement io a u g) = shotFields g := by
  unfold unlockAchievement
  split
  · rfl
  · simp only []
    split_ifs <;> rfl

theorem beforeShots_shotFields (m : MathEnv) (io : Frame) (dt : ℚ) (g : Game) :
    shotFields (portalLogic io (beforePortals m io dt g)) = shotFields g := by
  have e1 : shotFields (updateElapsed io g) = shotFields g := by
    unfold updateElapsed
    simp only []
    split_ifs
    · exact (unlockAchievement_shotFields io _ _ _).trans (unlockAchievement_shotFields io _ _ _)
    · exact unlockAchievement_shotFields io _ _ _
    · exact unlockAchievement_shotFields io _ _ _
    · rfl
  have e2 : ∀ t : Game, shotFields (dashActivation m io t) = shotFields t := by
    intro t
    unfold dashActivation
    split_ifs <;> rfl
  have e3 : ∀ t : Game, shotFields (movePlayer m io dt t) = shotFields t := by
    intro t
    unfold movePlayer
    simp only []
    split_ifs <;> rfl
  have e4 : ∀ t : Game, shotFields (portalLogic io t) = shotFields t := by
    refine portalLogic_keeps io shotFields ?_ ?_ ?_
    · intro t
      unfold expirePortals
      simp only []
      split_ifs <;> rfl
    · intro t
      unfold teleportPlayer
      simp only []
      split_ifs <;> rfl
    · intro t
      unfold teleportObstacle
      simp only []
      split_ifs <;> rfl
  rw [e4]
  unfold beforePortals
  show shotFields (movePlayer m io dt _) = _
  rw [e3, e2, e1]

theorem afterShot_shotFields (m : MathEnv) (io : Frame) (g : Game) :
    shotFields (checkTerminalCollision (hideAchievementPopup io (hideBonusMessage io
      (dodgeStreakBonus io (wrapObstacle (moveObstacle io (updateAiTarget
        (updateProjectiles m io (obstacleShoot m io g)))))))))
      = shotFields g := by
  have e1 : ∀ t : Game, shotFields (obstacleShoot m io t) = shotFields t := by
    intro t
    unfold obstacleShoot
    simp only []
    split_ifs <;> rfl
  have e2 : ∀ t : Game, shotFields (updateProjectiles m io t) = shotFields t := by
    intro t
    unfold updateProjectiles
    refine projectileLoop_keeps m io shotFields ?_ t.projectiles t
    refine stepProjectile_keeps m io shotFields ?_ ?_ ?_ ?_ ?_
    · intro pos s
      unfold placePortal
      split_ifs <;> rfl
    · intro s
      unfold hitObstacle
      simp only []
      split_ifs
      · exact unlockAchievement_shotFields io _ _ _
      · rfl
      · rfl
      · rfl
    · intro s
      unfold hitPlayer
      simp only []
      split_ifs <;> rfl
    · intro s
      unfold dashThrough
      simp only []
      split_ifs
      · exact unlockAchievement_shotFields io _ _ _
      · rfl
      · rfl
    · intro s
      unfold nearMiss
      simp only []
      split_ifs
      · exact unlockAchievement_shotFields io _ _ _
      · rfl
      · rfl
  have e3 : ∀ t : Game, shotFields (updateAiTarget t) = shotFields t := by
    intro t
    unfold updateAiTarget
    simp only []
    split_ifs <;> rfl
  have e4 : ∀ t : Game, shotFields (moveObstacle io t) = shotFields t := by
    intro t
    unfold moveObstacle
    split_ifs <;> rfl
  have e5 : ∀ t : Game, shotFields (dodgeStreakBonus io t) = shotFields t := by
    intro t
    unfold dodgeStreakBonus
    split_ifs <;> rfl
  have e6 : ∀ t : Game, shotFields (hideBonusMessage io t) = shotFields t := by
    intro t
    unfold hideBonusMessage
    split_ifs <;> rfl
  have e7 : ∀ t : Game, shotFields (hideAchievementPopup io t) = shotFields t := by
    intro t
    unfold hideAchievementPopup
    split_ifs <;> rfl
  have e8 : ∀ t : Game, shotFields (checkTerminalCollision t) = shotFields t := by
    intro t
    unfold checkTerminalCollision
    simp only []
    split_ifs <;> rfl
  rw [e8, e7, e6, e5]
  show shotFields (moveObstacle io _) = _
  rw [e4, e3, e2, e1]

/-- The player's shot block: what it does to the has-shot flag, to the time of
the last shot and to the number of projectiles. -/
theorem playerShoot_cases (m : MathEnv) (io : Frame) (g : Game) :
    (playerShoot m io g = g ∧
      ¬ (io.IsKeyPressed KEY_LEFT_SHIFT = true ∨ io.IsKeyPressed KEY_RIGHT_SHIFT = true)) ∨
    ((playerShoot m io g).has_shot_this_game = true ∧
      (playerShoot m io g).projectiles.length = g.projectiles.length + 1 ∧
      io.GetTime - g.player_last_shot_time ≥ PLAYER_SHOOT_COOLDOWN) ∨
    ((playerShoot m io g).has_shot_this_game = true ∧
      (playerShoot m io g).projectiles = g.projectiles ∧
      ¬ io.GetTime - g.player_last_shot_time ≥ PLAYER_SHOOT_COOLDOWN) := by
  unfold playerShoot
  simp only []
  split_ifs with h1 h2
  · right
    left
    exact ⟨rfl, by simp, h2⟩
  · right
    right
    exact ⟨rfl, rfl, h2⟩
  · left
    exact ⟨rfl, h1⟩

theorem matchReach_shots (m : MathEnv) (g0 : Game) (t0 t : ℚ) (n : Nat) (s : Game)
    (h0 : 0 ≤ t0) (h : MatchReach m g0 t0 t n s) :
    t0 ≤ t ∧ (s.has_shot_this_game = true ↔ 0 < n) ∧
      (s.has_shot_this_game = false → s.player_last_shot_time = -PLAYER_SHOOT_COOLDOWN) ∧
      (s.current_game_state = GameState.GAME_STATE_COUNTDOWN →
        n = 0 ∧ s.player_last_shot_time = -PLAYER_SHOOT_COOLDOWN) := by
  induction h with
  | reset =>
    refine ⟨le_refl _, ?_, fun _ => rfl, fun _ => ⟨rfl, rfl⟩⟩
    constructor
    · intro hs
      have : (countdownStart g0).has_shot_this_game = false := rfl
      rw [this] at hs
      cases hs
    · intro hn
      cases hn
  | @tick t n s s1 io dt _ hphase hclock hstep ih =>
    obtain ⟨i1, i2, i3, i4⟩ := ih
    have hnow : 0 ≤ io.GetTime := le_trans h0 (le_trans i1 hclock)
    rcases hphase with hc | hp
    · unfold updateGame at hstep
      rw [hc] at hstep
      have e := Option.some.inj hstep
      obtain ⟨n0, l0⟩ := i4 hc
      have hnot : ¬ s.current_game_state = GameState.GAME_STATE_PLAYING := by
        rw [hc]
        decide
      rw [if_neg hnot, n0]
      rw [← e]
      unfold countdownTick
      simp only []
      split_ifs
      · refine ⟨le_trans i1 hclock, ?_, fun _ => l0, fun _ => ⟨trivial, l0⟩⟩
        constructor
        · intro hs
          cases hs
        · intro hn
          cases hn
      · refine ⟨le_trans i1 hclock, ?_, i3, fun _ => ⟨trivial, l0⟩⟩
        rw [n0] at i2
        exact i2
    · unfold updateGame at hstep
      rw [hp] at hstep
      have e := Option.some.inj hstep
      rw [if_pos hp]
      have hb := beforeShots_shotFields m io dt s
      have ha := afterShot_shotFields m io
        (playerShoot m io (portalLogic io (beforePortals m io dt s)))
      rw [← playingTick_stages, e] at ha
      unfold shotFields at hb ha
      simp only [Prod.mk.injEq] at hb ha
      obtain ⟨b1, b2⟩ := hb
      obtain ⟨a1, a2⟩ := ha
      have hphase1 : s1.current_game_state ≠ GameState.GAME_STATE_COUNTDOWN := by
        rw [← e]
        by_cases hc : terminalCollision (beforeTerminalCheck m io dt s)
        · have := checkTerminalCollision_state_of _ hc
          unfold playingTick
          rw [this]
          decide
        · unfold playingTick
          rw [checkTerminalCollision_of_not _ hc, beforeTerminalCheck_state, hp]
          decide
      refine ⟨le_trans i1 hclock, ?_, ?_, fun hcd => absurd hcd hphase1⟩
      · rw [a1]
        unfold playerShotsSpawned
        rcases playerShoot_cases m io (portalLogic io (beforePortals m io dt s)) with
          ⟨c1, -⟩ | ⟨c1, c2, -⟩ | ⟨c1, c2, c3⟩
        · rw [c1, b1, Nat.sub_self, Nat.add_zero]
          exact i2
        · rw [c1, c2]
          constructor
          · intro _
            omega
          · intro _
            rfl
        · rw [c1, c2, Nat.sub_self, Nat.add_zero]
          constructor
          · intro _
            by_contra hn
            have hfalse : s.has_shot_this_game = false := by
              cases hs : s.has_shot_this_game with
              | false => rfl
              | true => exact absurd (i2.mp hs) hn
            have hl := i3 hfalse
            rw [b2, hl] at c3
            apply c3
            norm_num [PLAYER_SHOOT_COOLDOWN]
            linarith
          · intro _
            rfl
      · intro hfalse
        rw [a1] at hfalse
        rw [a2]
        rcases playerShoot_cases m io (portalLogic io (beforePortals m io dt s)) with
          ⟨c1, -⟩ | ⟨c1, -, -⟩ | ⟨c1, -, -⟩
        · rw [c1] at hfalse ⊢
          rw [b2]
          rw [b1] at hfalse
          exact i3 hfalse
        · rw [c1] at hfalse
          cases hfalse
        · rw [c1] at hfalse
          cases hfalse

/-! ### The profile picker, action by action -/

theorem selectUp_some (io : Frame) (size : Nat) (g g1 : Game) (h : selectUp io size g = some g1) :
    (g1 = g ∧ io.IsKeyPressed KEY_UP = false) ∨
      (io.IsKeyPressed KEY_UP = true ∧ size ≠ 0 ∧
        g1 = { g with
          selected_profile_index :=
            toInt32 (((toSizeT (g.selected_profile_index - 1) + size) % 2 ^ 64) % size) }) := by
  unfold selectUp at h
  split_ifs at h with h1 h2
  · right
    exact ⟨h1, h2, (Option.some.inj h).symm⟩
  · left
    exact ⟨(Option.some.inj h).symm, by simpa using h1⟩

theorem selectDown_some (io : Frame) (size : Nat) (g g1 : Game)
    (h : selectDown io size g = some g1) :
    (g1 = g ∧ io.IsKeyPressed KEY_DOWN = false) ∨
      (io.IsKeyPressed KEY_DOWN = true ∧ size ≠ 0 ∧
        g1 = { g with
          selected_profile_index := toInt32 (toSizeT (g.selected_profile_index + 1) % size) }) := by
  unfold selectDown at h
  split_ifs at h with h1 h2
  · right
    exact ⟨h1, h2, (Option.some.inj h).symm⟩
  · left
    exact ⟨(Option.some.inj h).symm, by simpa using h1⟩

theorem selectEnter_some (io : Frame) (g g1 : Game) (h : selectEnter io g = some g1) :
    (g1 = g ∧ io.IsKeyPressed KEY_ENTER = false) ∨
      (io.IsKeyPressed KEY_ENTER = true ∧
        ∃ chosen_profile,
          g.available_profile_names[toSizeT g.selected_profile_index]? = some chosen_profile ∧
          g1 = { unlockAchievement io "portal_username" chosen_profile g with
            current_username := "PORTAL"
            last_active_username := "PORTAL"
            username_input_buffer := ""
            current_game_state := GameState.GAME_STATE_MAIN_MENU }) := by
  unfold selectEnter at h
  split_ifs at h with h1
  · right
    refine ⟨h1, ?_⟩
    split at h
    · cases h
    · rename_i c hc
      exact ⟨c, hc, (Option.some.inj h).symm⟩
  · left
    exact ⟨(Option.some.inj h).symm, by simpa using h1⟩

theorem selectProfileTick_some (io : Frame) (g s1 : Game) (h : selectProfileTick io g = some s1) :
    ∃ g1 g2 g3, selectUp io g.available_profile_names.length g = some g1 ∧
      selectDown io g1.available_profile_names.length g1 = some g2 ∧
      selectEnter io g2 = some g3 ∧ s1 = selectEscape io g3 := by
  unfold selectProfileTick at h
  cases h1 : selectUp io g.available_profile_names.length g with
  | none =>
    rw [h1] at h
    cases h
  | some g1 =>
    rw [h1, Option.some_bind] at h
    cases h2 : selectDown io g1.available_profile_names.length g1 with
    | none =>
      rw [h2] at h
      cases h
    | some g2 =>
      rw [h2, Option.some_bind] at h
      cases h3 : selectEnter io g2 with
      | none =>
        rw [h3] at h
        cases h
      | some g3 =>
        rw [h3, Option.some_bind] at h
        refine ⟨g1, g2, g3, ?_, ?_, ?_, (Option.some.inj h).symm⟩ <;> first | rfl | assumption

/-! ### Projectiles live within a match -/

theorem windowEvents_keeps (io : Frame) (resized : Bool) (W H : Int) (g : Game) :
    (windowEvents io resized W H g).projectiles = g.projectiles ∧
      (windowEvents io resized W H g).current_game_state = g.current_game_state ∧
      (windowEvents io resized W H g).available_profile_names = g.available_profile_names ∧
      (windowEvents io resized W H g).selected_profile_index = g.selected_profile_index ∧
      (windowEvents io resized W H g).UNLOCKED_ACHIEVEMENTS_BY_USER =
        g.UNLOCKED_ACHIEVEMENTS_BY_USER ∧
      (windowEvents io resized W H g).current_username = g.current_username ∧
      (windowEvents io resized W H g).username_input_buffer = g.username_input_buffer ∧
      (windowEvents io resized W H g).last_active_username = g.last_active_username := by
  unfold windowEvents
  split_ifs <;> exact ⟨rfl, rfl, rfl, rfl, rfl, rfl, rfl, rfl⟩

theorem programStart_menu (env : TextEnv) (file : Option String) (W H : Int) :
    (programStart env file W H).current_game_state = GameState.GAME_STATE_USERNAME_INPUT ∧
      (programStart env file W H).projectiles = [] := by
  have h1 : ∀ (j : List Char) (g : Game),
      (loadLastUsername j g).current_game_state = g.current_game_state ∧
      (loadLastUsername j g).projectiles = g.projectiles := by
    intro j g
    unfold loadLastUsername
    repeat' first | exact ⟨rfl, rfl⟩ | split | simp only []
  have h2 : ∀ (j : List Char) (g : Game),
      (loadHighScores env j g).current_game_state = g.current_game_state ∧
      (loadHighScores env j g).projectiles = g.projectiles := by
    intro j g
    unfold loadHighScores
    repeat' first | exact ⟨rfl, rfl⟩ | split | simp only []
  have h3 : ∀ (j : List Char) (g : Game),
      (loadUserData j g).current_game_state = g.current_game_state ∧
      (loadUserData j g).projectiles = g.projectiles := by
    intro j g
    unfold loadUserData
    repeat' first | exact ⟨rfl, rfl⟩ | split
  have h4 : ∀ (f : Option String) (g : Game),
      (loadGameData env f g).current_game_state = g.current_game_state ∧
      (loadGameData env f g).projectiles = g.projectiles := by
    intro f g
    unfold loadGameData
    split
    · exact ⟨rfl, rfl⟩
    · simp only []
      split
      · exact ⟨((h3 _ _).1.trans (h2 _ _).1).trans (h1 _ _).1,
          ((h3 _ _).2.trans (h2 _ _).2).trans (h1 _ _).2⟩
      · exact ⟨((h3 _ _).1.trans (h2 _ _).1).trans (h1 _ _).1,
          ((h3 _ _).2.trans (h2 _ _).2).trans (h1 _ _).2⟩
  unfold programStart
  simp only []
  exact ⟨(h4 _ _).1, (h4 _ _).2⟩

theorem toInt32_small (k : Nat) (h : k < 2 ^ 31) : toInt32 k = k := by
  unfold toInt32
  norm_num at h ⊢
  have e : (k : Int) % 4294967296 = k := by omega
  rw [e]
  omega

theorem toSizeT_small (k : Nat) (h : k < 2 ^ 64) : toSizeT (k : Int) = k := by
  unfold toSizeT
  norm_num at h ⊢
  omega

theorem toSizeT_minus_one : toSizeT (-1) = 2 ^ 64 - 1 := by
  decide

theorem selectUp_index (n : Nat) (i : Int) (h0 : 0 ≤ i) (hi : i < n) (hn : n < 2 ^ 31) :
    toInt32 (((toSizeT (i - 1) + n) % 2 ^ 64) % n) = if i = 0 then (n : Int) - 1 else i - 1 := by
  obtain ⟨k, rfl⟩ := Int.eq_ofNat_of_zero_le h0
  have hk : k < n := by omega
  by_cases hz : k = 0
  · subst hz
    have hz0 : ((0 : Nat) : Int) = 0 := rfl
    rw [if_pos hz0]
    have e1 : ((0 : Nat) : Int) - 1 = -1 := by norm_num
    rw [e1, toSizeT_minus_one]
    have e2 : (2 ^ 64 - 1 + n) % 2 ^ 64 = n - 1 := by
      norm_num at hn ⊢
      omega
    rw [e2, Nat.mod_eq_of_lt (by omega), toInt32_small _ (by omega)]
    omega
  · rw [if_neg (by omega)]
    have e1 : ((k : Nat) : Int) - 1 = ((k - 1 : Nat) : Int) := by omega
    have hk64 : k - 1 < 2 ^ 64 := by
      norm_num at hn ⊢
      omega
    rw [e1, toSizeT_small _ hk64]
    have e2 : (k - 1 + n) % 2 ^ 64 = k - 1 + n := by
      norm_num at hn ⊢
      omega
    rw [e2, Nat.add_mod_right, Nat.mod_eq_of_lt (by omega), toInt32_small _ (by omega)]

theorem selectDown_index (n : Nat) (i : Int) (h0 : 0 ≤ i) (hi : i < n) (hn : n < 2 ^ 31) :
    toInt32 (toSizeT (i + 1) % n) = if i = (n : Int) - 1 then 0 else i + 1 := by
  obtain ⟨k, rfl⟩ := Int.eq_ofNat_of_zero_le h0
  have hk : k < n := by omega
  have e1 : ((k : Nat) : Int) + 1 = ((k + 1 : Nat) : Int) := by omega
  have hk64 : k + 1 < 2 ^ 64 := by
    norm_num at hn ⊢
    omega
  rw [e1, toSizeT_small _ hk64]
  by_cases hz : k + 1 = n
  · rw [if_pos (by omega), hz, Nat.mod_self]
    rfl
  · rw [if_neg (by omega), Nat.mod_eq_of_lt (by omega), toInt32_small _ (by omega)]

theorem profileNames_ok (g : Game) (u : String) (hu : g.current_username = u) :
    u ∈ profileNames g ∧ List.Sorted (fun a b => a ≤ b) (profileNames g) := by
  subst hu
  unfold profileNames
  refine ⟨?_, List.sorted_insertionSort _ _⟩
  simp only []
  rw [(List.perm_insertionSort _ _).mem_iff]
  split_ifs with h
  · exact h
  · simp

theorem startIndex_range (names : List String) (last : String) (hne : names ≠ [])
    (hsz : names.length < 2 ^ 31) :
    0 ≤ (if last ∈ names then toInt32 (names.indexOf last) else 0) ∧
      (if last ∈ names then toInt32 (names.indexOf last) else 0) < (names.length : Int) := by
  have hlen : 0 < names.length := List.length_pos.mpr hne
  split_ifs with h
  · have hi : names.indexOf last < names.length := List.indexOf_lt_length.mpr h
    rw [toInt32_small _ (by omega)]
    omega
  · omega

theorem profileListOk_congr (g g1 : Game)
    (hn : g1.available_profile_names = g.available_profile_names)
    (hi : g1.selected_profile_index = g.selected_profile_index) (h : profileListOk g) :
    profileListOk g1 := by
  unfold profileListOk at h ⊢
  rw [hn, hi]
  exact h

theorem usernameInputTick_select (io : Frame) (g : Game)
    (h : (usernameInputTick io g).current_game_state =
      GameState.GAME_STATE_SELECT_ACHIEVEMENT_PROFILE)
    (hne : g.current_game_state ≠ GameState.GAME_STATE_SELECT_ACHIEVEMENT_PROFILE) :
    io.IsKeyPressed KEY_ENTER = true ∧ (usernameInputTick io g).current_username = "PORTAL" ∧
      ((usernameInputTick io g).available_profile_names.length < 2 ^ 31 →
        profileListOk (usernameInputTick io g)) := by
  obtain ⟨r, hr⟩ : ∃ r, r = usernameInputTick io g := ⟨_, rfl⟩
  rw [← hr] at h ⊢
  unfold usernameInputTick at hr
  simp only [] at hr
  by_cases hE : io.IsKeyPressed KEY_ENTER = true
  · rw [if_pos hE] at hr
    by_cases hP : (if typeUsername io g.username_input_buffer = "" then "Guest"
        else typeUsername io g.username_input_buffer) = "PORTAL"
    · rw [if_pos hP] at hr
      rw [hr]
      refine ⟨hE, hP, fun hsz => ?_⟩
      have hok := profileNames_ok { g with
        username_input_buffer := typeUsername io g.username_input_buffer
        current_username :=
          if typeUsername io g.username_input_buffer = "" then "Guest"
          else typeUsername io g.username_input_buffer } "PORTAL" hP
      have hmem := hok.1
      have hne1 := List.ne_nil_of_mem hmem
      have hidx := startIndex_range _ g.last_active_username hne1 hsz
      exact ⟨hne1, hok.2, hmem, hidx.1, hidx.2⟩
    · rw [if_neg hP] at hr
      rw [hr] at h
      exact GameState.noConfusion h
  · rw [if_neg hE] at hr
    rw [hr] at h
    exact absurd h hne

theorem otherTicks_select (m : MathEnv) (io : Frame) (dt : ℚ) (g : Game)
    (hne : g.current_game_state ≠ GameState.GAME_STATE_SELECT_ACHIEVEMENT_PROFILE) :
    (mainMenuTick io g).current_game_state ≠ GameState.GAME_STATE_SELECT_ACHIEVEMENT_PROFILE ∧
    (countdownTick io g).current_game_state ≠ GameState.GAME_STATE_SELECT_ACHIEVEMENT_PROFILE ∧
    (gameOverTick io g).current_game_state ≠ GameState.GAME_STATE_SELECT_ACHIEVEMENT_PROFILE ∧
    (achievementsTick io g).current_game_state ≠
      GameState.GAME_STATE_SELECT_ACHIEVEMENT_PROFILE ∧
    (playingTick m io dt g).current_game_state ≠
      GameState.GAME_STATE_SELECT_ACHIEVEMENT_PROFILE := by
  refine ⟨?_, ?_, ?_, ?_, ?_⟩
  · intro h
    unfold mainMenuTick at h
    simp only [] at h
    split_ifs at h
    exact hne h
  · intro h
    unfold countdownTick at h
    simp only [] at h
    split_ifs at h
    exact hne h
  · intro h
    unfold gameOverTick at h
    simp only [] at h
    split_ifs at h
    exact hne h
  · intro h
    unfold achievementsTick at h
    split_ifs at h
    exact hne h
  · intro h
    unfold playingTick at h
    by_cases hc : terminalCollision (beforeTerminalCheck m io dt g)
    · rw [checkTerminalCollision_state_of _ hc] at h
      exact GameState.noConfusion h
    · rw [checkTerminalCollision_of_not _ hc, beforeTerminalCheck_state] at h
      exact hne h

theorem selectUp_ok (io : Frame) (g : Game) (hok : profileListOk g)
    (hsz : g.available_profile_names.length < 2 ^ 31) :
    ∃ g1, selectUp io g.available_profile_names.length g = some g1 ∧ profileListOk g1 ∧
      g1.available_profile_names = g.available_profile_names ∧
      (io.IsKeyPressed KEY_UP = true →
        g1.selected_profile_index =
          if g.selected_profile_index = 0 then (g.available_profile_names.length : Int) - 1
          else g.selected_profile_index - 1) := by
  obtain ⟨h1, h2, h3, h4, h5⟩ := hok
  have hlen : g.available_profile_names.length ≠ 0 := by
    intro h
    exact h1 (List.length_eq_zero.mp h)
  unfold selectUp
  by_cases hU : io.IsKeyPressed KEY_UP = true
  · rw [if_pos hU, if_neg hlen]
    have e := selectUp_index _ _ h4 h5 hsz
    have r : 0 ≤ (if g.selected_profile_index = 0 then
          (g.available_profile_names.length : Int) - 1 else g.selected_profile_index - 1) ∧
        (if g.selected_profile_index = 0 then
          (g.available_profile_names.length : Int) - 1 else g.selected_profile_index - 1) <
          (g.available_profile_names.length : Int) := by
      split_ifs <;> constructor <;> omega
    refine ⟨_, rfl, ⟨h1, h2, h3, ?_, ?_⟩, rfl, fun _ => e⟩
    · show 0 ≤ toInt32 _
      rw [e]
      exact r.1
    · show toInt32 _ < (g.available_profile_names.length : Int)
      rw [e]
      exact r.2
  · rw [if_neg hU]
    exact ⟨g, rfl, ⟨h1, h2, h3, h4, h5⟩, rfl, fun h => absurd h hU⟩

theorem selectDown_ok (io : Frame) (g : Game) (hok : profileListOk g)
    (hsz : g.available_profile_names.length < 2 ^ 31) :
    ∃ g1, selectDown io g.available_profile_names.length g = some g1 ∧ profileListOk g1 ∧
      g1.available_profile_names = g.available_profile_names ∧
      (io.IsKeyPressed KEY_DOWN = true →
        g1.selected_profile_index =
          if g.selected_profile_index = (g.available_profile_names.length : Int) - 1 then 0
          else g.selected_profile_index + 1) := by
  obtain ⟨h1, h2, h3, h4, h5⟩ := hok
  have hlen : g.available_profile_names.length ≠ 0 := by
    intro h
    exact h1 (List.length_eq_zero.mp h)
  unfold selectDown
  by_cases hD : io.IsKeyPressed KEY_DOWN = true
  · rw [if_pos hD, if_neg hlen]
    have e := selectDown_index _ _ h4 h5 hsz
    have r : 0 ≤ (if g.selected_profile_index = (g.available_profile_names.length : Int) - 1
          then 0 else g.selected_profile_index + 1) ∧
        (if g.selected_profile_index = (g.available_profile_names.length : Int) - 1
          then 0 else g.selected_profile_index + 1) <
          (g.available_profile_names.length : Int) := by
      split_ifs <;> constructor <;> omega
    refine ⟨_, rfl, ⟨h1, h2, h3, ?_, ?_⟩, rfl, fun _ => e⟩
    · show 0 ≤ toInt32 _
      rw [e]
      exact r.1
    · show toInt32 _ < (g.available_profile_names.length : Int)
      rw [e]
      exact r.2
  · rw [if_neg hD]
    exact ⟨g, rfl, ⟨h1, h2, h3, h4, h5⟩, rfl, fun h => absurd h hD⟩

theorem selectEnter_ok (io : Frame) (g : Game) (hok : profileListOk g)
    (hsz : g.available_profile_names.length < 2 ^ 31) :
    ∃ g1, selectEnter io g = some g1 := by
  obtain ⟨-, -, -, h4, h5⟩ := hok
  obtain ⟨k, hk⟩ := Int.eq_ofNat_of_zero_le h4
  have hkl : k < g.available_profile_names.length := by omega
  have hk64 : k < 2 ^ 64 := by
    norm_num at hsz ⊢
    omega
  unfold selectEnter
  rw [hk, toSizeT_small _ hk64, List.getElem?_eq_getElem hkl]
  split_ifs
  · exact ⟨_, rfl⟩
  · exact ⟨_, rfl⟩

theorem selectProfileTick_ok (io : Frame) (g : Game) (hok : profileListOk g)
    (hsz : g.available_profile_names.length < 2 ^ 31) :
    ∃ g1, selectProfileTick io g = some g1 := by
  obtain ⟨g1, e1, ok1, n1, -⟩ := selectUp_ok io g hok hsz
  obtain ⟨g2, e2, ok2, n2, -⟩ := selectDown_ok io g1 ok1 (by rw [n1]; exact hsz)
  obtain ⟨g3, e3⟩ := selectEnter_ok io g2 ok2 (by rw [n2, n1]; exact hsz)
  unfold selectProfileTick
  rw [e1, Option.some_bind, e2, Option.some_bind, e3, Option.some_bind]
  exact ⟨_, rfl⟩

theorem selectProfileTick_stays (io : Frame) (g s1 : Game)
    (h : selectProfileTick io g = some s1)
    (hsel : s1.current_game_state = GameState.GAME_STATE_SELECT_ACHIEVEMENT_PROFILE) :
    s1.available_profile_names = g.available_profile_names ∧
      s1.current_username = g.current_username ∧
      (profileListOk g → g.available_profile_names.length < 2 ^ 31 → profileListOk s1) := by
  obtain ⟨g1, g2, g3, h1, h2, h3, h4⟩ := selectProfileTick_some io g s1 h
  have e4 : s1 = g3 := by
    rw [h4]
    unfold selectEscape
    split_ifs with hesc
    · rw [h4] at hsel
      unfold selectEscape at hsel
      rw [if_pos hesc] at hsel
      exact GameState.noConfusion hsel
    · rfl
  have e3 : g3 = g2 := by
    rcases selectEnter_some io g2 g3 h3 with ⟨e, -⟩ | ⟨-, c, -, e⟩
    · exact e
    · rw [e4, e] at hsel
      exact GameState.noConfusion hsel
  have n1 : g1.available_profile_names = g.available_profile_names ∧
      g1.current_username = g.current_username := by
    rcases selectUp_some io _ g g1 h1 with ⟨e, -⟩ | ⟨-, -, e⟩ <;> rw [e] <;> exact ⟨rfl, rfl⟩
  have n2 : g2.available_profile_names = g1.available_profile_names ∧
      g2.current_username = g1.current_username := by
    rcases selectDown_some io _ g1 g2 h2 with ⟨e, -⟩ | ⟨-, -, e⟩ <;> rw [e] <;> exact ⟨rfl, rfl⟩
  rw [e4, e3]
  refine ⟨n2.1.trans n1.1, n2.2.trans n1.2, fun hok hsz => ?_⟩
  obtain ⟨u1, eu1, ok1, m1, -⟩ := selectUp_ok io g hok hsz
  rw [h1] at eu1
  rw [← Option.some.inj eu1] at ok1
  obtain ⟨u2, eu2, ok2, -, -⟩ := selectDown_ok io g1 ok1 (by rw [n1.1]; exact hsz)
  rw [h2] at eu2
  rw [← Option.some.inj eu2] at ok2
  exact ok2

theorem updateGame_enters_select (m : MathEnv) (io : Frame) (dt : ℚ) (g g1 : Game)
    (h : updateGame m io dt g = some g1)
    (hsel : g1.current_game_state = GameState.GAME_STATE_SELECT_ACHIEVEMENT_PROFILE)
    (hne : g.current_game_state ≠ GameState.GAME_STATE_SELECT_ACHIEVEMENT_PROFILE) :
    g.current_game_state = GameState.GAME_STATE_USERNAME_INPUT ∧
      io.IsKeyPressed KEY_ENTER = true ∧ g1.current_username = "PORTAL" ∧
      (g1.available_profile_names.length < 2 ^ 31 → profileListOk g1) := by
  obtain ⟨o1, o2, o3, o4, o5⟩ := otherTicks_select m io dt g hne
  unfold updateGame at h
  split at h
  · rw [← Option.some.inj h] at hsel
    exact absurd hsel hne
  · rename_i hph
    rw [← Option.some.inj h] at hsel ⊢
    exact ⟨hph, usernameInputTick_select io g hsel hne⟩
  · rw [← Option.some.inj h] at hsel
    exact absurd hsel o1
  · rename_i hph
    exact absurd hph hne
  · rw [← Option.some.inj h] at hsel
    exact absurd hsel o2
  · rw [← Option.some.inj h] at hsel
    exact absurd hsel o5
  · rw [← Option.some.inj h] at hsel
    exact absurd hsel o3
  · rw [← Option.some.inj h] at hsel
    exact absurd hsel o4

theorem sessionReach_picker (m : MathEnv) (start s : Game)
    (hstart : start.current_game_state ≠ GameState.GAME_STATE_SELECT_ACHIEVEMENT_PROFILE)
    (h : SessionReach m start s)
    (hsel : s.current_game_state = GameState.GAME_STATE_SELECT_ACHIEVEMENT_PROFILE) :
    s.current_username = "PORTAL" ∧
      (s.available_profile_names.length < 2 ^ 31 → profileListOk s) := by
  induction h with
  | start => exact absurd hsel hstart
  | @pass s s1 io resized W H dt _ hstep ih =>
    obtain ⟨-, w2, w3, w4, -, w6, -⟩ := windowEvents_keeps io resized W H s
    by_cases hx : s.current_game_state = GameState.GAME_STATE_SELECT_ACHIEVEMENT_PROFILE
    · obtain ⟨iu, iok⟩ := ih hx
      have hstep1 := hstep
      unfold updateGame at hstep1
      rw [w2, hx] at hstep1
      obtain ⟨k1, k2, k3⟩ := selectProfileTick_stays io _ s1 hstep1 hsel
      refine ⟨(k2.trans w6).trans iu, fun hsz => ?_⟩
      rw [k1, w3] at hsz
      exact k3 (profileListOk_congr s _ w3 w4 (iok hsz)) (by rw [w3]; exact hsz)
    · obtain ⟨-, -, e3, e4⟩ := updateGame_enters_select m io dt _ s1 hstep hsel
        (by rw [w2]; exact hx)
      exact ⟨e3, e4⟩

/-- C30: in every state reached from program start in the phase
SelectAchievementProfile with fewer than `2 ^ 31` profile names, the list of
names is non-empty, sorted and holds `PORTAL`, the selected index is a position
of the list, the username is `PORTAL`, and the next pass of the game loop
returns (no division by zero, no index out of range).  On a well-formed picker
state UP and DOWN return a well-formed state with the same list, UP going from
index 0 to the last index and otherwise one down, DOWN going from the last
index to 0 and otherwise one up, and ENTER finds its index in range.  The
program does not start in that phase, and a tick enters it only from the
username screen, with ENTER pressed and the username `PORTAL`. -/
theorem C30_profile_picker_in_range (m : MathEnv) (env : TextEnv) (file : Option String)
    (W H : Int) :
    (∀ s, SessionReach m (programStart env file W H) s →
      s.current_game_state = GameState.GAME_STATE_SELECT_ACHIEVEMENT_PROFILE →
      s.available_profile_names.length < 2 ^ 31 →
      profileListOk s ∧ s.current_username = "PORTAL" ∧
      ∀ (io : Frame) (IsWindowResized : Bool) (W1 H1 : Int) (deltaTime : ℚ),
        ∃ s1, updateGame m io deltaTime (windowEvents io IsWindowResized W1 H1 s) = some s1) ∧
    (∀ (io : Frame) (g : Game), profileListOk g → g.available_profile_names.length < 2 ^ 31 →
      (∃ g1, selectUp io g.available_profile_names.length g = some g1 ∧ profileListOk g1 ∧
        g1.available_profile_names = g.available_profile_names ∧
        (io.IsKeyPressed KEY_UP = true →
          g1.selected_profile_index =
            if g.selected_profile_index = 0 then (g.available_profile_names.length : Int) - 1
            else g.selected_profile_index - 1)) ∧
      (∃ g1, selectDown io g.available_profile_names.length g = some g1 ∧ profileListOk g1 ∧
        g1.available_profile_names = g.available_profile_names ∧
        (io.IsKeyPressed KEY_DOWN = true →
          g1.selected_profile_index =
            if g.selected_profile_index = (g.available_profile_names.length : Int) - 1 then 0
            else g.selected_profile_index + 1)) ∧
      (∃ g1, selectEnter io g = some g1)) ∧
    ((programStart env file W H).current_game_state ≠
        GameState.GAME_STATE_SELECT_ACHIEVEMENT_PROFILE ∧
      ∀ (io : Frame) (deltaTime : ℚ) (g g1 : Game), updateGame m io deltaTime g = some g1 →
        g1.current_game_state = GameState.GAME_STATE_SELECT_ACHIEVEMENT_PROFILE →
        g.current_game_state ≠ GameState.GAME_STATE_SELECT_ACHIEVEMENT_PROFILE →
        g.current_game_state = GameState.GAME_STATE_USERNAME_INPUT ∧
          io.IsKeyPressed KEY_ENTER = true ∧ g1.current_username = "PORTAL") := by
  have hstart : (programStart env file W H).current_game_state ≠
      GameState.GAME_STATE_SELECT_ACHIEVEMENT_PROFILE := by
    rw [(programStart_menu env file W H).1]
    decide
  refine ⟨?_, ?_, hstart, ?_⟩
  · intro s hs hsel hsz
    obtain ⟨hu, hok⟩ := sessionReach_picker m _ s hstart hs hsel
    refine ⟨hok hsz, hu, ?_⟩
    intro io resized W1 H1 dt
    obtain ⟨-, w2, w3, w4, -⟩ := windowEvents_keeps io resized W1 H1 s
    unfold updateGame
    rw [w2, hsel]
    exact selectProfileTick_ok io _ (profileListOk_congr s _ w3 w4 (hok hsz))
      (by rw [w3]; exact hsz)
  · intro io g hok hsz
    exact ⟨selectUp_ok io g hok hsz, selectDown_ok io g hok hsz, selectEnter_ok io g hok hsz⟩
  · intro io dt g g1 h hsel hne
    obtain ⟨e1, e2, e3, -⟩ := updateGame_enters_select m io dt g g1 h hsel hne
    exact ⟨e1, e2, e3⟩

/-- C30 witness: a session that starts from the save file of the user
`PORTAL` and confirms the name on the first pass is in the profile picker with
the names `Alice` and `PORTAL`, index 1, and the next pass returns. -/
theorem C30_witness_portal_session :
    ∃ s, updateGame sampleMath (frameKeys 1 [KEY_ENTER] []) (1 / 60)
        (windowEvents (frameKeys 1 [KEY_ENTER] []) false 1366 694
          (programStart sampleText (some portalSave) 1366 694)) = some s ∧
      s.available_profile_names = ["Alice", "PORTAL"] ∧ s.selected_profile_index = 1 ∧
      profileListOk s ∧ s.current_username = "PORTAL" ∧
      ∃ s1, updateGame sampleMath (frameKeys 2 [KEY_UP] []) (1 / 60)
        (windowEvents (frameKeys 2 [KEY_UP] []) false 1366 694 s) = some s1 := by
  have hfields : (updateGame sampleMath (frameKeys 1 [KEY_ENTER] []) (1 / 60)
      (windowEvents (frameKeys 1 [KEY_ENTER] []) false 1366 694
        (programStart sampleText (some portalSave) 1366 694))).map
        (fun s => (s.current_game_state, s.available_profile_names, s.selected_profile_index)) =
      some (GameState.GAME_STATE_SELECT_ACHIEVEMENT_PROFILE, ["Alice", "PORTAL"], 1) := by
    decide!
  obtain ⟨s, hs, hp⟩ := Option.map_eq_some.mp hfields
  have hphase : s.current_game_state = GameState.GAME_STATE_SELECT_ACHIEVEMENT_PROFILE :=
    congrArg (fun t => t.1) hp
  have hnames : s.available_profile_names = ["Alice", "PORTAL"] := congrArg (fun t => t.2.1) hp
  have hindex : s.selected_profile_index = 1 := congrArg (fun t => t.2.2) hp
  obtain ⟨hok, hu, hnext⟩ :=
    (C30_profile_picker_in_range sampleMath sampleText (some portalSave) 1366 694).1 s
      (SessionReach.pass _ _ _ _ _ SessionReach.start hs) hphase (by rw [hnames]; decide)
  exact ⟨s, hs, hnames, hindex, hok, hu, hnext _ _ _ _ _⟩

/-! ### The distance of a dash -/

/-- C21, at the match `sampleMatch` (arena 1366 by 694, no portal mode, player
at x = 658) with the frames `dashFrames`: the Alt press at clock value 5 starts
a dash to the right with velocity 1000 px/s that ends at 5.15; at 60 ticks per
second the player moves 50/3 px in the activation tick and in each of the ten
ticks that follow, the dash flag is still set after the tick at 5.15 and is
cleared in the eleventh tick, and the displacement summed up to and including
that tick is 550/3 px along x (0 along y), not 150 px; the match is still in
the Playing phase and the player is far from the arena edge. -/
theorem C21_dash_overshoots :
    dashFrames.length = 11 ∧
    (dashFrames.map (fun frame => frame.2)).all (fun deltaTime => deltaTime = 1 / 60) = true ∧
    (List.range 12).map dashProgress =
      [(false, 0, 0), (true, 50 / 3, 0), (true, 100 / 3, 0), (true, 50, 0), (true, 200 / 3, 0),
        (true, 250 / 3, 0), (true, 100, 0), (true, 350 / 3, 0), (true, 400 / 3, 0),
        (true, 150, 0), (true, 500 / 3, 0), (false, 550 / 3, 0)] ∧
    (playingRun sampleMath (dashFrames.take 1) sampleMatch).player_dash_velocity_x =
      PLAYER_DASH_DISTANCE / PLAYER_DASH_DURATION ∧
    (playingRun sampleMath (dashFrames.take 1) sampleMatch).player_dash_end_time = 5 + 15 / 100 ∧
    (playingRun sampleMath dashFrames sampleMatch).current_game_state =
      GameState.GAME_STATE_PLAYING ∧
    (playingRun sampleMath dashFrames sampleMatch).is_portal_mode = false ∧
    (playingRun sampleMath dashFrames sampleMatch).player_x + player_size <
      (playingRun sampleMath dashFrames sampleMatch).SCREEN_WIDTH ∧
    (dashProgress 11).2.1 ≠ PLAYER_DASH_DISTANCE := by
  refine ⟨?_, ?_, ?_, ?_, ?_, ?_, ?_, ?_, ?_⟩ <;> decide!

/-! ### Portal-creating hits, counted over a match -/

theorem placePortal_turn (io : Frame) (pos : Vector2) (g : Game) :
    (placePortal io pos g).next_projectile_portal_is_1 = !g.next_projectile_portal_is_1 := by
  unfold placePortal
  split_ifs with c
  · simp [c]
  · simp [c]

theorem stepProjectile_createsPortal (m : MathEnv) (io : Frame) (g : Game) (p : Projectile)
    (h : createsPortal g p = true) :
    ∃ pos, portalHit g (moveProjectile p) = some pos ∧
      stepProjectile m io g p =
        (placePortal io pos g, { moveProjectile p with active := false }) := by
  unfold createsPortal at h
  simp only [Bool.and_eq_true] at h
  obtain ⟨ha, hm, hs, hp⟩ := h
  obtain ⟨pos, hpos⟩ := Option.isSome_iff_exists.mp hp
  refine ⟨pos, hpos, ?_⟩
  unfold stepProjectile
  rw [if_pos ha]
  simp only [hm, hs, and_self, if_true, hpos]

theorem stepProjectile_no_portal (m : MathEnv) (io : Frame) (g : Game) (p : Projectile)
    (h : createsPortal g p = false) :
    (stepProjectile m io g p).1.next_projectile_portal_is_1 =
      g.next_projectile_portal_is_1 := by
  unfold stepProjectile
  by_cases ha : p.active = true
  · rw [if_pos ha]
    simp only []
    by_cases hc : g.is_portal_mode = true ∧ (moveProjectile p).is_player_shot = true
    · rw [if_pos hc]
      cases hp : portalHit g (moveProjectile p) with
      | none => exact projectileEffects_turn m io g _
      | some pos =>
        exfalso
        unfold createsPortal at h
        rw [ha, hc.1, hc.2, hp] at h
        exact Bool.noConfusion h
    · rw [if_neg hc]
      exact projectileEffects_turn m io g _
  · rw [if_neg ha]

theorem turn_after_pass (k c : Nat) (b b1 : Bool)
    (h : (c = 1 ∧ b1 = !b) ∨ (c = 0 ∧ b1 = b)) :
    (if k % 2 = 0 then b1 else !b1) = (if (c + k) % 2 = 0 then b else !b) := by
  rcases h with ⟨rfl, rfl⟩ | ⟨rfl, rfl⟩
  · rcases Nat.mod_two_eq_zero_or_one k with h0 | h1
    · have e : ¬ (1 + k) % 2 = 0 := by omega
      rw [if_pos h0, if_neg e]
    · have e0 : ¬ k % 2 = 0 := by omega
      have e : (1 + k) % 2 = 0 := by omega
      rw [if_neg e0, if_pos e, Bool.not_not]
  · rw [Nat.zero_add]

theorem projectileLoop_turn (m : MathEnv) (io : Frame) (ps : List Projectile) :
    ∀ g : Game, (projectileLoop m io g ps).1.next_projectile_portal_is_1 =
      (if portalHitsIn m io g ps % 2 = 0 then g.next_projectile_portal_is_1
        else !g.next_projectile_portal_is_1) := by
  induction ps with
  | nil =>
    intro g
    simp [projectileLoop, portalHitsIn]
  | cons p ps ih =>
    intro g
    simp only [projectileLoop, portalHitsIn]
    rw [ih]
    apply turn_after_pass
    by_cases hc : createsPortal g p = true
    · obtain ⟨pos, -, he⟩ := stepProjectile_createsPortal m io g p hc
      left
      refine ⟨if_pos hc, ?_⟩
      rw [he]
      exact placePortal_turn io pos g
    · have hf : createsPortal g p = false := by simpa using hc
      right
      exact ⟨if_neg hc, stepProjectile_no_portal m io g p hf⟩

theorem turn_of_count (n k : Nat) :
    (if k % 2 = 0 then (if n % 2 = 0 then true else false)
      else !(if n % 2 = 0 then true else false)) =
      (if (n + k) % 2 = 0 then true else false) := by
  rcases Nat.mod_two_eq_zero_or_one n with a | a <;>
    rcases Nat.mod_two_eq_zero_or_one k with b | b
  · rw [if_pos a, if_pos b, if_pos (show (n + k) % 2 = 0 by omega)]
  · rw [if_pos a, if_neg (show ¬ k % 2 = 0 by omega), if_neg (show ¬ (n + k) % 2 = 0 by omega)]
    rfl
  · rw [if_neg (show ¬ n % 2 = 0 by omega), if_pos b, if_neg (show ¬ (n + k) % 2 = 0 by omega)]
  · rw [if_neg (show ¬ n % 2 = 0 by omega), if_neg (show ¬ k % 2 = 0 by omega),
      if_pos (show (n + k) % 2 = 0 by omega)]
    rfl

theorem portalHitsIn_append (m : MathEnv) (io : Frame) (pre rest : List Projectile) :
    ∀ g : Game, portalHitsIn m io g (pre ++ rest) =
      portalHitsIn m io g pre + portalHitsIn m io (stateAtTurn m io g pre) rest := by
  induction pre with
  | nil =>
    intro g
    simp [portalHitsIn, stateAtTurn, projectileLoop]
  | cons q qs ih =>
    intro g
    have e := ih (stepProjectile m io g q).1
    show portalHitsIn m io g (q :: (qs ++ rest)) = _
    simp only [portalHitsIn, e, stateAtTurn, projectileLoop]
    omega

theorem loopEntry_turn (m : MathEnv) (io : Frame) (dt : ℚ) (g : Game) :
    (loopEntry m io dt g).next_projectile_portal_is_1 = g.next_projectile_portal_is_1 := by
  have e1 : (updateElapsed io g).next_projectile_portal_is_1 =
      g.next_projectile_portal_is_1 := by
    unfold updateElapsed
    simp only []
    split_ifs <;> simp [unlockAchievement_turn]
  have e2 : ∀ t : Game, (dashActivation m io t).next_projectile_portal_is_1 =
      t.next_projectile_portal_is_1 := by
    intro t
    unfold dashActivation
    split_ifs <;> rfl
  have e3 : ∀ t : Game, (movePlayer m io dt t).next_projectile_portal_is_1 =
      t.next_projectile_portal_is_1 := by
    intro t
    unfold movePlayer
    simp only []
    split_ifs <;> rfl
  have e4 : ∀ t : Game, (portalLogic io t).next_projectile_portal_is_1 =
      t.next_projectile_portal_is_1 := by
    intro t
    have a1 : ∀ u : Game, (expirePortals io u).next_projectile_portal_is_1 =
        u.next_projectile_portal_is_1 := by
      intro u
      unfold expirePortals
      simp only []
      split_ifs <;> rfl
    have a2 : ∀ u : Game, (teleportPlayer io u).next_projectile_portal_is_1 =
        u.next_projectile_portal_is_1 := by
      intro u
      unfold teleportPlayer
      simp only []
      split_ifs <;> rfl
    have a3 : ∀ u : Game, (teleportObstacle io u).next_projectile_portal_is_1 =
        u.next_projectile_portal_is_1 := by
      intro u
      unfold teleportObstacle
      simp only []
      split_ifs <;> rfl
    unfold portalLogic
    split_ifs
    · rw [a3, a2, a1]
    · rfl
  have e5 : ∀ t : Game, (playerShoot m io t).next_projectile_portal_is_1 =
      t.next_projectile_portal_is_1 := by
    intro t
    unfold playerShoot
    simp only []
    split_ifs <;> rfl
  have e6 : ∀ t : Game, (obstacleShoot m io t).next_projectile_portal_is_1 =
      t.next_projectile_portal_is_1 := by
    intro t
    unfold obstacleShoot
    simp only []
    split_ifs <;> rfl
  unfold loopEntry beforePortals
  rw [e6, e5, e4]
  unfold wrapPlayer
  simp only []
  rw [e3, e2, e1]

theorem playingTick_turn (m : MathEnv) (io : Frame) (dt : ℚ) (g : Game) :
    (playingTick m io dt g).next_projectile_portal_is_1 =
      (if portalHitsOfTick m io dt g % 2 = 0 then g.next_projectile_portal_is_1
        else !g.next_projectile_portal_is_1) := by
  have e7 : ∀ t : Game, (updateAiTarget t).next_projectile_portal_is_1 =
      t.next_projectile_portal_is_1 := by
    intro t
    unfold updateAiTarget
    simp only []
    split_ifs <;> rfl
  have e8 : ∀ t : Game, (moveObstacle io t).next_projectile_portal_is_1 =
      t.next_projectile_portal_is_1 := by
    intro t
    unfold moveObstacle
    split_ifs <;> rfl
  have e9 : ∀ t : Game, (dodgeStreakBonus io t).next_projectile_portal_is_1 =
      t.next_projectile_portal_is_1 := by
    intro t
    unfold dodgeStreakBonus
    split_ifs <;> rfl
  have e10 : ∀ t : Game, (hideBonusMessage io t).next_projectile_portal_is_1 =
      t.next_projectile_portal_is_1 := by
    intro t
    unfold hideBonusMessage
    split_ifs <;> rfl
  have e11 : ∀ t : Game, (hideAchievementPopup io t).next_projectile_portal_is_1 =
      t.next_projectile_portal_is_1 := by
    intro t
    unfold hideAchievementPopup
    split_ifs <;> rfl
  have e12 : ∀ t : Game, (checkTerminalCollision t).next_projectile_portal_is_1 =
      t.next_projectile_portal_is_1 := by
    intro t
    unfold checkTerminalCollision
    simp only []
    split_ifs <;> rfl
  have hend : (playingTick m io dt g).next_projectile_portal_is_1 =
      (projectileLoop m io (loopEntry m io dt g)
        (loopEntry m io dt g).projectiles).1.next_projectile_portal_is_1 := by
    unfold playingTick beforeTerminalCheck beforeBonus
    rw [e12, e11, e10, e9]
    unfold wrapObstacle
    simp only []
    rw [e8, e7]
    unfold updateProjectiles
    rfl
  rw [hend, projectileLoop_turn, loopEntry_turn]
  rfl

theorem portalMatch_turn (m : MathEnv) (g0 : Game) (n : Nat) (s : Game)
    (h : PortalMatch m g0 n s) :
    s.next_projectile_portal_is_1 = (if n % 2 = 0 then true else false) := by
  induction h with
  | reset => rfl
  | @tick n s s1 io dt _ hphase hu ih =>
    rcases hphase with hc | hp
    · have hne : ¬ s.current_game_state = GameState.GAME_STATE_PLAYING := by
        rw [hc]
        decide
      have hs1 : s1 = countdownTick io s := by
        unfold updateGame at hu
        rw [hc] at hu
        exact (Option.some.inj hu).symm
      have hk : (countdownTick io s).next_projectile_portal_is_1 =
          s.next_projectile_portal_is_1 := by
        unfold countdownTick
        simp only []
        split_ifs <;> rfl
      rw [if_neg hne, Nat.add_zero, hs1, hk]
      exact ih
    · have hs1 : s1 = playingTick m io dt s := by
        unfold updateGame at hu
        rw [hp] at hu
        exact (Option.some.inj hu).symm
      rw [if_pos hp, hs1, playingTick_turn, ih]
      exact turn_of_count n _

theorem portalMatch_run (m : MathEnv) (g0 : Game) (frames : List (Frame × ℚ)) :
    ∀ (t : ℚ) (n : Nat) (s : Game) (k : Nat), PortalMatch m g0 n s →
      matchRunOk m t s frames = true → n + portalHitsOfRun m s frames = k →
      ∃ s1, runFrames m frames s = some s1 ∧ PortalMatch m g0 k s1 := by
  induction frames with
  | nil =>
    intro t n s k h _ hk
    rw [← hk]
    exact ⟨s, rfl, h⟩
  | cons f rest ih =>
    intro t n s k h hok hk
    simp only [matchRunOk, Bool.and_eq_true, Bool.or_eq_true, decide_eq_true_eq] at hok
    obtain ⟨⟨hphase, -⟩, hrest⟩ := hok
    cases hu : updateGame m f.1 f.2 s with
    | none =>
      rw [hu] at hrest
      cases hrest
    | some s1 =>
      rw [hu] at hrest
      simp only [portalHitsOfRun, hu] at hk
      obtain ⟨s2, h1, h2⟩ := ih _ _ s1 k (PortalMatch.tick f.1 f.2 h hphase hu) hrest
        (by rw [Nat.add_assoc]; exact hk)
      refine ⟨s2, ?_, h2⟩
      simp only [runFrames, hu, Option.some_bind]
      exact h1

/-- C10: let `s` be a Playing state of a match started by `resetGame` in which
the ticks so far have made `n` portal-creating hits, and let the loop of the
next tick reach, after the projectiles `pre`, a projectile `p` whose pass
creates a portal.  That pass is hit number `n + (hits among pre) + 1` of the
match.  Its contact point is the clamped centre of the projectile when it is
at an arena edge and the centre of the obstacle otherwise.  The hit fills slot
1 when its number is odd and slot 2 when it is even: the pass sets the slot
active, places it at the contact point with time limit `now + 10`, and leaves
the other slot's active flag, position and time limit as they were before the
pass.  The hits of the tick are those among `pre`, this one and those among
the projectiles after it, and the tick ends in a state of the match with all of
them counted. -/
theorem C10_portal_round_robin (m : MathEnv) (g0 : Game) (n : Nat) (s : Game)
    (hrun : PortalMatch m g0 n s)
    (hplay : s.current_game_state = GameState.GAME_STATE_PLAYING)
    (io : Frame) (deltaTime : ℚ) (pre post : List Projectile) (p : Projectile)
    (hlist : (loopEntry m io deltaTime s).projectiles = pre ++ p :: post)
    (hhit : createsPortal (stateAtTurn m io (loopEntry m io deltaTime s) pre) p = true) :
    ∃ pos, portalHit (stateAtTurn m io (loopEntry m io deltaTime s) pre) (moveProjectile p) =
        some pos ∧
      (atArenaEdge (stateAtTurn m io (loopEntry m io deltaTime s) pre) (moveProjectile p) →
        pos = ⟨max 0 (min (s.SCREEN_WIDTH : ℚ)
            ((moveProjectile p).rect.x + (moveProjectile p).rect.width / 2)),
          max 0 (min (s.SCREEN_HEIGHT : ℚ)
            ((moveProjectile p).rect.y + (moveProjectile p).rect.height / 2))⟩) ∧
      (¬ atArenaEdge (stateAtTurn m io (loopEntry m io deltaTime s) pre) (moveProjectile p) →
        CheckCollisionRecs (moveProjectile p).rect
          (obstacleRect (stateAtTurn m io (loopEntry m io deltaTime s) pre)) = true ∧
        pos = ⟨(stateAtTurn m io (loopEntry m io deltaTime s) pre).obstacle_x +
            obstacle_size / 2,
          (stateAtTurn m io (loopEntry m io deltaTime s) pre).obstacle_y + obstacle_size / 2⟩) ∧
      ((n + portalHitsIn m io (loopEntry m io deltaTime s) pre + 1) % 2 = 1 →
        (stepProjectile m io (stateAtTurn m io (loopEntry m io deltaTime s) pre) p).1.portal_1_active
          = true ∧
        (stepProjectile m io (stateAtTurn m io (loopEntry m io deltaTime s) pre) p).1.portal_1_pos
          = pos ∧
        (stepProjectile m io (stateAtTurn m io (loopEntry m io deltaTime s) pre)
          p).1.portal_active_until_time_1 = io.GetTime + 10 ∧
        (stepProjectile m io (stateAtTurn m io (loopEntry m io deltaTime s) pre) p).1.portal_2_active
          = (stateAtTurn m io (loopEntry m io deltaTime s) pre).portal_2_active ∧
        (stepProjectile m io (stateAtTurn m io (loopEntry m io deltaTime s) pre) p).1.portal_2_pos
          = (stateAtTurn m io (loopEntry m io deltaTime s) pre).portal_2_pos ∧
        (stepProjectile m io (stateAtTurn m io (loopEntry m io deltaTime s) pre)
          p).1.portal_active_until_time_2 =
          (stateAtTurn m io (loopEntry m io deltaTime s) pre).portal_active_until_time_2) ∧
      ((n + portalHitsIn m io (loopEntry m io deltaTime s) pre + 1) % 2 = 0 →
        (stepProjectile m io (stateAtTurn m io (loopEntry m io deltaTime s) pre) p).1.portal_2_active
          = true ∧
        (stepProjectile m io (stateAtTurn m io (loopEntry m io deltaTime s) pre) p).1.portal_2_pos
          = pos ∧
        (stepProjectile m io (stateAtTurn m io (loopEntry m io deltaTime s) pre)
          p).1.portal_active_until_time_2 = io.GetTime + 10 ∧
        (stepProjectile m io (stateAtTurn m io (loopEntry m io deltaTime s) pre) p).1.portal_1_active
          = (stateAtTurn m io (loopEntry m io deltaTime s) pre).portal_1_active ∧
        (stepProjectile m io (stateAtTurn m io (loopEntry m io deltaTime s) pre) p).1.portal_1_pos
          = (stateAtTurn m io (loopEntry m io deltaTime s) pre).portal_1_pos ∧
        (stepProjectile m io (stateAtTurn m io (loopEntry m io deltaTime s) pre)
          p).1.portal_active_until_time_1 =
          (stateAtTurn m io (loopEntry m io deltaTime s) pre).portal_active_until_time_1) ∧
      portalHitsOfTick m io deltaTime s =
        portalHitsIn m io (loopEntry m io deltaTime s) pre + 1 +
          portalHitsIn m io
            (stepProjectile m io (stateAtTurn m io (loopEntry m io deltaTime s) pre) p).1 post ∧
      PortalMatch m g0 (n + portalHitsOfTick m io deltaTime s) (playingTick m io deltaTime s) := by
  obtain ⟨pos, hpos, hstep⟩ := stepProjectile_createsPortal m io _ p hhit
  have hflag : (stateAtTurn m io (loopEntry m io deltaTime s) pre).next_projectile_portal_is_1 =
      (if (n + portalHitsIn m io (loopEntry m io deltaTime s) pre) % 2 = 0 then true
        else false) := by
    unfold stateAtTurn
    rw [projectileLoop_turn, loopEntry_turn, portalMatch_turn m g0 n s hrun]
    exact turn_of_count n _
  have hkeep : Untouched s (stateAtTurn m io (loopEntry m io deltaTime s) pre) := by
    unfold stateAtTurn loopEntry beforePortals
    exact (((((((updateElapsed_untouched io s).trans
      (dashActivation_untouched m io _)).trans
      (movePlayer_untouched m io deltaTime _)).trans
      (wrapPlayer_untouched _)).trans
      (portalLogic_untouched io _)).trans
      (playerShoot_untouched m io _)).trans
      (obstacleShoot_untouched m io _)).trans
      (projectileLoop_untouched m io pre _)
  refine ⟨pos, hpos, ?_, ?_, ?_, ?_, ?_, ?_⟩
  · intro hedge
    unfold atArenaEdge at hedge
    unfold portalHit at hpos
    simp only [] at hpos
    rw [if_pos hedge] at hpos
    rw [← Option.some.inj hpos, hkeep.SCREEN_WIDTH, hkeep.SCREEN_HEIGHT]
  · intro hedge
    unfold atArenaEdge at hedge
    unfold portalHit at hpos
    simp only [] at hpos
    rw [if_neg hedge] at hpos
    split_ifs at hpos with hob
    exact ⟨hob, (Option.some.inj hpos).symm⟩
  · intro hodd
    have hn : (n + portalHitsIn m io (loopEntry m io deltaTime s) pre) % 2 = 0 := by omega
    rw [if_pos hn] at hflag
    rw [hstep]
    unfold placePortal
    rw [if_pos hflag]
    refine ⟨rfl, rfl, ?_, rfl, rfl, rfl⟩
    simp [PORTAL_ACTIVE_DURATION]
  · intro heven
    have hn : ¬ (n + portalHitsIn m io (loopEntry m io deltaTime s) pre) % 2 = 0 := by omega
    rw [if_neg hn] at hflag
    rw [hstep]
    unfold placePortal
    rw [if_neg (by simp [hflag])]
    refine ⟨rfl, rfl, ?_, rfl, rfl, rfl⟩
    simp [PORTAL_ACTIVE_DURATION]
  · unfold portalHitsOfTick
    rw [hlist, portalHitsIn_append]
    simp only [portalHitsIn, hhit, if_true]
    omega
  · have h := PortalMatch.tick io deltaTime hrun (Or.inr hplay)
      (show updateGame m io deltaTime s = some (playingTick m io deltaTime s) by
        unfold updateGame
        rw [hplay])
    rw [if_pos hplay] at h
    exact h

set_option maxHeartbeats 4000000 in
set_option maxRecDepth 1000000 in
/-- C10 witness: a portal-mode match in the arena of 400 by 2000 in which the
player, moving up, fires at the Playing ticks 0, 30 and 60.  The first shot
reaches the right edge in tick 19 and places portal 1 at `(400, 1970)`, the
second in tick 49 places portal 2 at `(400, 1820)`.  Before tick 79 the match
has made two hits; in that tick the third shot is the only projectile of the
loop, its pass is hit number 3 and places portal 1 again, at `(400, 1670)`
with time limit `4 + 79/60 + 10`, leaving portal 2 where it was. -/
theorem C10_witness_three_hits :
    (runFrames sampleMath (threeShotFrames 20) (countdownStart tallPortalArena)).map
      (fun g => (g.portal_1_active, g.portal_1_pos, g.portal_2_active)) =
      some (true, ⟨400, 1970⟩, false) ∧
    (runFrames sampleMath (threeShotFrames 50) (countdownStart tallPortalArena)).map
      (fun g => (g.portal_1_pos, g.portal_2_active, g.portal_2_pos)) =
      some (⟨400, 1970⟩, true, ⟨400, 1820⟩) ∧
    (runFrames sampleMath (threeShotFrames 80) (countdownStart tallPortalArena)).map
      (fun g => (g.portal_1_pos, g.portal_2_pos, g.next_projectile_portal_is_1)) =
      some (⟨400, 1670⟩, ⟨400, 1820⟩, false) ∧
    ∃ s, runFrames sampleMath (threeShotFrames 79) (countdownStart tallPortalArena) = some s ∧
      PortalMatch sampleMath tallPortalArena 2 s ∧
      (loopEntry sampleMath (frameKeys (4 + 79 / 60) [] [KEY_UP]) (1 / 60) s).projectiles =
        [thirdShot] ∧
      (stepProjectile sampleMath (frameKeys (4 + 79 / 60) [] [KEY_UP])
        (loopEntry sampleMath (frameKeys (4 + 79 / 60) [] [KEY_UP]) (1 / 60) s)
        thirdShot).1.portal_1_pos = ⟨400, 1670⟩ ∧
      (stepProjectile sampleMath (frameKeys (4 + 79 / 60) [] [KEY_UP])
        (loopEntry sampleMath (frameKeys (4 + 79 / 60) [] [KEY_UP]) (1 / 60) s)
        thirdShot).1.portal_active_until_time_1 = 4 + 79 / 60 + 10 ∧
      (stepProjectile sampleMath (frameKeys (4 + 79 / 60) [] [KEY_UP])
        (loopEntry sampleMath (frameKeys (4 + 79 / 60) [] [KEY_UP]) (1 / 60) s)
        thirdShot).1.portal_2_pos = ⟨400, 1820⟩ ∧
      PortalMatch sampleMath tallPortalArena 3
        (playingTick sampleMath (frameKeys (4 + 79 / 60) [] [KEY_UP]) (1 / 60) s) := by
  refine ⟨by decide!, by decide!, by decide!, ?_⟩
  obtain ⟨s, hrun, hreach⟩ := portalMatch_run sampleMath tallPortalArena (threeShotFrames 79)
    1 0 (countdownStart tallPortalArena) 2 PortalMatch.reset (by decide!) (by decide!)
  have hv : (runFrames sampleMath (threeShotFrames 79) (countdownStart tallPortalArena)).map
      (fun g => (g.current_game_state,
        (loopEntry sampleMath (frameKeys (4 + 79 / 60) [] [KEY_UP]) (1 / 60) g).projectiles,
        createsPortal (loopEntry sampleMath (frameKeys (4 + 79 / 60) [] [KEY_UP]) (1 / 60) g)
          thirdShot,
        portalHit (loopEntry sampleMath (frameKeys (4 + 79 / 60) [] [KEY_UP]) (1 / 60) g)
          (moveProjectile thirdShot),
        (loopEntry sampleMath (frameKeys (4 + 79 / 60) [] [KEY_UP]) (1 / 60) g).portal_2_pos)) =
      some (GameState.GAME_STATE_PLAYING, [thirdShot], true, some ⟨400, 1670⟩, ⟨400, 1820⟩) := by
    decide!
  rw [hrun] at hv
  have hv1 := Option.some.inj hv
  have hplay : s.current_game_state = GameState.GAME_STATE_PLAYING := congrArg (fun t => t.1) hv1
  have hlist : (loopEntry sampleMath (frameKeys (4 + 79 / 60) [] [KEY_UP]) (1 / 60)
      s).projectiles = [thirdShot] := congrArg (fun t => t.2.1) hv1
  have hhit : createsPortal (loopEntry sampleMath (frameKeys (4 + 79 / 60) [] [KEY_UP])
      (1 / 60) s) thirdShot = true := congrArg (fun t => t.2.2.1) hv1
  have hval : portalHit (loopEntry sampleMath (frameKeys (4 + 79 / 60) [] [KEY_UP])
      (1 / 60) s) (moveProjectile thirdShot) = some ⟨400, 1670⟩ :=
    congrArg (fun t => t.2.2.2.1) hv1
  have hp2 : (loopEntry sampleMath (frameKeys (4 + 79 / 60) [] [KEY_UP]) (1 / 60)
      s).portal_2_pos = ⟨400, 1820⟩ := congrArg (fun t => t.2.2.2.2) hv1
  obtain ⟨pos, hpos, -, -, hodd, -, hcnt, hnext⟩ :=
    C10_portal_round_robin sampleMath tallPortalArena 2 s hreach hplay
      (frameKeys (4 + 79 / 60) [] [KEY_UP]) (1 / 60) [] [] thirdShot hlist hhit
  have hpos1 : pos = ⟨400, 1670⟩ := Option.some.inj (hpos.symm.trans hval)
  have h0 : portalHitsIn sampleMath (frameKeys (4 + 79 / 60) [] [KEY_UP])
      (loopEntry sampleMath (frameKeys (4 + 79 / 60) [] [KEY_UP]) (1 / 60) s) [] = 0 := by
    simp only [portalHitsIn]
  obtain ⟨-, o2, o3, -, o5, -⟩ := hodd (by rw [h0])
  simp only [portalHitsIn, stateAtTurn, projectileLoop] at hcnt
  rw [hcnt] at hnext
  exact ⟨s, hrun, hreach, hlist, o2.trans hpos1, o3, o5.trans hp2, hnext⟩

/-! ### Teleports with rounded stores -/

theorem teleportPlayerFloat_spec (fl : ℚ → ℚ) (io : Frame) (s : Game) :
    (teleportGate io s → playerTouches s s.portal_1_pos = true →
      (⟨(teleportPlayerFloat fl io s).player_x, (teleportPlayerFloat fl io s).player_y⟩ :
        Vector2) = teleportStore fl player_size s.portal_2_pos ∧
        (teleportPlayerFloat fl io s).last_teleport_time = io.GetTime) ∧
    (teleportGate io s → playerTouches s s.portal_1_pos = false →
      playerTouches s s.portal_2_pos = true →
      (⟨(teleportPlayerFloat fl io s).player_x, (teleportPlayerFloat fl io s).player_y⟩ :
        Vector2) = teleportStore fl player_size s.portal_1_pos ∧
        (teleportPlayerFloat fl io s).last_teleport_time = io.GetTime) ∧
    (¬ teleportGate io s → teleportPlayerFloat fl io s = s) ∧
    (teleportPlayerFloat fl io s).obstacle_x = s.obstacle_x ∧
    (teleportPlayerFloat fl io s).obstacle_y = s.obstacle_y ∧
    (teleportPlayerFloat fl io s).portal_1_pos = s.portal_1_pos ∧
    (teleportPlayerFloat fl io s).portal_2_pos = s.portal_2_pos ∧
    ((teleportPlayerFloat fl io s).last_teleport_time = s.last_teleport_time ∨
      (teleportPlayerFloat fl io s).last_teleport_time = io.GetTime) := by
  refine ⟨?_, ?_, ?_, ?_, ?_, ?_, ?_, ?_⟩
  · intro hg h1
    unfold playerTouches at h1
    unfold teleportGate at hg
    unfold teleportPlayerFloat teleportStore
    rw [if_pos hg]
    simp only []
    rw [if_pos h1]
    exact ⟨rfl, rfl⟩
  · intro hg h1 h2
    unfold playerTouches at h1 h2
    unfold teleportGate at hg
    unfold teleportPlayerFloat teleportStore
    rw [if_pos hg]
    simp only []
    rw [if_neg (by simp [h1]), if_pos h2]
    exact ⟨rfl, rfl⟩
  · intro hg
    unfold teleportGate at hg
    unfold teleportPlayerFloat
    rw [if_neg hg]
  all_goals
    unfold teleportPlayerFloat
    simp only []
    split_ifs <;> simp

theorem teleportObstacleFloat_spec (fl : ℚ → ℚ) (io : Frame) (s : Game) :
    (teleportGate io s → obstacleTouches s s.portal_1_pos = true →
      (⟨(teleportObstacleFloat fl io s).obstacle_x,
          (teleportObstacleFloat fl io s).obstacle_y⟩ : Vector2) =
        teleportStore fl obstacle_size s.portal_2_pos ∧
        (teleportObstacleFloat fl io s).last_teleport_time = io.GetTime) ∧
    (teleportGate io s → obstacleTouches s s.portal_1_pos = false →
      obstacleTouches s s.portal_2_pos = true →
      (⟨(teleportObstacleFloat fl io s).obstacle_x,
          (teleportObstacleFloat fl io s).obstacle_y⟩ : Vector2) =
        teleportStore fl obstacle_size s.portal_1_pos ∧
        (teleportObstacleFloat fl io s).last_teleport_time = io.GetTime) ∧
    (¬ teleportGate io s → teleportObstacleFloat fl io s = s) ∧
    (teleportObstacleFloat fl io s).player_x = s.player_x ∧
    (teleportObstacleFloat fl io s).player_y = s.player_y ∧
    ((teleportObstacleFloat fl io s).last_teleport_time = s.last_teleport_time ∨
      (teleportObstacleFloat fl io s).last_teleport_time = io.GetTime) := by
  refine ⟨?_, ?_, ?_, ?_, ?_, ?_⟩
  · intro hg h1
    unfold obstacleTouches at h1
    unfold teleportGate at hg
    unfold teleportObstacleFloat teleportStore
    rw [if_pos hg]
    simp only []
    rw [if_pos h1]
    exact ⟨rfl, rfl⟩
  · intro hg h1 h2
    unfold obstacleTouches at h1 h2
    unfold teleportGate at hg
    unfold teleportObstacleFloat teleportStore
    rw [if_pos hg]
    simp only []
    rw [if_neg (by simp [h1]), if_pos h2]
    exact ⟨rfl, rfl⟩
  · intro hg
    unfold teleportGate at hg
    unfold teleportObstacleFloat
    rw [if_neg hg]
  all_goals
    unfold teleportObstacleFloat
    simp only []
    split_ifs <;> simp

theorem portalLogicFloat_closed (fl : ℚ → ℚ) (io : Frame) (t : Game)
    (h : t.portal_1_active = false ∨ t.portal_2_active = false ∨
      ¬ io.GetTime - t.last_teleport_time ≥ 1 / 2) :
    (portalLogicFloat fl io t).player_x = t.player_x ∧
      (portalLogicFloat fl io t).player_y = t.player_y ∧
      (portalLogicFloat fl io t).obstacle_x = t.obstacle_x ∧
      (portalLogicFloat fl io t).obstacle_y = t.obstacle_y := by
  unfold portalLogicFloat
  split_ifs with hm
  · obtain ⟨e1, e2, e3, e4, e5, -, -, a1, a2⟩ := expirePortals_spec io t
    have hng : ¬ teleportGate io (expirePortals io t) := by
      rintro ⟨g1, g2, g3⟩
      rw [e5] at g3
      rcases h with h | h | h
      · rw [a1 g1] at h
        cases h
      · rw [a2 g2] at h
        cases h
      · exact h (by simpa [TELEPORT_COOLDOWN] using g3)
    rw [(teleportPlayerFloat_spec fl io _).2.2.1 hng,
      (teleportObstacleFloat_spec fl io _).2.2.1 hng]
    exact ⟨e1, e2, e3, e4⟩
  · exact ⟨rfl, rfl, rfl, rfl⟩

theorem teleportStore_exact (fl : ℚ → ℚ) (size : ℚ) (pos c : Vector2)
    (hc : c = teleportStore fl size pos)
    (hx : fl (pos.x - size / 2) = pos.x - size / 2)
    (hy : fl (pos.y - size / 2) = pos.y - size / 2) :
    (⟨c.x + size / 2, c.y + size / 2⟩ : Vector2) = pos := by
  rw [hc]
  unfold teleportStore
  simp only [hx, hy, sub_add_cancel]

/-- C11 (amended): the portal block of a portal-mode Playing tick, entered in
state `t`, with the rounding `fl` of the stores into the `float` position
globals made explicit.  A combatant's position changes only if both portals are
active and `now - last_teleport_time ≥ 0.5`.  With the gate open, a player whose
circle collides with portal 1 is stored at portal 2's position minus half its
size on each axis, rounded, and a player whose circle collides with portal 2
and not with portal 1 is stored like this at portal 1; `last_teleport_time`
becomes `now`; the centre recomputed from the stored position is the portal's
position whenever the two subtractions are exact.  The same holds for the
obstacle under the gate as it stands after the player's turn.  If either portal
is inactive or the cooldown has not elapsed, the portal block changes neither
combatant's position.  Without rounding the block is `portalLogic`. -/
theorem C11_teleport_amended (fl : ℚ → ℚ) (io : Frame) (t : Game)
    (hmode : t.is_portal_mode = true) :
    (((portalLogicFloat fl io t).player_x ≠ t.player_x ∨
        (portalLogicFloat fl io t).player_y ≠ t.player_y ∨
        (portalLogicFloat fl io t).obstacle_x ≠ t.obstacle_x ∨
        (portalLogicFloat fl io t).obstacle_y ≠ t.obstacle_y) →
      t.portal_1_active = true ∧ t.portal_2_active = true ∧
        io.GetTime - t.last_teleport_time ≥ 1 / 2) ∧
    (teleportGate io (expirePortals io t) → playerTouches t t.portal_1_pos = true →
      (⟨(portalLogicFloat fl io t).player_x, (portalLogicFloat fl io t).player_y⟩ : Vector2) =
        teleportStore fl player_size t.portal_2_pos ∧
      (portalLogicFloat fl io t).last_teleport_time = io.GetTime ∧
      (fl (t.portal_2_pos.x - player_size / 2) = t.portal_2_pos.x - player_size / 2 →
        fl (t.portal_2_pos.y - player_size / 2) = t.portal_2_pos.y - player_size / 2 →
        (⟨(portalLogicFloat fl io t).player_x + player_size / 2,
          (portalLogicFloat fl io t).player_y + player_size / 2⟩ : Vector2) =
          t.portal_2_pos)) ∧
    (teleportGate io (expirePortals io t) → playerTouches t t.portal_1_pos = false →
      playerTouches t t.portal_2_pos = true →
      (⟨(portalLogicFloat fl io t).player_x, (portalLogicFloat fl io t).player_y⟩ : Vector2) =
        teleportStore fl player_size t.portal_1_pos ∧
      (portalLogicFloat fl io t).last_teleport_time = io.GetTime ∧
      (fl (t.portal_1_pos.x - player_size / 2) = t.portal_1_pos.x - player_size / 2 →
        fl (t.portal_1_pos.y - player_size / 2) = t.portal_1_pos.y - player_size / 2 →
        (⟨(portalLogicFloat fl io t).player_x + player_size / 2,
          (portalLogicFloat fl io t).player_y + player_size / 2⟩ : Vector2) =
          t.portal_1_pos)) ∧
    (teleportGate io (teleportPlayerFloat fl io (expirePortals io t)) →
      obstacleTouches t t.portal_1_pos = true →
      (⟨(portalLogicFloat fl io t).obstacle_x, (portalLogicFloat fl io t).obstacle_y⟩ :
        Vector2) = teleportStore fl obstacle_size t.portal_2_pos ∧
      (portalLogicFloat fl io t).last_teleport_time = io.GetTime ∧
      (fl (t.portal_2_pos.x - obstacle_size / 2) = t.portal_2_pos.x - obstacle_size / 2 →
        fl (t.portal_2_pos.y - obstacle_size / 2) = t.portal_2_pos.y - obstacle_size / 2 →
        (⟨(portalLogicFloat fl io t).obstacle_x + obstacle_size / 2,
          (portalLogicFloat fl io t).obstacle_y + obstacle_size / 2⟩ : Vector2) =
          t.portal_2_pos)) ∧
    (teleportGate io (teleportPlayerFloat fl io (expirePortals io t)) →
      obstacleTouches t t.portal_1_pos = false → obstacleTouches t t.portal_2_pos = true →
      (⟨(portalLogicFloat fl io t).obstacle_x, (portalLogicFloat fl io t).obstacle_y⟩ :
        Vector2) = teleportStore fl obstacle_size t.portal_1_pos ∧
      (portalLogicFloat fl io t).last_teleport_time = io.GetTime ∧
      (fl (t.portal_1_pos.x - obstacle_size / 2) = t.portal_1_pos.x - obstacle_size / 2 →
        fl (t.portal_1_pos.y - obstacle_size / 2) = t.portal_1_pos.y - obstacle_size / 2 →
        (⟨(portalLogicFloat fl io t).obstacle_x + obstacle_size / 2,
          (portalLogicFloat fl io t).obstacle_y + obstacle_size / 2⟩ : Vector2) =
          t.portal_1_pos)) ∧
    ((t.portal_1_active = false ∨ t.portal_2_active = false ∨
        ¬ io.GetTime - t.last_teleport_time ≥ 1 / 2) →
      (portalLogicFloat fl io t).player_x = t.player_x ∧
        (portalLogicFloat fl io t).player_y = t.player_y ∧
        (portalLogicFloat fl io t).obstacle_x = t.obstacle_x ∧
        (portalLogicFloat fl io t).obstacle_y = t.obstacle_y) ∧
    portalLogicFloat (fun v => v) io t = portalLogic io t := by
  have hval : portalLogicFloat fl io t =
      teleportObstacleFloat fl io (teleportPlayerFloat fl io (expirePortals io t)) := by
    unfold portalLogicFloat
    rw [if_pos hmode]
  obtain ⟨e1, e2, e3, e4, e5, e6, e7, a1, a2⟩ := expirePortals_spec io t
  obtain ⟨hp1, hp2, -, po1, po2, pp1, pp2, pl⟩ :=
    teleportPlayerFloat_spec fl io (expirePortals io t)
  obtain ⟨ho1, ho2, -, op1, op2, ol⟩ :=
    teleportObstacleFloat_spec fl io (teleportPlayerFloat fl io (expirePortals io t))
  have ht1 := touches_after_expire io t t.portal_1_pos
  have ht2 := touches_after_expire io t t.portal_2_pos
  have hto : ∀ pos, obstacleTouches (teleportPlayerFloat fl io (expirePortals io t)) pos =
      obstacleTouches t pos := by
    intro pos
    unfold obstacleTouches
    rw [po1, po2, e3, e4]
  rw [e6] at hp1 hp2
  rw [e7] at hp1 hp2
  rw [ht1.1] at hp1 hp2
  rw [ht2.1] at hp2
  rw [pp1, e6] at ho1 ho2
  rw [pp2, e7] at ho1 ho2
  rw [hto] at ho1 ho2
  rw [hto] at ho2
  refine ⟨?_, ?_, ?_, ?_, ?_, portalLogicFloat_closed fl io t, ?_⟩
  · intro hmoved
    by_contra hng
    have hcl : t.portal_1_active = false ∨ t.portal_2_active = false ∨
        ¬ io.GetTime - t.last_teleport_time ≥ 1 / 2 := by
      by_cases c1 : t.portal_1_active = true
      · by_cases c2 : t.portal_2_active = true
        · right
          right
          intro c3
          exact hng ⟨c1, c2, c3⟩
        · right
          left
          simpa using c2
      · left
        simpa using c1
    obtain ⟨q1, q2, q3, q4⟩ := portalLogicFloat_closed fl io t hcl
    rcases hmoved with h | h | h | h
    · exact h q1
    · exact h q2
    · exact h q3
    · exact h q4
  · intro hg h1
    obtain ⟨c, l⟩ := hp1 hg h1
    rw [hval, op1, op2]
    refine ⟨c, ?_, fun hx hy => teleportStore_exact fl _ _ _ c hx hy⟩
    rcases ol with h | h
    · rw [h, l]
    · exact h
  · intro hg h1 h2
    obtain ⟨c, l⟩ := hp2 hg h1 h2
    rw [hval, op1, op2]
    refine ⟨c, ?_, fun hx hy => teleportStore_exact fl _ _ _ c hx hy⟩
    rcases ol with h | h
    · rw [h, l]
    · exact h
  · intro hg h1
    rw [hval]
    obtain ⟨c, l⟩ := ho1 hg h1
    exact ⟨c, l, fun hx hy => teleportStore_exact fl _ _ _ c hx hy⟩
  · intro hg h1 h2
    rw [hval]
    obtain ⟨c, l⟩ := ho2 hg h1 h2
    exact ⟨c, l, fun hx hy => teleportStore_exact fl _ _ _ c hx hy⟩
  · unfold portalLogicFloat portalLogic teleportObstacleFloat teleportObstacle
      teleportPlayerFloat teleportPlayer
    rfl

/-- C11 (amended), at concrete inputs, with `fl` the rounding to binary32.
With both portals active and the last teleport at `8`, a player standing on
portal 1 is moved at `now = 8.5` to `(75, 75)`, so that its centre is portal
2's position `(100, 100)`, and `last_teleport_time` becomes `8.5`; at
`now = 8.4` nothing moves.  With portal 2 at `(100, 3 + 2 ^ (-22))` the stored
`y` is `-22`, the rounded value of `-22 + 2 ^ (-22)`, and the centre `(100, 3)`
is not the portal's position. -/
theorem C11_witness_teleport :
    lastEventsAt8.is_portal_mode = true ∧
      teleportGate (frameAt (17 / 2)) (expirePortals (frameAt (17 / 2)) lastEventsAt8) ∧
      playerTouches lastEventsAt8 lastEventsAt8.portal_1_pos = true ∧
      (portalLogicFloat float32 (frameAt (17 / 2)) lastEventsAt8).player_x = 75 ∧
      (portalLogicFloat float32 (frameAt (17 / 2)) lastEventsAt8).player_y = 75 ∧
      (⟨(portalLogicFloat float32 (frameAt (17 / 2)) lastEventsAt8).player_x + player_size / 2,
        (portalLogicFloat float32 (frameAt (17 / 2)) lastEventsAt8).player_y + player_size / 2⟩ :
        Vector2) = lastEventsAt8.portal_2_pos ∧
      (portalLogicFloat float32 (frameAt (17 / 2)) lastEventsAt8).last_teleport_time = 17 / 2 ∧
      (portalLogicFloat float32 (frameAt (42 / 5)) lastEventsAt8).player_x =
        lastEventsAt8.player_x ∧
      float32 (3 + 1 / 2 ^ 22) = 3 + 1 / 2 ^ 22 ∧
      (portalLogicFloat float32 (frameAt (17 / 2)) portalNearTop).player_x = 75 ∧
      (portalLogicFloat float32 (frameAt (17 / 2)) portalNearTop).player_y = -22 ∧
      (portalLogicFloat float32 (frameAt (17 / 2)) portalNearTop).player_y + player_size / 2 ≠
        portalNearTop.portal_2_pos.y := by
  have hg : teleportGate (frameAt (17 / 2)) (expirePortals (frameAt (17 / 2)) lastEventsAt8) := by
    unfold teleportGate
    decide!
  have ht : playerTouches lastEventsAt8 lastEventsAt8.portal_1_pos = true := by decide!
  have hg2 : teleportGate (frameAt (17 / 2))
      (expirePortals (frameAt (17 / 2)) portalNearTop) := by
    unfold teleportGate
    decide!
  have ht2 : playerTouches portalNearTop portalNearTop.portal_1_pos = true := by decide!
  have h := C11_teleport_amended float32 (frameAt (17 / 2)) lastEventsAt8 rfl
  have h2 := C11_teleport_amended float32 (frameAt (42 / 5)) lastEventsAt8 rfl
  have h3 := C11_teleport_amended float32 (frameAt (17 / 2)) portalNearTop rfl
  obtain ⟨hc, hl, hexact⟩ := h.2.1 hg ht
  obtain ⟨hc3, -, -⟩ := h3.2.1 hg2 ht2
  have s1 : teleportStore float32 player_size lastEventsAt8.portal_2_pos = ⟨75, 75⟩ := by
    decide!
  have s3 : teleportStore float32 player_size portalNearTop.portal_2_pos = ⟨75, -22⟩ := by
    decide!
  rw [s1] at hc
  rw [s3] at hc3
  have hx := congrArg Vector2.x hc
  have hy := congrArg Vector2.y hc
  have hx3 := congrArg Vector2.x hc3
  have hy3 := congrArg Vector2.y hc3
  refine ⟨rfl, hg, ht, hx, hy, hexact (by decide!) (by decide!), hl, ?_, by decide!, hx3, hy3, ?_⟩
  · exact (h2.2.2.2.2.2.1 (Or.inr (Or.inr (by decide!)))).1
  · show (portalLogicFloat float32 (frameAt (17 / 2)) portalNearTop).player_y + player_size / 2 ≠
      portalNearTop.portal_2_pos.y
    rw [show (portalLogicFloat float32 (frameAt (17 / 2)) portalNearTop).player_y = -22 from hy3]
    decide!

/-! ### The bullet-ballet unlock in the tick's ledger -/

theorem updateElapsed_stages (io : Frame) (g : Game) :
    updateElapsed io g = longHaulCheck io (bulletBalletCheck io (recomputeElapsed io g)) := by
  unfold updateElapsed longHaulCheck bulletBalletCheck recomputeElapsed
  rfl

theorem unlockAchievement_other_id (io : Frame) (a b u : String) (g : Game) (hne : b ≠ a)
    (user : String) :
    b ∈ unlockedFor (unlockAchievement io a u g) user ↔ b ∈ unlockedFor g user := by
  cases hc : mapFind g.ALL_ACHIEVEMENTS a with
  | none => rw [unlockAchievement_unknown io a u g hc]
  | some v =>
    by_cases hin : a ∈ unlockedFor g u
    · rw [unlockAchievement_unlocked io a u g hin]
    · obtain ⟨h1, h2, -⟩ := unlockAchievement_new io a u g (by rw [hc]; rfl) hin
      by_cases hu : user = u
      · rw [hu, h1, List.mem_append, List.mem_singleton]
        constructor
        · rintro (h | h)
          · exact h
          · exact absurd h hne
        · intro h
          exact Or.inl h
      · unfold unlockedFor
        rw [h2 user hu]

theorem unlockAchievement_ballet (io : Frame) (a u : String) (g : Game)
    (hne : "bullet_ballet_master" ≠ a) :
    balletUnlocked (unlockAchievement io a u g) = balletUnlocked g := by
  funext user
  unfold balletUnlocked
  rw [decide_eq_decide]
  exact unlockAchievement_other_id io a _ u g hne user

theorem unlockAchievement_holds (io : Frame) (a u : String) (g : Game)
    (hcat : (mapFind g.ALL_ACHIEVEMENTS a).isSome = true) :
    a ∈ unlockedFor (unlockAchievement io a u g) u := by
  by_cases hin : a ∈ unlockedFor g u
  · rw [unlockAchievement_unlocked io a u g hin]
    exact hin
  · rw [(unlockAchievement_new io a u g hcat hin).1]
    simp

theorem playingTick_ballet (m : MathEnv) (io : Frame) (dt : ℚ) (g : Game) :
    balletUnlocked (playingTick m io dt g) =
      balletUnlocked (bulletBalletCheck io (recomputeElapsed io g)) := by
  have e0 : ∀ t : Game, balletUnlocked (longHaulCheck io t) = balletUnlocked t := by
    intro t
    unfold longHaulCheck
    split_ifs
    · exact unlockAchievement_ballet io _ _ _ (by decide)
    · rfl
  have e2 : ∀ t : Game, balletUnlocked (dashActivation m io t) = balletUnlocked t := by
    intro t
    unfold dashActivation
    split_ifs <;> rfl
  have e3 : ∀ t : Game, balletUnlocked (movePlayer m io dt t) = balletUnlocked t := by
    intro t
    unfold movePlayer
    simp only []
    split_ifs <;> rfl
  have e4 : ∀ t : Game, balletUnlocked (portalLogic io t) = balletUnlocked t := by
    refine portalLogic_keeps io balletUnlocked ?_ ?_ ?_
    · intro t
      unfold expirePortals
      simp only []
      split_ifs <;> rfl
    · intro t
      unfold teleportPlayer
      simp only []
      split_ifs <;> rfl
    · intro t
      unfold teleportObstacle
      simp only []
      split_ifs <;> rfl
  have e5 : ∀ t : Game, balletUnlocked (playerShoot m io t) = balletUnlocked t := by
    intro t
    unfold playerShoot
    simp only []
    split_ifs <;> rfl
  have e6 : ∀ t : Game, balletUnlocked (obstacleShoot m io t) = balletUnlocked t := by
    intro t
    unfold obstacleShoot
    simp only []
    split_ifs <;> rfl
  have e7 : ∀ t : Game, balletUnlocked (updateProjectiles m io t) = balletUnlocked t := by
    intro t
    unfold updateProjectiles
    refine projectileLoop_keeps m io balletUnlocked ?_ t.projectiles t
    refine stepProjectile_keeps m io balletUnlocked ?_ ?_ ?_ ?_ ?_
    · intro pos s
      unfold placePortal
      split_ifs <;> rfl
    · intro s
      unfold hitObstacle
      simp only []
      split_ifs
      · exact unlockAchievement_ballet io _ _ _ (by decide)
      · rfl
      · rfl
      · rfl
    · intro s
      unfold hitPlayer
      simp only []
      split_ifs <;> rfl
    · intro s
      unfold dashThrough
      simp only []
      split_ifs
      · exact unlockAchievement_ballet io _ _ _ (by decide)
      · rfl
      · rfl
    · intro s
      unfold nearMiss
      simp only []
      split_ifs
      · exact unlockAchievement_ballet io _ _ _ (by decide)
      · rfl
      · rfl
  have e8 : ∀ t : Game, balletUnlocked (updateAiTarget t) = balletUnlocked t := by
    intro t
    unfold updateAiTarget
    simp only []
    split_ifs <;> rfl
  have e9 : ∀ t : Game, balletUnlocked (moveObstacle io t) = balletUnlocked t := by
    intro t
    unfold moveObstacle
    split_ifs <;> rfl
  have e10 : ∀ t : Game, balletUnlocked (dodgeStreakBonus io t) = balletUnlocked t := by
    intro t
    unfold dodgeStreakBonus
    split_ifs <;> rfl
  have e11 : ∀ t : Game, balletUnlocked (hideBonusMessage io t) = balletUnlocked t := by
    intro t
    unfold hideBonusMessage
    split_ifs <;> rfl
  have e12 : ∀ t : Game, balletUnlocked (hideAchievementPopup io t) = balletUnlocked t := by
    intro t
    unfold hideAchievementPopup
    split_ifs <;> rfl
  have e13 : ∀ t : Game, balletUnlocked (checkTerminalCollision t) = balletUnlocked t := by
    intro t
    unfold checkTerminalCollision
    simp only []
    split_ifs <;> rfl
  unfold playingTick beforeTerminalCheck beforeBonus
  rw [e13, e12, e11, e10]
  show balletUnlocked (moveObstacle io _) = _
  rw [e9, e8, e7, e6, e5, e4]
  show balletUnlocked (movePlayer m io dt _) = _
  rw [e3, e2, updateElapsed_stages, e0]

/-- C25: let `s` be a state in the Playing phase reached from the start of a
match whose clock starts at `t0 ≥ 0` and never decreases, `n` being the number
of projectiles the player has spawned since the match began, and take a
Playing tick from `s` at clock value `now`.  Lines 849-859 of the tick are the
recomputation of the elapsed time followed by the two time-based checks.  When
`now - start_time_s ≥ 30` and `n = 0` the first check is the call of
`unlockAchievement` for `bullet_ballet_master` and the current user, and at the
end of the tick that user's ledger holds the id (the id being in the catalog);
otherwise the check does nothing, and at the end of the tick the id is in a
user's ledger exactly when it was there before.  `has_shot_this_game` is true at
the start of the tick exactly when `n ≥ 1`, and the same holds after the tick
for the count that includes the tick's own shot. -/
theorem C25_bullet_ballet_attempt (m : MathEnv) (g0 : Game) (t0 t : ℚ) (n : Nat) (s : Game)
    (h0 : 0 ≤ t0) (h : MatchReach m g0 t0 t n s)
    (hp : s.current_game_state = GameState.GAME_STATE_PLAYING) (io : Frame) (deltaTime : ℚ)
    (hclock : t ≤ io.GetTime) :
    updateElapsed io s = longHaulCheck io (bulletBalletCheck io (recomputeElapsed io s)) ∧
    (io.GetTime - s.start_time_s ≥ 30 ∧ n = 0 →
      bulletBalletCheck io (recomputeElapsed io s) =
        unlockAchievement io "bullet_ballet_master" s.current_username
          (recomputeElapsed io s)) ∧
    (¬ (io.GetTime - s.start_time_s ≥ 30 ∧ n = 0) →
      bulletBalletCheck io (recomputeElapsed io s) = recomputeElapsed io s) ∧
    (s.has_shot_this_game = true ↔ 1 ≤ n) ∧
    ∃ s1, updateGame m io deltaTime s = some s1 ∧
      (s1.has_shot_this_game = true ↔ 1 ≤ n + playerShotsSpawned m io deltaTime s) ∧
      (io.GetTime - s.start_time_s ≥ 30 ∧ n = 0 →
        (mapFind s.ALL_ACHIEVEMENTS "bullet_ballet_master").isSome = true →
        "bullet_ballet_master" ∈ unlockedFor s1 s.current_username) ∧
      (¬ (io.GetTime - s.start_time_s ≥ 30 ∧ n = 0) →
        ∀ user, "bullet_ballet_master" ∈ unlockedFor s1 user ↔
          "bullet_ballet_master" ∈ unlockedFor s user) := by
  obtain ⟨-, i2, -, -⟩ := matchReach_shots m g0 t0 t n s h0 h
  have hu : updateGame m io deltaTime s = some (playingTick m io deltaTime s) := by
    unfold updateGame
    rw [hp]
  have hnext := MatchReach.tick io deltaTime h (Or.inr hp) hclock hu
  rw [if_pos hp] at hnext
  obtain ⟨-, j2, -, -⟩ := matchReach_shots m g0 t0 _ _ _ h0 hnext
  have hcond : (recomputeElapsed io s).has_shot_this_game = false ∧
      (recomputeElapsed io s).elapsed_time_s ≥ 30 ↔
      io.GetTime - s.start_time_s ≥ 30 ∧ n = 0 := by
    show s.has_shot_this_game = false ∧ io.GetTime - s.start_time_s ≥ 30 ↔ _
    constructor
    · rintro ⟨a1, a2⟩
      refine ⟨a2, ?_⟩
      by_contra hn
      have hpos : 0 < n := Nat.pos_of_ne_zero hn
      rw [i2.mpr hpos] at a1
      cases a1
    · rintro ⟨a1, a2⟩
      refine ⟨?_, a1⟩
      cases hs : s.has_shot_this_game with
      | false => rfl
      | true =>
        have := i2.mp hs
        omega
  have hcall : io.GetTime - s.start_time_s ≥ 30 ∧ n = 0 →
      bulletBalletCheck io (recomputeElapsed io s) =
        unlockAchievement io "bullet_ballet_master" s.current_username
          (recomputeElapsed io s) := by
    intro hc
    unfold bulletBalletCheck
    rw [if_pos (hcond.mpr hc)]
    rfl
  have hskip : ¬ (io.GetTime - s.start_time_s ≥ 30 ∧ n = 0) →
      bulletBalletCheck io (recomputeElapsed io s) = recomputeElapsed io s := by
    intro hc
    unfold bulletBalletCheck
    rw [if_neg (fun hx => hc (hcond.mp hx))]
  have hled : ∀ user, "bullet_ballet_master" ∈ unlockedFor (playingTick m io deltaTime s) user ↔
      "bullet_ballet_master" ∈
        unlockedFor (bulletBalletCheck io (recomputeElapsed io s)) user := by
    intro user
    have e := congrFun (playingTick_ballet m io deltaTime s) user
    unfold balletUnlocked at e
    exact decide_eq_decide.mp e
  refine ⟨updateElapsed_stages io s, hcall, hskip, i2, playingTick m io deltaTime s, hu, j2,
    ?_, ?_⟩
  · intro hc hcat
    rw [hled, hcall hc]
    exact unlockAchievement_holds io _ _ _ hcat
  · intro hc user
    rw [hled, hskip hc]
    rfl

set_option maxRecDepth 1000000 in
/-- C25, at a concrete match in the arena of 400 by 300 whose countdown runs
from clock value `1`.  Right after the countdown the player has not fired and
the ledger of the current user `Guest` is empty; the tick at `40` calls the
unlock, and after it the ledger of `Guest` holds `bullet_ballet_master`.  Once
the player has fired in the tick at `4` the flag is set, and after a tick at
`40` the ledger of `Guest` does not hold the id. -/
theorem C25_witness_bullet_ballet :
    (∃ s s1, runFrames sampleMath (steadyFrames 1 180) (countdownStart smallArena) = some s ∧
      s.has_shot_this_game = false ∧ s.current_username = "Guest" ∧
      unlockedFor s "Guest" = [] ∧
      updateGame sampleMath (frameAt 40) (1 / 60) s = some s1 ∧
      "bullet_ballet_master" ∈ unlockedFor s1 "Guest") ∧
    (∃ s s1, runFrames sampleMath (shotFrames 0) (countdownStart smallArena) = some s ∧
      s.has_shot_this_game = true ∧ s.projectiles.length = 2 ∧
      updateGame sampleMath (frameAt 40) (1 / 60) s = some s1 ∧
      "bullet_ballet_master" ∉ unlockedFor s1 "Guest") := by
  constructor
  · obtain ⟨n1, s, hrun, hreach⟩ := matchReach_run sampleMath smallArena 1
      (steadyFrames 1 180) 1 0 (countdownStart smallArena) MatchReach.reset (by decide!)
    have hv : (runFrames sampleMath (steadyFrames 1 180) (countdownStart smallArena)).map
        (fun g => (g.current_game_state, g.has_shot_this_game,
          decide ((frameAt 40).GetTime - g.start_time_s ≥ 30))) =
        some (GameState.GAME_STATE_PLAYING, false, true) := by decide!
    have hw : (runFrames sampleMath (steadyFrames 1 180) (countdownStart smallArena)).map
        (fun g => (g.current_username, unlockedFor g "Guest",
          (mapFind g.ALL_ACHIEVEMENTS "bullet_ballet_master").isSome)) =
        some ("Guest", [], true) := by decide!
    rw [hrun] at hv hw
    simp only [Option.map_some', Option.some.injEq, Prod.mk.injEq, decide_eq_true_eq] at hv hw
    obtain ⟨v1, v2, v3⟩ := hv
    obtain ⟨w1, w2, w3⟩ := hw
    obtain ⟨-, -, -, c2, s1, hs1, -, c5, -⟩ :=
      C25_bullet_ballet_attempt sampleMath smallArena 1 _ n1 s (by norm_num)
        hreach v1 (frameAt 40) (1 / 60) (by decide!)
    have hn : n1 = 0 := by
      by_contra hne
      have : s.has_shot_this_game = true := c2.mpr (Nat.one_le_iff_ne_zero.mpr hne)
      rw [v2] at this
      cases this
    have hmem := c5 ⟨v3, hn⟩ w3
    rw [w1] at hmem
    exact ⟨s, s1, hrun, v2, w1, w2, hs1, hmem⟩
  · obtain ⟨n1, s, hrun, hreach⟩ := matchReach_run sampleMath smallArena 1
      (shotFrames 0) 1 0 (countdownStart smallArena) MatchReach.reset (by decide!)
    have hv : (runFrames sampleMath (shotFrames 0) (countdownStart smallArena)).map
        (fun g => (g.current_game_state, g.has_shot_this_game, g.projectiles.length,
          unlockedFor g "Guest")) =
        some (GameState.GAME_STATE_PLAYING, true, 2, []) := by decide!
    rw [hrun] at hv
    simp only [Option.map_some', Option.some.injEq, Prod.mk.injEq] at hv
    obtain ⟨v1, v2, v3, v4⟩ := hv
    obtain ⟨-, -, -, c2, s1, hs1, -, -, c6⟩ :=
      C25_bullet_ballet_attempt sampleMath smallArena 1 _ n1 s (by norm_num)
        hreach v1 (frameAt 40) (1 / 60) (by decide!)
    have h2 := c2.mp v2
    have hnot : ¬ ((frameAt 40).GetTime - s.start_time_s ≥ 30 ∧ n1 = 0) := by
      rintro ⟨-, hz⟩
      omega
    refine ⟨s, s1, hrun, v2, v3, hs1, ?_⟩
    rw [c6 hnot "Guest", v4]
    simp

end Dodger
